import Mathlib

/-!
# Utility-command coordinator (`src/backend/tcop/utility.c`)

A shallow embedding of the utility-command dispatcher and of the helpers it is
built from, followed by theorems about them.

Conventions of the embedding.

* `ereport(ERROR, ...)` and `elog(ERROR, ...)` do not return: a routine that can
  reach one runs in the monad `M`, whose result is `Result.error`.
* `Assert(c)` is read as in an assert-enabled build: a failed assertion stops
  the call with `ErrorData.TRAP`.
* Everything the file calls but does not define is external.  A look-up
  (catalog, cache, configuration) is a field of `Env` giving the answer as a
  function of the history, the list of events so far.  A routine that acts on
  the system is logged as an `Event.call` and its answer, or the error it
  raises, is again a field of `Env`.
* NOTICE and WARNING reports, and writes to the caller's completion-tag
  buffer, are events as well.
-/

namespace Utility

/-! ## Constants and enumerations declared in headers -/

/-- Object identifier. -/
abbrev Oid := Nat

/-- The invalid object identifier. -/
def InvalidOid : Oid := 0

/-- Test `OidIsValid`. -/
def OidIsValid (o : Oid) : Bool := o != InvalidOid

/-- Size of a completion-tag buffer, terminator included (tcop/dest.h). -/
def COMPLETION_TAG_BUFSIZE : Nat := 64

/-- Content of a parse node that utility.c hands on without reading it. -/
structure Payload where
  id : Nat
  deriving DecidableEq, Repr

/-- SQLSTATE classes named in utility.c. -/
inductive SqlErrCode where
  | ERRCODE_UNDEFINED_TABLE
  | ERRCODE_UNDEFINED_OBJECT
  | ERRCODE_WRONG_OBJECT_TYPE
  | ERRCODE_INSUFFICIENT_PRIVILEGE
  | ERRCODE_READ_ONLY_SQL_TRANSACTION
  | ERRCODE_GP_COMMAND_ERROR
  deriving DecidableEq, Repr

/-- Execution role of the backend (`Gp_role`). -/
inductive GpRoleValue where
  | GP_ROLE_UNDEFINED
  | GP_ROLE_UTILITY
  | GP_ROLE_DISPATCH
  | GP_ROLE_EXECUTE
  deriving DecidableEq, Repr

/-- Modelled from the spec: the target-kind letters of `pg_class.relkind`
(macros `RELKIND_*` of a header that is not part of the source tree).  Only
their being distinct and different from NUL matters below. -/
def RELKIND_RELATION : Char := 'r'

/-- Modelled from the spec: target-kind letter of a sequence. -/
def RELKIND_SEQUENCE : Char := 'S'

/-- Modelled from the spec: target-kind letter of a view. -/
def RELKIND_VIEW : Char := 'v'

/-- Modelled from the spec: target-kind letter of an index. -/
def RELKIND_INDEX : Char := 'i'

/-- Modelled from the spec: target-kind letter of a composite type. -/
def RELKIND_COMPOSITE_TYPE : Char := 'c'

/-- Modelled from the spec: storage-class letters of `pg_class.relstorage`
(macros `RELSTORAGE_*` of a header that is not part of the source tree). -/
def RELSTORAGE_HEAP : Char := 'h'

/-- Modelled from the spec: storage class of a row-oriented append-only table. -/
def RELSTORAGE_AOROWS : Char := 'a'

/-- Modelled from the spec: storage class of a column-oriented append-only table. -/
def RELSTORAGE_AOCOLS : Char := 'c'

/-- Modelled from the spec: storage class of a view or composite type. -/
def RELSTORAGE_VIRTUAL : Char := 'v'

/-- Modelled from the spec: storage class of an external table. -/
def RELSTORAGE_EXTERNAL : Char := 'x'

/-- Modelled from the spec: storage class of a foreign table. -/
def RELSTORAGE_FOREIGN : Char := 'f'

/-- The NUL character, which ends `msgstringarray`. -/
def NUL : Char := Char.ofNat 0

/-- Object kinds (`ObjectType`); `OBJECT_other` stands for every member of the
enumeration that utility.c never names. -/
inductive ObjectType where
  | OBJECT_AGGREGATE | OBJECT_COLUMN | OBJECT_CONVERSION | OBJECT_DATABASE
  | OBJECT_DOMAIN | OBJECT_EXTENSION | OBJECT_EXTPROTOCOL | OBJECT_EXTTABLE
  | OBJECT_FILESPACE | OBJECT_FUNCTION | OBJECT_INDEX | OBJECT_LANGUAGE
  | OBJECT_OPCLASS | OBJECT_OPERATOR | OBJECT_OPFAMILY | OBJECT_ROLE
  | OBJECT_RULE | OBJECT_SCHEMA | OBJECT_SEQUENCE | OBJECT_TABLE
  | OBJECT_TABLESPACE | OBJECT_TRIGGER | OBJECT_TSCONFIGURATION
  | OBJECT_TSDICTIONARY | OBJECT_TSPARSER | OBJECT_TSTEMPLATE | OBJECT_TYPE
  | OBJECT_VIEW
  | OBJECT_other (n : Nat)
  deriving DecidableEq, Repr

/-- Command type of a planned or rewritten query; `CMD_other` stands for the
members that utility.c never names. -/
inductive CmdType where
  | CMD_SELECT | CMD_UPDATE | CMD_INSERT | CMD_DELETE | CMD_UTILITY
  | CMD_other (n : Nat)
  deriving DecidableEq, Repr

/-- Sub-kind of a transaction-control statement. -/
inductive TransactionStmtKind where
  | TRANS_STMT_BEGIN | TRANS_STMT_START | TRANS_STMT_COMMIT
  | TRANS_STMT_ROLLBACK | TRANS_STMT_SAVEPOINT | TRANS_STMT_RELEASE
  | TRANS_STMT_ROLLBACK_TO | TRANS_STMT_PREPARE | TRANS_STMT_COMMIT_PREPARED
  | TRANS_STMT_ROLLBACK_PREPARED
  | TRANS_STMT_other (n : Nat)
  deriving DecidableEq, Repr

/-- Sub-kind of a SET / RESET statement. -/
inductive VariableSetKind where
  | VAR_SET_VALUE | VAR_SET_DEFAULT | VAR_SET_CURRENT | VAR_SET_MULTI
  | VAR_RESET | VAR_RESET_ALL
  | VAR_other (n : Nat)
  deriving DecidableEq, Repr

/-- Target of a DISCARD statement. -/
inductive DiscardMode where
  | DISCARD_ALL | DISCARD_PLANS | DISCARD_TEMP
  | DISCARD_other (n : Nat)
  deriving DecidableEq, Repr

/-- RESTRICT or CASCADE. -/
inductive DropBehavior where
  | DROP_RESTRICT | DROP_CASCADE
  deriving DecidableEq, Repr

/-- Minimum `log_statement` level of a command. -/
inductive LogStmtLevel where
  | LOGSTMT_NONE | LOGSTMT_DDL | LOGSTMT_MOD | LOGSTMT_ALL
  deriving DecidableEq, Repr

/-- A set of flags of a distributed dispatch, one boolean facet for each of
the bits `DF_*`. -/
structure DispatchFlags where
  cancelOnError : Bool
  needsTwoPhaseCommit : Bool
  propagateSnapshot : Bool
  deriving DecidableEq, Repr

/-- The bit `DF_CANCEL_ON_ERROR`. -/
def DF_CANCEL_ON_ERROR : DispatchFlags := ⟨true, false, false⟩

/-- The bit `DF_NEED_TWO_PHASE`. -/
def DF_NEED_TWO_PHASE : DispatchFlags := ⟨false, true, false⟩

/-- The bit `DF_WITH_SNAPSHOT`. -/
def DF_WITH_SNAPSHOT : DispatchFlags := ⟨false, false, true⟩

instance : OrOp DispatchFlags where
  or a b :=
    ⟨a.cancelOnError || b.cancelOnError,
      a.needsTwoPhaseCommit || b.needsTwoPhaseCommit,
      a.propagateSnapshot || b.propagateSnapshot⟩

/-- Where results are sent. -/
inductive DestReceiver where
  | None_Receiver
  | receiver (id : Nat)
  deriving DecidableEq, Repr

/-- A possibly qualified relation name. -/
structure RangeVar where
  catalogname : Option String
  schemaname : Option String
  relname : String
  istemp : Bool
  deriving DecidableEq, Repr

/-- A `name = value` option of a statement; the value is not read here. -/
structure DefElem where
  defname : String
  arg : Payload
  deriving DecidableEq, Repr

/-- A row-locking mark of a SELECT ... FOR UPDATE / SHARE. -/
structure RowMarkClause where
  forUpdate : Bool
  deriving DecidableEq, Repr

/-- The columns of a `pg_class` row that utility.c reads; `rest` is the
remainder of the row, seen only by `IsSystemClass`. -/
structure Form_pg_class where
  relkind : Char
  relstorage : Char
  relnamespace : Oid
  rest : Payload
  deriving DecidableEq, Repr

/-! ## Parse nodes -/

/-- Node tags (`nodeTag`) of the nodes utility.c distinguishes; `T_other`
stands for every other tag, whatever its number. -/
inductive NodeTag where
  | T_InsertStmt | T_DeleteStmt | T_UpdateStmt | T_SelectStmt
  | T_TransactionStmt | T_DeclareCursorStmt | T_ClosePortalStmt | T_FetchStmt
  | T_CreateDomainStmt | T_CreateSchemaStmt | T_CreateStmt
  | T_CreateExternalStmt | T_CreateFileSpaceStmt | T_CreateTableSpaceStmt
  | T_DropStmt | T_TruncateStmt | T_CommentStmt | T_CopyStmt | T_RenameStmt
  | T_AlterObjectSchemaStmt | T_AlterOwnerStmt | T_AlterTableStmt
  | T_AlterDomainStmt | T_AlterFunctionStmt | T_GrantStmt | T_GrantRoleStmt
  | T_DefineStmt | T_CompositeTypeStmt | T_CreateEnumStmt | T_ViewStmt
  | T_CreateFunctionStmt | T_IndexStmt | T_CreateExtensionStmt
  | T_AlterExtensionStmt | T_AlterExtensionContentsStmt | T_RuleStmt
  | T_CreateSeqStmt | T_AlterSeqStmt | T_RemoveFuncStmt | T_DoStmt
  | T_CreatedbStmt | T_AlterDatabaseStmt | T_AlterDatabaseSetStmt
  | T_DropdbStmt | T_NotifyStmt | T_ListenStmt | T_UnlistenStmt | T_LoadStmt
  | T_ClusterStmt | T_VacuumStmt | T_ExplainStmt | T_VariableSetStmt
  | T_VariableShowStmt | T_DiscardStmt | T_CreateTrigStmt
  | T_DropPropertyStmt | T_CreatePLangStmt | T_DropPLangStmt
  | T_CreateQueueStmt | T_AlterQueueStmt | T_DropQueueStmt | T_CreateRoleStmt
  | T_AlterRoleStmt | T_AlterRoleSetStmt | T_DropRoleStmt | T_DropOwnedStmt
  | T_ReassignOwnedStmt | T_LockStmt | T_ConstraintsSetStmt
  | T_CheckPointStmt | T_ReindexStmt | T_CreateConversionStmt
  | T_CreateCastStmt | T_DropCastStmt | T_CreateOpClassStmt
  | T_CreateOpFamilyStmt | T_AlterOpFamilyStmt | T_RemoveOpClassStmt
  | T_RemoveOpFamilyStmt | T_AlterTSDictionaryStmt
  | T_AlterTSConfigurationStmt | T_PrepareStmt | T_ExecuteStmt
  | T_DeallocateStmt | T_PlannedStmt | T_Query | T_AlterTypeStmt
  | T_other
  deriving DecidableEq, Repr

/-- Raw SELECT. -/
structure SelectStmt where
  intoClause : Option Payload
  rest : Payload
  deriving DecidableEq, Repr

/-- BEGIN, COMMIT, SAVEPOINT and the other transaction-control commands. -/
structure TransactionStmt where
  kind : TransactionStmtKind
  options : List DefElem
  gid : String
  deriving DecidableEq, Repr

/-- CLOSE; a missing portal name means CLOSE ALL. -/
structure ClosePortalStmt where
  portalname : Option String
  deriving DecidableEq, Repr

/-- FETCH or MOVE. -/
structure FetchStmt where
  ismove : Bool
  portalname : String
  rest : Payload
  deriving DecidableEq, Repr

/-- CREATE TABLE. -/
structure CreateStmt where
  relation : RangeVar
  is_add_part : Bool
  relKind : Char
  relStorage : Char
  is_part_child : Bool
  buildAoBlkdir : Bool
  deferredStmts : Payload
  rest : Payload
  deriving DecidableEq, Repr

/-- DROP of the object kinds that share one statement node. -/
structure DropStmt where
  objects : List (List String)
  removeType : ObjectType
  behavior : DropBehavior
  missing_ok : Bool
  deriving DecidableEq, Repr

/-- COPY. -/
structure CopyStmt where
  is_from : Bool
  rest : Payload
  deriving DecidableEq, Repr

/-- EXECUTE of a prepared statement. -/
structure ExecuteStmt where
  name : String
  into : Option Payload
  rest : Payload
  deriving DecidableEq, Repr

/-- DEALLOCATE; a missing name means DEALLOCATE ALL. -/
structure DeallocateStmt where
  name : Option String
  deriving DecidableEq, Repr

/-- ALTER ... RENAME. -/
structure RenameStmt where
  renameType : ObjectType
  rest : Payload
  deriving DecidableEq, Repr

/-- ALTER ... SET SCHEMA. -/
structure AlterObjectSchemaStmt where
  objectType : ObjectType
  rest : Payload
  deriving DecidableEq, Repr

/-- ALTER ... OWNER TO. -/
structure AlterOwnerStmt where
  objectType : ObjectType
  rest : Payload
  deriving DecidableEq, Repr

/-- ALTER TABLE (also ALTER INDEX and ALTER EXTERNAL TABLE). -/
structure AlterTableStmt where
  relkind : ObjectType
  rest : Payload
  deriving DecidableEq, Repr

/-- ALTER DOMAIN. -/
structure AlterDomainStmt where
  subtype : Char
  typname : List String
  name : Option String
  «def» : Payload
  behavior : DropBehavior
  deriving DecidableEq, Repr

/-- GRANT or REVOKE of privileges. -/
structure GrantStmt where
  is_grant : Bool
  rest : Payload
  deriving DecidableEq, Repr

/-- GRANT or REVOKE of role membership. -/
structure GrantRoleStmt where
  is_grant : Bool
  rest : Payload
  deriving DecidableEq, Repr

/-- CREATE AGGREGATE / OPERATOR / TYPE / PROTOCOL / TEXT SEARCH object. -/
structure DefineStmt where
  kind : ObjectType
  oldstyle : Bool
  defnames : List String
  args : List Payload
  definition : Payload
  ordered : Bool
  trusted : Bool
  deriving DecidableEq, Repr

/-- CREATE TYPE of a composite type. -/
structure CompositeTypeStmt where
  typevar : RangeVar
  coldeflist : Payload
  deriving DecidableEq, Repr

/-- CREATE INDEX. -/
structure IndexStmt where
  relation : RangeVar
  concurrent : Bool
  rest : Payload
  deriving DecidableEq, Repr

/-- DROP FUNCTION / AGGREGATE / OPERATOR. -/
structure RemoveFuncStmt where
  kind : ObjectType
  rest : Payload
  deriving DecidableEq, Repr

/-- DROP DATABASE. -/
structure DropdbStmt where
  dbname : String
  missing_ok : Bool
  deriving DecidableEq, Repr

/-- NOTIFY, LISTEN and UNLISTEN carry one relation name. -/
structure NotifyStmt where
  relation : RangeVar
  deriving DecidableEq, Repr

/-- LOAD of a library file. -/
structure LoadStmt where
  filename : String
  deriving DecidableEq, Repr

/-- VACUUM or ANALYZE. -/
structure VacuumStmt where
  vacuum : Bool
  rest : Payload
  deriving DecidableEq, Repr

/-- SET and RESET.  The items of `args` are read as `DefElem` only for the
composite pseudo-variables. -/
structure VariableSetStmt where
  kind : VariableSetKind
  name : String
  args : List DefElem
  is_local : Bool
  deriving DecidableEq, Repr

/-- SHOW. -/
structure VariableShowStmt where
  name : String
  deriving DecidableEq, Repr

/-- DISCARD. -/
structure DiscardStmt where
  target : DiscardMode
  deriving DecidableEq, Repr

/-- CREATE TRIGGER. -/
structure CreateTrigStmt where
  trigOid : Oid
  rest : Payload
  deriving DecidableEq, Repr

/-- DROP RULE and DROP TRIGGER. -/
structure DropPropertyStmt where
  relation : RangeVar
  property : String
  removeType : ObjectType
  behavior : DropBehavior
  missing_ok : Bool
  deriving DecidableEq, Repr

/-- REINDEX. -/
structure ReindexStmt where
  kind : ObjectType
  rest : Payload
  deriving DecidableEq, Repr

/-- A parse node handed to utility.c: one constructor per node type the file
distinguishes, carrying the fields the file reads. -/
inductive Node where
  | InsertStmt (s : Payload)
  | DeleteStmt (s : Payload)
  | UpdateStmt (s : Payload)
  | SelectStmt (s : SelectStmt)
  | TransactionStmt (s : TransactionStmt)
  | DeclareCursorStmt (s : Payload)
  | ClosePortalStmt (s : ClosePortalStmt)
  | FetchStmt (s : FetchStmt)
  | CreateDomainStmt (s : Payload)
  | CreateSchemaStmt (s : Payload)
  | CreateStmt (s : CreateStmt)
  | CreateExternalStmt (s : Payload)
  | CreateFileSpaceStmt (s : Payload)
  | CreateTableSpaceStmt (s : Payload)
  | DropStmt (s : DropStmt)
  | TruncateStmt (s : Payload)
  | CommentStmt (s : Payload)
  | CopyStmt (s : CopyStmt)
  | RenameStmt (s : RenameStmt)
  | AlterObjectSchemaStmt (s : AlterObjectSchemaStmt)
  | AlterOwnerStmt (s : AlterOwnerStmt)
  | AlterTableStmt (s : AlterTableStmt)
  | AlterDomainStmt (s : AlterDomainStmt)
  | AlterFunctionStmt (s : Payload)
  | GrantStmt (s : GrantStmt)
  | GrantRoleStmt (s : GrantRoleStmt)
  | DefineStmt (s : DefineStmt)
  | CompositeTypeStmt (s : CompositeTypeStmt)
  | CreateEnumStmt (s : Payload)
  | ViewStmt (s : Payload)
  | CreateFunctionStmt (s : Payload)
  | IndexStmt (s : IndexStmt)
  | CreateExtensionStmt (s : Payload)
  | AlterExtensionStmt (s : Payload)
  | AlterExtensionContentsStmt (s : Payload)
  | RuleStmt (s : Payload)
  | CreateSeqStmt (s : Payload)
  | AlterSeqStmt (s : Payload)
  | RemoveFuncStmt (s : RemoveFuncStmt)
  | DoStmt (s : Payload)
  | CreatedbStmt (s : Payload)
  | AlterDatabaseStmt (s : Payload)
  | AlterDatabaseSetStmt (s : Payload)
  | DropdbStmt (s : DropdbStmt)
  | NotifyStmt (s : NotifyStmt)
  | ListenStmt (s : NotifyStmt)
  | UnlistenStmt (s : NotifyStmt)
  | LoadStmt (s : LoadStmt)
  | ClusterStmt (s : Payload)
  | VacuumStmt (s : VacuumStmt)
  | ExplainStmt (query : Node) (analyze : Bool) (rest : Payload)
  | VariableSetStmt (s : VariableSetStmt)
  | VariableShowStmt (s : VariableShowStmt)
  | DiscardStmt (s : DiscardStmt)
  | CreateTrigStmt (s : CreateTrigStmt)
  | DropPropertyStmt (s : DropPropertyStmt)
  | CreatePLangStmt (s : Payload)
  | DropPLangStmt (s : Payload)
  | CreateQueueStmt (s : Payload)
  | AlterQueueStmt (s : Payload)
  | DropQueueStmt (s : Payload)
  | CreateRoleStmt (s : Payload)
  | AlterRoleStmt (s : Payload)
  | AlterRoleSetStmt (s : Payload)
  | DropRoleStmt (s : Payload)
  | DropOwnedStmt (s : Payload)
  | ReassignOwnedStmt (s : Payload)
  | LockStmt (s : Payload)
  | ConstraintsSetStmt (s : Payload)
  | CheckPointStmt (s : Payload)
  | ReindexStmt (s : ReindexStmt)
  | CreateConversionStmt (s : Payload)
  | CreateCastStmt (s : Payload)
  | DropCastStmt (s : Payload)
  | CreateOpClassStmt (s : Payload)
  | CreateOpFamilyStmt (s : Payload)
  | AlterOpFamilyStmt (s : Payload)
  | RemoveOpClassStmt (s : Payload)
  | RemoveOpFamilyStmt (s : Payload)
  | AlterTSDictionaryStmt (s : Payload)
  | AlterTSConfigurationStmt (s : Payload)
  | PrepareStmt (query : Node) (rest : Payload)
  | ExecuteStmt (s : ExecuteStmt)
  | DeallocateStmt (s : DeallocateStmt)
  | PlannedStmt (commandType : CmdType) (utilityStmt : Option Node)
      (intoClause : Option Payload) (rowMarks : List RowMarkClause)
      (rest : Payload)
  | Query (commandType : CmdType) (utilityStmt : Option Node)
      (intoClause : Option Payload) (rowMarks : List RowMarkClause)
      (rest : Payload)
  | AlterTypeStmt (s : Payload)
  | other (tag : Nat) (s : Payload)

/-- The node tag of a node (`nodeTag`). -/
def nodeTag : Node → NodeTag
  | .InsertStmt _ => .T_InsertStmt
  | .DeleteStmt _ => .T_DeleteStmt
  | .UpdateStmt _ => .T_UpdateStmt
  | .SelectStmt _ => .T_SelectStmt
  | .TransactionStmt _ => .T_TransactionStmt
  | .DeclareCursorStmt _ => .T_DeclareCursorStmt
  | .ClosePortalStmt _ => .T_ClosePortalStmt
  | .FetchStmt _ => .T_FetchStmt
  | .CreateDomainStmt _ => .T_CreateDomainStmt
  | .CreateSchemaStmt _ => .T_CreateSchemaStmt
  | .CreateStmt _ => .T_CreateStmt
  | .CreateExternalStmt _ => .T_CreateExternalStmt
  | .CreateFileSpaceStmt _ => .T_CreateFileSpaceStmt
  | .CreateTableSpaceStmt _ => .T_CreateTableSpaceStmt
  | .DropStmt _ => .T_DropStmt
  | .TruncateStmt _ => .T_TruncateStmt
  | .CommentStmt _ => .T_CommentStmt
  | .CopyStmt _ => .T_CopyStmt
  | .RenameStmt _ => .T_RenameStmt
  | .AlterObjectSchemaStmt _ => .T_AlterObjectSchemaStmt
  | .AlterOwnerStmt _ => .T_AlterOwnerStmt
  | .AlterTableStmt _ => .T_AlterTableStmt
  | .AlterDomainStmt _ => .T_AlterDomainStmt
  | .AlterFunctionStmt _ => .T_AlterFunctionStmt
  | .GrantStmt _ => .T_GrantStmt
  | .GrantRoleStmt _ => .T_GrantRoleStmt
  | .DefineStmt _ => .T_DefineStmt
  | .CompositeTypeStmt _ => .T_CompositeTypeStmt
  | .CreateEnumStmt _ => .T_CreateEnumStmt
  | .ViewStmt _ => .T_ViewStmt
  | .CreateFunctionStmt _ => .T_CreateFunctionStmt
  | .IndexStmt _ => .T_IndexStmt
  | .CreateExtensionStmt _ => .T_CreateExtensionStmt
  | .AlterExtensionStmt _ => .T_AlterExtensionStmt
  | .AlterExtensionContentsStmt _ => .T_AlterExtensionContentsStmt
  | .RuleStmt _ => .T_RuleStmt
  | .CreateSeqStmt _ => .T_CreateSeqStmt
  | .AlterSeqStmt _ => .T_AlterSeqStmt
  | .RemoveFuncStmt _ => .T_RemoveFuncStmt
  | .DoStmt _ => .T_DoStmt
  | .CreatedbStmt _ => .T_CreatedbStmt
  | .AlterDatabaseStmt _ => .T_AlterDatabaseStmt
  | .AlterDatabaseSetStmt _ => .T_AlterDatabaseSetStmt
  | .DropdbStmt _ => .T_DropdbStmt
  | .NotifyStmt _ => .T_NotifyStmt
  | .ListenStmt _ => .T_ListenStmt
  | .UnlistenStmt _ => .T_UnlistenStmt
  | .LoadStmt _ => .T_LoadStmt
  | .ClusterStmt _ => .T_ClusterStmt
  | .VacuumStmt _ => .T_VacuumStmt
  | .ExplainStmt _ _ _ => .T_ExplainStmt
  | .VariableSetStmt _ => .T_VariableSetStmt
  | .VariableShowStmt _ => .T_VariableShowStmt
  | .DiscardStmt _ => .T_DiscardStmt
  | .CreateTrigStmt _ => .T_CreateTrigStmt
  | .DropPropertyStmt _ => .T_DropPropertyStmt
  | .CreatePLangStmt _ => .T_CreatePLangStmt
  | .DropPLangStmt _ => .T_DropPLangStmt
  | .CreateQueueStmt _ => .T_CreateQueueStmt
  | .AlterQueueStmt _ => .T_AlterQueueStmt
  | .DropQueueStmt _ => .T_DropQueueStmt
  | .CreateRoleStmt _ => .T_CreateRoleStmt
  | .AlterRoleStmt _ => .T_AlterRoleStmt
  | .AlterRoleSetStmt _ => .T_AlterRoleSetStmt
  | .DropRoleStmt _ => .T_DropRoleStmt
  | .DropOwnedStmt _ => .T_DropOwnedStmt
  | .ReassignOwnedStmt _ => .T_ReassignOwnedStmt
  | .LockStmt _ => .T_LockStmt
  | .ConstraintsSetStmt _ => .T_ConstraintsSetStmt
  | .CheckPointStmt _ => .T_CheckPointStmt
  | .ReindexStmt _ => .T_ReindexStmt
  | .CreateConversionStmt _ => .T_CreateConversionStmt
  | .CreateCastStmt _ => .T_CreateCastStmt
  | .DropCastStmt _ => .T_DropCastStmt
  | .CreateOpClassStmt _ => .T_CreateOpClassStmt
  | .CreateOpFamilyStmt _ => .T_CreateOpFamilyStmt
  | .AlterOpFamilyStmt _ => .T_AlterOpFamilyStmt
  | .RemoveOpClassStmt _ => .T_RemoveOpClassStmt
  | .RemoveOpFamilyStmt _ => .T_RemoveOpFamilyStmt
  | .AlterTSDictionaryStmt _ => .T_AlterTSDictionaryStmt
  | .AlterTSConfigurationStmt _ => .T_AlterTSConfigurationStmt
  | .PrepareStmt _ _ => .T_PrepareStmt
  | .ExecuteStmt _ => .T_ExecuteStmt
  | .DeallocateStmt _ => .T_DeallocateStmt
  | .PlannedStmt _ _ _ _ _ => .T_PlannedStmt
  | .Query _ _ _ _ _ => .T_Query
  | .AlterTypeStmt _ => .T_AlterTypeStmt
  | .other _ _ => .T_other

/-! ## Errors, events and the execution monad -/

/-- Result codes of an access check; only the not-owner code is named in
utility.c. -/
inductive AclResult where
  | ACLCHECK_OK | ACLCHECK_NO_PRIV | ACLCHECK_NOT_OWNER
  deriving DecidableEq, Repr

/-- Object classes of an access-check error; only the relation class is named
in utility.c. -/
inductive AclObjectKind where
  | ACL_KIND_CLASS
  deriving DecidableEq, Repr

/-- What stops a call.  `ereport` is an `ereport(ERROR, ...)` of this file with
its SQLSTATE, rendered message and hint; `elog` is an `elog(ERROR, ...)`
internal error, given by its message template (the number it prints is not
rendered); `aclcheck_error` is the external access-check report, which does not
return; `TRAP` is a failed assertion; `external` is an error raised inside an
external routine. -/
inductive ErrorData where
  | ereport (sqlerrcode : SqlErrCode) (message : String) (hint : Option String)
  | elog (message : String)
  | aclcheck_error (aclerr : AclResult) (objectkind : AclObjectKind)
      (objectname : String)
  | TRAP (condition : String)
  | external (code : Nat)
  deriving DecidableEq, Repr

/-- External routines that act on the system, by their C names. -/
inductive ExtProc where
  | BeginTransactionBlock | SetPGVariableOptDispatch | sendDtxExplicitBegin
  | EndTransactionBlock | PrepareTransactionBlock | PreventTransactionChain
  | FinishPreparedTransaction | UserAbortTransactionBlock
  | RequireTransactionChain | DefineDispatchSavepoint | ReleaseSavepoint
  | RollbackToSavepoint | PerformCursorOpen | PerformPortalClose
  | PerformPortalFetch | CreateSchemaCommand | transformCreateStmt
  | DefineRelation | CommandCounterIncrement | DefinePartitionedRelation
  | AlterTableCreateToastTable | AlterTableCreateAoSegTable
  | AlterTableCreateAoBlkdirTable | AlterTableCreateAoVisimapTable
  | CdbDispatchUtilityStatement | CdbDispatchCommand
  | EvaluateDeferredStatements | transformCreateExternalStmt
  | DefineExternalRelation | CreateFileSpace | CreateTableSpace
  | RemoveRelation | RemoveView | RemoveIndex | RemoveType | RemoveDomain
  | DropConversionCommand | RemoveSchema | RemoveFileSpace | RemoveTableSpace
  | RemoveExtProtocol | RemoveTSParser | RemoveTSDictionary | RemoveTSTemplate
  | RemoveTSConfiguration | RemoveExtension | ExecuteTruncate | CommentObject
  | DoCopy | PrepareQuery | ExecuteQuery | DeallocateQuery | ExecRenameStmt
  | ExecAlterObjectSchemaStmt | ExecAlterOwnerStmt | transformAlterTableStmt
  | AlterTable | AlterDomainDefault | AlterDomainNotNull
  | AlterDomainAddConstraint | AlterDomainDropConstraint | ExecuteGrantStmt
  | GrantRole | DefineAggregate | DefineOperator | DefineType
  | DefineExtProtocol | DefineTSParser | DefineTSDictionary | DefineTSTemplate
  | DefineTSConfiguration | DefineCompositeType | DefineEnum | DefineView
  | CreateFunction | AlterFunction | transformIndexStmt | DefineIndex
  | CreateExtension | ExecAlterExtensionStmt | ExecAlterExtensionContentsStmt
  | DefineRule | DefineSequence | AlterSequence | RemoveFunction
  | RemoveAggregate | RemoveOperator | ExecuteDoStmt | createdb | AlterDatabase
  | AlterDatabaseSet | dropdb | Async_Notify | Async_Listen | Async_Unlisten
  | closeAllVfds | load_file | cluster | vacuum | ExplainQuery
  | ExecSetVariableStmt | GetPGVariable | DiscardCommand | CreateTrigger
  | RemoveRewriteRule | DropTrigger | CreateProceduralLanguage
  | DropProceduralLanguage | DefineDomain | CreateQueue | AlterQueue
  | DropQueue | CreateRole | AlterRole | AlterRoleSet | DropRole
  | DropOwnedObjects | ReassignOwnedObjects | LockTableCommand
  | AfterTriggerSetState | RequestCheckpoint | ReindexIndex | ReindexTable
  | ReindexDatabase | CreateConversionCommand | CreateCast | DropCast
  | DefineOpClass | DefineOpFamily | AlterOpFamily | RemoveOpClass
  | RemoveOpFamily | AlterType | AlterTSDictionary | AlterTSConfiguration
  deriving DecidableEq, Repr

/-- An argument passed to an external routine. -/
inductive Arg where
  | node (n : Node)
  | str (s : String)
  | optStr (s : Option String)
  | bool (b : Bool)
  | rangeVar (r : RangeVar)
  | names (l : List String)
  | oid (o : Oid)
  | oids (l : List Oid)
  | behavior (b : DropBehavior)
  | char (c : Char)
  | flags (f : DispatchFlags)
  | defElems (l : List DefElem)
  | payload (p : Payload)
  | payloads (l : List Payload)
  | dest (d : DestReceiver)

/-- What a call of utility.c leaves behind: a NOTICE or WARNING report, a call
of an external routine with its arguments, or a write to the caller's
completion-tag buffer. -/
inductive Event where
  | NOTICE (message : String)
  | WARNING (message : String)
  | call (proc : ExtProc) (args : List Arg)
  | completionTag (s : String)

/-- The events so far, oldest first. -/
abbrev History := List Event

/-- The way a call ends: it returns, it is stopped by an error, or (for the
dispatcher only) the recursion bound of the embedding is used up. -/
inductive Result (α : Type) where
  | ok (a : α)
  | error (e : ErrorData)
  | outOfFuel

/-- A routine of utility.c: from the history to its result and the history
extended by the events of the call. -/
def M (α : Type) : Type := History → Result α × History

/-- Return a value, no event. -/
def M.pure {α : Type} (a : α) : M α := fun h => (.ok a, h)

/-- Run `m`, then `f` on its value; an error of `m` ends the call. -/
def M.bind {α β : Type} (m : M α) (f : α → M β) : M β := fun h =>
  match m h with
  | (.ok a, h1) => f a h1
  | (.error e, h1) => (.error e, h1)
  | (.outOfFuel, h1) => (.outOfFuel, h1)

instance : Monad M where
  pure := M.pure
  bind := M.bind

/-- Stop with an error (`ereport(ERROR, ...)`, `elog(ERROR, ...)`). -/
def raise {α : Type} (e : ErrorData) : M α := fun h => (.error e, h)

/-- Log one event. -/
def emit (e : Event) : M Unit := fun h => (.ok (), h ++ [e])

/-- A look-up: the answer depends on the history and leaves no event. -/
def ask {α : Type} (q : History → α) : M α := fun h => (.ok (q h), h)

/-- A look-up that may raise. -/
def askE {α : Type} (q : History → Except ErrorData α) : M α := fun h =>
  match q h with
  | .ok a => (.ok a, h)
  | .error e => (.error e, h)

/-- The macro `Assert`. -/
def Assert (c : Bool) (condition : String) : M Unit :=
  if c then M.pure () else raise (.TRAP condition)

/-- Loop `foreach` over a list. -/
def foreach {α : Type} (l : List α) (body : α → M Unit) : M Unit :=
  match l with
  | [] => M.pure ()
  | x :: rest => M.bind (body x) (fun _ => foreach rest body)

/-- Loop `foreach` whose body also tests `lnext(l) != NULL`. -/
def foreachNext {α : Type} (l : List α) (body : α → Bool → M Unit) : M Unit :=
  match l with
  | [] => M.pure ()
  | x :: rest =>
      M.bind (body x (!rest.isEmpty)) (fun _ => foreachNext rest body)

/-- What utility.c reads of a prepared statement: the raw parse tree and the
result descriptor of its plan source (`plansource->raw_parse_tree`,
`plansource->resultDesc`). -/
structure PreparedStatement where
  raw_parse_tree : Node
  resultDesc : Option Payload

/-- What utility.c reads of a portal: its tuple descriptor
(`portal->tupDesc`). -/
structure Portal where
  tupDesc : Option Payload

/-- The external world.  The role and the segment number are fixed for the
life of the backend; every other answer may depend on the events so far. -/
structure Env where
  Gp_role : GpRoleValue
  Gp_segment : Int
  XactReadOnly : History → Bool
  allowSystemTableModsDDL : History → Bool
  makeRangeVarFromNameList : List String → RangeVar
  RelationToRemoveIsTemp : History → RangeVar → Bool → Bool
  RangeVarGetRelid : History → RangeVar → Bool → Except ErrorData Oid
  SearchSysCache : History → Oid → Option Form_pg_class
  GetUserId : History → Oid
  pg_class_ownercheck : History → Oid → Oid → Bool
  pg_namespace_ownercheck : History → Oid → Oid → Bool
  IsSystemClass : Form_pg_class → Bool
  rel_is_child_partition : History → Oid → Bool
  superuser : History → Bool
  InSecurityRestrictedOperation : History → Bool
  GetAssignedOidsForDispatch : History → List Oid
  /-- The look-up `FetchPreparedStatement(name, false)`: no error when the
  name is unknown. -/
  FetchPreparedStatement : History → String → Option PreparedStatement
  /-- The look-up `GetPortalByName(name)`; `none` stands for a portal that is
  not valid. -/
  GetPortalByName : History → String → Option Portal
  raises : History → ExtProc → List Arg → Option ErrorData
  retBool : History → ExtProc → List Arg → Bool
  retOid : History → ExtProc → List Arg → Oid
  retNat : History → ExtProc → List Arg → Nat
  retNodes : History → ExtProc → List Arg → List Node

/-- Call an external routine for its effect. -/
def Env.call (env : Env) (proc : ExtProc) (args : List Arg) : M Unit := fun h =>
  match env.raises h proc args with
  | some e => (.error e, h ++ [.call proc args])
  | none => (.ok (), h ++ [.call proc args])

/-- Call an external routine that returns a value; `ret` is the oracle of its
return value. -/
def Env.callRet {α : Type} (env : Env)
    (ret : History → ExtProc → List Arg → α) (proc : ExtProc)
    (args : List Arg) : M α := fun h =>
  match env.raises h proc args with
  | some e => (.error e, h ++ [.call proc args])
  | none => (.ok (ret h proc args), h ++ [.call proc args])

/-! ## Error-checking support for DROP commands -/

/-- One entry of the message table. -/
structure msgstrings where
  kind : Char
  nonexistent_code : SqlErrCode
  nonexistent_msg : String
  skipping_msg : String
  nota_msg : String
  drophint_msg : String
  deriving DecidableEq, Repr

/-- The message table, without the NUL entry that ends it. -/
def msgstringarray : List msgstrings :=
  [ { kind := RELKIND_RELATION,
      nonexistent_code := .ERRCODE_UNDEFINED_TABLE,
      nonexistent_msg := "table \"%s\" does not exist",
      skipping_msg := "table \"%s\" does not exist, skipping",
      nota_msg := "\"%s\" is not a base table",
      drophint_msg := "Use DROP TABLE to remove a table, DROP EXTERNAL TABLE if external, or DROP FOREIGN TABLE if foreign." },
    { kind := RELKIND_SEQUENCE,
      nonexistent_code := .ERRCODE_UNDEFINED_TABLE,
      nonexistent_msg := "sequence \"%s\" does not exist",
      skipping_msg := "sequence \"%s\" does not exist, skipping",
      nota_msg := "\"%s\" is not a sequence",
      drophint_msg := "Use DROP SEQUENCE to remove a sequence." },
    { kind := RELKIND_VIEW,
      nonexistent_code := .ERRCODE_UNDEFINED_TABLE,
      nonexistent_msg := "view \"%s\" does not exist",
      skipping_msg := "view \"%s\" does not exist, skipping",
      nota_msg := "\"%s\" is not a view",
      drophint_msg := "Use DROP VIEW to remove a view." },
    { kind := RELKIND_INDEX,
      nonexistent_code := .ERRCODE_UNDEFINED_OBJECT,
      nonexistent_msg := "index \"%s\" does not exist",
      skipping_msg := "index \"%s\" does not exist, skipping",
      nota_msg := "\"%s\" is not an index",
      drophint_msg := "Use DROP INDEX to remove an index." },
    { kind := RELKIND_COMPOSITE_TYPE,
      nonexistent_code := .ERRCODE_UNDEFINED_OBJECT,
      nonexistent_msg := "type \"%s\" does not exist",
      skipping_msg := "type \"%s\" does not exist, skipping",
      nota_msg := "\"%s\" is not a type",
      drophint_msg := "Use DROP TYPE to remove a type." } ]

/-- The scan `for (e = msgstringarray; e->kind != NUL; e++) if (e->kind == kind)
break;`: the first entry of that kind, or `none` when the scan stops at the NUL
entry. -/
def lookupEntry (kind : Char) : Option msgstrings :=
  msgstringarray.find? (fun e => e.kind == kind)

/-- Substitute the first `%s` of a format. -/
def formatChars : List Char → List Char → List Char
  | [], _ => []
  | '%' :: 's' :: rest, arg => arg ++ rest
  | c :: rest, arg => c :: formatChars rest arg

/-- The message `errmsg(fmt, arg)` of a format with one `%s`. -/
def errmsg (fmt : String) (arg : String) : String :=
  String.mk (formatChars fmt.data arg.data)

/-- Emit the right error message for a DROP command issued on a relation of
the wrong type. -/
def DropErrorMsgWrongType (relname : String) (wrongkind rightkind : Char) :
    M Unit :=
  match lookupEntry rightkind with
  | none => raise (.TRAP "rentry->kind != NUL")
  | some rentry =>
      /- wrongkind could be something we don't have in our table... -/
      match lookupEntry wrongkind with
      | some wentry =>
          raise (.ereport .ERRCODE_WRONG_OBJECT_TYPE
            (errmsg rentry.nota_msg relname) (some wentry.drophint_msg))
      | none =>
          raise (.ereport .ERRCODE_WRONG_OBJECT_TYPE
            (errmsg rentry.nota_msg relname) none)

/-- Emit the right error message for a DROP command issued on a non-existent
relation. -/
def DropErrorMsgNonExistent (env : Env) (rel : RangeVar) (rightkind : Char)
    (missing_ok : Bool) : M Unit :=
  match lookupEntry rightkind with
  | some rentry =>
      if !missing_ok then
        raise (.ereport rentry.nonexistent_code
          (errmsg rentry.nonexistent_msg rel.relname) none)
      else if env.Gp_role != .GP_ROLE_EXECUTE then
        emit (.NOTICE (errmsg rentry.skipping_msg rel.relname))
      else
        M.pure ()
  | none => raise (.TRAP "rentry->kind != NUL")

/-- Returns false if missing_ok is true and the object does not exist, true if
the object exists and permissions are OK, errors otherwise. -/
def CheckDropPermissions (env : Env) (rel : RangeVar) (rightkind : Char)
    (missing_ok : Bool) : M Bool := do
  let relOid ← askE (fun h => env.RangeVarGetRelid h rel true)
  if !OidIsValid relOid then
    DropErrorMsgNonExistent env rel rightkind missing_ok
    return false
  let tuple ← ask (fun h => env.SearchSysCache h relOid)
  match tuple with
  | none => raise (.elog "cache lookup failed for relation %u")
  | some classform =>
    if classform.relkind != rightkind then
      DropErrorMsgWrongType rel.relname classform.relkind rightkind
    /- Allow DROP to either table owner or schema owner -/
    let notOwner ← ask (fun h =>
      !env.pg_class_ownercheck h relOid (env.GetUserId h) &&
      !env.pg_namespace_ownercheck h classform.relnamespace (env.GetUserId h))
    if notOwner then
      raise (.aclcheck_error .ACLCHECK_NOT_OWNER .ACL_KIND_CLASS rel.relname)
    let allowMods ← ask env.allowSystemTableModsDDL
    if !allowMods && env.IsSystemClass classform then
      raise (.ereport .ERRCODE_INSUFFICIENT_PRIVILEGE
        (errmsg "permission denied: \"%s\" is a system catalog" rel.relname)
        none)
    return true

/-- Catch a mismatch between the DROP object type requested and the actual
object in the catalog. -/
def CheckDropRelStorage (env : Env) (rel : RangeVar) (removeType : ObjectType) :
    M Bool := do
  let relOid ← askE (fun h => env.RangeVarGetRelid h rel true)
  if !OidIsValid relOid then
    return false
  else
    /- Find out the relstorage -/
    let tuple ← ask (fun h => env.SearchSysCache h relOid)
    match tuple with
    | none => raise (.elog "cache lookup failed for relation %u")
    | some classform =>
      let relstorage := classform.relstorage
      /- skip the check if it's external partition -/
      let isChild ← ask (fun h => env.rel_is_child_partition h relOid)
      if relstorage == RELSTORAGE_EXTERNAL &&
          (env.Gp_segment != -1 || isChild) then
        return true
      else if (removeType == .OBJECT_EXTTABLE &&
            relstorage != RELSTORAGE_EXTERNAL) ||
          (removeType == .OBJECT_TABLE &&
            (relstorage == RELSTORAGE_EXTERNAL ||
              relstorage == RELSTORAGE_FOREIGN)) then
        /- we have a mismatch. format an error string and shoot -/
        let want_type :=
          if removeType == .OBJECT_EXTTABLE then "an external" else "a base"
        let hint :=
          if relstorage == RELSTORAGE_EXTERNAL then
            "Use DROP EXTERNAL TABLE to remove an external table"
          else if relstorage == RELSTORAGE_FOREIGN then
            "Use DROP FOREIGN TABLE to remove a foreign table"
          else
            "Use DROP TABLE to remove a base table"
        raise (.ereport .ERRCODE_WRONG_OBJECT_TYPE
          ("\"" ++ rel.relname ++ "\" is not " ++ want_type ++ " table")
          (some hint))
      else
        return true

/-- Verify user has ownership of specified relation, else ereport.  If
noCatalogs is true then we also deny access to system catalogs, except when
allowSystemTableModsDDL is true. -/
def CheckRelationOwnership (env : Env) (rel : RangeVar) (noCatalogs : Bool) :
    M Unit := do
  let relOid ← askE (fun h => env.RangeVarGetRelid h rel false)
  let tuple ← ask (fun h => env.SearchSysCache h relOid)
  match tuple with
  | none => raise (.elog "cache lookup failed for relation %u")
  | some classform =>
    let notOwner ← ask (fun h =>
      !env.pg_class_ownercheck h relOid (env.GetUserId h))
    if notOwner then
      raise (.aclcheck_error .ACLCHECK_NOT_OWNER .ACL_KIND_CLASS rel.relname)
    if noCatalogs then
      let allowMods ← ask env.allowSystemTableModsDDL
      if !allowMods && env.IsSystemClass classform then
        raise (.ereport .ERRCODE_INSUFFICIENT_PRIVILEGE
          (errmsg "permission denied: \"%s\" is a system catalog" rel.relname)
          none)

/-! ## Read-only tests -/

/-- Is an executable query read-only?  This is a much stricter test than the
one applied for XactReadOnly mode. -/
def CommandIsReadOnly (node : Node) : M Bool :=
  match node with
  | .PlannedStmt commandType _ intoClause rowMarks _ =>
      match commandType with
      | .CMD_SELECT =>
          if intoClause.isSome then
            M.pure false  /- SELECT INTO -/
          else if !rowMarks.isEmpty then
            M.pure false  /- SELECT FOR UPDATE/SHARE -/
          else
            M.pure true
      | .CMD_UPDATE | .CMD_INSERT | .CMD_DELETE => M.pure false
      | _ => do
          emit (.WARNING "unrecognized commandType: %d")
          /- For now, treat all utility commands as read/write -/
          return false
  | _ =>
      /- For now, treat all utility commands as read/write -/
      M.pure false

/-- The error of a command refused in a read-only transaction. -/
def readOnlyError : ErrorData :=
  .ereport .ERRCODE_READ_ONLY_SQL_TRANSACTION "transaction is read-only" none

/-- Is a utility command read-only?  Here we use the loose rules of
XactReadOnly mode: no permanent effects on the database are allowed. -/
def check_xact_readonly (env : Env) (parsetree : Node) : M Unit := do
  let readOnly ← ask env.XactReadOnly
  if !readOnly then
    return
  else
    match parsetree with
    | .CreateStmt createStmt =>
        if createStmt.relation.istemp then
          /- Permit creation of TEMPORARY tables in read-only mode. -/
          return
        else
          raise readOnlyError
    | .DropStmt dropStmt =>
        /- So, if DROP TABLE is used, all objects must be temporary tables. -/
        foreach dropStmt.objects (fun names => do
          let rel := env.makeRangeVarFromNameList names
          let refused ← ask (fun h =>
            dropStmt.removeType != .OBJECT_TABLE ||
            !env.RelationToRemoveIsTemp h rel dropStmt.missing_ok)
          if refused then
            raise readOnlyError)
        /- All objects are TEMPORARY tables. -/
    | .AlterDatabaseStmt _ | .AlterDatabaseSetStmt _ | .AlterDomainStmt _
    | .AlterFunctionStmt _ | .AlterQueueStmt _ | .AlterRoleStmt _
    | .AlterRoleSetStmt _ | .AlterObjectSchemaStmt _ | .AlterOwnerStmt _
    | .AlterSeqStmt _ | .AlterTableStmt _ | .RenameStmt _ | .CommentStmt _
    | .DefineStmt _ | .CreateCastStmt _ | .CreateConversionStmt _
    | .CreatedbStmt _ | .CreateDomainStmt _ | .CreateFunctionStmt _
    | .CreateQueueStmt _ | .CreateRoleStmt _ | .IndexStmt _
    | .CreateExtensionStmt _ | .AlterExtensionStmt _
    | .AlterExtensionContentsStmt _ | .CreatePLangStmt _
    | .CreateOpClassStmt _ | .CreateOpFamilyStmt _ | .AlterOpFamilyStmt _
    | .RuleStmt _ | .CreateSchemaStmt _ | .CreateSeqStmt _
    | .CreateExternalStmt _ | .CreateFileSpaceStmt _
    | .CreateTableSpaceStmt _ | .CreateTrigStmt _ | .CompositeTypeStmt _
    | .CreateEnumStmt _ | .ViewStmt _ | .DropCastStmt _ | .DropdbStmt _
    | .RemoveFuncStmt _ | .DropQueueStmt _ | .DropRoleStmt _
    | .DropPLangStmt _ | .RemoveOpClassStmt _ | .RemoveOpFamilyStmt _
    | .DropPropertyStmt _ | .GrantStmt _ | .GrantRoleStmt _
    | .TruncateStmt _ | .DropOwnedStmt _ | .ReassignOwnedStmt _
    | .AlterTSDictionaryStmt _ | .AlterTSConfigurationStmt _ =>
        raise readOnlyError
    | _ =>
        /- do nothing -/
        return

/-! ## DROP of one object -/

/-- Loop `foreach` whose body updates a local variable. -/
def foreachAcc {α σ : Type} (l : List α) (init : σ) (body : α → σ → M σ) :
    M σ :=
  match l with
  | [] => M.pure init
  | x :: rest => M.bind (body x init) (fun acc => foreachAcc rest acc body)

/-- The body of the loop of `ProcessDropStatement`, for the object `names`;
`dispatchDrop` is the value of the local variable on entry, the result is its
value at the end of the iteration. -/
def ProcessDropStatement.body (env : Env) (stmt : DropStmt)
    (names : List String) (dispatchDrop : Bool) : M Bool :=
  match stmt.removeType with
  | .OBJECT_TABLE | .OBJECT_EXTTABLE => do
      let rel := env.makeRangeVarFromNameList names
      let permitted ← CheckDropPermissions env rel RELKIND_RELATION
        stmt.missing_ok
      if permitted then
        let storageOk ← CheckDropRelStorage env rel stmt.removeType
        if storageOk then
          /- If RemoveRelation fails to find the relation on QD, it will
             return false and we should not dispatch the drop. -/
          env.callRet env.retBool .RemoveRelation
            [.rangeVar rel, .behavior stmt.behavior, .node (.DropStmt stmt),
              .char RELKIND_RELATION]
        else
          return false
      else
        return false
  | .OBJECT_SEQUENCE => do
      let rel := env.makeRangeVarFromNameList names
      let permitted ← CheckDropPermissions env rel RELKIND_SEQUENCE
        stmt.missing_ok
      if permitted then
        env.callRet env.retBool .RemoveRelation
          [.rangeVar rel, .behavior stmt.behavior, .node (.DropStmt stmt),
            .char RELKIND_SEQUENCE]
      else
        return false
  | .OBJECT_VIEW => do
      let rel := env.makeRangeVarFromNameList names
      let permitted ← CheckDropPermissions env rel RELKIND_VIEW stmt.missing_ok
      if permitted then
        env.call .RemoveView [.rangeVar rel, .behavior stmt.behavior]
        return dispatchDrop
      else
        return false
  | .OBJECT_INDEX => do
      let rel := env.makeRangeVarFromNameList names
      let permitted ← CheckDropPermissions env rel RELKIND_INDEX
        stmt.missing_ok
      if permitted then
        env.call .RemoveIndex [.rangeVar rel, .behavior stmt.behavior]
        return dispatchDrop
      else
        return false
  | .OBJECT_TYPE => do
      /- RemoveType does its own permissions checks -/
      env.call .RemoveType
        [.names names, .behavior stmt.behavior, .bool stmt.missing_ok]
      return dispatchDrop
  | .OBJECT_DOMAIN => do
      env.call .RemoveDomain
        [.names names, .behavior stmt.behavior, .bool stmt.missing_ok]
      return dispatchDrop
  | .OBJECT_CONVERSION => do
      env.call .DropConversionCommand
        [.names names, .behavior stmt.behavior, .bool stmt.missing_ok]
      return dispatchDrop
  | .OBJECT_SCHEMA => do
      env.call .RemoveSchema
        [.names names, .behavior stmt.behavior, .bool stmt.missing_ok]
      return dispatchDrop
  | .OBJECT_FILESPACE => do
      env.call .RemoveFileSpace
        [.names names, .behavior stmt.behavior, .bool stmt.missing_ok]
      return dispatchDrop
  | .OBJECT_TABLESPACE => do
      env.call .RemoveTableSpace
        [.names names, .behavior stmt.behavior, .bool stmt.missing_ok]
      return dispatchDrop
  | .OBJECT_EXTPROTOCOL => do
      env.call .RemoveExtProtocol
        [.names names, .behavior stmt.behavior, .bool stmt.missing_ok]
      return dispatchDrop
  | .OBJECT_TSPARSER => do
      env.call .RemoveTSParser
        [.names names, .behavior stmt.behavior, .bool stmt.missing_ok]
      return dispatchDrop
  | .OBJECT_TSDICTIONARY => do
      env.call .RemoveTSDictionary
        [.names names, .behavior stmt.behavior, .bool stmt.missing_ok]
      return dispatchDrop
  | .OBJECT_TSTEMPLATE => do
      env.call .RemoveTSTemplate
        [.names names, .behavior stmt.behavior, .bool stmt.missing_ok]
      return dispatchDrop
  | .OBJECT_TSCONFIGURATION => do
      env.call .RemoveTSConfiguration
        [.names names, .behavior stmt.behavior, .bool stmt.missing_ok]
      return dispatchDrop
  | .OBJECT_EXTENSION => do
      env.call .RemoveExtension
        [.names names, .behavior stmt.behavior, .bool stmt.missing_ok]
      return dispatchDrop
  | _ => raise (.elog "unrecognized drop object type: %d")

/-- Process one relation in a drop statement. -/
def ProcessDropStatement (env : Env) (stmt : DropStmt) : M Bool := do
  Assert (stmt.objects.length == 1) "list_length(stmt->objects) == 1"
  foreachAcc stmt.objects true (ProcessDropStatement.body env stmt)

/-- Throw error for hazardous command if we're inside a security restriction
context. -/
def CheckRestrictedOperation (env : Env) (cmdname : String) : M Unit := do
  let restricted ← ask env.InSecurityRestrictedOperation
  if restricted then
    raise (.ereport .ERRCODE_INSUFFICIENT_PRIVILEGE
      (errmsg "cannot execute %s within security-restricted operation" cmdname)
      none)

/-! ## The dispatcher -/

/-- The body of `ProcessUtility`.  `recurse stmt` stands for the recursive call
`ProcessUtility(stmt, queryString, params, false, None_Receiver, NULL)`;
`completionTag` tells whether the caller supplied a completion-tag buffer. -/
def ProcessUtility.body (env : Env) (recurse : Node → M Unit)
    (parsetree : Node) (queryString : Option String) (params : Payload)
    (isTopLevel : Bool) (dest : DestReceiver) (completionTag : Bool) :
    M Unit := do
  Assert queryString.isSome "queryString != NULL"  /- required as of 8.4 -/
  check_xact_readonly env parsetree
  if completionTag then
    emit (.completionTag "")
  match parsetree with
  /- ******************** transactions ******************** -/
  | .TransactionStmt stmt =>
      match stmt.kind with
      | .TRANS_STMT_BEGIN | .TRANS_STMT_START => do
          env.call .BeginTransactionBlock []
          foreach stmt.options (fun item =>
            if item.defname == "transaction_isolation" then
              env.call .SetPGVariableOptDispatch
                [.str "transaction_isolation", .payloads [item.arg],
                  .bool true, .bool false]
            else if item.defname == "transaction_read_only" then
              env.call .SetPGVariableOptDispatch
                [.str "transaction_read_only", .payloads [item.arg],
                  .bool true, .bool false]
            else
              M.pure ())
          env.call .sendDtxExplicitBegin []
      | .TRANS_STMT_COMMIT => do
          let committed ← env.callRet env.retBool .EndTransactionBlock []
          if !committed then
            /- report unsuccessful commit in completionTag -/
            if completionTag then
              emit (.completionTag "ROLLBACK")
      | .TRANS_STMT_PREPARE => do
          if env.Gp_role == .GP_ROLE_DISPATCH then
            raise (.ereport .ERRCODE_GP_COMMAND_ERROR
              "PREPARE TRANSACTION is not yet supported in Greenplum Database."
              none)
          let prepared ← env.callRet env.retBool .PrepareTransactionBlock
            [.str stmt.gid]
          if !prepared then
            /- report unsuccessful commit in completionTag -/
            if completionTag then
              emit (.completionTag "ROLLBACK")
      | .TRANS_STMT_COMMIT_PREPARED => do
          if env.Gp_role == .GP_ROLE_DISPATCH then
            raise (.ereport .ERRCODE_GP_COMMAND_ERROR
              "COMMIT PREPARED is not yet supported in Greenplum Database."
              none)
          env.call .PreventTransactionChain
            [.bool isTopLevel, .str "COMMIT PREPARED"]
          env.call .FinishPreparedTransaction
            [.str stmt.gid, .bool true, .bool true]
      | .TRANS_STMT_ROLLBACK_PREPARED => do
          if env.Gp_role == .GP_ROLE_DISPATCH then
            raise (.ereport .ERRCODE_GP_COMMAND_ERROR
              "ROLLBACK PREPARED is not yet supported in Greenplum Database."
              none)
          env.call .PreventTransactionChain
            [.bool isTopLevel, .str "ROLLBACK PREPARED"]
          env.call .FinishPreparedTransaction
            [.str stmt.gid, .bool false, .bool true]
      | .TRANS_STMT_ROLLBACK =>
          env.call .UserAbortTransactionBlock []
      | .TRANS_STMT_SAVEPOINT => do
          env.call .RequireTransactionChain [.bool isTopLevel, .str "SAVEPOINT"]
          let name : Option Payload :=
            stmt.options.foldl
              (fun name elem =>
                if elem.defname == "savepoint_name" then some elem.arg
                else name)
              none
          Assert name.isSome "PointerIsValid(name)"
          if env.Gp_role == .GP_ROLE_DISPATCH then
            /- make certain that the BEGIN has been dispatched before we
               start dispatching our savepoint -/
            env.call .sendDtxExplicitBegin []
          env.call .DefineDispatchSavepoint [.payloads name.toList]
      | .TRANS_STMT_RELEASE => do
          env.call .RequireTransactionChain
            [.bool isTopLevel, .str "RELEASE SAVEPOINT"]
          env.call .ReleaseSavepoint [.defElems stmt.options]
      | .TRANS_STMT_ROLLBACK_TO => do
          env.call .RequireTransactionChain
            [.bool isTopLevel, .str "ROLLBACK TO SAVEPOINT"]
          env.call .RollbackToSavepoint [.defElems stmt.options]
      | .TRANS_STMT_other _ => M.pure ()
  /- Portal (cursor) manipulation -/
  | .PlannedStmt _ utilityStmt _ _ _ =>
      match utilityStmt with
      | some (.DeclareCursorStmt _) =>
          env.call .PerformCursorOpen
            [.node parsetree, .payload params, .optStr queryString,
              .bool isTopLevel]
      | _ =>
          raise (.elog "non-DECLARE CURSOR PlannedStmt passed to ProcessUtility")
  | .ClosePortalStmt stmt => do
      CheckRestrictedOperation env "CLOSE"
      env.call .PerformPortalClose [.optStr stmt.portalname]
  | .FetchStmt _ =>
      env.call .PerformPortalFetch
        [.node parsetree, .dest dest, .bool completionTag]
  /- relation and attribute manipulation -/
  | .CreateSchemaStmt _ =>
      env.call .CreateSchemaCommand [.node parsetree, .optStr queryString]
  | .CreateStmt createStmt => do
      /- Run parse analysis: only in the Query Dispatcher -/
      let stmts : List Node ←
        if env.Gp_role == .GP_ROLE_EXECUTE || createStmt.is_add_part then
          M.pure [parsetree]
        else
          env.callRet env.retNodes .transformCreateStmt
            [.node parsetree, .optStr queryString, .bool false]
      /- ... and do it -/
      foreachNext stmts (fun stmt hasNext => do
        match stmt with
        | .CreateStmt cstmt => do
            /- If this T_CreateStmt was dispatched and we're a QE receiving
               it, extract the relkind and relstorage from it -/
            let relKind : Char :=
              if env.Gp_role == .GP_ROLE_EXECUTE && cstmt.relKind != NUL then
                cstmt.relKind
              else RELKIND_RELATION
            let relStorage : Char :=
              if env.Gp_role == .GP_ROLE_EXECUTE && cstmt.relStorage != NUL then
                cstmt.relStorage
              else RELSTORAGE_HEAP
            if env.Gp_role == .GP_ROLE_EXECUTE then
              /- sanity check -/
              if relKind == RELKIND_VIEW || relKind == RELKIND_COMPOSITE_TYPE
              then
                Assert (relStorage == RELSTORAGE_VIRTUAL)
                  "relStorage == RELSTORAGE_VIRTUAL"
              else
                Assert (relStorage == RELSTORAGE_HEAP ||
                    relStorage == RELSTORAGE_AOROWS ||
                    relStorage == RELSTORAGE_AOCOLS ||
                    relStorage == RELSTORAGE_EXTERNAL ||
                    relStorage == RELSTORAGE_FOREIGN)
                  "relStorage is a table storage"
            /- Create the table itself. Don't dispatch it yet, as we haven't
               created the toast and other auxiliary tables yet. -/
            let relOid ← env.callRet env.retOid .DefineRelation
              [.node stmt, .char relKind, .char relStorage, .bool false]
            env.call .CommandCounterIncrement []
            env.call .DefinePartitionedRelation [.node parsetree, .oid relOid]
            if relKind != RELKIND_COMPOSITE_TYPE then
              env.call .AlterTableCreateToastTable
                [.oid relOid, .bool cstmt.is_part_child]
              env.call .AlterTableCreateAoSegTable
                [.oid relOid, .bool cstmt.is_part_child]
              if cstmt.buildAoBlkdir then
                env.call .AlterTableCreateAoBlkdirTable
                  [.oid relOid, .bool cstmt.is_part_child]
              env.call .AlterTableCreateAoVisimapTable
                [.oid relOid, .bool cstmt.is_part_child]
            if env.Gp_role == .GP_ROLE_DISPATCH then
              let assigned ← ask env.GetAssignedOidsForDispatch
              env.call .CdbDispatchUtilityStatement
                [.node stmt,
                  .flags (DF_CANCEL_ON_ERROR ||| DF_NEED_TWO_PHASE |||
                    DF_WITH_SNAPSHOT),
                  .oids assigned]
            env.call .CommandCounterIncrement []
            /- Deferred statements should be evaluated *after* AO tables are
               updated correctly. -/
            env.call .EvaluateDeferredStatements [.payload cstmt.deferredStmts]
        | _ =>
            /- Recurse for anything else -/
            recurse stmt
        /- Need CCI between commands -/
        if hasNext then
          env.call .CommandCounterIncrement [])
  | .CreateExternalStmt _ => do
      let stmts : List Node ←
        if env.Gp_role == .GP_ROLE_EXECUTE then
          M.pure [parsetree]
        else
          env.callRet env.retNodes .transformCreateExternalStmt
            [.node parsetree, .optStr queryString]
      foreach stmts (fun stmt =>
        match stmt with
        | .CreateExternalStmt _ =>
            env.call .DefineExternalRelation [.node stmt]
        | _ =>
            /- Recurse for anything else -/
            recurse stmt)
  | .CreateFileSpaceStmt _ => env.call .CreateFileSpace [.node parsetree]
  | .CreateTableSpaceStmt _ => env.call .CreateTableSpace [.node parsetree]
  | .DropStmt dropStmt => do
      let if_exists := dropStmt.missing_ok
      let objects := dropStmt.objects
      /- we modify the object in the loop below, so make a copy -/
      foreach objects (fun names => do
        let stmt : DropStmt :=
          { dropStmt with objects := [names], missing_ok := if_exists }
        let dispatchDrop ← ProcessDropStatement env stmt
        if dispatchDrop then
          /- If we are the QD, dispatch this DROP command to all the QEs -/
          if env.Gp_role == .GP_ROLE_DISPATCH then
            env.call .CdbDispatchUtilityStatement
              [.node (.DropStmt stmt),
                .flags (DF_CANCEL_ON_ERROR ||| DF_WITH_SNAPSHOT |||
                  DF_NEED_TWO_PHASE),
                .oids []])
  | .TruncateStmt _ => env.call .ExecuteTruncate [.node parsetree]
  | .CommentStmt _ =>
      /- NOTE: Not currently dispatched to QEs -/
      env.call .CommentObject [.node parsetree]
  | .CopyStmt _ => do
      let processed ← env.callRet env.retNat .DoCopy
        [.node parsetree, .optStr queryString]
      if completionTag then
        emit (.completionTag ("COPY " ++ toString processed))
  | .PrepareStmt _ _ => do
      CheckRestrictedOperation env "PREPARE"
      env.call .PrepareQuery [.node parsetree, .optStr queryString]
  | .ExecuteStmt _ =>
      env.call .ExecuteQuery
        [.node parsetree, .optStr queryString, .payload params, .dest dest,
          .bool completionTag]
  | .DeallocateStmt _ => do
      CheckRestrictedOperation env "DEALLOCATE"
      env.call .DeallocateQuery [.node parsetree]
  /- schema -/
  | .RenameStmt _ => env.call .ExecRenameStmt [.node parsetree]
  | .AlterObjectSchemaStmt _ =>
      env.call .ExecAlterObjectSchemaStmt [.node parsetree]
  | .AlterOwnerStmt _ => env.call .ExecAlterOwnerStmt [.node parsetree]
  | .AlterTableStmt _ => do
      /- Like for CREATE TABLE, only do parse analysis in the Query
         Dispatcher. -/
      let stmts : List Node ←
        if env.Gp_role == .GP_ROLE_EXECUTE then
          M.pure [parsetree]
        else
          env.callRet env.retNodes .transformAlterTableStmt
            [.node parsetree, .optStr queryString]
      foreachNext stmts (fun stmt hasNext => do
        match stmt with
        | .AlterTableStmt _ =>
            /- Do the table alteration proper -/
            env.call .AlterTable [.node stmt]
        | _ =>
            /- Recurse for anything else -/
            recurse stmt
        /- Need CCI between commands -/
        if hasNext then
          env.call .CommandCounterIncrement [])
  | .AlterDomainStmt stmt => do
      if stmt.subtype == 'T' then
        /- ALTER DOMAIN DEFAULT -/
        env.call .AlterDomainDefault [.names stmt.typname, .payload stmt.def]
      else if stmt.subtype == 'N' then
        /- ALTER DOMAIN DROP NOT NULL -/
        env.call .AlterDomainNotNull [.names stmt.typname, .bool false]
      else if stmt.subtype == 'O' then
        /- ALTER DOMAIN SET NOT NULL -/
        env.call .AlterDomainNotNull [.names stmt.typname, .bool true]
      else if stmt.subtype == 'C' then
        /- ADD CONSTRAINT -/
        env.call .AlterDomainAddConstraint
          [.names stmt.typname, .payload stmt.def]
      else if stmt.subtype == 'X' then
        /- DROP CONSTRAINT -/
        env.call .AlterDomainDropConstraint
          [.names stmt.typname, .optStr stmt.name, .behavior stmt.behavior]
      else
        /- oops -/
        raise (.elog "unrecognized alter domain type: %d")
      if env.Gp_role == .GP_ROLE_DISPATCH then
        /- ADD CONSTRAINT will assign a new OID for the constraint -/
        let assigned ← ask env.GetAssignedOidsForDispatch
        env.call .CdbDispatchUtilityStatement
          [.node parsetree,
            .flags (DF_CANCEL_ON_ERROR ||| DF_WITH_SNAPSHOT |||
              DF_NEED_TWO_PHASE),
            .oids assigned]
  | .GrantStmt _ => env.call .ExecuteGrantStmt [.node parsetree]
  | .GrantRoleStmt _ => env.call .GrantRole [.node parsetree]
  /- **************** object creation / destruction ***************** -/
  | .DefineStmt stmt =>
      match stmt.kind with
      | .OBJECT_AGGREGATE =>
          env.call .DefineAggregate
            [.names stmt.defnames, .payloads stmt.args, .bool stmt.oldstyle,
              .payload stmt.definition, .bool stmt.ordered]
      | .OBJECT_OPERATOR => do
          Assert stmt.args.isEmpty "stmt->args == NIL"
          env.call .DefineOperator
            [.names stmt.defnames, .payload stmt.definition]
      | .OBJECT_TYPE => do
          Assert stmt.args.isEmpty "stmt->args == NIL"
          env.call .DefineType [.names stmt.defnames, .payload stmt.definition]
      | .OBJECT_EXTPROTOCOL => do
          Assert stmt.args.isEmpty "stmt->args == NIL"
          env.call .DefineExtProtocol
            [.names stmt.defnames, .payload stmt.definition,
              .bool stmt.trusted]
      | .OBJECT_TSPARSER => do
          Assert stmt.args.isEmpty "stmt->args == NIL"
          env.call .DefineTSParser
            [.names stmt.defnames, .payload stmt.definition]
      | .OBJECT_TSDICTIONARY => do
          Assert stmt.args.isEmpty "stmt->args == NIL"
          env.call .DefineTSDictionary
            [.names stmt.defnames, .payload stmt.definition]
      | .OBJECT_TSTEMPLATE => do
          Assert stmt.args.isEmpty "stmt->args == NIL"
          env.call .DefineTSTemplate
            [.names stmt.defnames, .payload stmt.definition]
      | .OBJECT_TSCONFIGURATION => do
          Assert stmt.args.isEmpty "stmt->args == NIL"
          env.call .DefineTSConfiguration
            [.names stmt.defnames, .payload stmt.definition]
      | _ => raise (.elog "unrecognized define stmt type: %d")
  | .CompositeTypeStmt stmt =>
      /- CREATE TYPE (composite) -/
      env.call .DefineCompositeType
        [.rangeVar stmt.typevar, .payload stmt.coldeflist]
  | .CreateEnumStmt _ => env.call .DefineEnum [.node parsetree]
  | .ViewStmt _ => env.call .DefineView [.node parsetree, .optStr queryString]
  | .CreateFunctionStmt _ =>
      env.call .CreateFunction [.node parsetree, .optStr queryString]
  | .AlterFunctionStmt _ => env.call .AlterFunction [.node parsetree]
  | .IndexStmt _ => do
      /- Run parse analysis ... -/
      let stmts ← env.callRet env.retNodes .transformIndexStmt
        [.node parsetree, .optStr queryString]
      foreach stmts (fun node =>
        match node with
        | .IndexStmt stmt => do
            if stmt.concurrent then
              env.call .PreventTransactionChain
                [.bool isTopLevel, .str "CREATE INDEX CONCURRENTLY"]
            CheckRelationOwnership env stmt.relation true
            /- ... and do it -/
            env.call .DefineIndex [.node node]
        /- The source casts `lfirst(lc)` to `IndexStmt *` unchecked; a node
           of another type, which parse analysis of CREATE INDEX does not
           return, stops the model here. -/
        | _ => raise (.TRAP "IsA(stmt, IndexStmt)"))
  | .CreateExtensionStmt _ => env.call .CreateExtension [.node parsetree]
  | .AlterExtensionStmt _ => env.call .ExecAlterExtensionStmt [.node parsetree]
  | .AlterExtensionContentsStmt _ =>
      env.call .ExecAlterExtensionContentsStmt [.node parsetree]
  | .RuleStmt _ => do
      /- CREATE RULE -/
      env.call .DefineRule [.node parsetree, .optStr queryString]
      if env.Gp_role == .GP_ROLE_DISPATCH then
        let assigned ← ask env.GetAssignedOidsForDispatch
        env.call .CdbDispatchUtilityStatement
          [.node parsetree,
            .flags (DF_CANCEL_ON_ERROR ||| DF_WITH_SNAPSHOT |||
              DF_NEED_TWO_PHASE),
            .oids assigned]
  | .CreateSeqStmt _ => env.call .DefineSequence [.node parsetree]
  | .AlterSeqStmt _ => env.call .AlterSequence [.node parsetree]
  | .RemoveFuncStmt stmt =>
      match stmt.kind with
      | .OBJECT_FUNCTION => env.call .RemoveFunction [.node parsetree]
      | .OBJECT_AGGREGATE => env.call .RemoveAggregate [.node parsetree]
      | .OBJECT_OPERATOR => env.call .RemoveOperator [.node parsetree]
      | _ => raise (.elog "unrecognized object type: %d")
  | .DoStmt _ => env.call .ExecuteDoStmt [.node parsetree]
  | .CreatedbStmt _ => do
      if env.Gp_role != .GP_ROLE_EXECUTE then
        /- Don't allow master to call this in a transaction block.  Segments
           are ok as distributed transaction participants. -/
        env.call .PreventTransactionChain
          [.bool isTopLevel, .str "CREATE DATABASE"]
      env.call .createdb [.node parsetree]
  | .AlterDatabaseStmt _ => env.call .AlterDatabase [.node parsetree]
  | .AlterDatabaseSetStmt _ => env.call .AlterDatabaseSet [.node parsetree]
  | .DropdbStmt stmt => do
      if env.Gp_role != .GP_ROLE_EXECUTE then
        env.call .PreventTransactionChain
          [.bool isTopLevel, .str "DROP DATABASE"]
      env.call .dropdb [.str stmt.dbname, .bool stmt.missing_ok]
  /- Query-level asynchronous notification -/
  | .NotifyStmt stmt => do
      if env.Gp_role == .GP_ROLE_EXECUTE then
        raise (.ereport .ERRCODE_GP_COMMAND_ERROR
          "Notify command cannot run in a function running on a segDB." none)
      env.call .Async_Notify [.str stmt.relation.relname]
  | .ListenStmt stmt => do
      if env.Gp_role == .GP_ROLE_EXECUTE then
        raise (.ereport .ERRCODE_GP_COMMAND_ERROR
          "Listen command cannot run in a function running on a segDB." none)
      CheckRestrictedOperation env "LISTEN"
      env.call .Async_Listen [.str stmt.relation.relname]
  | .UnlistenStmt stmt => do
      if env.Gp_role == .GP_ROLE_EXECUTE then
        raise (.ereport .ERRCODE_GP_COMMAND_ERROR
          "Unlisten command cannot run in a function running on a segDB." none)
      CheckRestrictedOperation env "UNLISTEN"
      env.call .Async_Unlisten [.str stmt.relation.relname]
  | .LoadStmt stmt => do
      env.call .closeAllVfds []  /- probably not necessary... -/
      /- Allowed names are restricted if you're not superuser -/
      let super ← ask env.superuser
      env.call .load_file [.str stmt.filename, .bool (!super)]
      if env.Gp_role == .GP_ROLE_DISPATCH then
        env.call .CdbDispatchCommand
          [.str (errmsg "LOAD '%s'" stmt.filename), .flags DF_WITH_SNAPSHOT]
  | .ClusterStmt _ => env.call .cluster [.node parsetree, .bool isTopLevel]
  | .VacuumStmt _ =>
      env.call .vacuum
        [.node parsetree, .oids [], .bool false, .bool isTopLevel]
  | .ExplainStmt _ _ _ =>
      env.call .ExplainQuery
        [.node parsetree, .optStr queryString, .payload params, .dest dest]
  | .VariableSetStmt n => do
      env.call .ExecSetVariableStmt [.node parsetree]
      if n.kind == .VAR_RESET || n.kind == .VAR_RESET_ALL then
        if env.Gp_role == .GP_ROLE_DISPATCH then
          /- RESET must be dispatched different, because it can't be in a
             user transaction -/
          let buffer : String :=
            if n.kind == .VAR_RESET_ALL then "RESET ALL"
            else errmsg "RESET %s" n.name
          env.call .CdbDispatchCommand [.str buffer, .flags DF_WITH_SNAPSHOT]
      else
        /- Special cases for special SQL syntax that effectively sets more
           than one variable per statement. -/
        if n.name == "TRANSACTION" then
          foreach n.args (fun item =>
            if item.defname == "transaction_isolation" then
              env.call .SetPGVariableOptDispatch
                [.str "transaction_isolation", .payloads [item.arg],
                  .bool n.is_local, .bool true]
            else if item.defname == "transaction_read_only" then
              env.call .SetPGVariableOptDispatch
                [.str "transaction_read_only", .payloads [item.arg],
                  .bool n.is_local, .bool true]
            else
              M.pure ())
        else if n.name == "SESSION CHARACTERISTICS" then
          foreach n.args (fun item =>
            if item.defname == "transaction_isolation" then
              env.call .SetPGVariableOptDispatch
                [.str "default_transaction_isolation", .payloads [item.arg],
                  .bool n.is_local, .bool true]
            else if item.defname == "transaction_read_only" then
              env.call .SetPGVariableOptDispatch
                [.str "default_transaction_read_only", .payloads [item.arg],
                  .bool n.is_local, .bool true]
            else
              M.pure ())
        else
          env.call .SetPGVariableOptDispatch
            [.str n.name, .defElems n.args, .bool n.is_local, .bool true]
  | .VariableShowStmt n => env.call .GetPGVariable [.str n.name, .dest dest]
  | .DiscardStmt _ => do
      /- should we allow DISCARD PLANS? -/
      CheckRestrictedOperation env "DISCARD"
      env.call .DiscardCommand [.node parsetree, .bool isTopLevel]
  | .CreateTrigStmt stmt => do
      let trigOid ← env.callRet env.retOid .CreateTrigger
        [.node parsetree, .oid InvalidOid]
      if env.Gp_role == .GP_ROLE_DISPATCH then
        let assigned ← ask env.GetAssignedOidsForDispatch
        env.call .CdbDispatchUtilityStatement
          [.node (.CreateTrigStmt { stmt with trigOid := trigOid }),
            .flags (DF_CANCEL_ON_ERROR ||| DF_WITH_SNAPSHOT |||
              DF_NEED_TWO_PHASE),
            .oids assigned]
  | .DropPropertyStmt stmt => do
      let relId ← askE (fun h => env.RangeVarGetRelid h stmt.relation false)
      match stmt.removeType with
      | .OBJECT_RULE =>
          /- RemoveRewriteRule checks permissions -/
          env.call .RemoveRewriteRule
            [.oid relId, .str stmt.property, .behavior stmt.behavior,
              .bool stmt.missing_ok]
      | .OBJECT_TRIGGER =>
          /- DropTrigger checks permissions -/
          env.call .DropTrigger
            [.oid relId, .str stmt.property, .behavior stmt.behavior,
              .bool stmt.missing_ok]
      | _ => raise (.elog "unrecognized object type: %d")
      if env.Gp_role == .GP_ROLE_DISPATCH then
        env.call .CdbDispatchUtilityStatement
          [.node parsetree,
            .flags (DF_CANCEL_ON_ERROR ||| DF_WITH_SNAPSHOT |||
              DF_NEED_TWO_PHASE),
            .oids []]
  | .CreatePLangStmt _ => env.call .CreateProceduralLanguage [.node parsetree]
  | .DropPLangStmt _ => env.call .DropProceduralLanguage [.node parsetree]
  /- ******************************** DOMAIN statements **** -/
  | .CreateDomainStmt _ => env.call .DefineDomain [.node parsetree]
  /- ********************* RESOURCE QUEUE statements **** -/
  | .CreateQueueStmt _ => do
      /- MPP-7960: We cannot run CREATE RESOURCE QUEUE inside a user
         transaction block -/
      if env.Gp_role == .GP_ROLE_DISPATCH then
        env.call .PreventTransactionChain
          [.bool isTopLevel, .str "CREATE RESOURCE QUEUE"]
      env.call .CreateQueue [.node parsetree]
  | .AlterQueueStmt _ => env.call .AlterQueue [.node parsetree]
  | .DropQueueStmt _ => env.call .DropQueue [.node parsetree]
  /- ******************************** ROLE statements **** -/
  | .CreateRoleStmt _ => env.call .CreateRole [.node parsetree]
  | .AlterRoleStmt _ => env.call .AlterRole [.node parsetree]
  | .AlterRoleSetStmt _ => env.call .AlterRoleSet [.node parsetree]
  | .DropRoleStmt _ => env.call .DropRole [.node parsetree]
  | .DropOwnedStmt _ => env.call .DropOwnedObjects [.node parsetree]
  | .ReassignOwnedStmt _ => env.call .ReassignOwnedObjects [.node parsetree]
  | .LockStmt _ => env.call .LockTableCommand [.node parsetree]
  | .ConstraintsSetStmt _ => env.call .AfterTriggerSetState [.node parsetree]
  | .CheckPointStmt _ => do
      let super ← ask env.superuser
      if !super then
        raise (.ereport .ERRCODE_INSUFFICIENT_PRIVILEGE
          "must be superuser to do CHECKPOINT" none)
      if env.Gp_role == .GP_ROLE_DISPATCH then
        env.call .CdbDispatchCommand [.str "CHECKPOINT", .flags DF_WITH_SNAPSHOT]
      env.call .RequestCheckpoint
        [.str "CHECKPOINT_IMMEDIATE | CHECKPOINT_FORCE | CHECKPOINT_WAIT"]
  | .ReindexStmt stmt =>
      match stmt.kind with
      | .OBJECT_INDEX => env.call .ReindexIndex [.node parsetree]
      | .OBJECT_TABLE => env.call .ReindexTable [.node parsetree]
      | .OBJECT_DATABASE => do
          /- This cannot run inside a user transaction block -/
          if env.Gp_role == .GP_ROLE_DISPATCH then
            env.call .PreventTransactionChain
              [.bool isTopLevel, .str "REINDEX DATABASE"]
          env.call .ReindexDatabase [.node parsetree]
      | _ => raise (.elog "unrecognized object type: %d")
  | .CreateConversionStmt _ =>
      env.call .CreateConversionCommand [.node parsetree]
  | .CreateCastStmt _ => env.call .CreateCast [.node parsetree]
  | .DropCastStmt _ => env.call .DropCast [.node parsetree]
  | .CreateOpClassStmt _ => env.call .DefineOpClass [.node parsetree]
  | .CreateOpFamilyStmt _ => env.call .DefineOpFamily [.node parsetree]
  | .AlterOpFamilyStmt _ => env.call .AlterOpFamily [.node parsetree]
  | .RemoveOpClassStmt _ => env.call .RemoveOpClass [.node parsetree]
  | .RemoveOpFamilyStmt _ => env.call .RemoveOpFamily [.node parsetree]
  | .AlterTypeStmt _ => env.call .AlterType [.node parsetree]
  | .AlterTSDictionaryStmt _ => env.call .AlterTSDictionary [.node parsetree]
  | .AlterTSConfigurationStmt _ =>
      env.call .AlterTSConfiguration [.node parsetree]
  | _ => raise (.elog "unrecognized node type: %d")

/-- General utility function invoker.  The recursion on the sub-statements
that parse analysis produces is bounded by `fuel`: the call itself always
runs, each nested call uses one unit. -/
def ProcessUtility (env : Env) : Nat → Node → Option String → Payload → Bool →
    DestReceiver → Bool → M Unit
  | 0, parsetree, queryString, params, isTopLevel, dest, completionTag =>
      ProcessUtility.body env (fun _ h => (.outOfFuel, h))
        parsetree queryString params isTopLevel dest completionTag
  | fuel + 1, parsetree, queryString, params, isTopLevel, dest,
      completionTag =>
      ProcessUtility.body env
        (fun stmt =>
          ProcessUtility env fuel stmt queryString params false
            .None_Receiver false)
        parsetree queryString params isTopLevel dest completionTag

/-- The body of the loop of CREATE TABLE (case `T_CreateStmt` of
`ProcessUtility`) over the statements that parse analysis returns; `parsetree`
is the statement the dispatcher was called on, `hasNext` the test
`lnext(l) != NULL`. -/
def ProcessUtility.createStmtStep (env : Env) (recurse : Node → M Unit)
    (parsetree : Node) (stmt : Node) (hasNext : Bool) : M Unit := do
  match stmt with
  | .CreateStmt cstmt => do
      /- If this T_CreateStmt was dispatched and we're a QE receiving
         it, extract the relkind and relstorage from it -/
      let relKind : Char :=
        if env.Gp_role == .GP_ROLE_EXECUTE && cstmt.relKind != NUL then
          cstmt.relKind
        else RELKIND_RELATION
      let relStorage : Char :=
        if env.Gp_role == .GP_ROLE_EXECUTE && cstmt.relStorage != NUL then
          cstmt.relStorage
        else RELSTORAGE_HEAP
      if env.Gp_role == .GP_ROLE_EXECUTE then
        /- sanity check -/
        if relKind == RELKIND_VIEW || relKind == RELKIND_COMPOSITE_TYPE
        then
          Assert (relStorage == RELSTORAGE_VIRTUAL)
            "relStorage == RELSTORAGE_VIRTUAL"
        else
          Assert (relStorage == RELSTORAGE_HEAP ||
              relStorage == RELSTORAGE_AOROWS ||
              relStorage == RELSTORAGE_AOCOLS ||
              relStorage == RELSTORAGE_EXTERNAL ||
              relStorage == RELSTORAGE_FOREIGN)
            "relStorage is a table storage"
      /- Create the table itself. Don't dispatch it yet, as we haven't
         created the toast and other auxiliary tables yet. -/
      let relOid ← env.callRet env.retOid .DefineRelation
        [.node stmt, .char relKind, .char relStorage, .bool false]
      env.call .CommandCounterIncrement []
      env.call .DefinePartitionedRelation [.node parsetree, .oid relOid]
      if relKind != RELKIND_COMPOSITE_TYPE then
        env.call .AlterTableCreateToastTable
          [.oid relOid, .bool cstmt.is_part_child]
        env.call .AlterTableCreateAoSegTable
          [.oid relOid, .bool cstmt.is_part_child]
        if cstmt.buildAoBlkdir then
          env.call .AlterTableCreateAoBlkdirTable
            [.oid relOid, .bool cstmt.is_part_child]
        env.call .AlterTableCreateAoVisimapTable
          [.oid relOid, .bool cstmt.is_part_child]
      if env.Gp_role == .GP_ROLE_DISPATCH then
        let assigned ← ask env.GetAssignedOidsForDispatch
        env.call .CdbDispatchUtilityStatement
          [.node stmt,
            .flags (DF_CANCEL_ON_ERROR ||| DF_NEED_TWO_PHASE |||
              DF_WITH_SNAPSHOT),
            .oids assigned]
      env.call .CommandCounterIncrement []
      /- Deferred statements should be evaluated *after* AO tables are
         updated correctly. -/
      env.call .EvaluateDeferredStatements [.payload cstmt.deferredStmts]
  | _ =>
      /- Recurse for anything else -/
      recurse stmt
  /- Need CCI between commands -/
  if hasNext then
    env.call .CommandCounterIncrement []

/-- The body of the loop of CREATE EXTERNAL TABLE (case `T_CreateExternalStmt`
of `ProcessUtility`) over the statements that parse analysis returns. -/
def ProcessUtility.createExternalStmtStep (env : Env)
    (recurse : Node → M Unit) (stmt : Node) : M Unit :=
  match stmt with
  | .CreateExternalStmt _ =>
      env.call .DefineExternalRelation [.node stmt]
  | _ =>
      /- Recurse for anything else -/
      recurse stmt

/-- The body of the loop of ALTER TABLE (case `T_AlterTableStmt` of
`ProcessUtility`) over the statements that parse analysis returns. -/
def ProcessUtility.alterTableStmtStep (env : Env) (recurse : Node → M Unit)
    (stmt : Node) (hasNext : Bool) : M Unit := do
  match stmt with
  | .AlterTableStmt _ =>
      /- Do the table alteration proper -/
      env.call .AlterTable [.node stmt]
  | _ =>
      /- Recurse for anything else -/
      recurse stmt
  /- Need CCI between commands -/
  if hasNext then
    env.call .CommandCounterIncrement []

/-! ## Classification of commands -/

/-- Return "true" if this utility statement will send output to the
destination. -/
def UtilityReturnsTuples (env : Env) (parsetree : Node) : M Bool :=
  match parsetree with
  | .FetchStmt stmt =>
      if stmt.ismove then M.pure false
      else
        M.bind (ask (fun h => env.GetPortalByName h stmt.portalname))
          (fun portal =>
            match portal with
            | none => M.pure false  /- not our business to raise error -/
            | some portal =>
                if portal.tupDesc.isSome then M.pure true else M.pure false)
  | .ExecuteStmt stmt =>
      if stmt.into.isSome then M.pure false
      else
        M.bind (ask (fun h => env.FetchPreparedStatement h stmt.name))
          (fun entry =>
            match entry with
            | none => M.pure false  /- not our business to raise error -/
            | some entry =>
                if entry.resultDesc.isSome then M.pure true
                else M.pure false)
  | .ExplainStmt _ _ _ => M.pure true
  | .VariableShowStmt _ => M.pure true
  | _ => M.pure false

/-- Utility to get a string representation of the command operation, given
either a raw (un-analyzed) parsetree or a planned query. -/
def CreateCommandTag : Node → M String
  /- raw plannable queries -/
  | .InsertStmt _ => M.pure "INSERT"
  | .DeleteStmt _ => M.pure "DELETE"
  | .UpdateStmt _ => M.pure "UPDATE"
  | .SelectStmt _ => M.pure "SELECT"
  /- utility statements --- same whether raw or cooked -/
  | .TransactionStmt stmt =>
      match stmt.kind with
      | .TRANS_STMT_BEGIN => M.pure "BEGIN"
      | .TRANS_STMT_START => M.pure "START TRANSACTION"
      | .TRANS_STMT_COMMIT => M.pure "COMMIT"
      | .TRANS_STMT_ROLLBACK | .TRANS_STMT_ROLLBACK_TO => M.pure "ROLLBACK"
      | .TRANS_STMT_SAVEPOINT => M.pure "SAVEPOINT"
      | .TRANS_STMT_RELEASE => M.pure "RELEASE"
      | .TRANS_STMT_PREPARE => M.pure "PREPARE TRANSACTION"
      | .TRANS_STMT_COMMIT_PREPARED => M.pure "COMMIT PREPARED"
      | .TRANS_STMT_ROLLBACK_PREPARED => M.pure "ROLLBACK PREPARED"
      | _ => M.pure "???"
  | .DeclareCursorStmt _ => M.pure "DECLARE CURSOR"
  | .ClosePortalStmt stmt =>
      if stmt.portalname.isNone then M.pure "CLOSE CURSOR ALL"
      else M.pure "CLOSE CURSOR"
  | .FetchStmt stmt => M.pure (if stmt.ismove then "MOVE" else "FETCH")
  | .CreateDomainStmt _ => M.pure "CREATE DOMAIN"
  | .CreateSchemaStmt _ => M.pure "CREATE SCHEMA"
  | .CreateStmt _ => M.pure "CREATE TABLE"
  | .CreateExternalStmt _ => M.pure "CREATE EXTERNAL TABLE"
  | .CreateFileSpaceStmt _ => M.pure "CREATE FILESPACE"
  | .CreateTableSpaceStmt _ => M.pure "CREATE TABLESPACE"
  | .DropStmt stmt =>
      match stmt.removeType with
      | .OBJECT_TABLE => M.pure "DROP TABLE"
      | .OBJECT_EXTTABLE => M.pure "DROP EXTERNAL TABLE"
      | .OBJECT_SEQUENCE => M.pure "DROP SEQUENCE"
      | .OBJECT_VIEW => M.pure "DROP VIEW"
      | .OBJECT_INDEX => M.pure "DROP INDEX"
      | .OBJECT_TYPE => M.pure "DROP TYPE"
      | .OBJECT_DOMAIN => M.pure "DROP DOMAIN"
      | .OBJECT_CONVERSION => M.pure "DROP CONVERSION"
      | .OBJECT_SCHEMA => M.pure "DROP SCHEMA"
      | .OBJECT_FILESPACE => M.pure "DROP FILESPACE"
      | .OBJECT_TABLESPACE => M.pure "DROP TABLESPACE"
      | .OBJECT_EXTPROTOCOL => M.pure "DROP PROTOCOL"
      | .OBJECT_TSPARSER => M.pure "DROP TEXT SEARCH PARSER"
      | .OBJECT_TSDICTIONARY => M.pure "DROP TEXT SEARCH DICTIONARY"
      | .OBJECT_TSTEMPLATE => M.pure "DROP TEXT SEARCH TEMPLATE"
      | .OBJECT_TSCONFIGURATION => M.pure "DROP TEXT SEARCH CONFIGURATION"
      | .OBJECT_EXTENSION => M.pure "DROP EXTENSION"
      | _ => M.pure "???"
  | .TruncateStmt _ => M.pure "TRUNCATE TABLE"
  | .CommentStmt _ => M.pure "COMMENT"
  | .CopyStmt _ => M.pure "COPY"
  | .RenameStmt stmt =>
      match stmt.renameType with
      | .OBJECT_AGGREGATE => M.pure "ALTER AGGREGATE"
      | .OBJECT_CONVERSION => M.pure "ALTER CONVERSION"
      | .OBJECT_DATABASE => M.pure "ALTER DATABASE"
      | .OBJECT_EXTPROTOCOL => M.pure "ALTER PROTOCOL"
      | .OBJECT_FUNCTION => M.pure "ALTER FUNCTION"
      | .OBJECT_INDEX => M.pure "ALTER INDEX"
      | .OBJECT_LANGUAGE => M.pure "ALTER LANGUAGE"
      | .OBJECT_OPCLASS => M.pure "ALTER OPERATOR CLASS"
      | .OBJECT_OPFAMILY => M.pure "ALTER OPERATOR FAMILY"
      | .OBJECT_ROLE => M.pure "ALTER ROLE"
      | .OBJECT_SCHEMA => M.pure "ALTER SCHEMA"
      | .OBJECT_SEQUENCE => M.pure "ALTER SEQUENCE"
      | .OBJECT_COLUMN | .OBJECT_TABLE => M.pure "ALTER TABLE"
      | .OBJECT_FILESPACE => M.pure "ALTER FILESPACE"
      | .OBJECT_TABLESPACE => M.pure "ALTER TABLESPACE"
      | .OBJECT_TRIGGER => M.pure "ALTER TRIGGER"
      | .OBJECT_VIEW => M.pure "ALTER VIEW"
      | .OBJECT_TSPARSER => M.pure "ALTER TEXT SEARCH PARSER"
      | .OBJECT_TSDICTIONARY => M.pure "ALTER TEXT SEARCH DICTIONARY"
      | .OBJECT_TSTEMPLATE => M.pure "ALTER TEXT SEARCH TEMPLATE"
      | .OBJECT_TSCONFIGURATION => M.pure "ALTER TEXT SEARCH CONFIGURATION"
      | _ => M.pure "???"
  | .AlterObjectSchemaStmt stmt =>
      match stmt.objectType with
      | .OBJECT_AGGREGATE => M.pure "ALTER AGGREGATE"
      | .OBJECT_DOMAIN => M.pure "ALTER DOMAIN"
      | .OBJECT_EXTENSION => M.pure "ALTER EXTENSION"
      | .OBJECT_FUNCTION => M.pure "ALTER FUNCTION"
      | .OBJECT_SEQUENCE => M.pure "ALTER SEQUENCE"
      | .OBJECT_TABLE => M.pure "ALTER TABLE"
      | .OBJECT_TYPE => M.pure "ALTER TYPE"
      | .OBJECT_TSPARSER => M.pure "ALTER TEXT SEARCH PARSER"
      | .OBJECT_TSDICTIONARY => M.pure "ALTER TEXT SEARCH DICTIONARY"
      | .OBJECT_TSTEMPLATE => M.pure "ALTER TEXT SEARCH TEMPLATE"
      | .OBJECT_TSCONFIGURATION => M.pure "ALTER TEXT SEARCH CONFIGURATION"
      | _ => M.pure "???"
  | .AlterOwnerStmt stmt =>
      match stmt.objectType with
      | .OBJECT_AGGREGATE => M.pure "ALTER AGGREGATE"
      | .OBJECT_CONVERSION => M.pure "ALTER CONVERSION"
      | .OBJECT_DATABASE => M.pure "ALTER DATABASE"
      | .OBJECT_DOMAIN => M.pure "ALTER DOMAIN"
      | .OBJECT_EXTENSION => M.pure "ALTER EXTENSION"
      | .OBJECT_FUNCTION => M.pure "ALTER FUNCTION"
      | .OBJECT_LANGUAGE => M.pure "ALTER LANGUAGE"
      | .OBJECT_OPERATOR => M.pure "ALTER OPERATOR"
      | .OBJECT_OPCLASS => M.pure "ALTER OPERATOR CLASS"
      | .OBJECT_OPFAMILY => M.pure "ALTER OPERATOR FAMILY"
      | .OBJECT_SCHEMA => M.pure "ALTER SCHEMA"
      | .OBJECT_FILESPACE => M.pure "ALTER FILESPACE"
      | .OBJECT_TABLESPACE => M.pure "ALTER TABLESPACE"
      | .OBJECT_TYPE => M.pure "ALTER TYPE"
      | .OBJECT_EXTPROTOCOL => M.pure "ALTER PROTOCOL"
      | .OBJECT_TSCONFIGURATION => M.pure "ALTER TEXT SEARCH CONFIGURATION"
      | .OBJECT_TSDICTIONARY => M.pure "ALTER TEXT SEARCH DICTIONARY"
      | _ => M.pure "???"
  | .AlterTableStmt stmt =>
      /- We might be supporting ALTER INDEX here, so set the completion tag
         appropriately.  Catch all other possibilities with ALTER TABLE -/
      if stmt.relkind == .OBJECT_INDEX then M.pure "ALTER INDEX"
      else if stmt.relkind == .OBJECT_EXTTABLE then
        M.pure "ALTER EXTERNAL TABLE"
      else M.pure "ALTER TABLE"
  | .AlterDomainStmt _ => M.pure "ALTER DOMAIN"
  | .AlterFunctionStmt _ => M.pure "ALTER FUNCTION"
  | .GrantStmt stmt => M.pure (if stmt.is_grant then "GRANT" else "REVOKE")
  | .GrantRoleStmt stmt =>
      M.pure (if stmt.is_grant then "GRANT ROLE" else "REVOKE ROLE")
  | .DefineStmt stmt =>
      match stmt.kind with
      | .OBJECT_AGGREGATE => M.pure "CREATE AGGREGATE"
      | .OBJECT_OPERATOR => M.pure "CREATE OPERATOR"
      | .OBJECT_TYPE => M.pure "CREATE TYPE"
      | .OBJECT_EXTPROTOCOL => M.pure "CREATE PROTOCOL"
      | .OBJECT_TSPARSER => M.pure "CREATE TEXT SEARCH PARSER"
      | .OBJECT_TSDICTIONARY => M.pure "CREATE TEXT SEARCH DICTIONARY"
      | .OBJECT_TSTEMPLATE => M.pure "CREATE TEXT SEARCH TEMPLATE"
      | .OBJECT_TSCONFIGURATION => M.pure "CREATE TEXT SEARCH CONFIGURATION"
      | _ => M.pure "???"
  | .CompositeTypeStmt _ => M.pure "CREATE TYPE"
  | .CreateEnumStmt _ => M.pure "CREATE TYPE"
  | .ViewStmt _ => M.pure "CREATE VIEW"
  | .CreateFunctionStmt _ => M.pure "CREATE FUNCTION"
  | .IndexStmt _ => M.pure "CREATE INDEX"
  | .CreateExtensionStmt _ => M.pure "CREATE EXTENSION"
  | .AlterExtensionStmt _ => M.pure "ALTER EXTENSION"
  | .AlterExtensionContentsStmt _ => M.pure "ALTER EXTENSION"
  | .RuleStmt _ => M.pure "CREATE RULE"
  | .CreateSeqStmt _ => M.pure "CREATE SEQUENCE"
  | .AlterSeqStmt _ => M.pure "ALTER SEQUENCE"
  | .RemoveFuncStmt stmt =>
      match stmt.kind with
      | .OBJECT_FUNCTION => M.pure "DROP FUNCTION"
      | .OBJECT_AGGREGATE => M.pure "DROP AGGREGATE"
      | .OBJECT_OPERATOR => M.pure "DROP OPERATOR"
      | _ => M.pure "???"
  | .DoStmt _ => M.pure "DO"
  | .CreatedbStmt _ => M.pure "CREATE DATABASE"
  | .AlterDatabaseStmt _ => M.pure "ALTER DATABASE"
  | .AlterDatabaseSetStmt _ => M.pure "ALTER DATABASE"
  | .DropdbStmt _ => M.pure "DROP DATABASE"
  | .NotifyStmt _ => M.pure "NOTIFY"
  | .ListenStmt _ => M.pure "LISTEN"
  | .UnlistenStmt _ => M.pure "UNLISTEN"
  | .LoadStmt _ => M.pure "LOAD"
  | .ClusterStmt _ => M.pure "CLUSTER"
  | .VacuumStmt stmt =>
      if stmt.vacuum then M.pure "VACUUM" else M.pure "ANALYZE"
  | .ExplainStmt _ _ _ => M.pure "EXPLAIN"
  | .VariableSetStmt stmt =>
      match stmt.kind with
      | .VAR_SET_VALUE | .VAR_SET_CURRENT | .VAR_SET_DEFAULT
      | .VAR_SET_MULTI => M.pure "SET"
      | .VAR_RESET | .VAR_RESET_ALL => M.pure "RESET"
      | _ => M.pure "???"
  | .VariableShowStmt _ => M.pure "SHOW"
  | .DiscardStmt stmt =>
      match stmt.target with
      | .DISCARD_ALL => M.pure "DISCARD ALL"
      | .DISCARD_PLANS => M.pure "DISCARD PLANS"
      | .DISCARD_TEMP => M.pure "DISCARD TEMP"
      | _ => M.pure "???"
  | .CreateTrigStmt _ => M.pure "CREATE TRIGGER"
  | .DropPropertyStmt stmt =>
      match stmt.removeType with
      | .OBJECT_TRIGGER => M.pure "DROP TRIGGER"
      | .OBJECT_RULE => M.pure "DROP RULE"
      | _ => M.pure "???"
  | .CreatePLangStmt _ => M.pure "CREATE LANGUAGE"
  | .DropPLangStmt _ => M.pure "DROP LANGUAGE"
  | .CreateQueueStmt _ => M.pure "CREATE QUEUE"
  | .AlterQueueStmt _ => M.pure "ALTER QUEUE"
  | .DropQueueStmt _ => M.pure "DROP QUEUE"
  | .CreateRoleStmt _ => M.pure "CREATE ROLE"
  | .AlterRoleStmt _ => M.pure "ALTER ROLE"
  | .AlterRoleSetStmt _ => M.pure "ALTER ROLE"
  | .DropRoleStmt _ => M.pure "DROP ROLE"
  | .DropOwnedStmt _ => M.pure "DROP OWNED"
  | .ReassignOwnedStmt _ => M.pure "REASSIGN OWNED"
  | .LockStmt _ => M.pure "LOCK TABLE"
  | .ConstraintsSetStmt _ => M.pure "SET CONSTRAINTS"
  | .CheckPointStmt _ => M.pure "CHECKPOINT"
  | .ReindexStmt _ => M.pure "REINDEX"
  | .CreateConversionStmt _ => M.pure "CREATE CONVERSION"
  | .CreateCastStmt _ => M.pure "CREATE CAST"
  | .DropCastStmt _ => M.pure "DROP CAST"
  | .CreateOpClassStmt _ => M.pure "CREATE OPERATOR CLASS"
  | .CreateOpFamilyStmt _ => M.pure "CREATE OPERATOR FAMILY"
  | .AlterOpFamilyStmt _ => M.pure "ALTER OPERATOR FAMILY"
  | .RemoveOpClassStmt _ => M.pure "DROP OPERATOR CLASS"
  | .RemoveOpFamilyStmt _ => M.pure "DROP OPERATOR FAMILY"
  | .AlterTSDictionaryStmt _ => M.pure "ALTER TEXT SEARCH DICTIONARY"
  | .AlterTSConfigurationStmt _ => M.pure "ALTER TEXT SEARCH CONFIGURATION"
  | .PrepareStmt _ _ => M.pure "PREPARE"
  | .ExecuteStmt _ => M.pure "EXECUTE"
  | .DeallocateStmt stmt =>
      if stmt.name.isNone then M.pure "DEALLOCATE ALL"
      else M.pure "DEALLOCATE"
  /- already-planned queries -/
  | .PlannedStmt commandType utilityStmt intoClause rowMarks _ =>
      match commandType with
      | .CMD_SELECT =>
          /- We take a little extra care here so that the result will be
             useful for complaints about read-only statements -/
          match utilityStmt with
          | some u =>
              M.bind
                (Assert (nodeTag u == .T_DeclareCursorStmt)
                  "IsA(stmt->utilityStmt, DeclareCursorStmt)")
                (fun _ => M.pure "DECLARE CURSOR")
          | none =>
              if intoClause.isSome then M.pure "SELECT INTO"
              else
                match rowMarks with
                | first :: _ =>
                    if first.forUpdate then M.pure "SELECT FOR UPDATE"
                    else M.pure "SELECT FOR SHARE"
                | [] => M.pure "SELECT"
      | .CMD_UPDATE => M.pure "UPDATE"
      | .CMD_INSERT => M.pure "INSERT"
      | .CMD_DELETE => M.pure "DELETE"
      | _ =>
          M.bind (emit (.WARNING "unrecognized commandType: %d"))
            (fun _ => M.pure "???")
  /- used to be function CreateQueryTag -/
  | .Query commandType utilityStmt intoClause rowMarks _ =>
      match commandType with
      | .CMD_SELECT =>
          if intoClause.isSome then M.pure "SELECT INTO"
          else
            match rowMarks with
            | first :: _ =>
                if first.forUpdate then M.pure "SELECT FOR UPDATE"
                else M.pure "SELECT FOR SHARE"
            | [] => M.pure "SELECT"
      | .CMD_UPDATE => M.pure "UPDATE"
      | .CMD_INSERT => M.pure "INSERT"
      | .CMD_DELETE => M.pure "DELETE"
      | .CMD_UTILITY =>
          match utilityStmt with
          | some u => CreateCommandTag u
          /- The source reads the node tag of `query->utilityStmt`
             unchecked; a rewritten utility query always carries its
             statement, and the model stops on a missing one. -/
          | none => raise (.TRAP "query->utilityStmt != NULL")
      | _ =>
          M.bind (emit (.WARNING "unrecognized commandType: %d"))
            (fun _ => M.pure "???")
  | .AlterTypeStmt _ => M.pure "ALTER TYPE"
  | .other _ _ =>
      M.bind (emit (.WARNING "unrecognized node type: %d"))
        (fun _ => M.bind (Assert false "false") (fun _ => M.pure "???"))

/-- The body of `GetCommandLogLevel`.  Of the external world it reads the
prepared statements alone: `fetch` is the look-up
`FetchPreparedStatement(name, false)`, and `lookThrough stmt` stands for the
call of `GetCommandLogLevel` on the raw parse tree of the prepared statement
that an EXECUTE names. -/
def GetCommandLogLevel.body
    (fetch : History → String → Option PreparedStatement)
    (lookThrough : Node → M LogStmtLevel) : Node → M LogStmtLevel
  /- raw plannable queries -/
  | .InsertStmt _ | .DeleteStmt _ | .UpdateStmt _ => M.pure .LOGSTMT_MOD
  | .SelectStmt stmt =>
      if stmt.intoClause.isSome then
        M.pure .LOGSTMT_DDL  /- CREATE AS, SELECT INTO -/
      else M.pure .LOGSTMT_ALL
  /- utility statements --- same whether raw or cooked -/
  | .TransactionStmt _ => M.pure .LOGSTMT_ALL
  | .DeclareCursorStmt _ => M.pure .LOGSTMT_ALL
  | .ClosePortalStmt _ => M.pure .LOGSTMT_ALL
  | .FetchStmt _ => M.pure .LOGSTMT_ALL
  | .CreateDomainStmt _ => M.pure .LOGSTMT_DDL
  | .CreateSchemaStmt _ => M.pure .LOGSTMT_DDL
  | .CreateStmt _ => M.pure .LOGSTMT_DDL
  | .CreateExternalStmt _ => M.pure .LOGSTMT_DDL
  | .CreateFileSpaceStmt _ => M.pure .LOGSTMT_DDL
  | .CreateTableSpaceStmt _ => M.pure .LOGSTMT_DDL
  | .DropStmt _ => M.pure .LOGSTMT_DDL
  | .TruncateStmt _ => M.pure .LOGSTMT_MOD
  | .CommentStmt _ => M.pure .LOGSTMT_DDL
  | .CopyStmt stmt =>
      if stmt.is_from then M.pure .LOGSTMT_MOD else M.pure .LOGSTMT_ALL
  | .RenameStmt _ => M.pure .LOGSTMT_DDL
  | .AlterObjectSchemaStmt _ => M.pure .LOGSTMT_DDL
  | .AlterOwnerStmt _ => M.pure .LOGSTMT_DDL
  | .AlterTableStmt _ => M.pure .LOGSTMT_DDL
  | .AlterDomainStmt _ => M.pure .LOGSTMT_DDL
  | .AlterFunctionStmt _ => M.pure .LOGSTMT_DDL
  | .GrantStmt _ => M.pure .LOGSTMT_DDL
  | .GrantRoleStmt _ => M.pure .LOGSTMT_DDL
  | .DefineStmt _ => M.pure .LOGSTMT_DDL
  | .CompositeTypeStmt _ => M.pure .LOGSTMT_DDL
  | .CreateEnumStmt _ => M.pure .LOGSTMT_DDL
  | .ViewStmt _ => M.pure .LOGSTMT_DDL
  | .CreateFunctionStmt _ => M.pure .LOGSTMT_DDL
  | .IndexStmt _ => M.pure .LOGSTMT_DDL
  | .CreateExtensionStmt _ | .AlterExtensionStmt _
  | .AlterExtensionContentsStmt _ => M.pure .LOGSTMT_DDL
  | .RuleStmt _ => M.pure .LOGSTMT_DDL
  | .CreateSeqStmt _ => M.pure .LOGSTMT_DDL
  | .AlterSeqStmt _ => M.pure .LOGSTMT_DDL
  | .RemoveFuncStmt _ => M.pure .LOGSTMT_DDL
  | .DoStmt _ => M.pure .LOGSTMT_ALL
  | .CreatedbStmt _ => M.pure .LOGSTMT_DDL
  | .AlterDatabaseStmt _ => M.pure .LOGSTMT_DDL
  | .AlterDatabaseSetStmt _ => M.pure .LOGSTMT_DDL
  | .DropdbStmt _ => M.pure .LOGSTMT_DDL
  | .NotifyStmt _ => M.pure .LOGSTMT_ALL
  | .ListenStmt _ => M.pure .LOGSTMT_ALL
  | .UnlistenStmt _ => M.pure .LOGSTMT_ALL
  | .LoadStmt _ => M.pure .LOGSTMT_ALL
  | .ClusterStmt _ => M.pure .LOGSTMT_DDL
  | .VacuumStmt _ => M.pure .LOGSTMT_ALL
  | .ExplainStmt query analyze _ =>
      /- Look through an EXPLAIN ANALYZE to the contained stmt -/
      if analyze then GetCommandLogLevel.body fetch lookThrough query
      /- Plain EXPLAIN isn't so interesting -/
      else M.pure .LOGSTMT_ALL
  | .VariableSetStmt _ => M.pure .LOGSTMT_ALL
  | .VariableShowStmt _ => M.pure .LOGSTMT_ALL
  | .DiscardStmt _ => M.pure .LOGSTMT_ALL
  | .CreateTrigStmt _ => M.pure .LOGSTMT_DDL
  | .DropPropertyStmt _ => M.pure .LOGSTMT_DDL
  | .CreatePLangStmt _ => M.pure .LOGSTMT_DDL
  | .DropPLangStmt _ => M.pure .LOGSTMT_DDL
  | .CreateRoleStmt _ => M.pure .LOGSTMT_DDL
  | .AlterRoleStmt _ => M.pure .LOGSTMT_DDL
  | .AlterRoleSetStmt _ => M.pure .LOGSTMT_DDL
  | .DropRoleStmt _ => M.pure .LOGSTMT_DDL
  | .DropOwnedStmt _ => M.pure .LOGSTMT_DDL
  | .ReassignOwnedStmt _ => M.pure .LOGSTMT_DDL
  | .LockStmt _ => M.pure .LOGSTMT_ALL
  | .ConstraintsSetStmt _ => M.pure .LOGSTMT_ALL
  | .CheckPointStmt _ => M.pure .LOGSTMT_ALL
  | .ReindexStmt _ => M.pure .LOGSTMT_ALL  /- should this be DDL? -/
  | .CreateConversionStmt _ => M.pure .LOGSTMT_DDL
  | .CreateCastStmt _ => M.pure .LOGSTMT_DDL
  | .DropCastStmt _ => M.pure .LOGSTMT_DDL
  | .CreateOpClassStmt _ => M.pure .LOGSTMT_DDL
  | .CreateOpFamilyStmt _ => M.pure .LOGSTMT_DDL
  | .AlterOpFamilyStmt _ => M.pure .LOGSTMT_DDL
  | .RemoveOpClassStmt _ => M.pure .LOGSTMT_DDL
  | .RemoveOpFamilyStmt _ => M.pure .LOGSTMT_DDL
  | .AlterTSDictionaryStmt _ => M.pure .LOGSTMT_DDL
  | .AlterTSConfigurationStmt _ => M.pure .LOGSTMT_DDL
  | .PrepareStmt query _ =>
      /- Look through a PREPARE to the contained stmt -/
      GetCommandLogLevel.body fetch lookThrough query
  | .ExecuteStmt stmt =>
      /- Look through an EXECUTE to the referenced stmt -/
      M.bind (ask (fun h => fetch h stmt.name))
        (fun ps =>
          match ps with
          | some ps => lookThrough ps.raw_parse_tree
          | none => M.pure .LOGSTMT_ALL)
  | .DeallocateStmt _ => M.pure .LOGSTMT_ALL
  /- already-planned queries -/
  | .PlannedStmt commandType _ intoClause _ _ =>
      match commandType with
      | .CMD_SELECT =>
          if intoClause.isSome then
            M.pure .LOGSTMT_DDL  /- CREATE AS, SELECT INTO -/
          else M.pure .LOGSTMT_ALL  /- SELECT or DECLARE CURSOR -/
      | .CMD_UPDATE | .CMD_INSERT | .CMD_DELETE => M.pure .LOGSTMT_MOD
      | _ =>
          M.bind (emit (.WARNING "unrecognized commandType: %d"))
            (fun _ => M.pure .LOGSTMT_ALL)
  /- parsed-and-rewritten-but-not-planned queries -/
  | .Query commandType utilityStmt intoClause _ _ =>
      match commandType with
      | .CMD_SELECT =>
          if intoClause.isSome then
            M.pure .LOGSTMT_DDL  /- CREATE AS, SELECT INTO -/
          else M.pure .LOGSTMT_ALL  /- SELECT or DECLARE CURSOR -/
      | .CMD_UPDATE | .CMD_INSERT | .CMD_DELETE => M.pure .LOGSTMT_MOD
      | .CMD_UTILITY =>
          match utilityStmt with
          | some u => GetCommandLogLevel.body fetch lookThrough u
          /- As in `CreateCommandTag`: the source reads the node tag of
             `stmt->utilityStmt` unchecked. -/
          | none => raise (.TRAP "stmt->utilityStmt != NULL")
      | _ =>
          M.bind (emit (.WARNING "unrecognized commandType: %d"))
            (fun _ => M.pure .LOGSTMT_ALL)
  /- The statements below have no case in the source and reach its default
     branch, as every node type unknown to the file does. -/
  | .CreateQueueStmt _ | .AlterQueueStmt _ | .DropQueueStmt _
  | .AlterTypeStmt _ | .other _ _ =>
      M.bind (emit (.WARNING "unrecognized node type: %d"))
        (fun _ => M.pure .LOGSTMT_ALL)

/-- Utility to get the minimum log_statement level for a command, given either
a raw (un-analyzed) parsetree or a planned query.  The look-through of an
EXECUTE to the prepared statement it names is bounded by `fuel`: the call
itself always runs, each look-through uses one unit. -/
def GetCommandLogLevel (env : Env) : Nat → Node → M LogStmtLevel
  | 0, parsetree =>
      GetCommandLogLevel.body env.FetchPreparedStatement
        (fun _ h => (.outOfFuel, h)) parsetree
  | fuel + 1, parsetree =>
      GetCommandLogLevel.body env.FetchPreparedStatement
        (GetCommandLogLevel env fuel) parsetree

/-! ## The policy table of the read-only guard, and a sample world -/

/-- The node tags of the case list of `check_xact_readonly` that ends in the
read-only error, in the order of the source. -/
def rejectList : List NodeTag :=
  [ .T_AlterDatabaseStmt, .T_AlterDatabaseSetStmt, .T_AlterDomainStmt,
    .T_AlterFunctionStmt, .T_AlterQueueStmt, .T_AlterRoleStmt,
    .T_AlterRoleSetStmt, .T_AlterObjectSchemaStmt, .T_AlterOwnerStmt,
    .T_AlterSeqStmt, .T_AlterTableStmt, .T_RenameStmt, .T_CommentStmt,
    .T_DefineStmt, .T_CreateCastStmt, .T_CreateConversionStmt,
    .T_CreatedbStmt, .T_CreateDomainStmt, .T_CreateFunctionStmt,
    .T_CreateQueueStmt, .T_CreateRoleStmt, .T_IndexStmt,
    .T_CreateExtensionStmt, .T_AlterExtensionStmt,
    .T_AlterExtensionContentsStmt, .T_CreatePLangStmt, .T_CreateOpClassStmt,
    .T_CreateOpFamilyStmt, .T_AlterOpFamilyStmt, .T_RuleStmt,
    .T_CreateSchemaStmt, .T_CreateSeqStmt, .T_CreateExternalStmt,
    .T_CreateFileSpaceStmt, .T_CreateTableSpaceStmt, .T_CreateTrigStmt,
    .T_CompositeTypeStmt, .T_CreateEnumStmt, .T_ViewStmt, .T_DropCastStmt,
    .T_DropdbStmt, .T_RemoveFuncStmt, .T_DropQueueStmt, .T_DropRoleStmt,
    .T_DropPLangStmt, .T_RemoveOpClassStmt, .T_RemoveOpFamilyStmt,
    .T_DropPropertyStmt, .T_GrantStmt, .T_GrantRoleStmt, .T_TruncateStmt,
    .T_DropOwnedStmt, .T_ReassignOwnedStmt, .T_AlterTSDictionaryStmt,
    .T_AlterTSConfigurationStmt ]

/-- The target kind that `ProcessDropStatement` hands to
`CheckDropPermissions` for a removeType, for the removeTypes it checks itself. -/
def dropRightKind : ObjectType → Option Char
  | .OBJECT_TABLE | .OBJECT_EXTTABLE => some RELKIND_RELATION
  | .OBJECT_SEQUENCE => some RELKIND_SEQUENCE
  | .OBJECT_VIEW => some RELKIND_VIEW
  | .OBJECT_INDEX => some RELKIND_INDEX
  | _ => none

/-- Whether a word occurs in a message. -/
def mentions (word message : String) : Prop := word.data <:+: message.data

instance (word message : String) : Decidable (mentions word message) :=
  inferInstanceAs (Decidable (word.data <:+: message.data))

/-- Name resolution of the sample world: a table `t`, a sequence `s`, a view
`v`, a temporary table `tmp` and an external table `x`; no other name
resolves. -/
def sampleRelid (rel : RangeVar) : Oid :=
  if rel.relname == "t" then 1
  else if rel.relname == "s" then 2
  else if rel.relname == "v" then 3
  else if rel.relname == "tmp" then 4
  else if rel.relname == "x" then 5
  else InvalidOid

/-- The `pg_class` rows of the sample world. -/
def sampleClass (relOid : Oid) : Option Form_pg_class :=
  match relOid with
  | 1 => some ⟨RELKIND_RELATION, RELSTORAGE_HEAP, 10, ⟨1⟩⟩
  | 2 => some ⟨RELKIND_SEQUENCE, RELSTORAGE_HEAP, 10, ⟨2⟩⟩
  | 3 => some ⟨RELKIND_VIEW, RELSTORAGE_VIRTUAL, 10, ⟨3⟩⟩
  | 4 => some ⟨RELKIND_RELATION, RELSTORAGE_HEAP, 11, ⟨4⟩⟩
  | 5 => some ⟨RELKIND_RELATION, RELSTORAGE_EXTERNAL, 10, ⟨5⟩⟩
  | _ => none

/-- A sample world for a given role and transaction mode: the catalog above,
owned by the current user, in which no external routine raises, a removal
reports success and parse analysis returns its input alone.  Two statements
are prepared: `ins`, an INSERT, and `sel`, a SELECT; two portals are open:
`c`, a cursor with a tuple descriptor, and `u`, a portal without one. -/
def sampleEnv (role : GpRoleValue) (readOnly : Bool) : Env where
  Gp_role := role
  Gp_segment := -1
  XactReadOnly := fun _ => readOnly
  allowSystemTableModsDDL := fun _ => false
  makeRangeVarFromNameList := fun names =>
    match names with
    | [r] => ⟨none, none, r, false⟩
    | [n, r] => ⟨none, some n, r, false⟩
    | [c, n, r] => ⟨some c, some n, r, false⟩
    | _ => ⟨none, none, "", false⟩
  RelationToRemoveIsTemp := fun _ rel _ => rel.relname == "tmp"
  RangeVarGetRelid := fun _ rel _ => .ok (sampleRelid rel)
  SearchSysCache := fun _ relOid => sampleClass relOid
  GetUserId := fun _ => 7
  pg_class_ownercheck := fun _ _ _ => true
  pg_namespace_ownercheck := fun _ _ _ => true
  IsSystemClass := fun _ => false
  rel_is_child_partition := fun _ _ => false
  superuser := fun _ => true
  InSecurityRestrictedOperation := fun _ => false
  GetAssignedOidsForDispatch := fun _ => []
  FetchPreparedStatement := fun _ name =>
    if name == "ins" then some ⟨.InsertStmt ⟨0⟩, none⟩
    else if name == "sel" then some ⟨.SelectStmt ⟨none, ⟨0⟩⟩, some ⟨0⟩⟩
    else none
  GetPortalByName := fun _ name =>
    if name == "c" then some ⟨some ⟨0⟩⟩
    else if name == "u" then some ⟨none⟩
    else none
  raises := fun _ _ _ => none
  retBool := fun _ _ _ => true
  retOid := fun _ _ _ => 100
  retNat := fun _ _ _ => 0
  retNodes := fun _ _ args =>
    match args with
    | .node n :: _ => [n]
    | _ => []

/-- The sample world seen by a stranger: the user owns no relation and no
namespace, and every relation counts as a system catalog. -/
def sampleEnvStranger (role : GpRoleValue) : Env :=
  { sampleEnv role false with
    pg_class_ownercheck := fun _ _ _ => false
    pg_namespace_ownercheck := fun _ _ _ => false
    IsSystemClass := fun _ => true }

/-- The sample world in which every relation counts as a system catalog and
the user owns them all. -/
def sampleEnvCatalogOwner (role : GpRoleValue) : Env :=
  { sampleEnv role false with IsSystemClass := fun _ => true }

/-- The sample world on the coordinator in which every relation is a child
partition. -/
def sampleEnvChildPartition : Env :=
  { sampleEnv .GP_ROLE_DISPATCH false with
    rel_is_child_partition := fun _ _ => true }

/-- The sample world on segment 0, in the worker role; no relation is a child
partition. -/
def sampleEnvSegment : Env :=
  { sampleEnv .GP_ROLE_EXECUTE false with Gp_segment := 0 }

/-- The removal executor that `ProcessDropStatement` calls with the name, the
behavior and missing_ok, for the removeTypes whose executor does its own
permission checks and returns nothing. -/
def dropExecutor : ObjectType → Option ExtProc
  | .OBJECT_TYPE => some .RemoveType
  | .OBJECT_DOMAIN => some .RemoveDomain
  | .OBJECT_CONVERSION => some .DropConversionCommand
  | .OBJECT_SCHEMA => some .RemoveSchema
  | .OBJECT_FILESPACE => some .RemoveFileSpace
  | .OBJECT_TABLESPACE => some .RemoveTableSpace
  | .OBJECT_EXTPROTOCOL => some .RemoveExtProtocol
  | .OBJECT_TSPARSER => some .RemoveTSParser
  | .OBJECT_TSDICTIONARY => some .RemoveTSDictionary
  | .OBJECT_TSTEMPLATE => some .RemoveTSTemplate
  | .OBJECT_TSCONFIGURATION => some .RemoveTSConfiguration
  | .OBJECT_EXTENSION => some .RemoveExtension
  | _ => none

/-- The processing of the objects of a DROP as the specification words it, to
be compared with the loop of the dispatcher: the objects are taken one at a
time, in list order; each is handed to `ProcessDropStatement` in a copy of the
statement whose object list is that name alone and whose missing_ok is the
flag of the statement; on the coordinator the copy is broadcast exactly when
that call answered true.  The value is the list of the answers, one for each
object. -/
def dropOneAtATime (env : Env) (stmt : DropStmt) :
    List (List String) → M (List Bool)
  | [] => M.pure []
  | names :: rest =>
      M.bind (ProcessDropStatement env { stmt with objects := [names] })
        (fun found =>
          M.bind
            (if found && env.Gp_role == .GP_ROLE_DISPATCH then
              env.call .CdbDispatchUtilityStatement
                [.node (.DropStmt { stmt with objects := [names] }),
                  .flags ⟨true, true, true⟩, .oids []]
            else M.pure ())
            (fun _ =>
              M.bind (dropOneAtATime env stmt rest)
                (fun answers => M.pure (found :: answers))))

/-- The sample world outside a transaction block: RequireTransactionChain
raises, nothing else does. -/
def sampleEnvNoBlock (role : GpRoleValue) : Env :=
  { sampleEnv role false with
    raises := fun _ proc _ =>
      match proc with
      | .RequireTransactionChain => some (.external 25005)
      | _ => none }

/-- The sample world inside a transaction block: PreventTransactionChain
raises, nothing else does. -/
def sampleEnvInBlock (role : GpRoleValue) : Env :=
  { sampleEnv role false with
    raises := fun _ proc _ =>
      match proc with
      | .PreventTransactionChain => some (.external 25001)
      | _ => none }

/-- The sample world inside a security-restricted operation. -/
def sampleEnvRestricted (role : GpRoleValue) : Env :=
  { sampleEnv role false with InSecurityRestrictedOperation := fun _ => true }

/-- The sample world of a session that has prepared nothing. -/
def sampleEnvNothingPrepared (role : GpRoleValue) : Env :=
  { sampleEnv role false with FetchPreparedStatement := fun _ _ => none }

/-- A routine only adds events to the history, and every event it adds
satisfies `P`. -/
@[irreducible] def OnlyAdds {α : Type} (P : Event → Prop) (m : M α) : Prop :=
  ∀ h, ∃ r, (m h).2 = h ++ r ∧ ∀ ev ∈ r, P ev

/-- The sample world in which the parse analysis of CREATE INDEX raises,
nothing else does. -/
def sampleEnvParseError (role : GpRoleValue) : Env :=
  { sampleEnv role false with
    raises := fun _ proc _ =>
      match proc with
      | .transformIndexStmt => some (.external 42704)
      | _ => none }

/-- A computation that ends the same way from every history: the same result
and the same events added, with `P` holding of a value it returns. -/
@[irreducible] def Constant {α : Type} (P : α → Prop) (m : M α) : Prop :=
  ∃ r evs, (∀ h, m h = (r, h ++ evs)) ∧ ∀ a, r = .ok a → P a

/-- The sample world in which the transaction manager reports every commit and
every prepare as unsuccessful. -/
def sampleEnvCommitFails (role : GpRoleValue) : Env :=
  { sampleEnv role false with retBool := fun _ _ _ => false }

/-- The sample world in which two object identifiers were assigned since the
last broadcast. -/
def sampleEnvAssigned (role : GpRoleValue) : Env :=
  { sampleEnv role false with
    GetAssignedOidsForDispatch := fun _ => [501, 502] }

/-! ## The read-only guard -/

/-- The loop of the guard over the objects of a DROP: it leaves no event and
ends in the read-only error unless every object passes. -/
theorem foreach_guard (env : Env) (s : DropStmt) (h : History)
    (l : List (List String)) :
    foreach l (fun names =>
        M.bind (ask (fun h => s.removeType != .OBJECT_TABLE ||
            !env.RelationToRemoveIsTemp h (env.makeRangeVarFromNameList names)
              s.missing_ok))
          (fun refused =>
            if refused = true then raise readOnlyError else M.pure ())) h =
      if l.all (fun names => s.removeType == .OBJECT_TABLE &&
            env.RelationToRemoveIsTemp h (env.makeRangeVarFromNameList names)
              s.missing_ok)
      then (.ok (), h) else (.error readOnlyError, h) := by
  induction l with
  | nil => simp [foreach, M.pure]
  | cons x rest ih =>
    simp only [foreach, M.bind, ask]
    cases h1 : (s.removeType == ObjectType.OBJECT_TABLE) <;>
      cases h2 : env.RelationToRemoveIsTemp h (env.makeRangeVarFromNameList x)
        s.missing_ok <;>
      simp [bne, h1, h2, raise, M.pure]
    simpa [M.bind, ask, bne, h1] using ih

/-- The guard on a DROP statement, in closed form. -/
theorem check_xact_readonly_DropStmt (env : Env) (s : DropStmt) (h : History) :
    check_xact_readonly env (.DropStmt s) h =
      if env.XactReadOnly h = true ∧
          ¬ (s.objects.all (fun names => s.removeType == .OBJECT_TABLE &&
            env.RelationToRemoveIsTemp h (env.makeRangeVarFromNameList names)
              s.missing_ok) = true)
      then (.error readOnlyError, h) else (.ok (), h) := by
  unfold check_xact_readonly
  simp only [bind, M.bind, ask, pure, M.pure]
  cases hr : env.XactReadOnly h
  · simp [M.pure]
  · simp only [Bool.not_true, Bool.false_eq_true, if_false]
    have := foreach_guard env s h s.objects
    rw [this]
    by_cases hall : (s.objects.all (fun names => s.removeType == .OBJECT_TABLE &&
            env.RelationToRemoveIsTemp h (env.makeRangeVarFromNameList names)
              s.missing_ok) = true) <;> simp [hall]

/-- With read-only mode off the guard accepts every node. -/
theorem check_xact_readonly_off (env : Env) (parsetree : Node) (h : History)
    (hro : env.XactReadOnly h = false) :
    check_xact_readonly env parsetree h = (.ok (), h) := by
  unfold check_xact_readonly
  show M.bind (ask env.XactReadOnly) _ h = _
  unfold M.bind ask
  dsimp only
  rw [hro]
  rfl

set_option maxHeartbeats 4000000 in
/-- With read-only mode on, the guard on a node that is neither CREATE TABLE
nor DROP depends on the node tag alone. -/
theorem check_xact_readonly_on (env : Env) (parsetree : Node) (h : History)
    (hro : env.XactReadOnly h = true)
    (hc : nodeTag parsetree ≠ .T_CreateStmt)
    (hd : nodeTag parsetree ≠ .T_DropStmt) :
    check_xact_readonly env parsetree h =
      if nodeTag parsetree ∈ rejectList then (.error readOnlyError, h)
      else (.ok (), h) := by
  unfold check_xact_readonly
  simp only [bind, M.bind, ask, pure, M.pure, hro]
  cases parsetree <;> first
    | (exfalso; exact hc rfl)
    | (exfalso; exact hd rfl)
    | rfl

/-- The guard never leaves an event. -/
theorem check_xact_readonly_history (env : Env) (parsetree : Node)
    (h : History) : (check_xact_readonly env parsetree h).2 = h := by
  cases hro : env.XactReadOnly h
  · rw [check_xact_readonly_off env parsetree h hro]
  · by_cases hc : nodeTag parsetree = .T_CreateStmt
    · cases parsetree <;> simp [nodeTag] at hc
      rename_i s
      unfold check_xact_readonly
      simp only [bind, M.bind, ask, pure, M.pure, hro]
      cases s.relation.istemp <;> rfl
    · by_cases hd : nodeTag parsetree = .T_DropStmt
      · cases parsetree <;> simp [nodeTag] at hd
        rename_i s
        rw [check_xact_readonly_DropStmt]
        split <;> rfl
      · rw [check_xact_readonly_on env parsetree h hro hc hd]
        split <;> rfl

/-- C1: for every CREATE TABLE statement the guard ends in the
read-only-transaction error (ERRCODE_READ_ONLY_SQL_TRANSACTION, "transaction is
read-only") exactly when read-only mode is on and the target relation is not
temporary; in every other case, so for a temporary target in read-only mode, it
accepts the statement; no event is left either way. -/
theorem C1_check_xact_readonly_CreateStmt (env : Env) (s : CreateStmt)
    (h : History) :
    (check_xact_readonly env (.CreateStmt s) h =
        (.error (.ereport .ERRCODE_READ_ONLY_SQL_TRANSACTION
          "transaction is read-only" none), h) ↔
      (env.XactReadOnly h = true ∧ s.relation.istemp = false)) ∧
    (check_xact_readonly env (.CreateStmt s) h = (.ok (), h) ↔
      ¬ (env.XactReadOnly h = true ∧ s.relation.istemp = false)) := by
  unfold check_xact_readonly
  simp only [bind, M.bind, ask, pure, M.pure, raise]
  cases hr : env.XactReadOnly h <;> cases ht : s.relation.istemp <;>
    simp [hr, ht, M.pure, raise, readOnlyError]

/-- C2: in read-only mode, a DROP statement that names at least one object is
accepted by the guard exactly when its removeType is OBJECT_TABLE and the
temp-probe answers true for every named object; otherwise (another removeType,
or a false answer for one object) the whole statement ends in the
read-only-transaction error. -/
theorem C2_check_xact_readonly_DropStmt (env : Env) (s : DropStmt)
    (h : History) (hro : env.XactReadOnly h = true) (hne : s.objects ≠ []) :
    (check_xact_readonly env (.DropStmt s) h = (.ok (), h) ↔
      (s.removeType = .OBJECT_TABLE ∧
        ∀ names ∈ s.objects,
          env.RelationToRemoveIsTemp h (env.makeRangeVarFromNameList names)
            s.missing_ok = true)) ∧
    (check_xact_readonly env (.DropStmt s) h =
        (.error (.ereport .ERRCODE_READ_ONLY_SQL_TRANSACTION
          "transaction is read-only" none), h) ↔
      ¬ (s.removeType = .OBJECT_TABLE ∧
        ∀ names ∈ s.objects,
          env.RelationToRemoveIsTemp h (env.makeRangeVarFromNameList names)
            s.missing_ok = true)) := by
  have hall : (s.objects.all (fun names => s.removeType == .OBJECT_TABLE &&
            env.RelationToRemoveIsTemp h (env.makeRangeVarFromNameList names)
              s.missing_ok) = true) ↔
      (s.removeType = .OBJECT_TABLE ∧
        ∀ names ∈ s.objects,
          env.RelationToRemoveIsTemp h (env.makeRangeVarFromNameList names)
            s.missing_ok = true) := by
    rw [List.all_eq_true]
    constructor
    · intro hx
      obtain ⟨x, rest, hxs⟩ := List.exists_cons_of_ne_nil hne
      have hx0 := hx x (by rw [hxs]; exact List.mem_cons_self _ _)
      simp only [Bool.and_eq_true, beq_iff_eq] at hx0
      refine ⟨hx0.1, fun names hn => ?_⟩
      have := hx names hn
      simp only [Bool.and_eq_true, beq_iff_eq] at this
      exact this.2
    · rintro ⟨ht, hp⟩ names hn
      simp [ht, hp names hn]
  rw [check_xact_readonly_DropStmt, ← hall]
  by_cases hx : (s.objects.all (fun names => s.removeType == .OBJECT_TABLE &&
            env.RelationToRemoveIsTemp h (env.makeRangeVarFromNameList names)
              s.missing_ok) = true) <;> simp [hx, hro, readOnlyError]

/-- C2, run in the sample world in read-only mode: DROP TABLE tmp, t is refused
because `t` is not temporary. -/
theorem C2_witness :
    check_xact_readonly (sampleEnv .GP_ROLE_DISPATCH true)
        (.DropStmt ⟨[["tmp"], ["t"]], .OBJECT_TABLE, .DROP_RESTRICT, false⟩) [] =
      (.error (.ereport .ERRCODE_READ_ONLY_SQL_TRANSACTION
        "transaction is read-only" none), []) :=
  (C2_check_xact_readonly_DropStmt (sampleEnv .GP_ROLE_DISPATCH true)
    ⟨[["tmp"], ["t"]], .OBJECT_TABLE, .DROP_RESTRICT, false⟩ [] rfl
    (by decide)).2.mpr (by simp [sampleEnv])

/-- C3: with read-only mode off the guard accepts every node of every kind.
With read-only mode on, a node that is neither CREATE TABLE nor DROP ends in
the read-only-transaction error exactly when its tag is in the reject list, and
is accepted otherwise, whatever its fields; transaction control, FETCH, SET,
COPY, VACUUM, CLUSTER, REINDEX and ALTER TYPE are not in the list. -/
theorem C3_check_xact_readonly_policy (env : Env) (parsetree : Node)
    (h : History) :
    (env.XactReadOnly h = false →
      check_xact_readonly env parsetree h = (.ok (), h)) ∧
    (env.XactReadOnly h = true → nodeTag parsetree ≠ .T_CreateStmt →
      nodeTag parsetree ≠ .T_DropStmt →
      (check_xact_readonly env parsetree h =
          (.error (.ereport .ERRCODE_READ_ONLY_SQL_TRANSACTION
            "transaction is read-only" none), h) ↔
        nodeTag parsetree ∈ rejectList) ∧
      (check_xact_readonly env parsetree h = (.ok (), h) ↔
        nodeTag parsetree ∉ rejectList)) ∧
    (∀ tag ∈ [NodeTag.T_TransactionStmt, .T_FetchStmt, .T_VariableSetStmt,
        .T_CopyStmt, .T_VacuumStmt, .T_ClusterStmt, .T_ReindexStmt,
        .T_AlterTypeStmt], tag ∉ rejectList) := by
  refine ⟨check_xact_readonly_off env parsetree h, fun hro hc hd => ?_, by decide⟩
  rw [check_xact_readonly_on env parsetree h hro hc hd]
  by_cases hm : nodeTag parsetree ∈ rejectList <;> simp [hm, readOnlyError]

/-! ## The dispatcher behind the guard -/

/-- A step that returns hands its value and history to the rest. -/
theorem M.bind_ok {α β : Type} (m : M α) (f : α → M β) (h h1 : History) (a : α)
    (hm : m h = (.ok a, h1)) : M.bind m f h = f a h1 := by
  unfold M.bind
  rw [hm]

/-- A step that raises ends the call. -/
theorem M.bind_error {α β : Type} (m : M α) (f : α → M β) (h h1 : History)
    (e : ErrorData) (hm : m h = (.error e, h1)) :
    M.bind m f h = (.error e, h1) := by
  unfold M.bind
  rw [hm]

/-- The body of the dispatcher stops at the guard when the guard rejects. -/
theorem ProcessUtility_body_rejected (env : Env) (recurse : Node → M Unit)
    (parsetree : Node) (queryString : String) (params : Payload)
    (isTopLevel : Bool) (dest : DestReceiver) (completionTag : Bool)
    (h h1 : History) (e : ErrorData)
    (hg : check_xact_readonly env parsetree h = (.error e, h1)) :
    ProcessUtility.body env recurse parsetree (some queryString) params
      isTopLevel dest completionTag h = (.error e, h1) := by
  unfold ProcessUtility.body
  show M.bind (Assert true _)
    (fun _ => M.bind (check_xact_readonly env parsetree) _) h = _
  exact (M.bind_ok (Assert true _) _ h h () rfl).trans
    (M.bind_error _ _ _ _ _ hg)

/-- Without a source text the body of the dispatcher stops at its first
assertion. -/
theorem ProcessUtility_body_no_source (env : Env) (recurse : Node → M Unit)
    (parsetree : Node) (params : Payload) (isTopLevel : Bool)
    (dest : DestReceiver) (completionTag : Bool) (h : History) :
    ProcessUtility.body env recurse parsetree none params isTopLevel dest
      completionTag h = (.error (.TRAP "queryString != NULL"), h) := by
  unfold ProcessUtility.body
  show M.bind (Assert false _) _ h = _
  exact M.bind_error (Assert false _) _ h h _ rfl

/-- The dispatcher is its body, whatever the fuel. -/
theorem ProcessUtility_eq_body (env : Env) (fuel : Nat) (parsetree : Node)
    (queryString : Option String) (params : Payload) (isTopLevel : Bool)
    (dest : DestReceiver) (completionTag : Bool) :
    ∃ recurse, ProcessUtility env fuel parsetree queryString params isTopLevel
        dest completionTag =
      ProcessUtility.body env recurse parsetree queryString params isTopLevel
        dest completionTag := by
  cases fuel with
  | zero => exact ⟨_, by rw [ProcessUtility]⟩
  | succ n => exact ⟨_, by rw [ProcessUtility]⟩

/-- C5: when the guard rejects a statement, the dispatcher stops with an error
and leaves no event at all: no executor is called, no transaction state is
changed, nothing is broadcast and the completion tag is not written, for every
statement kind and every role.  The error is the one of the guard when a source
text is supplied. -/
theorem C5_rejected_no_partial_effect (env : Env) (fuel : Nat)
    (parsetree : Node) (queryString : Option String) (params : Payload)
    (isTopLevel : Bool) (dest : DestReceiver) (completionTag : Bool)
    (h h1 : History) (e : ErrorData)
    (hg : check_xact_readonly env parsetree h = (.error e, h1)) :
    ProcessUtility env fuel parsetree queryString params isTopLevel dest
        completionTag h =
      (.error (if queryString.isSome then e else .TRAP "queryString != NULL"),
        h) := by
  have hh : h1 = h := by
    have := check_xact_readonly_history env parsetree h
    rw [hg] at this
    exact this
  subst hh
  obtain ⟨recurse, hb⟩ := ProcessUtility_eq_body env fuel parsetree queryString
    params isTopLevel dest completionTag
  rw [hb]
  cases queryString with
  | none =>
    exact ProcessUtility_body_no_source env recurse parsetree params isTopLevel
      dest completionTag h1
  | some q =>
    exact ProcessUtility_body_rejected env recurse parsetree q params
      isTopLevel dest completionTag h1 h1 e hg

/-- C5, run in the sample world on the coordinator in read-only mode: CREATE
TABLE t is refused and nothing has happened. -/
theorem C5_witness :
    ProcessUtility (sampleEnv .GP_ROLE_DISPATCH true) 1
        (.CreateStmt ⟨⟨none, none, "t", false⟩, false, NUL, NUL, false, false,
          ⟨0⟩, ⟨0⟩⟩)
        (some "CREATE TABLE t (a int)") ⟨0⟩ true (.receiver 1) true [] =
      (.error (.ereport .ERRCODE_READ_ONLY_SQL_TRANSACTION
        "transaction is read-only" none), []) :=
  C5_rejected_no_partial_effect (sampleEnv .GP_ROLE_DISPATCH true) 1
    (.CreateStmt ⟨⟨none, none, "t", false⟩, false, NUL, NUL, false, false,
      ⟨0⟩, ⟨0⟩⟩)
    (some "CREATE TABLE t (a int)") ⟨0⟩ true (.receiver 1) true [] []
    (.ereport .ERRCODE_READ_ONLY_SQL_TRANSACTION "transaction is read-only"
      none) rfl

/-- C4, as stated, fails: in read-only mode the guard accepts a raw DELETE
and a planned DELETE, and the dispatcher then refuses the planned DELETE with
an internal error, not with the read-only-transaction error. -/
theorem C4_counterexample :
    (sampleEnv .GP_ROLE_DISPATCH true).XactReadOnly [] = true ∧
    check_xact_readonly (sampleEnv .GP_ROLE_DISPATCH true)
      (.DeleteStmt ⟨0⟩) [] = (.ok (), []) ∧
    check_xact_readonly (sampleEnv .GP_ROLE_DISPATCH true)
      (.PlannedStmt .CMD_DELETE none none [] ⟨0⟩) [] = (.ok (), []) ∧
    ProcessUtility (sampleEnv .GP_ROLE_DISPATCH true) 0
        (.PlannedStmt .CMD_DELETE none none [] ⟨0⟩) (some "DELETE FROM t")
        ⟨0⟩ true .None_Receiver false [] =
      (.error
        (.elog "non-DECLARE CURSOR PlannedStmt passed to ProcessUtility"),
        []) :=
  ⟨rfl, rfl, rfl, rfl⟩

/-- C4, amended: the guard never rejects an UPDATE-, INSERT- or DELETE-shaped
statement, raw or planned, whatever its target and whatever the transaction
mode (plannable statements do their own read-only check elsewhere); and
`CommandIsReadOnly` answers false for a planned UPDATE, INSERT or DELETE. -/
theorem C4_guard_accepts_plannable (env : Env) (h : History) (s : Payload)
    (utilityStmt : Option Node) (intoClause : Option Payload)
    (rowMarks : List RowMarkClause) (commandType : CmdType) :
    check_xact_readonly env (.InsertStmt s) h = (.ok (), h) ∧
    check_xact_readonly env (.UpdateStmt s) h = (.ok (), h) ∧
    check_xact_readonly env (.DeleteStmt s) h = (.ok (), h) ∧
    check_xact_readonly env
      (.PlannedStmt commandType utilityStmt intoClause rowMarks s) h =
        (.ok (), h) ∧
    CommandIsReadOnly (.PlannedStmt .CMD_UPDATE utilityStmt intoClause rowMarks s)
      h = (.ok false, h) ∧
    CommandIsReadOnly (.PlannedStmt .CMD_INSERT utilityStmt intoClause rowMarks s)
      h = (.ok false, h) ∧
    CommandIsReadOnly (.PlannedStmt .CMD_DELETE utilityStmt intoClause rowMarks s)
      h = (.ok false, h) := by
  have hg : ∀ parsetree : Node, nodeTag parsetree ∉ rejectList →
      nodeTag parsetree ≠ .T_CreateStmt → nodeTag parsetree ≠ .T_DropStmt →
      check_xact_readonly env parsetree h = (.ok (), h) := by
    intro parsetree hn hc hd
    cases hro : env.XactReadOnly h
    · exact check_xact_readonly_off env parsetree h hro
    · rw [check_xact_readonly_on env parsetree h hro hc hd, if_neg hn]
  refine ⟨hg _ ?_ ?_ ?_, hg _ ?_ ?_ ?_, hg _ ?_ ?_ ?_, hg _ ?_ ?_ ?_,
    rfl, rfl, rfl⟩ <;>
  · simp only [nodeTag]
    decide

/-- C6: `CommandIsReadOnly` always returns, and its answer is true exactly for
a planned statement whose command type is SELECT and which has neither an INTO
clause nor row marks; it is false for a planned UPDATE, INSERT or DELETE, for a
planned statement of any other command type (after a warning), and for every
node that is not a planned statement. -/
theorem C6_CommandIsReadOnly (node : Node) (h : History) :
    (∃ b h1, CommandIsReadOnly node h = (.ok b, h1) ∧
      (b = true ↔ ∃ utilityStmt rest,
        node = .PlannedStmt .CMD_SELECT utilityStmt none [] rest)) ∧
    (nodeTag node ≠ .T_PlannedStmt →
      CommandIsReadOnly node h = (.ok false, h)) ∧
    (∀ commandType utilityStmt intoClause rowMarks rest,
      node = .PlannedStmt commandType utilityStmt intoClause rowMarks rest →
      commandType ≠ .CMD_SELECT →
      (CommandIsReadOnly node h).1 = .ok false) := by
  refine ⟨?_, ?_, ?_⟩
  · cases node
    case PlannedStmt commandType utilityStmt intoClause rowMarks rest =>
      cases commandType <;> cases intoClause <;> cases rowMarks <;>
        simp [CommandIsReadOnly, M.pure, bind, M.bind, emit, pure]
    all_goals exact ⟨false, h, rfl, by simp⟩
  · intro hn
    cases node
    case PlannedStmt => exact absurd rfl hn
    all_goals rfl
  · rintro commandType utilityStmt intoClause rowMarks rest rfl hc
    cases commandType <;> first
      | exact absurd rfl hc
      | rfl

/-! ## DROP target resolution -/

/-- The kinds of the message table are distinct: looking up the kind of an
entry gives that entry. -/
theorem lookupEntry_of_mem (rentry : msgstrings) (hm : rentry ∈ msgstringarray) :
    lookupEntry rentry.kind = some rentry := by
  simp only [msgstringarray, List.mem_cons, List.mem_singleton, List.not_mem_nil,
    or_false] at hm
  rcases hm with rfl | rfl | rfl | rfl | rfl <;> rfl

/-- An entry found by the scan is an entry of the table, of the kind asked. -/
theorem lookupEntry_some (kind : Char) (rentry : msgstrings)
    (hl : lookupEntry kind = some rentry) :
    rentry ∈ msgstringarray ∧ rentry.kind = kind := by
  unfold lookupEntry at hl
  exact ⟨List.mem_of_find?_eq_some hl, by simpa using List.find?_some hl⟩

/-- `CheckDropPermissions` on a name that does not resolve. -/
theorem CheckDropPermissions_unresolved (env : Env) (rel : RangeVar)
    (rightkind : Char) (missing_ok : Bool) (h : History)
    (hrel : env.RangeVarGetRelid h rel true = .ok InvalidOid) :
    CheckDropPermissions env rel rightkind missing_ok h =
      M.bind (DropErrorMsgNonExistent env rel rightkind missing_ok)
        (fun _ => M.pure false) h := by
  unfold CheckDropPermissions
  simp [bind, M.bind, askE, hrel, OidIsValid, pure, M.pure]

/-- `CheckDropPermissions` on a name that resolves to a row of another kind. -/
theorem CheckDropPermissions_wrong_kind (env : Env) (rel : RangeVar)
    (rightkind : Char) (missing_ok : Bool) (h : History) (relOid : Oid)
    (classform : Form_pg_class)
    (hrel : env.RangeVarGetRelid h rel true = .ok relOid)
    (hvalid : relOid ≠ InvalidOid)
    (hrow : env.SearchSysCache h relOid = some classform)
    (hkind : classform.relkind ≠ rightkind) :
    CheckDropPermissions env rel rightkind missing_ok h =
      match lookupEntry rightkind with
      | none => (.error (.TRAP "rentry->kind != NUL"), h)
      | some rentry =>
          (.error (.ereport .ERRCODE_WRONG_OBJECT_TYPE
            (errmsg rentry.nota_msg rel.relname)
            ((lookupEntry classform.relkind).map (fun wentry =>
              wentry.drophint_msg))), h) := by
  have hv : OidIsValid relOid = true := by simpa [OidIsValid] using hvalid
  unfold CheckDropPermissions DropErrorMsgWrongType
  simp only [bind, M.bind, pure, M.pure, askE, ask, hrel, hv, hrow, Bool.not_true,
    Bool.false_eq_true, if_false, bne_iff_ne, ne_eq, hkind, not_false_eq_true,
    if_true]
  cases hr : lookupEntry rightkind <;> cases hw : lookupEntry classform.relkind <;>
    simp [raise]

/-- C7: when the name does not resolve and missing_ok is false,
`CheckDropPermissions` fails with the not-found code and message of the
expected kind, for every kind that has a profile: ERRCODE_UNDEFINED_TABLE for
table, sequence and view, ERRCODE_UNDEFINED_OBJECT for index and type, with the
message `<kind> "<name>" does not exist`; no event is left. -/
theorem C7_not_found_error (env : Env) (rel : RangeVar) (h : History)
    (hrel : env.RangeVarGetRelid h rel true = .ok InvalidOid) :
    (∀ rentry ∈ msgstringarray,
      CheckDropPermissions env rel rentry.kind false h =
        (.error (.ereport rentry.nonexistent_code
          (errmsg rentry.nonexistent_msg rel.relname) none), h)) ∧
    CheckDropPermissions env rel RELKIND_RELATION false h =
      (.error (.ereport .ERRCODE_UNDEFINED_TABLE
        ("table \"" ++ rel.relname ++ "\" does not exist") none), h) ∧
    CheckDropPermissions env rel RELKIND_SEQUENCE false h =
      (.error (.ereport .ERRCODE_UNDEFINED_TABLE
        ("sequence \"" ++ rel.relname ++ "\" does not exist") none), h) ∧
    CheckDropPermissions env rel RELKIND_VIEW false h =
      (.error (.ereport .ERRCODE_UNDEFINED_TABLE
        ("view \"" ++ rel.relname ++ "\" does not exist") none), h) ∧
    CheckDropPermissions env rel RELKIND_INDEX false h =
      (.error (.ereport .ERRCODE_UNDEFINED_OBJECT
        ("index \"" ++ rel.relname ++ "\" does not exist") none), h) ∧
    CheckDropPermissions env rel RELKIND_COMPOSITE_TYPE false h =
      (.error (.ereport .ERRCODE_UNDEFINED_OBJECT
        ("type \"" ++ rel.relname ++ "\" does not exist") none), h) := by
  have key : ∀ (kind : Char) (rentry : msgstrings),
      lookupEntry kind = some rentry →
      CheckDropPermissions env rel kind false h =
        (.error (.ereport rentry.nonexistent_code
          (errmsg rentry.nonexistent_msg rel.relname) none), h) := by
    intro kind rentry hl
    rw [CheckDropPermissions_unresolved env rel kind false h hrel]
    unfold DropErrorMsgNonExistent
    rw [hl]
    rfl
  refine ⟨fun rentry hm => key _ _ (lookupEntry_of_mem rentry hm), ?_, ?_, ?_,
    ?_, ?_⟩
  · rw [key RELKIND_RELATION _ rfl]
    exact congrArg (fun m => (Result.error (ErrorData.ereport _ m none), h))
      (String.ext rfl)
  · rw [key RELKIND_SEQUENCE _ rfl]
    exact congrArg (fun m => (Result.error (ErrorData.ereport _ m none), h))
      (String.ext rfl)
  · rw [key RELKIND_VIEW _ rfl]
    exact congrArg (fun m => (Result.error (ErrorData.ereport _ m none), h))
      (String.ext rfl)
  · rw [key RELKIND_INDEX _ rfl]
    exact congrArg (fun m => (Result.error (ErrorData.ereport _ m none), h))
      (String.ext rfl)
  · rw [key RELKIND_COMPOSITE_TYPE _ rfl]
    exact congrArg (fun m => (Result.error (ErrorData.ereport _ m none), h))
      (String.ext rfl)

/-- C7, run in the sample world: DROP SEQUENCE of the unknown name `nosuch`
fails with the undefined-table code. -/
theorem C7_witness :
    CheckDropPermissions (sampleEnv .GP_ROLE_DISPATCH false)
        ⟨none, none, "nosuch", false⟩ RELKIND_SEQUENCE false [] =
      (.error (.ereport .ERRCODE_UNDEFINED_TABLE
        "sequence \"nosuch\" does not exist" none), []) :=
  (C7_not_found_error (sampleEnv .GP_ROLE_DISPATCH false)
    ⟨none, none, "nosuch", false⟩ [] rfl).2.2.1

/-- C9: when the name resolves to an object whose kind differs from the
expected kind (a kind with a profile), `CheckDropPermissions` fails with
ERRCODE_WRONG_OBJECT_TYPE and leaves no event; the error has a hint exactly
when the actual kind has a profile, and the hint is then the DROP hint of the
actual kind.  So DROP SEQUENCE on a name that resolves to a view fails with the
hint "Use DROP VIEW to remove a view.". -/
theorem C9_wrong_kind_error (env : Env) (rel : RangeVar) (rightkind : Char)
    (missing_ok : Bool) (h : History) (relOid : Oid)
    (classform : Form_pg_class) (rentry : msgstrings)
    (hrel : env.RangeVarGetRelid h rel true = .ok relOid)
    (hvalid : relOid ≠ InvalidOid)
    (hrow : env.SearchSysCache h relOid = some classform)
    (hprofile : lookupEntry rightkind = some rentry)
    (hkind : classform.relkind ≠ rightkind) :
    (∃ message hint,
      CheckDropPermissions env rel rightkind missing_ok h =
        (.error (.ereport .ERRCODE_WRONG_OBJECT_TYPE message hint), h) ∧
      (hint.isSome = true ↔
        ∃ wentry ∈ msgstringarray, wentry.kind = classform.relkind) ∧
      (∀ wentry ∈ msgstringarray, wentry.kind = classform.relkind →
        hint = some wentry.drophint_msg)) ∧
    (rightkind = RELKIND_SEQUENCE → classform.relkind = RELKIND_VIEW →
      CheckDropPermissions env rel rightkind missing_ok h =
        (.error (.ereport .ERRCODE_WRONG_OBJECT_TYPE
          ("\"" ++ rel.relname ++ "\" is not a sequence")
          (some "Use DROP VIEW to remove a view.")), h)) := by
  have hc := CheckDropPermissions_wrong_kind env rel rightkind missing_ok h
    relOid classform hrel hvalid hrow hkind
  rw [hprofile] at hc
  refine ⟨⟨_, _, hc, ?_, ?_⟩, ?_⟩
  · cases hw : lookupEntry classform.relkind with
    | none =>
      simp only [Option.map_none', Option.isSome_none, Bool.false_eq_true,
        false_iff, not_exists, not_and]
      intro wentry hm hk
      rw [← hk, lookupEntry_of_mem wentry hm] at hw
      exact Option.noConfusion hw
    | some wentry =>
      simp only [Option.map_some', Option.isSome_some, true_iff]
      exact ⟨wentry, (lookupEntry_some _ _ hw).1, (lookupEntry_some _ _ hw).2⟩
  · intro wentry hm hk
    rw [← hk, lookupEntry_of_mem wentry hm]
    rfl
  · intro hs hv
    rw [hc]
    subst hs
    rw [hv]
    cases hprofile
    exact congrArg (fun m => (Result.error (ErrorData.ereport _ m _), h))
      (String.ext rfl)

/-- C9, run in the sample world: DROP SEQUENCE v, where `v` is a view. -/
theorem C9_witness :
    CheckDropPermissions (sampleEnv .GP_ROLE_DISPATCH false)
        ⟨none, none, "v", false⟩ RELKIND_SEQUENCE false [] =
      (.error (.ereport .ERRCODE_WRONG_OBJECT_TYPE
        ("\"" ++ "v" ++ "\" is not a sequence")
        (some "Use DROP VIEW to remove a view.")), []) :=
  (C9_wrong_kind_error (sampleEnv .GP_ROLE_DISPATCH false)
    ⟨none, none, "v", false⟩ RELKIND_SEQUENCE false [] 3
    ⟨RELKIND_VIEW, RELSTORAGE_VIRTUAL, 10, ⟨3⟩⟩ _ rfl (by decide) rfl rfl
    (by decide)).2 rfl rfl

/-- C10, as stated, fails: DROP SEQUENCE on the view `v` of the sample world
raises a message that names the expected kind, sequence, and not the actual
kind, view; the view is named by the hint only. -/
theorem C10_counterexample :
    (sampleEnv .GP_ROLE_DISPATCH false).SearchSysCache [] 3 =
      some ⟨RELKIND_VIEW, RELSTORAGE_VIRTUAL, 10, ⟨3⟩⟩ ∧
    CheckDropPermissions (sampleEnv .GP_ROLE_DISPATCH false)
        ⟨none, none, "v", false⟩ RELKIND_SEQUENCE false [] =
      (.error (.ereport .ERRCODE_WRONG_OBJECT_TYPE "\"v\" is not a sequence"
        (some "Use DROP VIEW to remove a view.")), []) ∧
    mentions "sequence" "\"v\" is not a sequence" ∧
    ¬ mentions "view" "\"v\" is not a sequence" ∧
    "\"v\" is not a sequence" ≠ errmsg "\"%s\" is not a view" "v" :=
  ⟨rfl, rfl, by decide, by decide, by decide⟩

/-- C10, amended: when the name resolves to an object whose kind differs from
the expected kind, the message of the wrong-kind error is the "is not a ..."
text of the expected kind applied to the name (is not a base table, a sequence,
a view, an index, a type); the actual kind is named by the hint only. -/
theorem C10_message_of_expected_kind (env : Env) (rel : RangeVar)
    (rightkind : Char) (missing_ok : Bool) (h : History) (relOid : Oid)
    (classform : Form_pg_class) (rentry : msgstrings)
    (hrel : env.RangeVarGetRelid h rel true = .ok relOid)
    (hvalid : relOid ≠ InvalidOid)
    (hrow : env.SearchSysCache h relOid = some classform)
    (hprofile : lookupEntry rightkind = some rentry)
    (hkind : classform.relkind ≠ rightkind) :
    (∃ hint, CheckDropPermissions env rel rightkind missing_ok h =
      (.error (.ereport .ERRCODE_WRONG_OBJECT_TYPE
        (errmsg rentry.nota_msg rel.relname) hint), h)) ∧
    rentry.kind = rightkind ∧
    (rightkind = RELKIND_RELATION → errmsg rentry.nota_msg rel.relname =
      "\"" ++ rel.relname ++ "\" is not a base table") ∧
    (rightkind = RELKIND_SEQUENCE → errmsg rentry.nota_msg rel.relname =
      "\"" ++ rel.relname ++ "\" is not a sequence") ∧
    (rightkind = RELKIND_VIEW → errmsg rentry.nota_msg rel.relname =
      "\"" ++ rel.relname ++ "\" is not a view") ∧
    (rightkind = RELKIND_INDEX → errmsg rentry.nota_msg rel.relname =
      "\"" ++ rel.relname ++ "\" is not an index") ∧
    (rightkind = RELKIND_COMPOSITE_TYPE → errmsg rentry.nota_msg rel.relname =
      "\"" ++ rel.relname ++ "\" is not a type") := by
  have hc := CheckDropPermissions_wrong_kind env rel rightkind missing_ok h
    relOid classform hrel hvalid hrow hkind
  rw [hprofile] at hc
  refine ⟨⟨_, hc⟩, (lookupEntry_some _ _ hprofile).2, ?_, ?_, ?_, ?_, ?_⟩ <;>
  · intro hk
    subst hk
    cases hprofile
    exact String.ext rfl

/-- C10 as amended, run in the sample world: DROP SEQUENCE v, where `v` is a
view, says that `v` is not a sequence. -/
theorem C10_witness :
    ∃ hint, CheckDropPermissions (sampleEnv .GP_ROLE_DISPATCH false)
        ⟨none, none, "v", false⟩ RELKIND_SEQUENCE false [] =
      (.error (.ereport .ERRCODE_WRONG_OBJECT_TYPE "\"v\" is not a sequence"
        hint), []) :=
  (C10_message_of_expected_kind (sampleEnv .GP_ROLE_DISPATCH false)
    ⟨none, none, "v", false⟩ RELKIND_SEQUENCE false [] 3
    ⟨RELKIND_VIEW, RELSTORAGE_VIRTUAL, 10, ⟨3⟩⟩
    ⟨RELKIND_SEQUENCE, .ERRCODE_UNDEFINED_TABLE,
      "sequence \"%s\" does not exist",
      "sequence \"%s\" does not exist, skipping", "\"%s\" is not a sequence",
      "Use DROP SEQUENCE to remove a sequence."⟩
    rfl (by decide) rfl rfl (by decide)).1

/-- `CheckDropPermissions` on a name that does not resolve, with missing_ok:
the answer is false and the only event is the skip notice, which a worker does
not emit. -/
theorem CheckDropPermissions_skipped (env : Env) (rel : RangeVar)
    (rightkind : Char) (rentry : msgstrings) (h : History)
    (hrel : env.RangeVarGetRelid h rel true = .ok InvalidOid)
    (hprofile : lookupEntry rightkind = some rentry) :
    CheckDropPermissions env rel rightkind true h =
      (.ok false,
        if env.Gp_role = .GP_ROLE_EXECUTE then h
        else h ++ [.NOTICE (errmsg rentry.skipping_msg rel.relname)]) := by
  rw [CheckDropPermissions_unresolved env rel rightkind true h hrel]
  unfold DropErrorMsgNonExistent
  rw [hprofile]
  by_cases hrole : env.Gp_role = .GP_ROLE_EXECUTE <;>
    simp [hrole, M.bind, M.pure, emit]

/-- `ProcessDropStatement` on a relation-like object that does not resolve,
with missing_ok. -/
theorem ProcessDropStatement_skipped (env : Env) (s : DropStmt)
    (names : List String) (rightkind : Char) (rentry : msgstrings)
    (h : History) (hobj : s.objects = [names]) (hmiss : s.missing_ok = true)
    (hk : dropRightKind s.removeType = some rightkind)
    (hprofile : lookupEntry rightkind = some rentry)
    (hrel : env.RangeVarGetRelid h (env.makeRangeVarFromNameList names) true =
      .ok InvalidOid) :
    ProcessDropStatement env s h =
      (.ok false,
        if env.Gp_role = .GP_ROLE_EXECUTE then h
        else h ++ [.NOTICE (errmsg rentry.skipping_msg
          (env.makeRangeVarFromNameList names).relname)]) := by
  unfold ProcessDropStatement
  simp only [bind, M.bind, hobj, List.length_singleton, beq_self_eq_true, Assert,
    if_true, M.pure, foreachAcc]
  unfold ProcessDropStatement.body
  cases hrt : s.removeType <;> simp [dropRightKind, hrt] at hk <;> subst hk <;>
    simp only [bind, M.bind, hmiss,
      CheckDropPermissions_skipped env _ _ rentry h hrel hprofile, pure, M.pure,
      Bool.false_eq_true, if_false]

/-- C8: for a DROP TABLE, EXTERNAL TABLE, SEQUENCE, VIEW or INDEX of a name
that does not resolve, with missing_ok: `ProcessDropStatement` raises no error
and returns false, and the dispatcher run on that single-object statement
returns normally; the only event is the skip notice of the kind ("... does not
exist, skipping"), emitted exactly when the role is not the worker role, so no
removal executor is called and nothing is broadcast.  In the dispatcher the
name is looked up in the history `h` reached after the guard and the reset of
the completion tag. -/
theorem C8_skip_missing_object (env : Env) (s : DropStmt)
    (names : List String) (rightkind : Char) (rentry : msgstrings)
    (h : History) (hobj : s.objects = [names]) (hmiss : s.missing_ok = true)
    (hk : dropRightKind s.removeType = some rightkind)
    (hprofile : lookupEntry rightkind = some rentry)
    (hrel : env.RangeVarGetRelid h (env.makeRangeVarFromNameList names) true =
      .ok InvalidOid) :
    ProcessDropStatement env s h =
      (.ok false,
        if env.Gp_role = .GP_ROLE_EXECUTE then h
        else h ++ [.NOTICE (errmsg rentry.skipping_msg
          (env.makeRangeVarFromNameList names).relname)]) ∧
    (∀ (fuel : Nat) (start : History) (queryString : String)
        (params : Payload) (isTopLevel : Bool) (dest : DestReceiver)
        (completionTag : Bool),
      check_xact_readonly env (.DropStmt s) start = (.ok (), start) →
      h = (if completionTag then start ++ [.completionTag ""] else start) →
      ProcessUtility env fuel (.DropStmt s) (some queryString) params
          isTopLevel dest completionTag start =
        (.ok (),
          if env.Gp_role = .GP_ROLE_EXECUTE then h
          else h ++ [.NOTICE (errmsg rentry.skipping_msg
            (env.makeRangeVarFromNameList names).relname)])) ∧
    rentry.skipping_msg ∈
      ["table \"%s\" does not exist, skipping",
        "sequence \"%s\" does not exist, skipping",
        "view \"%s\" does not exist, skipping",
        "index \"%s\" does not exist, skipping"] := by
  have hskip := ProcessDropStatement_skipped env s names rightkind rentry h hobj
    hmiss hk hprofile hrel
  refine ⟨hskip, ?_, ?_⟩
  · intro fuel start queryString params isTopLevel dest completionTag hg hh
    obtain ⟨recurse, hb⟩ := ProcessUtility_eq_body env fuel (.DropStmt s)
      (some queryString) params isTopLevel dest completionTag
    rw [hb]
    have hs : ({ s with objects := [names], missing_ok := s.missing_ok } : DropStmt)
        = s := by
      cases s
      simp only at hobj
      subst hobj
      rfl
    have hloop : ∀ (f : List String → Bool → M Unit),
        (∀ names1, f names1 false = M.pure ()) →
        foreach s.objects (fun names1 =>
          M.bind (ProcessDropStatement env
            { s with objects := [names1], missing_ok := s.missing_ok })
            (f names1)) h =
        (.ok (),
          if env.Gp_role = .GP_ROLE_EXECUTE then h
          else h ++ [.NOTICE (errmsg rentry.skipping_msg
            (env.makeRangeVarFromNameList names).relname)]) := by
      intro f hf
      rw [hobj]
      simp only [foreach]
      rw [hs]
      have hin : M.bind (ProcessDropStatement env s) (f names) h =
          (.ok (),
            if env.Gp_role = .GP_ROLE_EXECUTE then h
            else h ++ [.NOTICE (errmsg rentry.skipping_msg
              (env.makeRangeVarFromNameList names).relname)]) := by
        rw [M.bind_ok _ _ _ _ _ hskip, hf]
        rfl
      rw [M.bind_ok _ _ _ _ _ hin]
      rfl
    unfold ProcessUtility.body
    show M.bind (Assert true _)
      (fun _ => M.bind (check_xact_readonly env (.DropStmt s)) _) start = _
    rw [M.bind_ok (Assert true _) _ start start () rfl,
      M.bind_ok _ _ _ _ _ hg]
    dsimp only
    cases completionTag
    · simp only [Bool.false_eq_true, if_false] at hh ⊢
      subst hh
      show foreach s.objects _ h = _
      refine hloop _ ?_
      intro names1
      rfl
    · simp only [if_true] at hh ⊢
      show M.bind (emit (.completionTag "")) _ start = _
      rw [M.bind_ok (emit (.completionTag "")) _ start h () (by rw [hh]; rfl)]
      refine hloop _ ?_
      intro names1
      rfl
  · have hm := (lookupEntry_some _ _ hprofile)
    cases hrt : s.removeType <;> simp [dropRightKind, hrt] at hk <;> subst hk <;>
      cases hprofile <;> simp

/-- C8, run in the sample world on the coordinator: DROP TABLE IF EXISTS
nosuch returns normally and leaves the skip notice alone. -/
theorem C8_witness :
    ProcessUtility (sampleEnv .GP_ROLE_DISPATCH false) 0
        (.DropStmt ⟨[["nosuch"]], .OBJECT_TABLE, .DROP_RESTRICT, true⟩)
        (some "DROP TABLE IF EXISTS nosuch") ⟨0⟩ true (.receiver 1) false [] =
      (.ok (), [.NOTICE "table \"nosuch\" does not exist, skipping"]) :=
  (C8_skip_missing_object (sampleEnv .GP_ROLE_DISPATCH false)
    ⟨[["nosuch"]], .OBJECT_TABLE, .DROP_RESTRICT, true⟩ ["nosuch"]
    RELKIND_RELATION
    ⟨RELKIND_RELATION, .ERRCODE_UNDEFINED_TABLE,
      "table \"%s\" does not exist", "table \"%s\" does not exist, skipping",
      "\"%s\" is not a base table",
      "Use DROP TABLE to remove a table, DROP EXTERNAL TABLE if external, or DROP FOREIGN TABLE if foreign."⟩
    [] rfl rfl rfl rfl rfl).2.1 0 [] "DROP TABLE IF EXISTS nosuch" ⟨0⟩ true
    (.receiver 1) false rfl rfl

/-- The sample world, for comparison: DROP TABLE t of the existing table `t`
on the coordinator removes the relation and broadcasts the single-object
statement. -/
theorem sample_drop_existing_table :
    ProcessUtility (sampleEnv .GP_ROLE_DISPATCH false) 0
        (.DropStmt ⟨[["t"]], .OBJECT_TABLE, .DROP_RESTRICT, false⟩)
        (some "DROP TABLE t") ⟨0⟩ true (.receiver 1) false [] =
      (.ok (),
        [.call .RemoveRelation
            [.rangeVar ⟨none, none, "t", false⟩, .behavior .DROP_RESTRICT,
              .node (.DropStmt ⟨[["t"]], .OBJECT_TABLE, .DROP_RESTRICT, false⟩),
              .char RELKIND_RELATION],
          .call .CdbDispatchUtilityStatement
            [.node (.DropStmt ⟨[["t"]], .OBJECT_TABLE, .DROP_RESTRICT, false⟩),
              .flags ⟨true, true, true⟩, .oids []]]) :=
  rfl

/-! ## Ownership, system catalogs and storage class -/

/-- `CheckDropPermissions` on a name that resolves to a row of the expected
kind, in closed form: the ownership test comes first, the system-catalog test
second. -/
theorem CheckDropPermissions_right_kind (env : Env) (rel : RangeVar)
    (rightkind : Char) (missing_ok : Bool) (h : History) (relOid : Oid)
    (classform : Form_pg_class)
    (hrel : env.RangeVarGetRelid h rel true = .ok relOid)
    (hvalid : relOid ≠ InvalidOid)
    (hrow : env.SearchSysCache h relOid = some classform)
    (hkind : classform.relkind = rightkind) :
    CheckDropPermissions env rel rightkind missing_ok h =
      if (!env.pg_class_ownercheck h relOid (env.GetUserId h) &&
          !env.pg_namespace_ownercheck h classform.relnamespace
            (env.GetUserId h)) = true then
        (.error (.aclcheck_error .ACLCHECK_NOT_OWNER .ACL_KIND_CLASS
          rel.relname), h)
      else if (!env.allowSystemTableModsDDL h &&
          env.IsSystemClass classform) = true then
        (.error (.ereport .ERRCODE_INSUFFICIENT_PRIVILEGE
          (errmsg "permission denied: \"%s\" is a system catalog" rel.relname)
          none), h)
      else (.ok true, h) := by
  have hv : OidIsValid relOid = true := by simpa [OidIsValid] using hvalid
  unfold CheckDropPermissions
  cases ho : env.pg_class_ownercheck h relOid (env.GetUserId h) <;>
    cases hn : env.pg_namespace_ownercheck h classform.relnamespace
      (env.GetUserId h) <;>
    cases ha : env.allowSystemTableModsDDL h <;>
    cases hs : env.IsSystemClass classform <;>
    simp [bind, M.bind, pure, M.pure, askE, ask, raise, hrel, hv, hrow, hkind,
      ho, hn, ha, hs]

/-- C11: when the name resolves to an object of the expected kind,
`CheckDropPermissions` raises the not-owner error exactly when the caller owns
neither the object nor its namespace; a caller who owns either one passes the
ownership test, and the outcome is then decided by the system-catalog test
alone. -/
theorem C11_not_owner_iff (env : Env) (rel : RangeVar) (rightkind : Char)
    (missing_ok : Bool) (h : History) (relOid : Oid)
    (classform : Form_pg_class)
    (hrel : env.RangeVarGetRelid h rel true = .ok relOid)
    (hvalid : relOid ≠ InvalidOid)
    (hrow : env.SearchSysCache h relOid = some classform)
    (hkind : classform.relkind = rightkind) :
    (CheckDropPermissions env rel rightkind missing_ok h =
        (.error (.aclcheck_error .ACLCHECK_NOT_OWNER .ACL_KIND_CLASS
          rel.relname), h) ↔
      (env.pg_class_ownercheck h relOid (env.GetUserId h) = false ∧
        env.pg_namespace_ownercheck h classform.relnamespace
          (env.GetUserId h) = false)) ∧
    ((env.pg_class_ownercheck h relOid (env.GetUserId h) = true ∨
        env.pg_namespace_ownercheck h classform.relnamespace
          (env.GetUserId h) = true) →
      CheckDropPermissions env rel rightkind missing_ok h =
        if (!env.allowSystemTableModsDDL h &&
            env.IsSystemClass classform) = true then
          (.error (.ereport .ERRCODE_INSUFFICIENT_PRIVILEGE
            (errmsg "permission denied: \"%s\" is a system catalog"
              rel.relname) none), h)
        else (.ok true, h)) := by
  rw [CheckDropPermissions_right_kind env rel rightkind missing_ok h relOid
    classform hrel hvalid hrow hkind]
  cases ho : env.pg_class_ownercheck h relOid (env.GetUserId h) <;>
    cases hn : env.pg_namespace_ownercheck h classform.relnamespace
      (env.GetUserId h) <;>
    cases hs : (!env.allowSystemTableModsDDL h && env.IsSystemClass classform) <;>
    simp

/-- C11, run in the sample world, where the user owns everything: DROP TABLE t
passes the ownership test. -/
theorem C11_witness :
    CheckDropPermissions (sampleEnv .GP_ROLE_DISPATCH false)
      ⟨none, none, "t", false⟩ RELKIND_RELATION false [] = (.ok true, []) :=
  ((C11_not_owner_iff (sampleEnv .GP_ROLE_DISPATCH false)
    ⟨none, none, "t", false⟩ RELKIND_RELATION false [] 1
    ⟨RELKIND_RELATION, RELSTORAGE_HEAP, 10, ⟨1⟩⟩ rfl (by decide) rfl rfl).2
    (Or.inl rfl)).trans rfl

/-- C12, as stated, fails: in the world of a stranger, who owns nothing, the
table `t` is a system catalog and system-catalog modification is off, yet DROP
TABLE t ends in the not-owner error and not in the system-catalog error. -/
theorem C12_counterexample :
    (sampleEnvStranger .GP_ROLE_DISPATCH).IsSystemClass
      ⟨RELKIND_RELATION, RELSTORAGE_HEAP, 10, ⟨1⟩⟩ = true ∧
    (sampleEnvStranger .GP_ROLE_DISPATCH).allowSystemTableModsDDL [] = false ∧
    CheckDropPermissions (sampleEnvStranger .GP_ROLE_DISPATCH)
        ⟨none, none, "t", false⟩ RELKIND_RELATION false [] =
      (.error (.aclcheck_error .ACLCHECK_NOT_OWNER .ACL_KIND_CLASS "t"), []) :=
  ⟨rfl, rfl, rfl⟩

/-- C12, amended: when the name resolves to an object of the expected kind that
is a system catalog, and system-catalog modification is not allowed,
`CheckDropPermissions` never returns true; it fails with the
insufficient-privilege error `permission denied: "<name>" is a system catalog`
when the caller owns the object or its namespace, and with the not-owner error,
which is tested first, when the caller owns neither. -/
theorem C12_system_catalog_denied (env : Env) (rel : RangeVar)
    (rightkind : Char) (missing_ok : Bool) (h : History) (relOid : Oid)
    (classform : Form_pg_class)
    (hrel : env.RangeVarGetRelid h rel true = .ok relOid)
    (hvalid : relOid ≠ InvalidOid)
    (hrow : env.SearchSysCache h relOid = some classform)
    (hkind : classform.relkind = rightkind)
    (hsys : env.IsSystemClass classform = true)
    (hmods : env.allowSystemTableModsDDL h = false) :
    ((env.pg_class_ownercheck h relOid (env.GetUserId h) = true ∨
        env.pg_namespace_ownercheck h classform.relnamespace
          (env.GetUserId h) = true) →
      CheckDropPermissions env rel rightkind missing_ok h =
        (.error (.ereport .ERRCODE_INSUFFICIENT_PRIVILEGE
          ("permission denied: \"" ++ rel.relname ++ "\" is a system catalog")
          none), h)) ∧
    ((env.pg_class_ownercheck h relOid (env.GetUserId h) = false ∧
        env.pg_namespace_ownercheck h classform.relnamespace
          (env.GetUserId h) = false) →
      CheckDropPermissions env rel rightkind missing_ok h =
        (.error (.aclcheck_error .ACLCHECK_NOT_OWNER .ACL_KIND_CLASS
          rel.relname), h)) ∧
    (∃ e, CheckDropPermissions env rel rightkind missing_ok h =
      (.error e, h)) := by
  have hm : errmsg "permission denied: \"%s\" is a system catalog" rel.relname =
      "permission denied: \"" ++ rel.relname ++ "\" is a system catalog" :=
    String.ext rfl
  rw [CheckDropPermissions_right_kind env rel rightkind missing_ok h relOid
    classform hrel hvalid hrow hkind, hm]
  cases ho : env.pg_class_ownercheck h relOid (env.GetUserId h) <;>
    cases hn : env.pg_namespace_ownercheck h classform.relnamespace
      (env.GetUserId h) <;>
    simp [hsys, hmods]

/-- C12 as amended, run in the world of an owner for whom `t` is a system
catalog: DROP TABLE t is denied. -/
theorem C12_witness :
    CheckDropPermissions (sampleEnvCatalogOwner .GP_ROLE_DISPATCH)
        ⟨none, none, "t", false⟩ RELKIND_RELATION false [] =
      (.error (.ereport .ERRCODE_INSUFFICIENT_PRIVILEGE
        ("permission denied: \"" ++ "t" ++ "\" is a system catalog") none),
        []) :=
  (C12_system_catalog_denied (sampleEnvCatalogOwner .GP_ROLE_DISPATCH)
    ⟨none, none, "t", false⟩ RELKIND_RELATION false [] 1
    ⟨RELKIND_RELATION, RELSTORAGE_HEAP, 10, ⟨1⟩⟩ rfl (by decide) rfl rfl rfl
    rfl).1 (Or.inl rfl)

/-- `CheckDropRelStorage` on a name that resolves, in closed form. -/
theorem CheckDropRelStorage_resolved (env : Env) (rel : RangeVar)
    (removeType : ObjectType) (h : History) (relOid : Oid)
    (classform : Form_pg_class)
    (hrel : env.RangeVarGetRelid h rel true = .ok relOid)
    (hvalid : relOid ≠ InvalidOid)
    (hrow : env.SearchSysCache h relOid = some classform) :
    CheckDropRelStorage env rel removeType h =
      if (classform.relstorage == RELSTORAGE_EXTERNAL &&
          (env.Gp_segment != -1 || env.rel_is_child_partition h relOid)) = true
      then (.ok true, h)
      else if ((removeType == .OBJECT_EXTTABLE &&
            classform.relstorage != RELSTORAGE_EXTERNAL) ||
          (removeType == .OBJECT_TABLE &&
            (classform.relstorage == RELSTORAGE_EXTERNAL ||
              classform.relstorage == RELSTORAGE_FOREIGN))) = true
      then
        (.error (.ereport .ERRCODE_WRONG_OBJECT_TYPE
          ("\"" ++ rel.relname ++ "\" is not " ++
            (if removeType == .OBJECT_EXTTABLE then "an external" else "a base")
            ++ " table")
          (some (if classform.relstorage == RELSTORAGE_EXTERNAL then
              "Use DROP EXTERNAL TABLE to remove an external table"
            else if classform.relstorage == RELSTORAGE_FOREIGN then
              "Use DROP FOREIGN TABLE to remove a foreign table"
            else "Use DROP TABLE to remove a base table"))), h)
      else (.ok true, h) := by
  have hv : OidIsValid relOid = true := by simpa [OidIsValid] using hvalid
  unfold CheckDropRelStorage
  simp only [bind, M.bind, pure, M.pure, askE, ask, hrel, hv, hrow, Bool.not_true,
    Bool.false_eq_true, if_false]
  split
  · rfl
  · split <;> rfl

/-- The two renderings of the storage-class message agree. -/
theorem storage_message (relname want : String) (whole : String)
    (hw : ("\" is not " ++ want ++ " table") = whole) :
    "\"" ++ relname ++ "\" is not " ++ want ++ " table" =
      "\"" ++ relname ++ whole := by
  rw [← hw]
  simp only [String.append_assoc]

/-- The storage letters for external and foreign relations differ. -/
theorem RELSTORAGE_FOREIGN_ne_EXTERNAL :
    RELSTORAGE_FOREIGN ≠ RELSTORAGE_EXTERNAL := by decide

/-- C13: for a resolved relation on the coordinator (segment -1) that is not a
child partition, `CheckDropRelStorage` fails with ERRCODE_WRONG_OBJECT_TYPE
exactly when DROP EXTERNAL TABLE meets a storage that is not external, or DROP
TABLE meets an external or foreign storage; the hint follows the actual
storage; in every other case the answer is true.  No event is left. -/
theorem C13_storage_class_check (env : Env) (rel : RangeVar)
    (removeType : ObjectType) (h : History) (relOid : Oid)
    (classform : Form_pg_class)
    (hrel : env.RangeVarGetRelid h rel true = .ok relOid)
    (hvalid : relOid ≠ InvalidOid)
    (hrow : env.SearchSysCache h relOid = some classform)
    (hseg : env.Gp_segment = -1)
    (hchild : env.rel_is_child_partition h relOid = false) :
    (removeType = .OBJECT_EXTTABLE →
      classform.relstorage ≠ RELSTORAGE_EXTERNAL →
      CheckDropRelStorage env rel removeType h =
        (.error (.ereport .ERRCODE_WRONG_OBJECT_TYPE
          ("\"" ++ rel.relname ++ "\" is not an external table")
          (some (if classform.relstorage = RELSTORAGE_FOREIGN then
            "Use DROP FOREIGN TABLE to remove a foreign table"
          else "Use DROP TABLE to remove a base table"))), h)) ∧
    (removeType = .OBJECT_TABLE →
      classform.relstorage = RELSTORAGE_EXTERNAL →
      CheckDropRelStorage env rel removeType h =
        (.error (.ereport .ERRCODE_WRONG_OBJECT_TYPE
          ("\"" ++ rel.relname ++ "\" is not a base table")
          (some "Use DROP EXTERNAL TABLE to remove an external table")), h)) ∧
    (removeType = .OBJECT_TABLE →
      classform.relstorage = RELSTORAGE_FOREIGN →
      CheckDropRelStorage env rel removeType h =
        (.error (.ereport .ERRCODE_WRONG_OBJECT_TYPE
          ("\"" ++ rel.relname ++ "\" is not a base table")
          (some "Use DROP FOREIGN TABLE to remove a foreign table")), h)) ∧
    (¬ ((removeType = .OBJECT_EXTTABLE ∧
          classform.relstorage ≠ RELSTORAGE_EXTERNAL) ∨
        (removeType = .OBJECT_TABLE ∧
          (classform.relstorage = RELSTORAGE_EXTERNAL ∨
            classform.relstorage = RELSTORAGE_FOREIGN))) →
      CheckDropRelStorage env rel removeType h = (.ok true, h)) := by
  rw [CheckDropRelStorage_resolved env rel removeType h relOid classform hrel
    hvalid hrow]
  have hskip : (classform.relstorage == RELSTORAGE_EXTERNAL &&
      (env.Gp_segment != -1 || env.rel_is_child_partition h relOid)) = false := by
    simp [hseg, hchild]
  simp only [hskip, Bool.false_eq_true, if_false]
  have hext := storage_message rel.relname "an external"
    "\" is not an external table" (by decide)
  have hbase := storage_message rel.relname "a base"
    "\" is not a base table" (by decide)
  refine ⟨?_, ?_, ?_, ?_⟩
  · intro ht hs
    subst ht
    by_cases hf : classform.relstorage = RELSTORAGE_FOREIGN
    · simp [hf, RELSTORAGE_FOREIGN_ne_EXTERNAL, hext]
    · simp [hs, hf, hext]
  · intro ht hs
    subst ht
    simp [hs, hbase]
  · intro ht hs
    subst ht
    simp [hs, RELSTORAGE_FOREIGN_ne_EXTERNAL, hbase]
  · intro hn
    have : ((removeType == .OBJECT_EXTTABLE &&
            classform.relstorage != RELSTORAGE_EXTERNAL) ||
          (removeType == .OBJECT_TABLE &&
            (classform.relstorage == RELSTORAGE_EXTERNAL ||
              classform.relstorage == RELSTORAGE_FOREIGN))) = false := by
      simp only [not_or, not_and] at hn
      by_cases h1 : removeType = .OBJECT_EXTTABLE
      · have := hn.1 h1
        simp_all
      · by_cases h2 : removeType = .OBJECT_TABLE
        · have := hn.2 h2
          simp_all
        · simp [h1, h2]
    simp [this]

/-- C13, run in the sample world on the coordinator: DROP TABLE x, where `x`
is an external table. -/
theorem C13_witness :
    CheckDropRelStorage (sampleEnv .GP_ROLE_DISPATCH false)
        ⟨none, none, "x", false⟩ .OBJECT_TABLE [] =
      (.error (.ereport .ERRCODE_WRONG_OBJECT_TYPE
        ("\"" ++ "x" ++ "\" is not a base table")
        (some "Use DROP EXTERNAL TABLE to remove an external table")), []) :=
  (C13_storage_class_check (sampleEnv .GP_ROLE_DISPATCH false)
    ⟨none, none, "x", false⟩ .OBJECT_TABLE [] 5
    ⟨RELKIND_RELATION, RELSTORAGE_EXTERNAL, 10, ⟨5⟩⟩ rfl (by decide) rfl rfl
    rfl).2.1 rfl rfl

/-- C14, as stated, fails: DROP TABLE on the external relation `x` is accepted
on the coordinator when `x` is a child partition, and it is accepted on a
segment when `x` is not a child partition. -/
theorem C14_counterexample :
    sampleEnvChildPartition.Gp_segment = -1 ∧
    CheckDropRelStorage sampleEnvChildPartition ⟨none, none, "x", false⟩
      .OBJECT_TABLE [] = (.ok true, []) ∧
    sampleEnvSegment.rel_is_child_partition [] 5 = false ∧
    CheckDropRelStorage sampleEnvSegment ⟨none, none, "x", false⟩
      .OBJECT_TABLE [] = (.ok true, []) :=
  ⟨rfl, rfl, rfl, rfl⟩

/-- C14, amended: the storage-class check is skipped for an external relation
when the call is made off the coordinator (segment other than -1) or the
relation is a child partition, either one being enough, and only for an
external relation: DROP TABLE on an external relation is accepted exactly in
these cases and ends in the storage-class mismatch error on the coordinator
for a relation that is not a child partition; DROP TABLE on a foreign relation
is refused everywhere. -/
theorem C14_storage_check_skipped (env : Env) (rel : RangeVar) (h : History)
    (relOid : Oid) (classform : Form_pg_class)
    (hrel : env.RangeVarGetRelid h rel true = .ok relOid)
    (hvalid : relOid ≠ InvalidOid)
    (hrow : env.SearchSysCache h relOid = some classform) :
    (classform.relstorage = RELSTORAGE_EXTERNAL →
      (CheckDropRelStorage env rel .OBJECT_TABLE h = (.ok true, h) ↔
        (env.Gp_segment ≠ -1 ∨ env.rel_is_child_partition h relOid = true)) ∧
      (¬ (env.Gp_segment ≠ -1 ∨ env.rel_is_child_partition h relOid = true) →
        CheckDropRelStorage env rel .OBJECT_TABLE h =
          (.error (.ereport .ERRCODE_WRONG_OBJECT_TYPE
            ("\"" ++ rel.relname ++ "\" is not a base table")
            (some "Use DROP EXTERNAL TABLE to remove an external table")),
            h))) ∧
    (classform.relstorage = RELSTORAGE_FOREIGN →
      CheckDropRelStorage env rel .OBJECT_TABLE h =
        (.error (.ereport .ERRCODE_WRONG_OBJECT_TYPE
          ("\"" ++ rel.relname ++ "\" is not a base table")
          (some "Use DROP FOREIGN TABLE to remove a foreign table")), h)) := by
  rw [CheckDropRelStorage_resolved env rel .OBJECT_TABLE h relOid classform hrel
    hvalid hrow]
  have hbase := storage_message rel.relname "a base"
    "\" is not a base table" (by decide)
  refine ⟨fun hs => ?_, fun hs => ?_⟩
  · by_cases hseg : env.Gp_segment = -1 <;>
      cases hc : env.rel_is_child_partition h relOid <;>
      simp [hs, hseg, hc, hbase]
  · simp [hs, RELSTORAGE_FOREIGN_ne_EXTERNAL, hbase]

/-- C14 as amended, run on the coordinator for a child partition: DROP TABLE x
is accepted. -/
theorem C14_witness :
    CheckDropRelStorage sampleEnvChildPartition ⟨none, none, "x", false⟩
      .OBJECT_TABLE [] = (.ok true, []) :=
  ((C14_storage_check_skipped sampleEnvChildPartition
    ⟨none, none, "x", false⟩ [] 5
    ⟨RELKIND_RELATION, RELSTORAGE_EXTERNAL, 10, ⟨5⟩⟩ rfl (by decide) rfl).1
    rfl).1.mpr (Or.inr rfl)

/-! ## DROP of several objects -/

/-- After a guard that accepts, the dispatcher resets the completion tag, if
there is one, and goes on from the history so reached. -/
theorem guard_and_tag_ok (env : Env) (parsetree : Node) (completionTag : Bool)
    (start h : History) (body : M Unit)
    (hg : check_xact_readonly env parsetree start = (.ok (), start))
    (hh : h = if completionTag then start ++ [.completionTag ""] else start) :
    M.bind (check_xact_readonly env parsetree)
      (fun _ =>
        M.bind (if completionTag = true then emit (.completionTag "")
          else M.pure ())
          (fun _ => body)) start = body h := by
  rw [M.bind_ok _ _ _ _ _ hg]
  cases completionTag <;> subst hh <;> rfl

/-- The body of the dispatcher on a DROP statement. -/
theorem ProcessUtility_body_DropStmt (env : Env) (recurse : Node → M Unit)
    (s : DropStmt) (queryString : String) (params : Payload)
    (isTopLevel : Bool) (dest : DestReceiver) (completionTag : Bool) :
    ProcessUtility.body env recurse (.DropStmt s) (some queryString) params
        isTopLevel dest completionTag =
      M.bind (check_xact_readonly env (.DropStmt s))
        (fun _ =>
          M.bind (if completionTag = true then emit (.completionTag "")
            else M.pure ())
            (fun _ =>
              foreach s.objects (fun names =>
                M.bind (ProcessDropStatement env { s with objects := [names] })
                  (fun dispatchDrop =>
                    if dispatchDrop = true then
                      if (env.Gp_role == .GP_ROLE_DISPATCH) = true then
                        env.call .CdbDispatchUtilityStatement
                          [.node (.DropStmt { s with objects := [names] }),
                            .flags (DF_CANCEL_ON_ERROR ||| DF_WITH_SNAPSHOT |||
                              DF_NEED_TWO_PHASE),
                            .oids []]
                      else M.pure ()
                    else M.pure ())))) := by
  cases completionTag <;> rfl

/-- Sequencing is associative. -/
theorem M.bind_assoc {α β γ : Type} (m : M α) (f : α → M β) (g : β → M γ) :
    M.bind (M.bind m f) g = M.bind m (fun a => M.bind (f a) g) := by
  funext h
  unfold M.bind
  rcases m h with ⟨r, h1⟩
  cases r <;> rfl

/-- A returned value is handed on as it is. -/
theorem M.pure_bind {α β : Type} (a : α) (f : α → M β) :
    M.bind (M.pure a) f = f a := rfl

/-- The loop of the dispatcher over the objects of a DROP does what the
one-at-a-time processing does. -/
theorem foreach_drop_eq (env : Env) (s : DropStmt) (l : List (List String)) :
    foreach l (fun names =>
        M.bind (ProcessDropStatement env { s with objects := [names] })
          (fun dispatchDrop =>
            if dispatchDrop = true then
              if (env.Gp_role == .GP_ROLE_DISPATCH) = true then
                env.call .CdbDispatchUtilityStatement
                  [.node (.DropStmt { s with objects := [names] }),
                    .flags (DF_CANCEL_ON_ERROR ||| DF_WITH_SNAPSHOT |||
                      DF_NEED_TWO_PHASE),
                    .oids []]
              else M.pure ()
            else M.pure ())) =
      M.bind (dropOneAtATime env s l) (fun _ => M.pure ()) := by
  induction l with
  | nil => rfl
  | cons names rest ih =>
    simp only [foreach, dropOneAtATime, M.bind_assoc, ih, M.pure_bind]
    refine congrArg (M.bind _) (funext fun found => ?_)
    cases found <;> cases hr : (env.Gp_role == GpRoleValue.GP_ROLE_DISPATCH) <;>
      rfl

/-- The dispatcher on a DROP statement that the guard accepts. -/
theorem ProcessUtility_DropStmt (env : Env) (fuel : Nat) (s : DropStmt)
    (queryString : String) (params : Payload) (isTopLevel : Bool)
    (dest : DestReceiver) (completionTag : Bool) (start h : History)
    (hg : check_xact_readonly env (.DropStmt s) start = (.ok (), start))
    (hh : h = if completionTag then start ++ [.completionTag ""] else start) :
    ProcessUtility env fuel (.DropStmt s) (some queryString) params isTopLevel
        dest completionTag start =
      M.bind (dropOneAtATime env s s.objects) (fun _ => M.pure ()) h := by
  obtain ⟨recurse, hb⟩ := ProcessUtility_eq_body env fuel (.DropStmt s)
    (some queryString) params isTopLevel dest completionTag
  rw [hb, ProcessUtility_body_DropStmt,
    guard_and_tag_ok env _ completionTag start h _ hg hh, foreach_drop_eq]

/-- The one-at-a-time processing gives one answer for each object. -/
theorem dropOneAtATime_length (env : Env) (s : DropStmt)
    (objs : List (List String)) (h0 h1 : History) (answers : List Bool)
    (hrun : dropOneAtATime env s objs h0 = (.ok answers, h1)) :
    answers.length = objs.length := by
  induction objs generalizing h0 h1 answers with
  | nil =>
    simp only [dropOneAtATime, M.pure, Prod.mk.injEq, Result.ok.injEq] at hrun
    rw [← hrun.1]
    rfl
  | cons names rest ih =>
    simp only [dropOneAtATime, M.bind] at hrun
    rcases hp : ProcessDropStatement env { s with objects := [names] } h0
      with ⟨r, h2⟩
    rw [hp] at hrun
    cases r with
    | error e => simp at hrun
    | outOfFuel => simp at hrun
    | ok found =>
      simp only at hrun
      rcases hd : (if (found && env.Gp_role == GpRoleValue.GP_ROLE_DISPATCH) = true
          then env.call .CdbDispatchUtilityStatement
            [.node (.DropStmt { s with objects := [names] }),
              .flags ⟨true, true, true⟩, .oids []]
          else M.pure ()) h2 with ⟨r3, h3⟩
      rw [hd] at hrun
      cases r3 with
      | error e => simp at hrun
      | outOfFuel => simp at hrun
      | ok u =>
        simp only at hrun
        rcases hr : dropOneAtATime env s rest h3 with ⟨r4, h4⟩
        rw [hr] at hrun
        cases r4 with
        | error e => simp at hrun
        | outOfFuel => simp at hrun
        | ok answers1 =>
          simp only [M.pure, Prod.mk.injEq, Result.ok.injEq] at hrun
          rw [← hrun.1, List.length_cons, List.length_cons, ih h3 h4 answers1 hr]

/-- The one-at-a-time processing on an object that does not resolve, with
missing_ok, for the kinds the dispatcher checks itself: the answer is false,
nothing is broadcast, and the remaining objects are processed from the history
that holds the skip notice. -/
theorem dropOneAtATime_skipped (env : Env) (s : DropStmt) (names : List String)
    (rest : List (List String)) (rightkind : Char) (rentry : msgstrings)
    (h : History) (hmiss : s.missing_ok = true)
    (hk : dropRightKind s.removeType = some rightkind)
    (hprofile : lookupEntry rightkind = some rentry)
    (hrel : env.RangeVarGetRelid h (env.makeRangeVarFromNameList names) true =
      .ok InvalidOid) :
    dropOneAtATime env s (names :: rest) h =
      M.bind (dropOneAtATime env s rest)
        (fun answers => M.pure (false :: answers))
        (if env.Gp_role = .GP_ROLE_EXECUTE then h
          else h ++ [.NOTICE (errmsg rentry.skipping_msg
            (env.makeRangeVarFromNameList names).relname)]) := by
  have hskip := ProcessDropStatement_skipped env { s with objects := [names] }
    names rightkind rentry h rfl hmiss hk hprofile hrel
  simp only [dropOneAtATime]
  rw [M.bind_ok _ _ _ _ _ hskip]
  rfl

/-- `ProcessDropStatement` for a removeType whose executor does its own
checks: the executor is called and the answer is true. -/
theorem ProcessDropStatement_executor (env : Env) (s : DropStmt)
    (names : List String) (proc : ExtProc) (hobj : s.objects = [names])
    (hx : dropExecutor s.removeType = some proc) :
    ProcessDropStatement env s =
      M.bind (env.call proc
        [.names names, .behavior s.behavior, .bool s.missing_ok])
        (fun _ => M.pure true) := by
  unfold ProcessDropStatement
  rw [hobj]
  simp only [bind, List.length_singleton, beq_self_eq_true, Assert, if_true,
    M.pure_bind, foreachAcc]
  unfold ProcessDropStatement.body
  cases hrt : s.removeType <;> simp [dropExecutor, hrt] at hx <;> subst hx <;>
    simp only [bind, pure, M.bind_assoc, M.pure_bind]

/-- C15: on a DROP statement that the guard accepts, the dispatcher does what
the one-at-a-time processing does, from the history `h` reached after the
guard and the reset of the completion tag: `ProcessDropStatement` is called
once for each object, in list order, on the copy of the statement that names
this object alone and keeps the missing_ok flag, and on the coordinator the
copy is broadcast exactly when the call answered true.  A run without error
gives one answer for each object.  An object that does not resolve (missing_ok,
a kind the dispatcher checks itself) gets the answer false, leaves only its
skip notice, and the objects after it are processed as usual. -/
theorem C15_drop_one_object_at_a_time (env : Env) (fuel : Nat) (s : DropStmt)
    (queryString : String) (params : Payload) (isTopLevel : Bool)
    (dest : DestReceiver) (completionTag : Bool) (start h : History)
    (hg : check_xact_readonly env (.DropStmt s) start = (.ok (), start))
    (hh : h = if completionTag then start ++ [.completionTag ""] else start) :
    ProcessUtility env fuel (.DropStmt s) (some queryString) params isTopLevel
        dest completionTag start =
      M.bind (dropOneAtATime env s s.objects) (fun _ => M.pure ()) h ∧
    (∀ (objs : List (List String)) (h0 h1 : History) (answers : List Bool),
      dropOneAtATime env s objs h0 = (.ok answers, h1) →
      answers.length = objs.length) ∧
    (∀ (names : List String) (rest : List (List String)) (rightkind : Char)
        (rentry : msgstrings) (h0 : History),
      s.missing_ok = true →
      dropRightKind s.removeType = some rightkind →
      lookupEntry rightkind = some rentry →
      env.RangeVarGetRelid h0 (env.makeRangeVarFromNameList names) true =
        .ok InvalidOid →
      dropOneAtATime env s (names :: rest) h0 =
        M.bind (dropOneAtATime env s rest)
          (fun answers => M.pure (false :: answers))
          (if env.Gp_role = .GP_ROLE_EXECUTE then h0
            else h0 ++ [.NOTICE (errmsg rentry.skipping_msg
              (env.makeRangeVarFromNameList names).relname)])) :=
  ⟨ProcessUtility_DropStmt env fuel s queryString params isTopLevel dest
      completionTag start h hg hh,
    dropOneAtATime_length env s,
    fun names rest rightkind rentry h0 hmiss hk hprofile hrel =>
      dropOneAtATime_skipped env s names rest rightkind rentry h0 hmiss hk
        hprofile hrel⟩

/-- C15, run in the sample world on the coordinator: DROP TABLE IF EXISTS t,
nosuch, tmp removes and broadcasts `t`, skips `nosuch` with a notice and no
broadcast, then removes and broadcasts `tmp`. -/
theorem C15_witness :
    ProcessUtility (sampleEnv .GP_ROLE_DISPATCH false) 0
        (.DropStmt ⟨[["t"], ["nosuch"], ["tmp"]], .OBJECT_TABLE, .DROP_RESTRICT,
          true⟩)
        (some "DROP TABLE IF EXISTS t, nosuch, tmp") ⟨0⟩ true (.receiver 1)
        false [] =
      (.ok (),
        [.call .RemoveRelation
            [.rangeVar ⟨none, none, "t", false⟩, .behavior .DROP_RESTRICT,
              .node (.DropStmt ⟨[["t"]], .OBJECT_TABLE, .DROP_RESTRICT, true⟩),
              .char RELKIND_RELATION],
          .call .CdbDispatchUtilityStatement
            [.node (.DropStmt ⟨[["t"]], .OBJECT_TABLE, .DROP_RESTRICT, true⟩),
              .flags ⟨true, true, true⟩, .oids []],
          .NOTICE "table \"nosuch\" does not exist, skipping",
          .call .RemoveRelation
            [.rangeVar ⟨none, none, "tmp", false⟩, .behavior .DROP_RESTRICT,
              .node (.DropStmt ⟨[["tmp"]], .OBJECT_TABLE, .DROP_RESTRICT,
                true⟩),
              .char RELKIND_RELATION],
          .call .CdbDispatchUtilityStatement
            [.node (.DropStmt ⟨[["tmp"]], .OBJECT_TABLE, .DROP_RESTRICT,
                true⟩),
              .flags ⟨true, true, true⟩, .oids []]]) :=
  (C15_drop_one_object_at_a_time (sampleEnv .GP_ROLE_DISPATCH false) 0
    ⟨[["t"], ["nosuch"], ["tmp"]], .OBJECT_TABLE, .DROP_RESTRICT, true⟩
    "DROP TABLE IF EXISTS t, nosuch, tmp" ⟨0⟩ true (.receiver 1) false [] []
    rfl rfl).1.trans rfl

/-- C16, as stated, fails: on the coordinator of the sample world, where the
name `nosuch` resolves to nothing, DROP TYPE IF EXISTS nosuch is broadcast all
the same, right after the call of the removal executor. -/
theorem C16_counterexample :
    (sampleEnv .GP_ROLE_DISPATCH false).RangeVarGetRelid []
      ⟨none, none, "nosuch", false⟩ true = .ok InvalidOid ∧
    ProcessUtility (sampleEnv .GP_ROLE_DISPATCH false) 0
        (.DropStmt ⟨[["nosuch"]], .OBJECT_TYPE, .DROP_RESTRICT, true⟩)
        (some "DROP TYPE IF EXISTS nosuch") ⟨0⟩ true (.receiver 1) false [] =
      (.ok (),
        [.call .RemoveType
            [.names ["nosuch"], .behavior .DROP_RESTRICT, .bool true],
          .call .CdbDispatchUtilityStatement
            [.node (.DropStmt ⟨[["nosuch"]], .OBJECT_TYPE, .DROP_RESTRICT,
                true⟩),
              .flags ⟨true, true, true⟩, .oids []]]) :=
  ⟨rfl, rfl⟩

/-- C16, amended: on the coordinator, for a single-object DROP that the guard
accepts.  For TABLE, EXTERNAL TABLE, SEQUENCE, VIEW and INDEX an object that
does not resolve, with missing_ok, is skipped and nothing is broadcast.  For
the other kinds the dispatcher supports (TYPE, DOMAIN, CONVERSION, SCHEMA,
FILESPACE, TABLESPACE, PROTOCOL, EXTENSION and the four text-search kinds) the
removal executor returns nothing, and the statement is broadcast whenever the
executor returns, whether or not the object was there: the events are the call
of the executor and then the broadcast. -/
theorem C16_broadcast_by_kind (env : Env) (fuel : Nat) (s : DropStmt)
    (names : List String) (queryString : String) (params : Payload)
    (isTopLevel : Bool) (dest : DestReceiver) (completionTag : Bool)
    (start h : History) (hobj : s.objects = [names])
    (hrole : env.Gp_role = .GP_ROLE_DISPATCH)
    (hg : check_xact_readonly env (.DropStmt s) start = (.ok (), start))
    (hh : h = if completionTag then start ++ [.completionTag ""] else start) :
    (∀ (rightkind : Char) (rentry : msgstrings),
      s.missing_ok = true →
      dropRightKind s.removeType = some rightkind →
      lookupEntry rightkind = some rentry →
      env.RangeVarGetRelid h (env.makeRangeVarFromNameList names) true =
        .ok InvalidOid →
      ProcessUtility env fuel (.DropStmt s) (some queryString) params
          isTopLevel dest completionTag start =
        (.ok (), h ++ [.NOTICE (errmsg rentry.skipping_msg
          (env.makeRangeVarFromNameList names).relname)])) ∧
    (∀ proc : ExtProc,
      dropExecutor s.removeType = some proc →
      env.raises h proc
        [.names names, .behavior s.behavior, .bool s.missing_ok] = none →
      (ProcessUtility env fuel (.DropStmt s) (some queryString) params
          isTopLevel dest completionTag start).2 =
        h ++ [.call proc
            [.names names, .behavior s.behavior, .bool s.missing_ok],
          .call .CdbDispatchUtilityStatement
            [.node (.DropStmt s), .flags ⟨true, true, true⟩, .oids []]]) := by
  have hs : ({ s with objects := [names] } : DropStmt) = s := by
    cases s
    simp only at hobj
    subst hobj
    rfl
  have hpu := ProcessUtility_DropStmt env fuel s queryString params isTopLevel
    dest completionTag start h hg hh
  rw [hobj] at hpu
  refine ⟨fun rightkind rentry hmiss hk hprofile hrel => ?_,
    fun proc hx hraise => ?_⟩
  · have hsk := dropOneAtATime_skipped env s names [] rightkind rentry h hmiss
      hk hprofile hrel
    rw [hpu]
    unfold M.bind
    rw [hsk]
    simp [hrole, dropOneAtATime, M.bind, M.pure]
  · rw [hpu]
    simp only [dropOneAtATime, hs,
      ProcessDropStatement_executor env s names proc hobj hx, M.bind_assoc,
      M.pure_bind]
    simp [M.bind, Env.call, hraise, hrole, M.pure]
    cases env.raises (h ++ [Event.call proc
        [.names names, .behavior s.behavior, .bool s.missing_ok]])
      .CdbDispatchUtilityStatement
      [.node (.DropStmt s), .flags ⟨true, true, true⟩, .oids []] <;> simp

/-- C16 as amended, run in the sample world on the coordinator: the events of
DROP SCHEMA IF EXISTS nosuch are the call of the executor and the broadcast. -/
theorem C16_witness :
    (ProcessUtility (sampleEnv .GP_ROLE_DISPATCH false) 0
        (.DropStmt ⟨[["nosuch"]], .OBJECT_SCHEMA, .DROP_CASCADE, true⟩)
        (some "DROP SCHEMA IF EXISTS nosuch CASCADE") ⟨0⟩ true (.receiver 1)
        false []).2 =
      [.call .RemoveSchema
          [.names ["nosuch"], .behavior .DROP_CASCADE, .bool true],
        .call .CdbDispatchUtilityStatement
          [.node (.DropStmt ⟨[["nosuch"]], .OBJECT_SCHEMA, .DROP_CASCADE,
              true⟩),
            .flags ⟨true, true, true⟩, .oids []]] :=
  (C16_broadcast_by_kind (sampleEnv .GP_ROLE_DISPATCH false) 0
    ⟨[["nosuch"]], .OBJECT_SCHEMA, .DROP_CASCADE, true⟩ ["nosuch"]
    "DROP SCHEMA IF EXISTS nosuch CASCADE" ⟨0⟩ true (.receiver 1) false [] []
    rfl rfl rfl rfl).2 .RemoveSchema rfl rfl

/-! ## Transaction control and transaction-block preconditions -/

/-- The guard accepts every node that is neither CREATE TABLE nor DROP and
whose tag is not in the reject list, whatever the transaction mode. -/
theorem check_xact_readonly_not_listed (env : Env) (parsetree : Node)
    (h : History) (hn : nodeTag parsetree ∉ rejectList)
    (hc : nodeTag parsetree ≠ .T_CreateStmt)
    (hd : nodeTag parsetree ≠ .T_DropStmt) :
    check_xact_readonly env parsetree h = (.ok (), h) := by
  cases hro : env.XactReadOnly h
  · exact check_xact_readonly_off env parsetree h hro
  · rw [check_xact_readonly_on env parsetree h hro hc hd, if_neg hn]

/-- The guard accepts every transaction-control statement. -/
theorem check_xact_readonly_TransactionStmt (env : Env) (s : TransactionStmt)
    (h : History) :
    check_xact_readonly env (.TransactionStmt s) h = (.ok (), h) :=
  check_xact_readonly_not_listed env _ h (by simp only [nodeTag]; decide)
    (by simp only [nodeTag]; decide) (by simp only [nodeTag]; decide)

/-- From the body of the dispatcher on a node to the dispatcher itself, when
the guard accepts the node. -/
theorem ProcessUtility_of_body (env : Env) (fuel : Nat) (parsetree : Node)
    (queryString : String) (params : Payload) (isTopLevel : Bool)
    (dest : DestReceiver) (completionTag : Bool) (start h : History)
    (rest : M Unit)
    (hbody : ∀ recurse, ProcessUtility.body env recurse parsetree
        (some queryString) params isTopLevel dest completionTag =
      M.bind (check_xact_readonly env parsetree)
        (fun _ =>
          M.bind (if completionTag = true then emit (.completionTag "")
            else M.pure ())
            (fun _ => rest)))
    (hg : check_xact_readonly env parsetree start = (.ok (), start))
    (hh : h = if completionTag then start ++ [.completionTag ""] else start) :
    ProcessUtility env fuel parsetree (some queryString) params isTopLevel
      dest completionTag start = rest h := by
  obtain ⟨recurse, hb⟩ := ProcessUtility_eq_body env fuel parsetree
    (some queryString) params isTopLevel dest completionTag
  rw [hb, hbody recurse, guard_and_tag_ok env _ completionTag start h _ hg hh]

/-- The body of the dispatcher on PREPARE TRANSACTION. -/
theorem ProcessUtility_body_PREPARE (env : Env) (recurse : Node → M Unit)
    (options : List DefElem) (gid : String) (queryString : String)
    (params : Payload) (isTopLevel : Bool) (dest : DestReceiver)
    (completionTag : Bool) :
    ProcessUtility.body env recurse
        (.TransactionStmt ⟨.TRANS_STMT_PREPARE, options, gid⟩)
        (some queryString) params isTopLevel dest completionTag =
      M.bind (check_xact_readonly env
          (.TransactionStmt ⟨.TRANS_STMT_PREPARE, options, gid⟩))
        (fun _ =>
          M.bind (if completionTag = true then emit (.completionTag "")
            else M.pure ())
            (fun _ =>
              M.bind (if (env.Gp_role == .GP_ROLE_DISPATCH) = true then
                  raise (.ereport .ERRCODE_GP_COMMAND_ERROR
                    "PREPARE TRANSACTION is not yet supported in Greenplum Database."
                    none)
                else M.pure ())
                (fun _ =>
                  M.bind (env.callRet env.retBool .PrepareTransactionBlock
                      [.str gid])
                    (fun prepared =>
                      if (!prepared) = true then
                        if completionTag = true then
                          emit (.completionTag "ROLLBACK")
                        else M.pure ()
                      else M.pure ())))) := by
  cases completionTag <;> cases hr : (env.Gp_role == .GP_ROLE_DISPATCH) <;>
    (unfold ProcessUtility.body; simp only [hr]; rfl)

/-- The body of the dispatcher on COMMIT PREPARED and ROLLBACK PREPARED;
`isCommit` tells which. -/
theorem ProcessUtility_body_FINISH_PREPARED (env : Env)
    (recurse : Node → M Unit) (isCommit : Bool) (options : List DefElem)
    (gid : String) (queryString : String) (params : Payload)
    (isTopLevel : Bool) (dest : DestReceiver) (completionTag : Bool) :
    ProcessUtility.body env recurse
        (.TransactionStmt
          ⟨if isCommit then .TRANS_STMT_COMMIT_PREPARED
            else .TRANS_STMT_ROLLBACK_PREPARED, options, gid⟩)
        (some queryString) params isTopLevel dest completionTag =
      M.bind (check_xact_readonly env
          (.TransactionStmt
            ⟨if isCommit then .TRANS_STMT_COMMIT_PREPARED
              else .TRANS_STMT_ROLLBACK_PREPARED, options, gid⟩))
        (fun _ =>
          M.bind (if completionTag = true then emit (.completionTag "")
            else M.pure ())
            (fun _ =>
              M.bind (if (env.Gp_role == .GP_ROLE_DISPATCH) = true then
                  raise (.ereport .ERRCODE_GP_COMMAND_ERROR
                    (if isCommit then
                      "COMMIT PREPARED is not yet supported in Greenplum Database."
                    else
                      "ROLLBACK PREPARED is not yet supported in Greenplum Database.")
                    none)
                else M.pure ())
                (fun _ =>
                  M.bind (env.call .PreventTransactionChain
                      [.bool isTopLevel,
                        .str (if isCommit then "COMMIT PREPARED"
                          else "ROLLBACK PREPARED")])
                    (fun _ =>
                      env.call .FinishPreparedTransaction
                        [.str gid, .bool isCommit, .bool true])))) := by
  cases isCommit <;> cases completionTag <;>
    cases hr : (env.Gp_role == .GP_ROLE_DISPATCH) <;>
    (unfold ProcessUtility.body; simp only [hr]; rfl)

/-- A call of an external routine that raises ends there, its event logged. -/
theorem Env.call_raises (env : Env) (proc : ExtProc) (args : List Arg)
    (h : History) (e : ErrorData) (he : env.raises h proc args = some e) :
    env.call proc args h = (.error e, h ++ [.call proc args]) := by
  simp only [Env.call, he]

/-- A call of an external routine that does not raise returns, its event
logged. -/
theorem Env.call_returns (env : Env) (proc : ExtProc) (args : List Arg)
    (h : History) (hn : env.raises h proc args = none) :
    env.call proc args h = (.ok (), h ++ [.call proc args]) := by
  simp only [Env.call, hn]

/-- A call of an external routine logs its event and nothing else. -/
theorem Env.call_history (env : Env) (proc : ExtProc) (args : List Arg)
    (h : History) :
    (env.call proc args h).2 = h ++ [.call proc args] := by
  unfold Env.call
  cases env.raises h proc args <;> rfl

/-- When a piece of code starts with a call of an external routine and what
follows only adds events, the first new event is that call. -/
theorem Env.call_bind_first {α : Type} (env : Env) (proc : ExtProc)
    (args : List Arg) (f : Unit → M α) (h : History)
    (hf : ∀ h1, ∃ r, (f () h1).2 = h1 ++ r) :
    ∃ rest, (M.bind (env.call proc args) f h).2 =
      h ++ .call proc args :: rest := by
  unfold M.bind Env.call
  cases env.raises h proc args with
  | some e => exact ⟨[], rfl⟩
  | none =>
    obtain ⟨r, hr⟩ := hf (h ++ [.call proc args])
    exact ⟨r, by simp [hr]⟩

/-- The same for a routine that returns a value. -/
theorem Env.callRet_bind_first {α β : Type} (env : Env)
    (ret : History → ExtProc → List Arg → β) (proc : ExtProc)
    (args : List Arg) (f : β → M α) (h : History)
    (hf : ∀ b h1, ∃ r, (f b h1).2 = h1 ++ r) :
    ∃ rest, (M.bind (env.callRet ret proc args) f h).2 =
      h ++ .call proc args :: rest := by
  unfold M.bind Env.callRet
  cases env.raises h proc args with
  | some e => exact ⟨[], rfl⟩
  | none =>
    obtain ⟨r, hr⟩ := hf (ret h proc args) (h ++ [.call proc args])
    exact ⟨r, by simp [hr]⟩

/-- C17: on the coordinator, PREPARE TRANSACTION, COMMIT PREPARED and ROLLBACK
PREPARED end in ERRCODE_GP_COMMAND_ERROR ("... is not yet supported in
Greenplum Database.") and no transaction-manager routine is called: `h`, the
history after the guard and the reset of the completion tag, is left as it is.
On every other role this test does not stop them: the next event is the call
of PrepareTransactionBlock, or of PreventTransactionChain for the other two. -/
theorem C17_prepared_transaction_commands (env : Env) (fuel : Nat)
    (options : List DefElem) (gid : String) (queryString : String)
    (params : Payload) (isTopLevel : Bool) (dest : DestReceiver)
    (completionTag : Bool) (start h : History)
    (hh : h = if completionTag then start ++ [.completionTag ""] else start) :
    (env.Gp_role = .GP_ROLE_DISPATCH →
      ProcessUtility env fuel
          (.TransactionStmt ⟨.TRANS_STMT_PREPARE, options, gid⟩)
          (some queryString) params isTopLevel dest completionTag start =
        (.error (.ereport .ERRCODE_GP_COMMAND_ERROR
          "PREPARE TRANSACTION is not yet supported in Greenplum Database."
          none), h) ∧
      ProcessUtility env fuel
          (.TransactionStmt ⟨.TRANS_STMT_COMMIT_PREPARED, options, gid⟩)
          (some queryString) params isTopLevel dest completionTag start =
        (.error (.ereport .ERRCODE_GP_COMMAND_ERROR
          "COMMIT PREPARED is not yet supported in Greenplum Database."
          none), h) ∧
      ProcessUtility env fuel
          (.TransactionStmt ⟨.TRANS_STMT_ROLLBACK_PREPARED, options, gid⟩)
          (some queryString) params isTopLevel dest completionTag start =
        (.error (.ereport .ERRCODE_GP_COMMAND_ERROR
          "ROLLBACK PREPARED is not yet supported in Greenplum Database."
          none), h)) ∧
    (env.Gp_role ≠ .GP_ROLE_DISPATCH →
      (∃ rest, (ProcessUtility env fuel
          (.TransactionStmt ⟨.TRANS_STMT_PREPARE, options, gid⟩)
          (some queryString) params isTopLevel dest completionTag start).2 =
        h ++ .call .PrepareTransactionBlock [.str gid] :: rest) ∧
      (∃ rest, (ProcessUtility env fuel
          (.TransactionStmt ⟨.TRANS_STMT_COMMIT_PREPARED, options, gid⟩)
          (some queryString) params isTopLevel dest completionTag start).2 =
        h ++ .call .PreventTransactionChain
          [.bool isTopLevel, .str "COMMIT PREPARED"] :: rest) ∧
      (∃ rest, (ProcessUtility env fuel
          (.TransactionStmt ⟨.TRANS_STMT_ROLLBACK_PREPARED, options, gid⟩)
          (some queryString) params isTopLevel dest completionTag start).2 =
        h ++ .call .PreventTransactionChain
          [.bool isTopLevel, .str "ROLLBACK PREPARED"] :: rest)) := by
  have hp := ProcessUtility_of_body env fuel
    (.TransactionStmt ⟨.TRANS_STMT_PREPARE, options, gid⟩) queryString params
    isTopLevel dest completionTag start h _
    (fun recurse => ProcessUtility_body_PREPARE env recurse options gid
      queryString params isTopLevel dest completionTag)
    (check_xact_readonly_TransactionStmt env _ start) hh
  have hc := ProcessUtility_of_body env fuel
    (.TransactionStmt ⟨.TRANS_STMT_COMMIT_PREPARED, options, gid⟩) queryString
    params isTopLevel dest completionTag start h _
    (fun recurse => ProcessUtility_body_FINISH_PREPARED env recurse true options
      gid queryString params isTopLevel dest completionTag)
    (check_xact_readonly_TransactionStmt env _ start) hh
  have hr := ProcessUtility_of_body env fuel
    (.TransactionStmt ⟨.TRANS_STMT_ROLLBACK_PREPARED, options, gid⟩) queryString
    params isTopLevel dest completionTag start h _
    (fun recurse => ProcessUtility_body_FINISH_PREPARED env recurse false
      options gid queryString params isTopLevel dest completionTag)
    (check_xact_readonly_TransactionStmt env _ start) hh
  rw [hp, hc, hr]
  refine ⟨fun hrole => ?_, fun hrole => ?_⟩
  · simp [hrole, M.bind, raise]
  · have hb : (env.Gp_role == GpRoleValue.GP_ROLE_DISPATCH) = false := by
      simpa using hrole
    simp only [hb, Bool.false_eq_true, if_false, M.pure_bind]
    refine ⟨?_, ?_, ?_⟩
    · refine Env.callRet_bind_first env env.retBool _ _ _ h (fun b h1 => ?_)
      cases b <;> cases completionTag <;>
        first
        | exact ⟨[], (List.append_nil h1).symm⟩
        | exact ⟨[.completionTag "ROLLBACK"], rfl⟩
    · exact Env.call_bind_first env _ _ _ h
        (fun h1 => ⟨_, Env.call_history env _ _ h1⟩)
    · exact Env.call_bind_first env _ _ _ h
        (fun h1 => ⟨_, Env.call_history env _ _ h1⟩)

/-- C17, run in the sample world on the coordinator: PREPARE TRANSACTION is
refused and the only event is the reset of the completion tag. -/
theorem C17_witness :
    ProcessUtility (sampleEnv .GP_ROLE_DISPATCH false) 0
        (.TransactionStmt ⟨.TRANS_STMT_PREPARE, [], "g1"⟩)
        (some "PREPARE TRANSACTION g1") ⟨0⟩ true (.receiver 1) true [] =
      (.error (.ereport .ERRCODE_GP_COMMAND_ERROR
        "PREPARE TRANSACTION is not yet supported in Greenplum Database."
        none), [.completionTag ""]) :=
  ((C17_prepared_transaction_commands (sampleEnv .GP_ROLE_DISPATCH false) 0 []
    "g1" "PREPARE TRANSACTION g1" ⟨0⟩ true (.receiver 1) true []
    [.completionTag ""] rfl).1 rfl).1

/-- The body of the dispatcher on SAVEPOINT. -/
theorem ProcessUtility_body_SAVEPOINT (env : Env) (recurse : Node → M Unit)
    (options : List DefElem) (gid : String) (queryString : String)
    (params : Payload) (isTopLevel : Bool) (dest : DestReceiver)
    (completionTag : Bool) :
    ProcessUtility.body env recurse
        (.TransactionStmt ⟨.TRANS_STMT_SAVEPOINT, options, gid⟩)
        (some queryString) params isTopLevel dest completionTag =
      M.bind (check_xact_readonly env
          (.TransactionStmt ⟨.TRANS_STMT_SAVEPOINT, options, gid⟩))
        (fun _ =>
          M.bind (if completionTag = true then emit (.completionTag "")
            else M.pure ())
            (fun _ =>
              M.bind (env.call .RequireTransactionChain
                  [.bool isTopLevel, .str "SAVEPOINT"])
                (fun _ =>
                  M.bind (Assert
                      (options.foldl
                        (fun name elem =>
                          if elem.defname == "savepoint_name" then
                            some elem.arg
                          else name)
                        none).isSome "PointerIsValid(name)")
                    (fun _ =>
                      M.bind (if (env.Gp_role == .GP_ROLE_DISPATCH) = true then
                          env.call .sendDtxExplicitBegin []
                        else M.pure ())
                        (fun _ =>
                          env.call .DefineDispatchSavepoint
                            [.payloads
                              (options.foldl
                                (fun name elem =>
                                  if elem.defname == "savepoint_name" then
                                    some elem.arg
                                  else name)
                                none).toList]))))) := by
  cases completionTag <;> cases hr : (env.Gp_role == .GP_ROLE_DISPATCH) <;>
    (unfold ProcessUtility.body; simp only [hr]; rfl)

/-- The body of the dispatcher on RELEASE SAVEPOINT. -/
theorem ProcessUtility_body_RELEASE (env : Env) (recurse : Node → M Unit)
    (options : List DefElem) (gid : String) (queryString : String)
    (params : Payload) (isTopLevel : Bool) (dest : DestReceiver)
    (completionTag : Bool) :
    ProcessUtility.body env recurse
        (.TransactionStmt ⟨.TRANS_STMT_RELEASE, options, gid⟩)
        (some queryString) params isTopLevel dest completionTag =
      M.bind (check_xact_readonly env
          (.TransactionStmt ⟨.TRANS_STMT_RELEASE, options, gid⟩))
        (fun _ =>
          M.bind (if completionTag = true then emit (.completionTag "")
            else M.pure ())
            (fun _ =>
              M.bind (env.call .RequireTransactionChain
                  [.bool isTopLevel, .str "RELEASE SAVEPOINT"])
                (fun _ => env.call .ReleaseSavepoint [.defElems options]))) := by
  cases completionTag <;> (unfold ProcessUtility.body; rfl)

/-- The body of the dispatcher on ROLLBACK TO SAVEPOINT. -/
theorem ProcessUtility_body_ROLLBACK_TO (env : Env) (recurse : Node → M Unit)
    (options : List DefElem) (gid : String) (queryString : String)
    (params : Payload) (isTopLevel : Bool) (dest : DestReceiver)
    (completionTag : Bool) :
    ProcessUtility.body env recurse
        (.TransactionStmt ⟨.TRANS_STMT_ROLLBACK_TO, options, gid⟩)
        (some queryString) params isTopLevel dest completionTag =
      M.bind (check_xact_readonly env
          (.TransactionStmt ⟨.TRANS_STMT_ROLLBACK_TO, options, gid⟩))
        (fun _ =>
          M.bind (if completionTag = true then emit (.completionTag "")
            else M.pure ())
            (fun _ =>
              M.bind (env.call .RequireTransactionChain
                  [.bool isTopLevel, .str "ROLLBACK TO SAVEPOINT"])
                (fun _ =>
                  env.call .RollbackToSavepoint [.defElems options]))) := by
  cases completionTag <;> (unfold ProcessUtility.body; rfl)

/-- When the first routine called raises, the call ends with its error and its
event alone. -/
theorem Env.call_bind_raises {α : Type} (env : Env) (proc : ExtProc)
    (args : List Arg) (f : Unit → M α) (h : History) (e : ErrorData)
    (he : env.raises h proc args = some e) :
    M.bind (env.call proc args) f h = (.error e, h ++ [.call proc args]) :=
  M.bind_error _ _ h _ e (Env.call_raises env proc args h e he)

/-- When the first routine called returns, the rest runs after its event. -/
theorem Env.call_bind_returns {α : Type} (env : Env) (proc : ExtProc)
    (args : List Arg) (f : Unit → M α) (h : History)
    (hn : env.raises h proc args = none) :
    M.bind (env.call proc args) f h = f () (h ++ [.call proc args]) :=
  M.bind_ok _ _ h _ () (Env.call_returns env proc args h hn)

/-- An assertion leaves no event. -/
theorem Assert_history (c : Bool) (condition : String) (h : History) :
    (Assert c condition h).2 = h := by
  cases c <;> rfl

/-- Running two pieces of code that only add events only adds events. -/
theorem M.bind_extends {α β : Type} (m : M α) (f : α → M β)
    (hm : ∀ h, ∃ r, (m h).2 = h ++ r)
    (hf : ∀ a h, ∃ r, (f a h).2 = h ++ r) :
    ∀ h, ∃ r, (M.bind m f h).2 = h ++ r := by
  intro h
  obtain ⟨r, hr⟩ := hm h
  unfold M.bind
  cases hmh : m h with
  | mk res h1 =>
    rw [hmh] at hr
    simp only at hr
    cases res with
    | ok a =>
      obtain ⟨r2, hr2⟩ := hf a h1
      subst hr
      exact ⟨r ++ r2, by rw [hr2, List.append_assoc]⟩
    | error e => exact ⟨r, hr⟩
    | outOfFuel => exact ⟨r, hr⟩

/-- A call made under a condition only adds events. -/
theorem Env.call_if_extends (env : Env) (c : Bool) (proc : ExtProc)
    (args : List Arg) :
    ∀ h, ∃ r, ((if c = true then env.call proc args else M.pure ()) h).2 =
      h ++ r := by
  intro h
  cases c
  · exact ⟨[], (List.append_nil h).symm⟩
  · exact ⟨_, Env.call_history env proc args h⟩

/-- C18: SAVEPOINT, RELEASE SAVEPOINT and ROLLBACK TO SAVEPOINT call
RequireTransactionChain first, in every role: it is the first event after `h`,
the history left by the guard and the reset of the completion tag.  When it
raises, the command ends with that error and the check is the only event: no
savepoint routine is called and nothing is sent to the workers. -/
theorem C18_savepoint_commands_require_block (env : Env) (fuel : Nat)
    (options : List DefElem) (gid : String) (queryString : String)
    (params : Payload) (isTopLevel : Bool) (dest : DestReceiver)
    (completionTag : Bool) (start h : History)
    (hh : h = if completionTag then start ++ [.completionTag ""] else start) :
    ∀ kind name, (kind, name) ∈
        [(TransactionStmtKind.TRANS_STMT_SAVEPOINT, "SAVEPOINT"),
          (TransactionStmtKind.TRANS_STMT_RELEASE, "RELEASE SAVEPOINT"),
          (TransactionStmtKind.TRANS_STMT_ROLLBACK_TO,
            "ROLLBACK TO SAVEPOINT")] →
      (∃ rest, (ProcessUtility env fuel
            (.TransactionStmt ⟨kind, options, gid⟩) (some queryString) params
            isTopLevel dest completionTag start).2 =
          h ++ .call .RequireTransactionChain
            [.bool isTopLevel, .str name] :: rest) ∧
      ∀ e, env.raises h .RequireTransactionChain
            [.bool isTopLevel, .str name] = some e →
        ProcessUtility env fuel
            (.TransactionStmt ⟨kind, options, gid⟩) (some queryString) params
            isTopLevel dest completionTag start =
          (.error e, h ++ [.call .RequireTransactionChain
            [.bool isTopLevel, .str name]]) := by
  intro kind name hm
  simp only [List.mem_cons, Prod.mk.injEq, List.mem_singleton,
    List.not_mem_nil, or_false] at hm
  rcases hm with ⟨rfl, rfl⟩ | ⟨rfl, rfl⟩ | ⟨rfl, rfl⟩
  · rw [ProcessUtility_of_body env fuel _ queryString params isTopLevel dest
      completionTag start h _
      (fun recurse => ProcessUtility_body_SAVEPOINT env recurse options gid
        queryString params isTopLevel dest completionTag)
      (check_xact_readonly_TransactionStmt env _ start) hh]
    refine ⟨Env.call_bind_first env _ _ _ h (fun h1 => ?_),
      fun e he => Env.call_bind_raises env _ _ _ h e he⟩
    exact M.bind_extends _ _
      (fun h2 => ⟨[], by rw [Assert_history, List.append_nil]⟩)
      (fun _ => M.bind_extends _ _ (Env.call_if_extends env _ _ _)
        (fun _ h2 => ⟨_, Env.call_history env _ _ h2⟩)) h1
  · rw [ProcessUtility_of_body env fuel _ queryString params isTopLevel dest
      completionTag start h _
      (fun recurse => ProcessUtility_body_RELEASE env recurse options gid
        queryString params isTopLevel dest completionTag)
      (check_xact_readonly_TransactionStmt env _ start) hh]
    exact ⟨Env.call_bind_first env _ _ _ h
        (fun h1 => ⟨_, Env.call_history env _ _ h1⟩),
      fun e he => Env.call_bind_raises env _ _ _ h e he⟩
  · rw [ProcessUtility_of_body env fuel _ queryString params isTopLevel dest
      completionTag start h _
      (fun recurse => ProcessUtility_body_ROLLBACK_TO env recurse options gid
        queryString params isTopLevel dest completionTag)
      (check_xact_readonly_TransactionStmt env _ start) hh]
    exact ⟨Env.call_bind_first env _ _ _ h
        (fun h1 => ⟨_, Env.call_history env _ _ h1⟩),
      fun e he => Env.call_bind_raises env _ _ _ h e he⟩

/-- C18, run outside a transaction block on the coordinator: SAVEPOINT a ends
with the error of the check, and the check is the only event. -/
theorem C18_witness :
    ProcessUtility (sampleEnvNoBlock .GP_ROLE_DISPATCH) 0
        (.TransactionStmt ⟨.TRANS_STMT_SAVEPOINT, [⟨"savepoint_name", ⟨1⟩⟩], ""⟩)
        (some "SAVEPOINT a") ⟨0⟩ true (.receiver 1) false [] =
      (.error (.external 25005),
        [.call .RequireTransactionChain [.bool true, .str "SAVEPOINT"]]) :=
  (C18_savepoint_commands_require_block (sampleEnvNoBlock .GP_ROLE_DISPATCH) 0
    [⟨"savepoint_name", ⟨1⟩⟩] "" "SAVEPOINT a" ⟨0⟩ true (.receiver 1) false []
    [] rfl .TRANS_STMT_SAVEPOINT "SAVEPOINT" (by simp)).2 (.external 25005) rfl

/-! ## Commands that must not run inside a transaction block -/

/-- The body of the dispatcher on CREATE DATABASE. -/
theorem ProcessUtility_body_CreatedbStmt (env : Env) (recurse : Node → M Unit)
    (p : Payload) (queryString : String) (params : Payload)
    (isTopLevel : Bool) (dest : DestReceiver) (completionTag : Bool) :
    ProcessUtility.body env recurse (.CreatedbStmt p)
        (some queryString) params isTopLevel dest completionTag =
      M.bind (check_xact_readonly env (.CreatedbStmt p))
        (fun _ =>
          M.bind (if completionTag = true then emit (.completionTag "")
            else M.pure ())
            (fun _ =>
              M.bind (if (env.Gp_role != .GP_ROLE_EXECUTE) = true then
                  env.call .PreventTransactionChain
                    [.bool isTopLevel, .str "CREATE DATABASE"]
                else M.pure ())
                (fun _ => env.call .createdb [.node (.CreatedbStmt p)]))) := by
  cases completionTag <;> cases hr : (env.Gp_role != .GP_ROLE_EXECUTE) <;>
    (unfold ProcessUtility.body; simp only [hr]; rfl)

/-- The body of the dispatcher on DROP DATABASE. -/
theorem ProcessUtility_body_DropdbStmt (env : Env) (recurse : Node → M Unit)
    (s : DropdbStmt) (queryString : String) (params : Payload)
    (isTopLevel : Bool) (dest : DestReceiver) (completionTag : Bool) :
    ProcessUtility.body env recurse (.DropdbStmt s)
        (some queryString) params isTopLevel dest completionTag =
      M.bind (check_xact_readonly env (.DropdbStmt s))
        (fun _ =>
          M.bind (if completionTag = true then emit (.completionTag "")
            else M.pure ())
            (fun _ =>
              M.bind (if (env.Gp_role != .GP_ROLE_EXECUTE) = true then
                  env.call .PreventTransactionChain
                    [.bool isTopLevel, .str "DROP DATABASE"]
                else M.pure ())
                (fun _ =>
                  env.call .dropdb [.str s.dbname, .bool s.missing_ok]))) := by
  cases completionTag <;> cases hr : (env.Gp_role != .GP_ROLE_EXECUTE) <;>
    (unfold ProcessUtility.body; simp only [hr]; rfl)

/-- The body of the dispatcher on CREATE RESOURCE QUEUE. -/
theorem ProcessUtility_body_CreateQueueStmt (env : Env)
    (recurse : Node → M Unit) (p : Payload) (queryString : String)
    (params : Payload) (isTopLevel : Bool) (dest : DestReceiver)
    (completionTag : Bool) :
    ProcessUtility.body env recurse (.CreateQueueStmt p)
        (some queryString) params isTopLevel dest completionTag =
      M.bind (check_xact_readonly env (.CreateQueueStmt p))
        (fun _ =>
          M.bind (if completionTag = true then emit (.completionTag "")
            else M.pure ())
            (fun _ =>
              M.bind (if (env.Gp_role == .GP_ROLE_DISPATCH) = true then
                  env.call .PreventTransactionChain
                    [.bool isTopLevel, .str "CREATE RESOURCE QUEUE"]
                else M.pure ())
                (fun _ =>
                  env.call .CreateQueue [.node (.CreateQueueStmt p)]))) := by
  cases completionTag <;> cases hr : (env.Gp_role == .GP_ROLE_DISPATCH) <;>
    (unfold ProcessUtility.body; simp only [hr]; rfl)

/-- The body of the dispatcher on REINDEX DATABASE. -/
theorem ProcessUtility_body_ReindexDatabase (env : Env)
    (recurse : Node → M Unit) (p : Payload) (queryString : String)
    (params : Payload) (isTopLevel : Bool) (dest : DestReceiver)
    (completionTag : Bool) :
    ProcessUtility.body env recurse (.ReindexStmt ⟨.OBJECT_DATABASE, p⟩)
        (some queryString) params isTopLevel dest completionTag =
      M.bind (check_xact_readonly env (.ReindexStmt ⟨.OBJECT_DATABASE, p⟩))
        (fun _ =>
          M.bind (if completionTag = true then emit (.completionTag "")
            else M.pure ())
            (fun _ =>
              M.bind (if (env.Gp_role == .GP_ROLE_DISPATCH) = true then
                  env.call .PreventTransactionChain
                    [.bool isTopLevel, .str "REINDEX DATABASE"]
                else M.pure ())
                (fun _ =>
                  env.call .ReindexDatabase
                    [.node (.ReindexStmt ⟨.OBJECT_DATABASE, p⟩)]))) := by
  cases completionTag <;> cases hr : (env.Gp_role == .GP_ROLE_DISPATCH) <;>
    (unfold ProcessUtility.body; simp only [hr]; rfl)

/-- The body of the dispatcher on CHECKPOINT. -/
theorem ProcessUtility_body_CheckPointStmt (env : Env)
    (recurse : Node → M Unit) (p : Payload) (queryString : String)
    (params : Payload) (isTopLevel : Bool) (dest : DestReceiver)
    (completionTag : Bool) :
    ProcessUtility.body env recurse (.CheckPointStmt p)
        (some queryString) params isTopLevel dest completionTag =
      M.bind (check_xact_readonly env (.CheckPointStmt p))
        (fun _ =>
          M.bind (if completionTag = true then emit (.completionTag "")
            else M.pure ())
            (fun _ =>
              M.bind (ask env.superuser)
                (fun super =>
                  if (!super) = true then
                    raise (.ereport .ERRCODE_INSUFFICIENT_PRIVILEGE
                      "must be superuser to do CHECKPOINT" none)
                  else
                    M.bind (if (env.Gp_role == .GP_ROLE_DISPATCH) = true then
                        env.call .CdbDispatchCommand
                          [.str "CHECKPOINT", .flags DF_WITH_SNAPSHOT]
                      else M.pure ())
                      (fun _ =>
                        env.call .RequestCheckpoint
                          [.str "CHECKPOINT_IMMEDIATE | CHECKPOINT_FORCE | CHECKPOINT_WAIT"])))) := by
  cases completionTag <;> cases hr : (env.Gp_role == .GP_ROLE_DISPATCH) <;>
    (unfold ProcessUtility.body; simp only [hr]; rfl)

/-- The body of the dispatcher on CREATE INDEX: parse analysis, then, for each
statement it returns, the steps `step`; on a node that is no IndexStmt, which
the source casts unchecked, the model stops. -/
theorem ProcessUtility_body_IndexStmt (env : Env) (isTopLevel : Bool) :
    ∃ step : Node → M Unit,
      (∀ stmt : IndexStmt, step (.IndexStmt stmt) =
        M.bind (if stmt.concurrent = true then
            env.call .PreventTransactionChain
              [.bool isTopLevel, .str "CREATE INDEX CONCURRENTLY"]
          else M.pure ())
          (fun _ =>
            M.bind (CheckRelationOwnership env stmt.relation true)
              (fun _ => env.call .DefineIndex [.node (.IndexStmt stmt)]))) ∧
      (∀ (node : Node) (h : History), (∀ stmt, node ≠ .IndexStmt stmt) →
        step node h = (.error (.TRAP "IsA(stmt, IndexStmt)"), h)) ∧
      ∀ (recurse : Node → M Unit) (s : IndexStmt) (queryString : String)
        (params : Payload) (dest : DestReceiver) (completionTag : Bool),
        ProcessUtility.body env recurse (.IndexStmt s)
            (some queryString) params isTopLevel dest completionTag =
          M.bind (check_xact_readonly env (.IndexStmt s))
            (fun _ =>
              M.bind (if completionTag = true then emit (.completionTag "")
                else M.pure ())
                (fun _ =>
                  M.bind (env.callRet env.retNodes .transformIndexStmt
                      [.node (.IndexStmt s), .optStr (some queryString)])
                    (fun stmts => foreach stmts step))) := by
  refine ⟨?step, ?spec, ?others, ?body⟩
  case body =>
    intro recurse s queryString params dest completionTag
    cases completionTag
    · unfold ProcessUtility.body
      exact rfl
    · unfold ProcessUtility.body
      exact rfl
  case spec =>
    intro stmt
    obtain ⟨relation, concurrent, rest⟩ := stmt
    cases concurrent <;> rfl
  case others =>
    intro node h hn
    cases node <;> first | rfl | exact absurd rfl (hn _)

/-- The ownership check of a relation leaves no event. -/
theorem CheckRelationOwnership_history (env : Env) (rel : RangeVar)
    (noCatalogs : Bool) (h : History) :
    (CheckRelationOwnership env rel noCatalogs h).2 = h := by
  unfold CheckRelationOwnership
  cases hrel : env.RangeVarGetRelid h rel false with
  | error e => simp [bind, M.bind, askE, hrel]
  | ok relOid =>
    cases hrow : env.SearchSysCache h relOid with
    | none => simp [bind, M.bind, askE, ask, raise, hrel, hrow]
    | some classform =>
      cases ho : env.pg_class_ownercheck h relOid (env.GetUserId h) <;>
        cases noCatalogs <;>
        cases ha : env.allowSystemTableModsDDL h <;>
        cases hs : env.IsSystemClass classform <;>
        simp [bind, M.bind, askE, ask, raise, pure, M.pure, hrel, hrow, ho, ha,
          hs]

/-- The ownership check of a relation only adds events (none, in fact). -/
theorem CheckRelationOwnership_extends (env : Env) (rel : RangeVar)
    (noCatalogs : Bool) :
    ∀ h, ∃ r, (CheckRelationOwnership env rel noCatalogs h).2 = h ++ r :=
  fun h => ⟨[], by rw [CheckRelationOwnership_history, List.append_nil]⟩

/-- A call of an external routine only adds events. -/
theorem Env.call_extends (env : Env) (proc : ExtProc) (args : List Arg) :
    ∀ h, ∃ r, (env.call proc args h).2 = h ++ r :=
  fun h => ⟨_, Env.call_history env proc args h⟩

/-- One turn of the loop. -/
theorem foreach_cons {α : Type} (x : α) (l : List α) (body : α → M Unit) :
    foreach (x :: l) body = M.bind (body x) (fun _ => foreach l body) := rfl

/-- A loop whose body only adds events only adds events. -/
theorem foreach_extends {α : Type} (l : List α) (body : α → M Unit)
    (hb : ∀ a h, ∃ r, (body a h).2 = h ++ r) :
    ∀ h, ∃ r, (foreach l body h).2 = h ++ r := by
  induction l with
  | nil => exact fun h => ⟨[], (List.append_nil h).symm⟩
  | cons x rest ih =>
    exact M.bind_extends _ _ (hb x) (fun _ => ih)

/-- CREATE INDEX, when parse analysis returns and its first statement is
flagged CONCURRENTLY, whatever the role: PreventTransactionChain is called
right after parse analysis, and when it raises the command ends there, before
the ownership check and DefineIndex. -/
theorem ProcessUtility_IndexStmt_concurrent (env : Env) (fuel : Nat)
    (ix s1 : IndexStmt) (more : List Node) (queryString : String)
    (params : Payload) (isTopLevel : Bool) (dest : DestReceiver)
    (completionTag : Bool) (start h : History)
    (hg : check_xact_readonly env (.IndexStmt ix) start = (.ok (), start))
    (hh : h = if completionTag then start ++ [.completionTag ""] else start)
    (hparse : env.raises h .transformIndexStmt
      [.node (.IndexStmt ix), .optStr (some queryString)] = none)
    (hstmts : env.retNodes h .transformIndexStmt
      [.node (.IndexStmt ix), .optStr (some queryString)] =
        .IndexStmt s1 :: more)
    (hconc : s1.concurrent = true) :
    (∃ rest, (ProcessUtility env fuel (.IndexStmt ix) (some queryString)
          params isTopLevel dest completionTag start).2 =
        h ++ .call .transformIndexStmt
            [.node (.IndexStmt ix), .optStr (some queryString)] ::
          .call .PreventTransactionChain
            [.bool isTopLevel, .str "CREATE INDEX CONCURRENTLY"] :: rest) ∧
    ∀ e, env.raises
          (h ++ [.call .transformIndexStmt
            [.node (.IndexStmt ix), .optStr (some queryString)]])
          .PreventTransactionChain
          [.bool isTopLevel, .str "CREATE INDEX CONCURRENTLY"] = some e →
      ProcessUtility env fuel (.IndexStmt ix) (some queryString) params
          isTopLevel dest completionTag start =
        (.error e,
          h ++ [.call .transformIndexStmt
              [.node (.IndexStmt ix), .optStr (some queryString)],
            .call .PreventTransactionChain
              [.bool isTopLevel, .str "CREATE INDEX CONCURRENTLY"]]) := by
  obtain ⟨step, hstep, hothers, hbody⟩ :=
    ProcessUtility_body_IndexStmt env isTopLevel
  have hext : ∀ node h2, ∃ r, (step node h2).2 = h2 ++ r := by
    intro node h2
    cases node
    case IndexStmt stmt =>
      rw [hstep]
      exact M.bind_extends _ _ (Env.call_if_extends env _ _ _)
        (fun _ => M.bind_extends _ _ (CheckRelationOwnership_extends env _ _)
          (fun _ => Env.call_extends env _ _)) h2
    all_goals
      exact ⟨[], by
        rw [hothers _ _ (fun stmt hc => by cases hc), List.append_nil]⟩
  have hcall : env.callRet env.retNodes .transformIndexStmt
      [.node (.IndexStmt ix), .optStr (some queryString)] h =
        (.ok (.IndexStmt s1 :: more),
          h ++ [.call .transformIndexStmt
            [.node (.IndexStmt ix), .optStr (some queryString)]]) := by
    simp only [Env.callRet, hparse, hstmts]
  rw [ProcessUtility_of_body env fuel (.IndexStmt ix) queryString params
    isTopLevel dest completionTag start h _
    (fun recurse => hbody recurse ix queryString params dest completionTag)
    hg hh, M.bind_ok _ _ h _ _ hcall]
  rw [foreach_cons, hstep s1, hconc, if_pos rfl, M.bind_assoc]
  refine ⟨?_, fun e he => ?_⟩
  · obtain ⟨r, hr⟩ := Env.call_bind_first env .PreventTransactionChain
      [.bool isTopLevel, .str "CREATE INDEX CONCURRENTLY"]
      (fun _ => M.bind
        (M.bind (CheckRelationOwnership env s1.relation true)
          (fun _ => env.call .DefineIndex [.node (.IndexStmt s1)]))
        (fun _ => foreach more step))
      (h ++ [.call .transformIndexStmt
        [.node (.IndexStmt ix), .optStr (some queryString)]])
      (fun h1 => M.bind_extends _ _
        (M.bind_extends _ _ (CheckRelationOwnership_extends env _ _)
          (fun _ => Env.call_extends env _ _))
        (fun _ => foreach_extends more step hext) h1)
    rw [List.append_assoc] at hr
    exact ⟨r, hr⟩
  · rw [Env.call_bind_raises env _ _ _ _ e he, List.append_assoc]
    rfl

/-- CHECKPOINT, whatever the role: the superuser test, the dispatch to the
workers on the coordinator, the request; PreventTransactionChain is never
called. -/
theorem ProcessUtility_CheckPointStmt (env : Env) (fuel : Nat) (p : Payload)
    (queryString : String) (params : Payload) (isTopLevel : Bool)
    (dest : DestReceiver) (completionTag : Bool) (start h : History)
    (hh : h = if completionTag then start ++ [.completionTag ""] else start) :
    ProcessUtility env fuel (.CheckPointStmt p) (some queryString) params
        isTopLevel dest completionTag start =
      if env.superuser h = true then
        M.bind (if (env.Gp_role == .GP_ROLE_DISPATCH) = true then
            env.call .CdbDispatchCommand
              [.str "CHECKPOINT", .flags DF_WITH_SNAPSHOT]
          else M.pure ())
          (fun _ =>
            env.call .RequestCheckpoint
              [.str "CHECKPOINT_IMMEDIATE | CHECKPOINT_FORCE | CHECKPOINT_WAIT"])
          h
      else
        (.error (.ereport .ERRCODE_INSUFFICIENT_PRIVILEGE
          "must be superuser to do CHECKPOINT" none), h) := by
  rw [ProcessUtility_of_body env fuel (.CheckPointStmt p) queryString params
    isTopLevel dest completionTag start h _
    (fun recurse => ProcessUtility_body_CheckPointStmt env recurse p
      queryString params isTopLevel dest completionTag)
    (check_xact_readonly_not_listed env _ start
      (by simp only [nodeTag]; decide) (by simp only [nodeTag]; decide)
      (by simp only [nodeTag]; decide)) hh]
  show M.bind (ask env.superuser) _ h = _
  unfold M.bind ask
  cases env.superuser h <;> rfl

/-- C19 (amended): on the coordinator, outside read-only mode, CREATE DATABASE,
DROP DATABASE, CREATE RESOURCE QUEUE and REINDEX DATABASE call
PreventTransactionChain first and their executor only when it returns: when it
raises, the command ends with that error and the check is the only event.
CREATE INDEX CONCURRENTLY calls it right after parse analysis and before the
ownership check and DefineIndex of the first statement.  CHECKPOINT does not
call it: after the superuser test it is sent to the workers and the checkpoint
is requested. -/
theorem C19_transaction_block_check_on_coordinator (env : Env) (fuel : Nat)
    (p : Payload) (d : DropdbStmt) (ix : IndexStmt) (queryString : String)
    (params : Payload) (isTopLevel : Bool) (dest : DestReceiver)
    (completionTag : Bool) (start h : History)
    (hrole : env.Gp_role = .GP_ROLE_DISPATCH)
    (hro : env.XactReadOnly start = false)
    (hh : h = if completionTag then start ++ [.completionTag ""] else start) :
    (∀ node name proc args, (node, name, proc, args) ∈
        [(Node.CreatedbStmt p, "CREATE DATABASE", ExtProc.createdb,
            [Arg.node (.CreatedbStmt p)]),
          (.DropdbStmt d, "DROP DATABASE", .dropdb,
            [.str d.dbname, .bool d.missing_ok]),
          (.CreateQueueStmt p, "CREATE RESOURCE QUEUE", .CreateQueue,
            [.node (.CreateQueueStmt p)]),
          (.ReindexStmt ⟨.OBJECT_DATABASE, p⟩, "REINDEX DATABASE",
            .ReindexDatabase, [.node (.ReindexStmt ⟨.OBJECT_DATABASE, p⟩)])] →
      ProcessUtility env fuel node (some queryString) params isTopLevel dest
          completionTag start =
        M.bind (env.call .PreventTransactionChain
            [.bool isTopLevel, .str name])
          (fun _ => env.call proc args) h ∧
      ∀ e, env.raises h .PreventTransactionChain
            [.bool isTopLevel, .str name] = some e →
        ProcessUtility env fuel node (some queryString) params isTopLevel dest
            completionTag start =
          (.error e, h ++ [.call .PreventTransactionChain
            [.bool isTopLevel, .str name]])) ∧
    (∀ s1 more,
      env.raises h .transformIndexStmt
        [.node (.IndexStmt ix), .optStr (some queryString)] = none →
      env.retNodes h .transformIndexStmt
        [.node (.IndexStmt ix), .optStr (some queryString)] =
          .IndexStmt s1 :: more →
      s1.concurrent = true →
      (∃ rest, (ProcessUtility env fuel (.IndexStmt ix) (some queryString)
            params isTopLevel dest completionTag start).2 =
          h ++ .call .transformIndexStmt
              [.node (.IndexStmt ix), .optStr (some queryString)] ::
            .call .PreventTransactionChain
              [.bool isTopLevel, .str "CREATE INDEX CONCURRENTLY"] :: rest) ∧
      ∀ e, env.raises
            (h ++ [.call .transformIndexStmt
              [.node (.IndexStmt ix), .optStr (some queryString)]])
            .PreventTransactionChain
            [.bool isTopLevel, .str "CREATE INDEX CONCURRENTLY"] = some e →
        ProcessUtility env fuel (.IndexStmt ix) (some queryString) params
            isTopLevel dest completionTag start =
          (.error e,
            h ++ [.call .transformIndexStmt
                [.node (.IndexStmt ix), .optStr (some queryString)],
              .call .PreventTransactionChain
                [.bool isTopLevel, .str "CREATE INDEX CONCURRENTLY"]])) ∧
    ProcessUtility env fuel (.CheckPointStmt p) (some queryString) params
        isTopLevel dest completionTag start =
      if env.superuser h = true then
        M.bind (env.call .CdbDispatchCommand
            [.str "CHECKPOINT", .flags DF_WITH_SNAPSHOT])
          (fun _ =>
            env.call .RequestCheckpoint
              [.str "CHECKPOINT_IMMEDIATE | CHECKPOINT_FORCE | CHECKPOINT_WAIT"])
          h
      else
        (.error (.ereport .ERRCODE_INSUFFICIENT_PRIVILEGE
          "must be superuser to do CHECKPOINT" none), h) := by
  have hd : (env.Gp_role == GpRoleValue.GP_ROLE_DISPATCH) = true := by
    rw [hrole]; rfl
  have hx : (env.Gp_role != GpRoleValue.GP_ROLE_EXECUTE) = true := by
    rw [hrole]; rfl
  refine ⟨?_, ?_, ?_⟩
  · intro node name proc args hm
    have hform : ProcessUtility env fuel node (some queryString) params
        isTopLevel dest completionTag start =
        M.bind (env.call .PreventTransactionChain
            [.bool isTopLevel, .str name])
          (fun _ => env.call proc args) h := by
      simp only [List.mem_cons, Prod.mk.injEq, List.mem_singleton,
        List.not_mem_nil, or_false] at hm
      rcases hm with ⟨rfl, rfl, rfl, rfl⟩ | ⟨rfl, rfl, rfl, rfl⟩ |
        ⟨rfl, rfl, rfl, rfl⟩ | ⟨rfl, rfl, rfl, rfl⟩
      · rw [ProcessUtility_of_body env fuel _ queryString params isTopLevel
          dest completionTag start h _
          (fun recurse => ProcessUtility_body_CreatedbStmt env recurse p
            queryString params isTopLevel dest completionTag)
          (check_xact_readonly_off env _ start hro) hh, hx, if_pos rfl]
      · rw [ProcessUtility_of_body env fuel _ queryString params isTopLevel
          dest completionTag start h _
          (fun recurse => ProcessUtility_body_DropdbStmt env recurse d
            queryString params isTopLevel dest completionTag)
          (check_xact_readonly_off env _ start hro) hh, hx, if_pos rfl]
      · rw [ProcessUtility_of_body env fuel _ queryString params isTopLevel
          dest completionTag start h _
          (fun recurse => ProcessUtility_body_CreateQueueStmt env recurse p
            queryString params isTopLevel dest completionTag)
          (check_xact_readonly_off env _ start hro) hh, hd, if_pos rfl]
      · rw [ProcessUtility_of_body env fuel _ queryString params isTopLevel
          dest completionTag start h _
          (fun recurse => ProcessUtility_body_ReindexDatabase env recurse p
            queryString params isTopLevel dest completionTag)
          (check_xact_readonly_off env _ start hro) hh, hd, if_pos rfl]
    exact ⟨hform, fun e he => by
      rw [hform, Env.call_bind_raises env _ _ _ h e he]⟩
  · intro s1 more hparse hstmts hconc
    exact ProcessUtility_IndexStmt_concurrent env fuel ix s1 more queryString
      params isTopLevel dest completionTag start h
      (check_xact_readonly_off env _ start hro) hh hparse hstmts hconc
  · rw [ProcessUtility_CheckPointStmt env fuel p queryString params isTopLevel
      dest completionTag start h hh, hd, if_pos rfl]

/-- C19, as the claim has it, fails for CHECKPOINT: inside a transaction block
on the coordinator it is sent to the workers and the checkpoint is requested;
PreventTransactionChain is not called. -/
theorem C19_counterexample :
    ProcessUtility (sampleEnvInBlock .GP_ROLE_DISPATCH) 0 (.CheckPointStmt ⟨0⟩)
        (some "CHECKPOINT") ⟨0⟩ true (.receiver 1) false [] =
      (.ok (),
        [.call .CdbDispatchCommand [.str "CHECKPOINT", .flags DF_WITH_SNAPSHOT],
          .call .RequestCheckpoint
            [.str "CHECKPOINT_IMMEDIATE | CHECKPOINT_FORCE | CHECKPOINT_WAIT"]]) := by
  rfl

/-- C19 (amended), run inside a transaction block on the coordinator: DROP
DATABASE ends with the error of the check, which is the only event. -/
theorem C19_witness :
    ProcessUtility (sampleEnvInBlock .GP_ROLE_DISPATCH) 0
        (.DropdbStmt ⟨"db", false⟩) (some "DROP DATABASE db") ⟨0⟩ true
        (.receiver 1) false [] =
      (.error (.external 25001),
        [.call .PreventTransactionChain
          [.bool true, .str "DROP DATABASE"]]) :=
  ((C19_transaction_block_check_on_coordinator
    (sampleEnvInBlock .GP_ROLE_DISPATCH) 0 ⟨0⟩ ⟨"db", false⟩
    ⟨⟨none, none, "t", false⟩, true, ⟨0⟩⟩ "DROP DATABASE db" ⟨0⟩ true
    (.receiver 1) false [] [] rfl rfl rfl).1 (.DropdbStmt ⟨"db", false⟩)
    "DROP DATABASE" .dropdb [.str "db", .bool false] (by simp)).2
    (.external 25001) rfl

/-- C20 (amended): on a worker, outside read-only mode, CREATE DATABASE, DROP
DATABASE, CREATE RESOURCE QUEUE and REINDEX DATABASE go straight to their
executor and CHECKPOINT, after the superuser test, to the request:
PreventTransactionChain is not called.  CREATE INDEX CONCURRENTLY has no test
of the role: on a worker too it calls PreventTransactionChain right after
parse analysis, and ends there when it raises. -/
theorem C20_transaction_block_check_on_worker (env : Env) (fuel : Nat)
    (p : Payload) (d : DropdbStmt) (ix : IndexStmt) (queryString : String)
    (params : Payload) (isTopLevel : Bool) (dest : DestReceiver)
    (completionTag : Bool) (start h : History)
    (hrole : env.Gp_role = .GP_ROLE_EXECUTE)
    (hro : env.XactReadOnly start = false)
    (hh : h = if completionTag then start ++ [.completionTag ""] else start) :
    (∀ node proc args, (node, proc, args) ∈
        [(Node.CreatedbStmt p, ExtProc.createdb, [Arg.node (.CreatedbStmt p)]),
          (.DropdbStmt d, .dropdb, [.str d.dbname, .bool d.missing_ok]),
          (.CreateQueueStmt p, .CreateQueue, [.node (.CreateQueueStmt p)]),
          (.ReindexStmt ⟨.OBJECT_DATABASE, p⟩, .ReindexDatabase,
            [.node (.ReindexStmt ⟨.OBJECT_DATABASE, p⟩)])] →
      ProcessUtility env fuel node (some queryString) params isTopLevel dest
          completionTag start =
        env.call proc args h) ∧
    ProcessUtility env fuel (.CheckPointStmt p) (some queryString) params
        isTopLevel dest completionTag start =
      (if env.superuser h = true then
        env.call .RequestCheckpoint
          [.str "CHECKPOINT_IMMEDIATE | CHECKPOINT_FORCE | CHECKPOINT_WAIT"] h
      else
        (.error (.ereport .ERRCODE_INSUFFICIENT_PRIVILEGE
          "must be superuser to do CHECKPOINT" none), h)) ∧
    ∀ s1 more,
      env.raises h .transformIndexStmt
        [.node (.IndexStmt ix), .optStr (some queryString)] = none →
      env.retNodes h .transformIndexStmt
        [.node (.IndexStmt ix), .optStr (some queryString)] =
          .IndexStmt s1 :: more →
      s1.concurrent = true →
      (∃ rest, (ProcessUtility env fuel (.IndexStmt ix) (some queryString)
            params isTopLevel dest completionTag start).2 =
          h ++ .call .transformIndexStmt
              [.node (.IndexStmt ix), .optStr (some queryString)] ::
            .call .PreventTransactionChain
              [.bool isTopLevel, .str "CREATE INDEX CONCURRENTLY"] :: rest) ∧
      ∀ e, env.raises
            (h ++ [.call .transformIndexStmt
              [.node (.IndexStmt ix), .optStr (some queryString)]])
            .PreventTransactionChain
            [.bool isTopLevel, .str "CREATE INDEX CONCURRENTLY"] = some e →
        ProcessUtility env fuel (.IndexStmt ix) (some queryString) params
            isTopLevel dest completionTag start =
          (.error e,
            h ++ [.call .transformIndexStmt
                [.node (.IndexStmt ix), .optStr (some queryString)],
              .call .PreventTransactionChain
                [.bool isTopLevel, .str "CREATE INDEX CONCURRENTLY"]]) := by
  have hd : (env.Gp_role == GpRoleValue.GP_ROLE_DISPATCH) = false := by
    rw [hrole]; rfl
  have hx : (env.Gp_role != GpRoleValue.GP_ROLE_EXECUTE) = false := by
    rw [hrole]; rfl
  refine ⟨?_, ?_, ?_⟩
  · intro node proc args hm
    simp only [List.mem_cons, Prod.mk.injEq, List.mem_singleton,
      List.not_mem_nil, or_false] at hm
    rcases hm with ⟨rfl, rfl, rfl⟩ | ⟨rfl, rfl, rfl⟩ | ⟨rfl, rfl, rfl⟩ |
      ⟨rfl, rfl, rfl⟩
    · rw [ProcessUtility_of_body env fuel _ queryString params isTopLevel
        dest completionTag start h _
        (fun recurse => ProcessUtility_body_CreatedbStmt env recurse p
          queryString params isTopLevel dest completionTag)
        (check_xact_readonly_off env _ start hro) hh, hx]
      rfl
    · rw [ProcessUtility_of_body env fuel _ queryString params isTopLevel
        dest completionTag start h _
        (fun recurse => ProcessUtility_body_DropdbStmt env recurse d
          queryString params isTopLevel dest completionTag)
        (check_xact_readonly_off env _ start hro) hh, hx]
      rfl
    · rw [ProcessUtility_of_body env fuel _ queryString params isTopLevel
        dest completionTag start h _
        (fun recurse => ProcessUtility_body_CreateQueueStmt env recurse p
          queryString params isTopLevel dest completionTag)
        (check_xact_readonly_off env _ start hro) hh, hd]
      rfl
    · rw [ProcessUtility_of_body env fuel _ queryString params isTopLevel
        dest completionTag start h _
        (fun recurse => ProcessUtility_body_ReindexDatabase env recurse p
          queryString params isTopLevel dest completionTag)
        (check_xact_readonly_off env _ start hro) hh, hd]
      rfl
  · rw [ProcessUtility_CheckPointStmt env fuel p queryString params isTopLevel
      dest completionTag start h hh, hd]
    rfl
  · intro s1 more hparse hstmts hconc
    exact ProcessUtility_IndexStmt_concurrent env fuel ix s1 more queryString
      params isTopLevel dest completionTag start h
      (check_xact_readonly_off env _ start hro) hh hparse hstmts hconc

/-- C20, as the claim has it, fails for CREATE INDEX CONCURRENTLY: on a worker
inside a transaction block, the command calls PreventTransactionChain after
parse analysis and ends with its error. -/
theorem C20_counterexample :
    ProcessUtility (sampleEnvInBlock .GP_ROLE_EXECUTE) 0
        (.IndexStmt ⟨⟨none, none, "t", false⟩, true, ⟨0⟩⟩)
        (some "CREATE INDEX CONCURRENTLY i ON t (a)") ⟨0⟩ true (.receiver 1)
        false [] =
      (.error (.external 25001),
        [.call .transformIndexStmt
            [.node (.IndexStmt ⟨⟨none, none, "t", false⟩, true, ⟨0⟩⟩),
              .optStr (some "CREATE INDEX CONCURRENTLY i ON t (a)")],
          .call .PreventTransactionChain
            [.bool true, .str "CREATE INDEX CONCURRENTLY"]]) := by
  rfl

/-- C20 (amended), run on a worker inside a transaction block: CREATE DATABASE
goes to its executor, and the check is not called. -/
theorem C20_witness :
    ProcessUtility (sampleEnvInBlock .GP_ROLE_EXECUTE) 0 (.CreatedbStmt ⟨0⟩)
        (some "CREATE DATABASE db") ⟨0⟩ true (.receiver 1) false [] =
      (.ok (), [.call .createdb [.node (.CreatedbStmt ⟨0⟩)]]) :=
  ((C20_transaction_block_check_on_worker (sampleEnvInBlock .GP_ROLE_EXECUTE)
    0 ⟨0⟩ ⟨"db", false⟩ ⟨⟨none, none, "t", false⟩, true, ⟨0⟩⟩
    "CREATE DATABASE db" ⟨0⟩ true (.receiver 1) false [] [] rfl rfl rfl).1
    (.CreatedbStmt ⟨0⟩) .createdb [.node (.CreatedbStmt ⟨0⟩)]
    (by simp)).trans rfl

/-! ## What a call adds to the history -/

/-- Returning a value adds no event. -/
theorem OnlyAdds_pure {α : Type} (P : Event → Prop) (a : α) :
    OnlyAdds P (M.pure a) := by
  unfold OnlyAdds
  exact fun h => ⟨[], (List.append_nil h).symm, fun _ hm => absurd hm (List.not_mem_nil _)⟩

/-- Raising an error adds no event. -/
theorem OnlyAdds_raise {α : Type} (P : Event → Prop) (e : ErrorData) :
    OnlyAdds P (raise e : M α) := by
  unfold OnlyAdds
  exact fun h => ⟨[], (List.append_nil h).symm, fun _ hm => absurd hm (List.not_mem_nil _)⟩

/-- A look-up adds no event. -/
theorem OnlyAdds_ask {α : Type} (P : Event → Prop) (q : History → α) :
    OnlyAdds P (ask q) := by
  unfold OnlyAdds
  exact fun h => ⟨[], (List.append_nil h).symm, fun _ hm => absurd hm (List.not_mem_nil _)⟩

/-- A look-up that may raise adds no event. -/
theorem OnlyAdds_askE {α : Type} (P : Event → Prop)
    (q : History → Except ErrorData α) : OnlyAdds P (askE q) := by
  unfold OnlyAdds
  intro h
  refine ⟨[], ?_, fun _ hm => absurd hm (List.not_mem_nil _)⟩
  unfold askE
  cases q h <;> exact (List.append_nil h).symm

/-- An emitted event is the one event added. -/
theorem OnlyAdds_emit (P : Event → Prop) (e : Event) (he : P e) :
    OnlyAdds P (emit e) := by
  unfold OnlyAdds
  exact fun h => ⟨[e], rfl, fun ev hm => by
    rw [List.mem_singleton] at hm
    rw [hm]
    exact he⟩

/-- An assertion adds no event. -/
theorem OnlyAdds_Assert (P : Event → Prop) (c : Bool) (s : String) :
    OnlyAdds P (Assert c s) := by
  cases c
  · exact OnlyAdds_raise P _
  · exact OnlyAdds_pure P _

/-- Sequencing keeps the property. -/
theorem OnlyAdds_bind {α β : Type} (P : Event → Prop) (m : M α) (f : α → M β)
    (hm : OnlyAdds P m) (hf : ∀ a, OnlyAdds P (f a)) :
    OnlyAdds P (M.bind m f) := by
  unfold OnlyAdds at hm hf ⊢
  intro h
  obtain ⟨r, hr, hp⟩ := hm h
  unfold M.bind
  cases hmh : m h with
  | mk res h1 =>
    rw [hmh] at hr
    simp only at hr
    subst hr
    cases res with
    | ok a =>
      obtain ⟨r2, hr2, hp2⟩ := hf a (h ++ r)
      refine ⟨r ++ r2, by rw [hr2, List.append_assoc], fun ev hm => ?_⟩
      rcases List.mem_append.mp hm with h1 | h2
      · exact hp ev h1
      · exact hp2 ev h2
    | error e => exact ⟨r, rfl, hp⟩
    | outOfFuel => exact ⟨r, rfl, hp⟩

/-- A conditional keeps the property; each branch may use its condition. -/
theorem OnlyAdds_ite {α : Type} (P : Event → Prop) (c : Prop) [Decidable c]
    (a b : M α) (ha : c → OnlyAdds P a) (hb : ¬ c → OnlyAdds P b) :
    OnlyAdds P (if c then a else b) := by
  by_cases hc : c
  · rw [if_pos hc]; exact ha hc
  · rw [if_neg hc]; exact hb hc

/-- A call of an external routine adds its event alone. -/
theorem OnlyAdds_call (P : Event → Prop) (env : Env) (proc : ExtProc)
    (args : List Arg) (hp : P (.call proc args)) :
    OnlyAdds P (env.call proc args) := by
  unfold OnlyAdds
  intro h
  refine ⟨[.call proc args], ?_, fun ev hm => ?_⟩
  · unfold Env.call
    cases env.raises h proc args <;> rfl
  · rw [List.mem_singleton] at hm
    rw [hm]
    exact hp

/-- A call of an external routine that returns a value adds its event alone. -/
theorem OnlyAdds_callRet {α : Type} (P : Event → Prop) (env : Env)
    (ret : History → ExtProc → List Arg → α) (proc : ExtProc)
    (args : List Arg) (hp : P (.call proc args)) :
    OnlyAdds P (env.callRet ret proc args) := by
  unfold OnlyAdds
  intro h
  refine ⟨[.call proc args], ?_, fun ev hm => ?_⟩
  · unfold Env.callRet
    cases env.raises h proc args <;> rfl
  · rw [List.mem_singleton] at hm
    rw [hm]
    exact hp

/-- A loop keeps the property of its body. -/
theorem OnlyAdds_foreach {α : Type} (P : Event → Prop) (l : List α)
    (body : α → M Unit) (hb : ∀ a, OnlyAdds P (body a)) :
    OnlyAdds P (foreach l body) := by
  induction l with
  | nil => exact OnlyAdds_pure P ()
  | cons x rest ih => exact OnlyAdds_bind P _ _ (hb x) (fun _ => ih)

/-- A loop that tests for a next element keeps the property of its body. -/
theorem OnlyAdds_foreachNext {α : Type} (P : Event → Prop) (l : List α)
    (body : α → Bool → M Unit) (hb : ∀ a b, OnlyAdds P (body a b)) :
    OnlyAdds P (foreachNext l body) := by
  induction l with
  | nil => exact OnlyAdds_pure P ()
  | cons x rest ih => exact OnlyAdds_bind P _ _ (hb x _) (fun _ => ih)

/-- A loop that updates a local variable keeps the property of its body. -/
theorem OnlyAdds_foreachAcc {α σ : Type} (P : Event → Prop) (l : List α)
    (init : σ) (body : α → σ → M σ) (hb : ∀ a s, OnlyAdds P (body a s)) :
    OnlyAdds P (foreachAcc l init body) := by
  induction l generalizing init with
  | nil => exact OnlyAdds_pure P init
  | cons x rest ih => exact OnlyAdds_bind P _ _ (hb x init) (fun acc => ih acc)

/-- The exhausted recursion adds no event. -/
theorem OnlyAdds_outOfFuel {α : Type} (P : Event → Prop) :
    OnlyAdds P (fun h => ((.outOfFuel : Result α), h)) := by
  unfold OnlyAdds
  exact fun h => ⟨[], (List.append_nil h).symm, fun _ hm => absurd hm (List.not_mem_nil _)⟩

/-- The read-only guard adds no event. -/
theorem OnlyAdds_check_xact_readonly (P : Event → Prop) (env : Env)
    (parsetree : Node) : OnlyAdds P (check_xact_readonly env parsetree) := by
  unfold OnlyAdds
  exact fun h => ⟨[], by rw [check_xact_readonly_history, List.append_nil],
    fun _ hm => absurd hm (List.not_mem_nil _)⟩

/-- Sequencing, as the monad instance writes it. -/
theorem OnlyAdds_bind_do {α β : Type} (P : Event → Prop) (m : M α)
    (f : α → M β) (hm : OnlyAdds P m) (hf : ∀ a, OnlyAdds P (f a)) :
    OnlyAdds P (m >>= f) :=
  OnlyAdds_bind P m f hm hf

/-- Returning a value, as the monad instance writes it. -/
theorem OnlyAdds_pure_do {α : Type} (P : Event → Prop) (a : α) :
    OnlyAdds P (Pure.pure a : M α) :=
  OnlyAdds_pure P a

/-- A conditional step followed by a common continuation; each branch may
use its condition. -/
theorem OnlyAdds_join {α β : Type} (P : Event → Prop) (c : Prop) [Decidable c]
    (a b : M α) (k : α → M β) (ha : c → OnlyAdds P a) (hb : ¬ c → OnlyAdds P b)
    (hk : ∀ x, OnlyAdds P (k x)) :
    OnlyAdds P (if c then a >>= k else b >>= k) := by
  by_cases hc : c
  · rw [if_pos hc]; exact OnlyAdds_bind P a k (ha hc) hk
  · rw [if_neg hc]; exact OnlyAdds_bind P b k (hb hc) hk

/-- The test for a security-restricted operation adds no event. -/
theorem OnlyAdds_CheckRestrictedOperation (P : Event → Prop) (env : Env)
    (cmdname : String) : OnlyAdds P (CheckRestrictedOperation env cmdname) := by
  unfold CheckRestrictedOperation
  repeat' first
    | with_reducible exact OnlyAdds_pure P _
    | with_reducible exact OnlyAdds_pure_do P _
    | with_reducible exact OnlyAdds_raise P _
    | with_reducible exact OnlyAdds_ask P _
    | with_reducible apply OnlyAdds_bind_do P
    | with_reducible apply OnlyAdds_ite P
    | intro _

/-- The ownership check of a relation adds no event. -/
theorem OnlyAdds_CheckRelationOwnership (P : Event → Prop) (env : Env)
    (rel : RangeVar) (noCatalogs : Bool) :
    OnlyAdds P (CheckRelationOwnership env rel noCatalogs) := by
  unfold OnlyAdds
  exact fun h => ⟨[], by rw [CheckRelationOwnership_history, List.append_nil],
    fun _ hm => absurd hm (List.not_mem_nil _)⟩

/-- The report on a relation that does not exist adds at most a NOTICE. -/
theorem OnlyAdds_DropErrorMsgNonExistent (P : Event → Prop)
    (hN : ∀ s, P (.NOTICE s)) (env : Env) (rel : RangeVar) (rightkind : Char)
    (missing_ok : Bool) :
    OnlyAdds P (DropErrorMsgNonExistent env rel rightkind missing_ok) := by
  unfold DropErrorMsgNonExistent
  repeat' first
    | with_reducible exact OnlyAdds_pure P _
    | with_reducible exact OnlyAdds_raise P _
    | with_reducible apply OnlyAdds_emit P
    | with_reducible apply OnlyAdds_ite P
    | exact hN _
    | intro _
    | split

/-- The report on a relation of the wrong kind adds no event. -/
theorem OnlyAdds_DropErrorMsgWrongType (P : Event → Prop) (relname : String)
    (wrongkind rightkind : Char) :
    OnlyAdds P (DropErrorMsgWrongType relname wrongkind rightkind) := by
  unfold DropErrorMsgWrongType
  repeat' first
    | with_reducible exact OnlyAdds_raise P _
    | with_reducible apply OnlyAdds_ite P
    | intro _
    | split

/-- The permission check of a DROP adds at most a NOTICE. -/
theorem OnlyAdds_CheckDropPermissions (P : Event → Prop)
    (hN : ∀ s, P (.NOTICE s)) (env : Env) (rel : RangeVar) (rightkind : Char)
    (missing_ok : Bool) :
    OnlyAdds P (CheckDropPermissions env rel rightkind missing_ok) := by
  unfold CheckDropPermissions
  dsimp only
  repeat' first
    | with_reducible exact OnlyAdds_pure P _
    | with_reducible exact OnlyAdds_pure_do P _
    | with_reducible exact OnlyAdds_raise P _
    | with_reducible exact OnlyAdds_ask P _
    | with_reducible exact OnlyAdds_askE P _
    | with_reducible exact OnlyAdds_DropErrorMsgNonExistent P hN env _ _ _
    | with_reducible exact OnlyAdds_DropErrorMsgWrongType P _ _ _
    | with_reducible apply OnlyAdds_bind_do P
    | with_reducible apply OnlyAdds_join P
    | with_reducible apply OnlyAdds_ite P
    | intro _
    | split

/-- The storage-class check of a DROP adds no event. -/
theorem OnlyAdds_CheckDropRelStorage (P : Event → Prop) (env : Env)
    (rel : RangeVar) (removeType : ObjectType) :
    OnlyAdds P (CheckDropRelStorage env rel removeType) := by
  unfold CheckDropRelStorage
  dsimp only
  repeat' first
    | with_reducible exact OnlyAdds_pure P _
    | with_reducible exact OnlyAdds_pure_do P _
    | with_reducible exact OnlyAdds_raise P _
    | with_reducible exact OnlyAdds_ask P _
    | with_reducible exact OnlyAdds_askE P _
    | with_reducible apply OnlyAdds_bind_do P
    | with_reducible apply OnlyAdds_ite P
    | intro _
    | split

/-- The removal of one object adds NOTICEs and calls of removal routines, none
of them a broadcast or a parse-analysis routine. -/
theorem OnlyAdds_ProcessDropStatement (P : Event → Prop)
    (hN : ∀ s, P (.NOTICE s))
    (hcall : ∀ proc args, proc ∉ [ExtProc.CdbDispatchUtilityStatement,
      .CdbDispatchCommand, .transformCreateStmt, .transformCreateExternalStmt,
      .transformAlterTableStmt] → P (.call proc args))
    (env : Env) (stmt : DropStmt) :
    OnlyAdds P (ProcessDropStatement env stmt) := by
  unfold ProcessDropStatement
  refine OnlyAdds_bind_do P _ _ (OnlyAdds_Assert P _ _)
    (fun _ => OnlyAdds_foreachAcc P _ _ _ (fun names dispatchDrop => ?_))
  unfold ProcessDropStatement.body
  repeat' first
    | with_reducible exact OnlyAdds_pure P _
    | with_reducible exact OnlyAdds_pure_do P _
    | with_reducible exact OnlyAdds_raise P _
    | with_reducible exact OnlyAdds_CheckDropPermissions P hN env _ _ _
    | with_reducible exact OnlyAdds_CheckDropRelStorage P env _ _
    | with_reducible apply OnlyAdds_call P
    | with_reducible apply OnlyAdds_callRet P
    | with_reducible apply OnlyAdds_bind_do P
    | with_reducible apply OnlyAdds_ite P
    | exact hcall _ _ (by decide)
    | intro _
    | split

set_option maxHeartbeats 4000000 in
/-- Every event that the body of the dispatcher adds satisfies `P`, when `P`
holds of the NOTICEs, of the writes to the completion tag and of the calls of
every routine that is neither a broadcast nor a parse analysis of CREATE
TABLE, CREATE EXTERNAL TABLE or ALTER TABLE; of the broadcasts in the form the
dispatcher makes them, when the role is the coordinator; and of the three
parse analyses when the role is not the worker. -/
theorem ProcessUtility_body_onlyAdds (P : Event → Prop) (env : Env)
    (recurse : Node → M Unit)
    (hrec : ∀ stmt, OnlyAdds P (recurse stmt))
    (hN : ∀ s, P (.NOTICE s))
    (hT : ∀ s, P (.completionTag s))
    (hcall : ∀ proc args, proc ∉ [ExtProc.CdbDispatchUtilityStatement,
      .CdbDispatchCommand, .transformCreateStmt, .transformCreateExternalStmt,
      .transformAlterTableStmt] → P (.call proc args))
    (hU : (env.Gp_role == .GP_ROLE_DISPATCH) = true → ∀ n l,
      P (.call .CdbDispatchUtilityStatement
        [.node n, .flags ⟨true, true, true⟩, .oids l]))
    (hC : (env.Gp_role == .GP_ROLE_DISPATCH) = true → ∀ s,
      P (.call .CdbDispatchCommand [.str s, .flags ⟨false, false, true⟩]))
    (hX : (env.Gp_role == .GP_ROLE_EXECUTE) = false → ∀ args,
      P (.call .transformCreateStmt args) ∧
      P (.call .transformCreateExternalStmt args) ∧
      P (.call .transformAlterTableStmt args))
    (parsetree : Node) (queryString : Option String)
    (params : Payload) (isTopLevel : Bool) (dest : DestReceiver)
    (completionTag : Bool) :
    OnlyAdds P (ProcessUtility.body env recurse parsetree queryString params
      isTopLevel dest completionTag) := by
  cases parsetree <;>
  ( unfold ProcessUtility.body
    dsimp only
    repeat' first
      | with_reducible exact OnlyAdds_pure P _
      | with_reducible exact OnlyAdds_pure_do P _
      | with_reducible exact OnlyAdds_raise P _
      | with_reducible exact OnlyAdds_ask P _
      | with_reducible exact OnlyAdds_askE P _
      | with_reducible exact OnlyAdds_Assert P _ _
      | with_reducible exact OnlyAdds_check_xact_readonly P env _
      | with_reducible exact OnlyAdds_CheckRestrictedOperation P env _
      | with_reducible exact OnlyAdds_CheckRelationOwnership P env _ _
      | with_reducible exact OnlyAdds_ProcessDropStatement P hN hcall env _
      | with_reducible exact hrec _
      | with_reducible apply OnlyAdds_emit P
      | with_reducible apply OnlyAdds_call P
      | with_reducible apply OnlyAdds_callRet P
      | with_reducible apply OnlyAdds_bind P
      | with_reducible apply OnlyAdds_bind_do P
      | with_reducible apply OnlyAdds_join P
      | with_reducible apply OnlyAdds_ite P
      | with_reducible apply OnlyAdds_foreach P
      | with_reducible apply OnlyAdds_foreachNext P
      | exact hT _
      | exact hcall _ _ (by decide)
      | exact hU (by assumption) _ _
      | exact hC (by assumption) _
      | exact (hX (by rename_i hc; simp at hc; simp [hc]) _).1
      | exact (hX (by rename_i hc; simp at hc; simp [hc]) _).2.1
      | exact (hX (by rename_i hc; simp at hc; simp [hc]) _).2.2
      | intro _
      | split )

/-- Every event that the dispatcher adds satisfies `P`, under the conditions
of `ProcessUtility_body_onlyAdds`, whatever the fuel. -/
theorem ProcessUtility_onlyAdds (P : Event → Prop) (env : Env)
    (hN : ∀ s, P (.NOTICE s))
    (hT : ∀ s, P (.completionTag s))
    (hcall : ∀ proc args, proc ∉ [ExtProc.CdbDispatchUtilityStatement,
      .CdbDispatchCommand, .transformCreateStmt, .transformCreateExternalStmt,
      .transformAlterTableStmt] → P (.call proc args))
    (hU : (env.Gp_role == .GP_ROLE_DISPATCH) = true → ∀ n l,
      P (.call .CdbDispatchUtilityStatement
        [.node n, .flags ⟨true, true, true⟩, .oids l]))
    (hC : (env.Gp_role == .GP_ROLE_DISPATCH) = true → ∀ s,
      P (.call .CdbDispatchCommand [.str s, .flags ⟨false, false, true⟩]))
    (hX : (env.Gp_role == .GP_ROLE_EXECUTE) = false → ∀ args,
      P (.call .transformCreateStmt args) ∧
      P (.call .transformCreateExternalStmt args) ∧
      P (.call .transformAlterTableStmt args))
    (fuel : Nat) :
    ∀ (parsetree : Node) (queryString : Option String) (params : Payload)
      (isTopLevel : Bool) (dest : DestReceiver) (completionTag : Bool),
      OnlyAdds P (ProcessUtility env fuel parsetree queryString params
        isTopLevel dest completionTag) := by
  induction fuel with
  | zero =>
    intro parsetree queryString params isTopLevel dest completionTag
    rw [ProcessUtility]
    exact ProcessUtility_body_onlyAdds P env _
      (fun _ => OnlyAdds_outOfFuel P) hN hT hcall hU hC hX _ _ _ _ _ _
  | succ n ih =>
    intro parsetree queryString params isTopLevel dest completionTag
    rw [ProcessUtility]
    exact ProcessUtility_body_onlyAdds P env _
      (fun stmt => ih stmt queryString params false .None_Receiver false)
      hN hT hcall hU hC hX _ _ _ _ _ _

/-! ## Security-restricted operations and asynchronous notification -/

/-- The test for a security-restricted operation, in closed form. -/
theorem CheckRestrictedOperation_eq (env : Env) (cmdname : String)
    (h : History) :
    CheckRestrictedOperation env cmdname h =
      if env.InSecurityRestrictedOperation h = true then
        (.error (.ereport .ERRCODE_INSUFFICIENT_PRIVILEGE
          ("cannot execute " ++ cmdname ++
            " within security-restricted operation") none), h)
      else (.ok (), h) := by
  have hm : errmsg "cannot execute %s within security-restricted operation"
      cmdname =
      "cannot execute " ++ cmdname ++ " within security-restricted operation" :=
    String.ext rfl
  unfold CheckRestrictedOperation
  show M.bind (ask env.InSecurityRestrictedOperation) _ h = _
  unfold M.bind ask
  cases env.InSecurityRestrictedOperation h
  · rfl
  · simp only [if_true, hm]
    rfl

/-- The body of the dispatcher on CLOSE. -/
theorem ProcessUtility_body_ClosePortalStmt (env : Env)
    (recurse : Node → M Unit) (s : ClosePortalStmt) (queryString : String)
    (params : Payload) (isTopLevel : Bool) (dest : DestReceiver)
    (completionTag : Bool) :
    ProcessUtility.body env recurse (.ClosePortalStmt s)
        (some queryString) params isTopLevel dest completionTag =
      M.bind (check_xact_readonly env (.ClosePortalStmt s))
        (fun _ =>
          M.bind (if completionTag = true then emit (.completionTag "")
            else M.pure ())
            (fun _ =>
              M.bind (CheckRestrictedOperation env "CLOSE")
                (fun _ =>
                  env.call .PerformPortalClose [.optStr s.portalname]))) := by
  cases completionTag <;> (unfold ProcessUtility.body; rfl)

/-- The body of the dispatcher on PREPARE. -/
theorem ProcessUtility_body_PrepareStmt (env : Env)
    (recurse : Node → M Unit) (query : Node) (rest : Payload)
    (queryString : String) (params : Payload) (isTopLevel : Bool)
    (dest : DestReceiver) (completionTag : Bool) :
    ProcessUtility.body env recurse (.PrepareStmt query rest)
        (some queryString) params isTopLevel dest completionTag =
      M.bind (check_xact_readonly env (.PrepareStmt query rest))
        (fun _ =>
          M.bind (if completionTag = true then emit (.completionTag "")
            else M.pure ())
            (fun _ =>
              M.bind (CheckRestrictedOperation env "PREPARE")
                (fun _ =>
                  env.call .PrepareQuery
                    [.node (.PrepareStmt query rest),
                      .optStr (some queryString)]))) := by
  cases completionTag <;> (unfold ProcessUtility.body; rfl)

/-- The body of the dispatcher on DEALLOCATE. -/
theorem ProcessUtility_body_DeallocateStmt (env : Env)
    (recurse : Node → M Unit) (s : DeallocateStmt) (queryString : String)
    (params : Payload) (isTopLevel : Bool) (dest : DestReceiver)
    (completionTag : Bool) :
    ProcessUtility.body env recurse (.DeallocateStmt s)
        (some queryString) params isTopLevel dest completionTag =
      M.bind (check_xact_readonly env (.DeallocateStmt s))
        (fun _ =>
          M.bind (if completionTag = true then emit (.completionTag "")
            else M.pure ())
            (fun _ =>
              M.bind (CheckRestrictedOperation env "DEALLOCATE")
                (fun _ =>
                  env.call .DeallocateQuery [.node (.DeallocateStmt s)]))) := by
  cases completionTag <;> (unfold ProcessUtility.body; rfl)

/-- The body of the dispatcher on DISCARD. -/
theorem ProcessUtility_body_DiscardStmt (env : Env)
    (recurse : Node → M Unit) (s : DiscardStmt) (queryString : String)
    (params : Payload) (isTopLevel : Bool) (dest : DestReceiver)
    (completionTag : Bool) :
    ProcessUtility.body env recurse (.DiscardStmt s)
        (some queryString) params isTopLevel dest completionTag =
      M.bind (check_xact_readonly env (.DiscardStmt s))
        (fun _ =>
          M.bind (if completionTag = true then emit (.completionTag "")
            else M.pure ())
            (fun _ =>
              M.bind (CheckRestrictedOperation env "DISCARD")
                (fun _ =>
                  env.call .DiscardCommand
                    [.node (.DiscardStmt s), .bool isTopLevel]))) := by
  cases completionTag <;> (unfold ProcessUtility.body; rfl)

/-- The body of the dispatcher on NOTIFY. -/
theorem ProcessUtility_body_NotifyStmt (env : Env)
    (recurse : Node → M Unit) (s : NotifyStmt) (queryString : String)
    (params : Payload) (isTopLevel : Bool) (dest : DestReceiver)
    (completionTag : Bool) :
    ProcessUtility.body env recurse (.NotifyStmt s)
        (some queryString) params isTopLevel dest completionTag =
      M.bind (check_xact_readonly env (.NotifyStmt s))
        (fun _ =>
          M.bind (if completionTag = true then emit (.completionTag "")
            else M.pure ())
            (fun _ =>
              M.bind (if (env.Gp_role == .GP_ROLE_EXECUTE) = true then
                  raise (.ereport .ERRCODE_GP_COMMAND_ERROR
                    "Notify command cannot run in a function running on a segDB."
                    none)
                else M.pure ())
                (fun _ => env.call .Async_Notify [.str s.relation.relname]))) := by
  cases completionTag <;> cases hr : (env.Gp_role == .GP_ROLE_EXECUTE) <;>
    (unfold ProcessUtility.body; simp only [hr]; rfl)

/-- The body of the dispatcher on LISTEN. -/
theorem ProcessUtility_body_ListenStmt (env : Env)
    (recurse : Node → M Unit) (s : NotifyStmt) (queryString : String)
    (params : Payload) (isTopLevel : Bool) (dest : DestReceiver)
    (completionTag : Bool) :
    ProcessUtility.body env recurse (.ListenStmt s)
        (some queryString) params isTopLevel dest completionTag =
      M.bind (check_xact_readonly env (.ListenStmt s))
        (fun _ =>
          M.bind (if completionTag = true then emit (.completionTag "")
            else M.pure ())
            (fun _ =>
              M.bind (if (env.Gp_role == .GP_ROLE_EXECUTE) = true then
                  raise (.ereport .ERRCODE_GP_COMMAND_ERROR
                    "Listen command cannot run in a function running on a segDB."
                    none)
                else M.pure ())
                (fun _ =>
                  M.bind (CheckRestrictedOperation env "LISTEN")
                    (fun _ =>
                      env.call .Async_Listen [.str s.relation.relname])))) := by
  cases completionTag <;> cases hr : (env.Gp_role == .GP_ROLE_EXECUTE) <;>
    (unfold ProcessUtility.body; simp only [hr]; rfl)

/-- The body of the dispatcher on UNLISTEN. -/
theorem ProcessUtility_body_UnlistenStmt (env : Env)
    (recurse : Node → M Unit) (s : NotifyStmt) (queryString : String)
    (params : Payload) (isTopLevel : Bool) (dest : DestReceiver)
    (completionTag : Bool) :
    ProcessUtility.body env recurse (.UnlistenStmt s)
        (some queryString) params isTopLevel dest completionTag =
      M.bind (check_xact_readonly env (.UnlistenStmt s))
        (fun _ =>
          M.bind (if completionTag = true then emit (.completionTag "")
            else M.pure ())
            (fun _ =>
              M.bind (if (env.Gp_role == .GP_ROLE_EXECUTE) = true then
                  raise (.ereport .ERRCODE_GP_COMMAND_ERROR
                    "Unlisten command cannot run in a function running on a segDB."
                    none)
                else M.pure ())
                (fun _ =>
                  M.bind (CheckRestrictedOperation env "UNLISTEN")
                    (fun _ =>
                      env.call .Async_Unlisten
                        [.str s.relation.relname])))) := by
  cases completionTag <;> cases hr : (env.Gp_role == .GP_ROLE_EXECUTE) <;>
    (unfold ProcessUtility.body; simp only [hr]; rfl)

/-- The guard accepts every node whose tag is not in its case list. -/
theorem check_xact_readonly_unlisted (env : Env) (parsetree : Node)
    (h : History)
    (hn : nodeTag parsetree ∉
      NodeTag.T_CreateStmt :: NodeTag.T_DropStmt :: rejectList) :
    check_xact_readonly env parsetree h = (.ok (), h) :=
  check_xact_readonly_not_listed env parsetree h
    (fun hm => hn (List.mem_cons_of_mem _ (List.mem_cons_of_mem _ hm)))
    (fun hc => hn (hc ▸ List.mem_cons_self _ _))
    (fun hd => hn (hd ▸ List.mem_cons_of_mem _ (List.mem_cons_self _ _)))

/-- A security-restricted operation stops a command that starts with the
test, before its executor. -/
theorem CheckRestrictedOperation_bind_restricted {α : Type} (env : Env)
    (cmdname : String) (f : Unit → M α) (h : History)
    (hr : env.InSecurityRestrictedOperation h = true) :
    M.bind (CheckRestrictedOperation env cmdname) f h =
      (.error (.ereport .ERRCODE_INSUFFICIENT_PRIVILEGE
        ("cannot execute " ++ cmdname ++
          " within security-restricted operation") none), h) :=
  M.bind_error _ _ h h _
    (by rw [CheckRestrictedOperation_eq, if_pos hr])

/-- Outside a security-restricted operation the test lets the command go on. -/
theorem CheckRestrictedOperation_bind_free {α : Type} (env : Env)
    (cmdname : String) (f : Unit → M α) (h : History)
    (hr : env.InSecurityRestrictedOperation h = false) :
    M.bind (CheckRestrictedOperation env cmdname) f h = f () h :=
  M.bind_ok _ _ h h ()
    (by rw [CheckRestrictedOperation_eq, hr]; rfl)

/-- C21: in a security-restricted operation CLOSE, PREPARE, DEALLOCATE and
DISCARD, and on a role other than the worker LISTEN and UNLISTEN, end in
ERRCODE_INSUFFICIENT_PRIVILEGE with the message `cannot execute <COMMAND>
within security-restricted operation`; `h`, the history after the guard and
the reset of the completion tag, is left as it is, so the executor is not
called.  Outside a security-restricted operation the test returns and the
command goes on to its executor. -/
theorem C21_security_restricted_operation (env : Env) (fuel : Nat)
    (c : ClosePortalStmt) (query : Node) (rest : Payload)
    (d : DeallocateStmt) (ds : DiscardStmt) (n : NotifyStmt)
    (queryString : String) (params : Payload) (isTopLevel : Bool)
    (dest : DestReceiver) (completionTag : Bool) (start h : History)
    (hh : h = if completionTag then start ++ [.completionTag ""] else start) :
    (∀ cmdname h0, env.InSecurityRestrictedOperation h0 = false →
      CheckRestrictedOperation env cmdname h0 = (.ok (), h0)) ∧
    (∀ node name proc args, (node, name, proc, args) ∈
        [(Node.ClosePortalStmt c, "CLOSE", ExtProc.PerformPortalClose,
            [Arg.optStr c.portalname]),
          (.PrepareStmt query rest, "PREPARE", .PrepareQuery,
            [.node (.PrepareStmt query rest), .optStr (some queryString)]),
          (.DeallocateStmt d, "DEALLOCATE", .DeallocateQuery,
            [.node (.DeallocateStmt d)]),
          (.DiscardStmt ds, "DISCARD", .DiscardCommand,
            [.node (.DiscardStmt ds), .bool isTopLevel])] →
      (env.InSecurityRestrictedOperation h = true →
        ProcessUtility env fuel node (some queryString) params isTopLevel dest
            completionTag start =
          (.error (.ereport .ERRCODE_INSUFFICIENT_PRIVILEGE
            ("cannot execute " ++ name ++
              " within security-restricted operation") none), h)) ∧
      (env.InSecurityRestrictedOperation h = false →
        ProcessUtility env fuel node (some queryString) params isTopLevel dest
            completionTag start = env.call proc args h)) ∧
    (∀ node name proc, (node, name, proc) ∈
        [(Node.ListenStmt n, "LISTEN", ExtProc.Async_Listen),
          (.UnlistenStmt n, "UNLISTEN", .Async_Unlisten)] →
      env.Gp_role ≠ .GP_ROLE_EXECUTE →
      (env.InSecurityRestrictedOperation h = true →
        ProcessUtility env fuel node (some queryString) params isTopLevel dest
            completionTag start =
          (.error (.ereport .ERRCODE_INSUFFICIENT_PRIVILEGE
            ("cannot execute " ++ name ++
              " within security-restricted operation") none), h)) ∧
      (env.InSecurityRestrictedOperation h = false →
        ProcessUtility env fuel node (some queryString) params isTopLevel dest
            completionTag start =
          env.call proc [.str n.relation.relname] h)) := by
  refine ⟨fun cmdname h0 hr => by rw [CheckRestrictedOperation_eq, hr]; rfl,
    ?_, ?_⟩
  · intro node name proc args hm
    simp only [List.mem_cons, Prod.mk.injEq, List.mem_singleton,
      List.not_mem_nil, or_false] at hm
    rcases hm with ⟨rfl, rfl, rfl, rfl⟩ | ⟨rfl, rfl, rfl, rfl⟩ |
      ⟨rfl, rfl, rfl, rfl⟩ | ⟨rfl, rfl, rfl, rfl⟩
    · rw [ProcessUtility_of_body env fuel _ queryString params isTopLevel
        dest completionTag start h _
        (fun recurse => ProcessUtility_body_ClosePortalStmt env recurse c
          queryString params isTopLevel dest completionTag)
        (check_xact_readonly_unlisted env _ start
          (by simp only [nodeTag]; decide)) hh]
      exact ⟨CheckRestrictedOperation_bind_restricted env _ _ h,
        CheckRestrictedOperation_bind_free env _ _ h⟩
    · rw [ProcessUtility_of_body env fuel _ queryString params isTopLevel
        dest completionTag start h _
        (fun recurse => ProcessUtility_body_PrepareStmt env recurse query rest
          queryString params isTopLevel dest completionTag)
        (check_xact_readonly_unlisted env _ start
          (by simp only [nodeTag]; decide)) hh]
      exact ⟨CheckRestrictedOperation_bind_restricted env _ _ h,
        CheckRestrictedOperation_bind_free env _ _ h⟩
    · rw [ProcessUtility_of_body env fuel _ queryString params isTopLevel
        dest completionTag start h _
        (fun recurse => ProcessUtility_body_DeallocateStmt env recurse d
          queryString params isTopLevel dest completionTag)
        (check_xact_readonly_unlisted env _ start
          (by simp only [nodeTag]; decide)) hh]
      exact ⟨CheckRestrictedOperation_bind_restricted env _ _ h,
        CheckRestrictedOperation_bind_free env _ _ h⟩
    · rw [ProcessUtility_of_body env fuel _ queryString params isTopLevel
        dest completionTag start h _
        (fun recurse => ProcessUtility_body_DiscardStmt env recurse ds
          queryString params isTopLevel dest completionTag)
        (check_xact_readonly_unlisted env _ start
          (by simp only [nodeTag]; decide)) hh]
      exact ⟨CheckRestrictedOperation_bind_restricted env _ _ h,
        CheckRestrictedOperation_bind_free env _ _ h⟩
  · intro node name proc hm hrole
    have hx : (env.Gp_role == GpRoleValue.GP_ROLE_EXECUTE) = false := by
      simpa using hrole
    simp only [List.mem_cons, Prod.mk.injEq, List.mem_singleton,
      List.not_mem_nil, or_false] at hm
    rcases hm with ⟨rfl, rfl, rfl⟩ | ⟨rfl, rfl, rfl⟩
    · rw [ProcessUtility_of_body env fuel _ queryString params isTopLevel
        dest completionTag start h _
        (fun recurse => ProcessUtility_body_ListenStmt env recurse n
          queryString params isTopLevel dest completionTag)
        (check_xact_readonly_unlisted env _ start
          (by simp only [nodeTag]; decide)) hh, hx]
      exact ⟨CheckRestrictedOperation_bind_restricted env _ _ h,
        CheckRestrictedOperation_bind_free env _ _ h⟩
    · rw [ProcessUtility_of_body env fuel _ queryString params isTopLevel
        dest completionTag start h _
        (fun recurse => ProcessUtility_body_UnlistenStmt env recurse n
          queryString params isTopLevel dest completionTag)
        (check_xact_readonly_unlisted env _ start
          (by simp only [nodeTag]; decide)) hh, hx]
      exact ⟨CheckRestrictedOperation_bind_restricted env _ _ h,
        CheckRestrictedOperation_bind_free env _ _ h⟩

/-- C21, run in a security-restricted operation on the coordinator: DISCARD
ALL is refused and no event is left. -/
theorem C21_witness :
    ProcessUtility (sampleEnvRestricted .GP_ROLE_DISPATCH) 0
        (.DiscardStmt ⟨.DISCARD_ALL⟩) (some "DISCARD ALL") ⟨0⟩ true
        (.receiver 1) false [] =
      (.error (.ereport .ERRCODE_INSUFFICIENT_PRIVILEGE
        "cannot execute DISCARD within security-restricted operation" none),
        []) :=
  ((C21_security_restricted_operation (sampleEnvRestricted .GP_ROLE_DISPATCH)
    0 ⟨none⟩ (.InsertStmt ⟨0⟩) ⟨0⟩ ⟨none⟩ ⟨.DISCARD_ALL⟩
    ⟨⟨none, none, "ch", false⟩⟩ "DISCARD ALL" ⟨0⟩ true (.receiver 1) false []
    [] rfl).2.1 (.DiscardStmt ⟨.DISCARD_ALL⟩) "DISCARD" .DiscardCommand
    [.node (.DiscardStmt ⟨.DISCARD_ALL⟩), .bool true] (by simp)).1 rfl

/-- C22: on the worker NOTIFY, LISTEN and UNLISTEN end in
ERRCODE_GP_COMMAND_ERROR; `h`, the history after the guard and the reset of
the completion tag, is left as it is, so the notification routine is not
called, and for LISTEN and UNLISTEN this holds whether or not the operation is
security-restricted.  On any other role the test does not stop them: NOTIFY
goes to its executor, LISTEN and UNLISTEN to the test for a security-restricted
operation. -/
theorem C22_notification_on_worker (env : Env) (fuel : Nat) (n : NotifyStmt)
    (queryString : String) (params : Payload) (isTopLevel : Bool)
    (dest : DestReceiver) (completionTag : Bool) (start h : History)
    (hh : h = if completionTag then start ++ [.completionTag ""] else start) :
    (env.Gp_role = .GP_ROLE_EXECUTE →
      ProcessUtility env fuel (.NotifyStmt n) (some queryString) params
          isTopLevel dest completionTag start =
        (.error (.ereport .ERRCODE_GP_COMMAND_ERROR
          "Notify command cannot run in a function running on a segDB."
          none), h) ∧
      ProcessUtility env fuel (.ListenStmt n) (some queryString) params
          isTopLevel dest completionTag start =
        (.error (.ereport .ERRCODE_GP_COMMAND_ERROR
          "Listen command cannot run in a function running on a segDB."
          none), h) ∧
      ProcessUtility env fuel (.UnlistenStmt n) (some queryString) params
          isTopLevel dest completionTag start =
        (.error (.ereport .ERRCODE_GP_COMMAND_ERROR
          "Unlisten command cannot run in a function running on a segDB."
          none), h)) ∧
    (env.Gp_role ≠ .GP_ROLE_EXECUTE →
      ProcessUtility env fuel (.NotifyStmt n) (some queryString) params
          isTopLevel dest completionTag start =
        env.call .Async_Notify [.str n.relation.relname] h ∧
      ProcessUtility env fuel (.ListenStmt n) (some queryString) params
          isTopLevel dest completionTag start =
        M.bind (CheckRestrictedOperation env "LISTEN")
          (fun _ => env.call .Async_Listen [.str n.relation.relname]) h ∧
      ProcessUtility env fuel (.UnlistenStmt n) (some queryString) params
          isTopLevel dest completionTag start =
        M.bind (CheckRestrictedOperation env "UNLISTEN")
          (fun _ => env.call .Async_Unlisten [.str n.relation.relname]) h) := by
  rw [ProcessUtility_of_body env fuel _ queryString params isTopLevel
      dest completionTag start h _
      (fun recurse => ProcessUtility_body_NotifyStmt env recurse n
        queryString params isTopLevel dest completionTag)
      (check_xact_readonly_unlisted env _ start
        (by simp only [nodeTag]; decide)) hh,
    ProcessUtility_of_body env fuel _ queryString params isTopLevel
      dest completionTag start h _
      (fun recurse => ProcessUtility_body_ListenStmt env recurse n
        queryString params isTopLevel dest completionTag)
      (check_xact_readonly_unlisted env _ start
        (by simp only [nodeTag]; decide)) hh,
    ProcessUtility_of_body env fuel _ queryString params isTopLevel
      dest completionTag start h _
      (fun recurse => ProcessUtility_body_UnlistenStmt env recurse n
        queryString params isTopLevel dest completionTag)
      (check_xact_readonly_unlisted env _ start
        (by simp only [nodeTag]; decide)) hh]
  refine ⟨fun hrole => ?_, fun hrole => ?_⟩
  · have hx : (env.Gp_role == GpRoleValue.GP_ROLE_EXECUTE) = true := by
      rw [hrole]; rfl
    rw [hx]
    exact ⟨rfl, rfl, rfl⟩
  · have hx : (env.Gp_role == GpRoleValue.GP_ROLE_EXECUTE) = false := by
      simpa using hrole
    rw [hx]
    exact ⟨rfl, rfl, rfl⟩

/-- C22, run on a worker inside a security-restricted operation: LISTEN ends
in the error of the role test, not in that of the security test. -/
theorem C22_witness :
    ProcessUtility (sampleEnvRestricted .GP_ROLE_EXECUTE) 0
        (.ListenStmt ⟨⟨none, none, "ch", false⟩⟩) (some "LISTEN ch") ⟨0⟩ true
        (.receiver 1) false [] =
      (.error (.ereport .ERRCODE_GP_COMMAND_ERROR
        "Listen command cannot run in a function running on a segDB." none),
        []) :=
  ((C22_notification_on_worker (sampleEnvRestricted .GP_ROLE_EXECUTE) 0
    ⟨⟨none, none, "ch", false⟩⟩ "LISTEN ch" ⟨0⟩ true (.receiver 1) false [] []
    rfl).1 rfl).2.1

/-! ## Broadcasts and parse analysis by role -/

/-- C23: on every role other than the coordinator the dispatcher makes no
broadcast, whatever the statement: the events it adds to the history hold no
call of CdbDispatchUtilityStatement and none of CdbDispatchCommand, the
sub-statements it recurses on included. -/
theorem C23_no_broadcast_off_coordinator (env : Env) (fuel : Nat)
    (parsetree : Node) (queryString : Option String) (params : Payload)
    (isTopLevel : Bool) (dest : DestReceiver) (completionTag : Bool)
    (start : History) (hrole : env.Gp_role ≠ .GP_ROLE_DISPATCH) :
    ∃ evs, (ProcessUtility env fuel parsetree queryString params isTopLevel
        dest completionTag start).2 = start ++ evs ∧
      ∀ args, Event.call .CdbDispatchUtilityStatement args ∉ evs ∧
        Event.call .CdbDispatchCommand args ∉ evs := by
  have hd : ¬ (env.Gp_role == GpRoleValue.GP_ROLE_DISPATCH) = true := by
    simpa using hrole
  have key := ProcessUtility_onlyAdds
    (fun ev => ∀ args, ev ≠ .call .CdbDispatchUtilityStatement args ∧
      ev ≠ .call .CdbDispatchCommand args)
    env (fun s args => ⟨by simp, by simp⟩) (fun s args => ⟨by simp, by simp⟩)
    (fun proc args hm args2 =>
      ⟨fun heq => by cases heq; simp at hm, fun heq => by cases heq; simp at hm⟩)
    (fun h => absurd h hd) (fun h => absurd h hd)
    (fun _ args =>
      ⟨fun a => ⟨by simp, by simp⟩, fun a => ⟨by simp, by simp⟩,
        fun a => ⟨by simp, by simp⟩⟩)
    fuel parsetree queryString params isTopLevel dest completionTag
  unfold OnlyAdds at key
  obtain ⟨r, hr, hp⟩ := key start
  exact ⟨r, hr, fun args =>
    ⟨fun hm => (hp _ hm args).1 rfl, fun hm => (hp _ hm args).2 rfl⟩⟩

/-- C23, run on a worker of the sample world: CREATE RULE adds no broadcast. -/
theorem C23_witness :
    ∃ evs, (ProcessUtility (sampleEnv .GP_ROLE_EXECUTE false) 0 (.RuleStmt ⟨0⟩)
        (some "CREATE RULE r AS ON INSERT TO t DO NOTHING") ⟨0⟩ true
        (.receiver 1) false []).2 = [] ++ evs ∧
      ∀ args, Event.call .CdbDispatchUtilityStatement args ∉ evs ∧
        Event.call .CdbDispatchCommand args ∉ evs :=
  C23_no_broadcast_off_coordinator (sampleEnv .GP_ROLE_EXECUTE false) 0
    (.RuleStmt ⟨0⟩) (some "CREATE RULE r AS ON INSERT TO t DO NOTHING") ⟨0⟩
    true (.receiver 1) false [] (by decide)

/-- On the worker the dispatcher calls none of the parse analyses of CREATE
TABLE, CREATE EXTERNAL TABLE and ALTER TABLE, whatever the statement. -/
theorem ProcessUtility_no_parse_analysis_on_worker (env : Env) (fuel : Nat)
    (parsetree : Node) (queryString : Option String) (params : Payload)
    (isTopLevel : Bool) (dest : DestReceiver) (completionTag : Bool)
    (start : History) (hrole : env.Gp_role = .GP_ROLE_EXECUTE) :
    ∃ evs, (ProcessUtility env fuel parsetree queryString params isTopLevel
        dest completionTag start).2 = start ++ evs ∧
      ∀ args, Event.call .transformCreateStmt args ∉ evs ∧
        Event.call .transformCreateExternalStmt args ∉ evs ∧
        Event.call .transformAlterTableStmt args ∉ evs := by
  have hx : ¬ (env.Gp_role == GpRoleValue.GP_ROLE_EXECUTE) = false := by
    rw [hrole]; decide
  have key := ProcessUtility_onlyAdds
    (fun ev => ∀ args, ev ≠ .call .transformCreateStmt args ∧
      ev ≠ .call .transformCreateExternalStmt args ∧
      ev ≠ .call .transformAlterTableStmt args)
    env (fun s args => ⟨by simp, by simp, by simp⟩)
    (fun s args => ⟨by simp, by simp, by simp⟩)
    (fun proc args hm args2 =>
      ⟨fun heq => by cases heq; simp at hm, fun heq => by cases heq; simp at hm,
        fun heq => by cases heq; simp at hm⟩)
    (fun _ n l args => ⟨by simp, by simp, by simp⟩)
    (fun _ s args => ⟨by simp, by simp, by simp⟩)
    (fun h => absurd h hx)
    fuel parsetree queryString params isTopLevel dest completionTag
  unfold OnlyAdds at key
  obtain ⟨r, hr, hp⟩ := key start
  exact ⟨r, hr, fun args =>
    ⟨fun hm => (hp _ hm args).1 rfl, fun hm => (hp _ hm args).2.1 rfl,
      fun hm => (hp _ hm args).2.2 rfl⟩⟩

/-- Every broadcast of the dispatcher has one of two forms, whatever the
statement: a statement sent by CdbDispatchUtilityStatement goes with the three
flags cancel-on-error, two-phase and snapshot and a list of identifiers; a
command text sent by CdbDispatchCommand goes with the snapshot flag alone. -/
theorem ProcessUtility_broadcast_form (env : Env) (fuel : Nat)
    (parsetree : Node) (queryString : Option String) (params : Payload)
    (isTopLevel : Bool) (dest : DestReceiver) (completionTag : Bool)
    (start : History) :
    ∃ evs, (ProcessUtility env fuel parsetree queryString params isTopLevel
        dest completionTag start).2 = start ++ evs ∧
      ∀ args,
        (Event.call .CdbDispatchUtilityStatement args ∈ evs →
          ∃ n l, args = [.node n, .flags ⟨true, true, true⟩, .oids l]) ∧
        (Event.call .CdbDispatchCommand args ∈ evs →
          ∃ s, args = [.str s, .flags ⟨false, false, true⟩]) := by
  have key := ProcessUtility_onlyAdds
    (fun ev => ∀ args,
      (ev = .call .CdbDispatchUtilityStatement args →
        ∃ n l, args = [.node n, .flags ⟨true, true, true⟩, .oids l]) ∧
      (ev = .call .CdbDispatchCommand args →
        ∃ s, args = [.str s, .flags ⟨false, false, true⟩]))
    env (fun s args => ⟨by simp, by simp⟩) (fun s args => ⟨by simp, by simp⟩)
    (fun proc args hm args2 =>
      ⟨fun heq => by cases heq; simp at hm, fun heq => by cases heq; simp at hm⟩)
    (fun _ n l args =>
      ⟨fun heq => by cases heq; exact ⟨n, l, rfl⟩, fun heq => (nomatch heq)⟩)
    (fun _ s args =>
      ⟨fun heq => (nomatch heq), fun heq => by cases heq; exact ⟨s, rfl⟩⟩)
    (fun _ args =>
      ⟨fun a => ⟨by simp, by simp⟩, fun a => ⟨by simp, by simp⟩,
        fun a => ⟨by simp, by simp⟩⟩)
    fuel parsetree queryString params isTopLevel dest completionTag
  unfold OnlyAdds at key
  obtain ⟨r, hr, hp⟩ := key start
  exact ⟨r, hr, fun args =>
    ⟨fun hm => (hp _ hm args).1 rfl, fun hm => (hp _ hm args).2 rfl⟩⟩

/-- C26, as the claim has it, fails: on a worker of the sample world CREATE
INDEX starts with the parse analysis transformIndexStmt, and the index is
defined after it. -/
theorem C26_counterexample :
    ProcessUtility (sampleEnv .GP_ROLE_EXECUTE false) 0
        (.IndexStmt ⟨⟨none, none, "t", false⟩, false, ⟨0⟩⟩)
        (some "CREATE INDEX i ON t (a)") ⟨0⟩ true (.receiver 1) false [] =
      (.ok (),
        [.call .transformIndexStmt
            [.node (.IndexStmt ⟨⟨none, none, "t", false⟩, false, ⟨0⟩⟩),
              .optStr (some "CREATE INDEX i ON t (a)")],
          .call .DefineIndex
            [.node (.IndexStmt ⟨⟨none, none, "t", false⟩, false, ⟨0⟩⟩)]]) := by
  rfl

/-- C26 (amended): CREATE INDEX that the guard accepts is handed to the parse
analysis transformIndexStmt in every role, the worker included: the call is
the first event after `h`, the history left by the guard and the reset of the
completion tag, and when it raises the command ends there. -/
theorem C26_parse_analysis_of_create_index (env : Env) (fuel : Nat)
    (ix : IndexStmt) (queryString : String) (params : Payload)
    (isTopLevel : Bool) (dest : DestReceiver) (completionTag : Bool)
    (start h : History)
    (hg : check_xact_readonly env (.IndexStmt ix) start = (.ok (), start))
    (hh : h = if completionTag then start ++ [.completionTag ""] else start) :
    (∃ rest, (ProcessUtility env fuel (.IndexStmt ix) (some queryString)
          params isTopLevel dest completionTag start).2 =
        h ++ .call .transformIndexStmt
          [.node (.IndexStmt ix), .optStr (some queryString)] :: rest) ∧
    ∀ e, env.raises h .transformIndexStmt
          [.node (.IndexStmt ix), .optStr (some queryString)] = some e →
      ProcessUtility env fuel (.IndexStmt ix) (some queryString) params
          isTopLevel dest completionTag start =
        (.error e, h ++ [.call .transformIndexStmt
          [.node (.IndexStmt ix), .optStr (some queryString)]]) := by
  obtain ⟨step, hstep, hothers, hbody⟩ :=
    ProcessUtility_body_IndexStmt env isTopLevel
  have hext : ∀ node h2, ∃ r, (step node h2).2 = h2 ++ r := by
    intro node h2
    cases node
    case IndexStmt stmt =>
      rw [hstep]
      exact M.bind_extends _ _ (Env.call_if_extends env _ _ _)
        (fun _ => M.bind_extends _ _ (CheckRelationOwnership_extends env _ _)
          (fun _ => Env.call_extends env _ _)) h2
    all_goals
      exact ⟨[], by
        rw [hothers _ _ (fun stmt hc => by cases hc), List.append_nil]⟩
  rw [ProcessUtility_of_body env fuel (.IndexStmt ix) queryString params
    isTopLevel dest completionTag start h _
    (fun recurse => hbody recurse ix queryString params dest completionTag)
    hg hh]
  refine ⟨Env.callRet_bind_first env env.retNodes _ _ _ h
    (fun stmts h1 => foreach_extends stmts step hext h1), fun e he => ?_⟩
  exact M.bind_error _ _ h _ e (by simp only [Env.callRet, he])

/-- C26 (amended), run on a worker of the sample world in which parse analysis
raises: CREATE INDEX ends with that error, the call being the only event. -/
theorem C26_witness :
    ProcessUtility (sampleEnvParseError .GP_ROLE_EXECUTE) 0
        (.IndexStmt ⟨⟨none, none, "t", false⟩, false, ⟨0⟩⟩)
        (some "CREATE INDEX i ON t (a)") ⟨0⟩ true (.receiver 1) false [] =
      (.error (.external 42704),
        [] ++ [.call .transformIndexStmt
          [.node (.IndexStmt ⟨⟨none, none, "t", false⟩, false, ⟨0⟩⟩),
            .optStr (some "CREATE INDEX i ON t (a)")]]) :=
  (C26_parse_analysis_of_create_index (sampleEnvParseError .GP_ROLE_EXECUTE) 0
    ⟨⟨none, none, "t", false⟩, false, ⟨0⟩⟩ "CREATE INDEX i ON t (a)" ⟨0⟩ true
    (.receiver 1) false [] [] rfl rfl).2 (.external 42704) rfl

/-! ## Unrecognised statements -/

/-- The body of the dispatcher on a node for which it has no case. -/
theorem ProcessUtility_body_unrecognized (env : Env) (recurse : Node → M Unit)
    (parsetree : Node) (queryString : String) (params : Payload)
    (isTopLevel : Bool) (dest : DestReceiver) (completionTag : Bool)
    (hm : nodeTag parsetree ∈
      [NodeTag.T_InsertStmt, .T_DeleteStmt, .T_UpdateStmt, .T_SelectStmt,
        .T_DeclareCursorStmt, .T_Query, .T_other]) :
    ProcessUtility.body env recurse parsetree (some queryString) params
        isTopLevel dest completionTag =
      M.bind (check_xact_readonly env parsetree)
        (fun _ =>
          M.bind (if completionTag = true then emit (.completionTag "")
            else M.pure ())
            (fun _ => raise (.elog "unrecognized node type: %d"))) := by
  cases parsetree <;> simp [nodeTag] at hm <;> cases completionTag <;>
    (unfold ProcessUtility.body; rfl)

/-- The body of the dispatcher on a CREATE (define) statement of an
unrecognised kind. -/
theorem ProcessUtility_body_DefineStmt_unrecognized (env : Env)
    (recurse : Node → M Unit) (s : DefineStmt) (queryString : String)
    (params : Payload) (isTopLevel : Bool) (dest : DestReceiver)
    (completionTag : Bool)
    (hk : s.kind ∉ [ObjectType.OBJECT_AGGREGATE, .OBJECT_OPERATOR,
      .OBJECT_TYPE, .OBJECT_EXTPROTOCOL, .OBJECT_TSPARSER,
      .OBJECT_TSDICTIONARY, .OBJECT_TSTEMPLATE, .OBJECT_TSCONFIGURATION]) :
    ProcessUtility.body env recurse (.DefineStmt s) (some queryString) params
        isTopLevel dest completionTag =
      M.bind (check_xact_readonly env (.DefineStmt s))
        (fun _ =>
          M.bind (if completionTag = true then emit (.completionTag "")
            else M.pure ())
            (fun _ => raise (.elog "unrecognized define stmt type: %d"))) := by
  obtain ⟨kind, oldstyle, defnames, args, definition, ordered, trusted⟩ := s
  cases kind <;> simp at hk <;> cases completionTag <;>
    (unfold ProcessUtility.body; rfl)

/-- The body of the dispatcher on a DROP FUNCTION-like statement of an
unrecognised kind. -/
theorem ProcessUtility_body_RemoveFuncStmt_unrecognized (env : Env)
    (recurse : Node → M Unit) (s : RemoveFuncStmt) (queryString : String)
    (params : Payload) (isTopLevel : Bool) (dest : DestReceiver)
    (completionTag : Bool)
    (hk : s.kind ∉ [ObjectType.OBJECT_FUNCTION, .OBJECT_AGGREGATE,
      .OBJECT_OPERATOR]) :
    ProcessUtility.body env recurse (.RemoveFuncStmt s) (some queryString)
        params isTopLevel dest completionTag =
      M.bind (check_xact_readonly env (.RemoveFuncStmt s))
        (fun _ =>
          M.bind (if completionTag = true then emit (.completionTag "")
            else M.pure ())
            (fun _ => raise (.elog "unrecognized object type: %d"))) := by
  obtain ⟨kind, rest⟩ := s
  cases kind <;> simp at hk <;> cases completionTag <;>
    (unfold ProcessUtility.body; rfl)

/-- The body of the dispatcher on a REINDEX of an unrecognised kind. -/
theorem ProcessUtility_body_ReindexStmt_unrecognized (env : Env)
    (recurse : Node → M Unit) (s : ReindexStmt) (queryString : String)
    (params : Payload) (isTopLevel : Bool) (dest : DestReceiver)
    (completionTag : Bool)
    (hk : s.kind ∉ [ObjectType.OBJECT_INDEX, .OBJECT_TABLE,
      .OBJECT_DATABASE]) :
    ProcessUtility.body env recurse (.ReindexStmt s) (some queryString)
        params isTopLevel dest completionTag =
      M.bind (check_xact_readonly env (.ReindexStmt s))
        (fun _ =>
          M.bind (if completionTag = true then emit (.completionTag "")
            else M.pure ())
            (fun _ => raise (.elog "unrecognized object type: %d"))) := by
  obtain ⟨kind, rest⟩ := s
  cases kind <;> simp at hk <;> cases completionTag <;>
    (unfold ProcessUtility.body; rfl)

/-- The body of the dispatcher on a DROP RULE / DROP TRIGGER statement of an
unrecognised kind: the relation is looked up, then the internal error. -/
theorem ProcessUtility_body_DropPropertyStmt_unrecognized (env : Env)
    (recurse : Node → M Unit) (s : DropPropertyStmt) (queryString : String)
    (params : Payload) (isTopLevel : Bool) (dest : DestReceiver)
    (completionTag : Bool)
    (hk : s.removeType ∉ [ObjectType.OBJECT_RULE, .OBJECT_TRIGGER]) :
    ProcessUtility.body env recurse (.DropPropertyStmt s) (some queryString)
        params isTopLevel dest completionTag =
      M.bind (check_xact_readonly env (.DropPropertyStmt s))
        (fun _ =>
          M.bind (if completionTag = true then emit (.completionTag "")
            else M.pure ())
            (fun _ =>
              M.bind (askE (fun h => env.RangeVarGetRelid h s.relation false))
                (fun _ => raise (.elog "unrecognized object type: %d")))) := by
  obtain ⟨relation, property, removeType, behavior, missing_ok⟩ := s
  cases removeType <;> simp at hk <;> cases completionTag <;>
    (unfold ProcessUtility.body; rfl)

/-- The body of the dispatcher on an ALTER DOMAIN of an unrecognised
subtype. -/
theorem ProcessUtility_body_AlterDomainStmt_unrecognized (env : Env)
    (recurse : Node → M Unit) (s : AlterDomainStmt) (queryString : String)
    (params : Payload) (isTopLevel : Bool) (dest : DestReceiver)
    (completionTag : Bool)
    (hk : s.subtype ∉ ['T', 'N', 'O', 'C', 'X']) :
    ProcessUtility.body env recurse (.AlterDomainStmt s) (some queryString)
        params isTopLevel dest completionTag =
      M.bind (check_xact_readonly env (.AlterDomainStmt s))
        (fun _ =>
          M.bind (if completionTag = true then emit (.completionTag "")
            else M.pure ())
            (fun _ => raise (.elog "unrecognized alter domain type: %d"))) := by
  simp only [List.mem_cons, List.mem_singleton, List.not_mem_nil, or_false,
    not_or] at hk
  have h1 : (s.subtype == 'T') = false := by simpa using hk.1
  have h2 : (s.subtype == 'N') = false := by simpa using hk.2.1
  have h3 : (s.subtype == 'O') = false := by simpa using hk.2.2.1
  have h4 : (s.subtype == 'C') = false := by simpa using hk.2.2.2.1
  have h5 : (s.subtype == 'X') = false := by simpa using hk.2.2.2.2
  cases completionTag <;>
    (unfold ProcessUtility.body; simp only [h1, h2, h3, h4, h5]; rfl)

/-- The removal of one object of an unrecognised kind ends in the internal
error, before anything else. -/
theorem ProcessDropStatement_unrecognized (env : Env) (s : DropStmt)
    (names : List String) (h : History) (hobj : s.objects = [names])
    (hk : s.removeType ∉ [ObjectType.OBJECT_TABLE, .OBJECT_EXTTABLE,
      .OBJECT_SEQUENCE, .OBJECT_VIEW, .OBJECT_INDEX, .OBJECT_TYPE,
      .OBJECT_DOMAIN, .OBJECT_CONVERSION, .OBJECT_SCHEMA, .OBJECT_FILESPACE,
      .OBJECT_TABLESPACE, .OBJECT_EXTPROTOCOL, .OBJECT_TSPARSER,
      .OBJECT_TSDICTIONARY, .OBJECT_TSTEMPLATE, .OBJECT_TSCONFIGURATION,
      .OBJECT_EXTENSION]) :
    ProcessDropStatement env s h =
      (.error (.elog "unrecognized drop object type: %d"), h) := by
  unfold ProcessDropStatement
  rw [hobj]
  simp only [bind, List.length_singleton, beq_self_eq_true, Assert, if_true,
    M.pure_bind, foreachAcc]
  unfold ProcessDropStatement.body
  cases hrt : s.removeType <;> simp [hrt] at hk <;> rfl

/-- C28: a statement for which the dispatcher has no case ends in the internal
error `unrecognized node type`, in every role and whatever the transaction
mode, and `h`, the history after the guard and the reset of the completion
tag, is left as it is.  Outside read-only mode, where the guard lets them
through, an unrecognised kind of CREATE (define), of DROP FUNCTION-like, of
REINDEX and of ALTER DOMAIN ends in an internal error in the same way; a DROP
of an unrecognised kind ends in an internal error at its first object; a DROP
RULE / DROP TRIGGER of an unrecognised kind ends in an internal error once its
relation is looked up, and in the error of the look-up when that fails.  None
returns normally. -/
theorem C28_unrecognized_statement (env : Env) (fuel : Nat)
    (queryString : String) (params : Payload) (isTopLevel : Bool)
    (dest : DestReceiver) (completionTag : Bool) (start h : History)
    (hh : h = if completionTag then start ++ [.completionTag ""] else start) :
    (∀ parsetree, nodeTag parsetree ∈
        [NodeTag.T_InsertStmt, .T_DeleteStmt, .T_UpdateStmt, .T_SelectStmt,
          .T_DeclareCursorStmt, .T_Query, .T_other] →
      ProcessUtility env fuel parsetree (some queryString) params isTopLevel
          dest completionTag start =
        (.error (.elog "unrecognized node type: %d"), h)) ∧
    (env.XactReadOnly start = false →
      (∀ s : DefineStmt,
        s.kind ∉ [ObjectType.OBJECT_AGGREGATE, .OBJECT_OPERATOR,
          .OBJECT_TYPE, .OBJECT_EXTPROTOCOL, .OBJECT_TSPARSER,
          .OBJECT_TSDICTIONARY, .OBJECT_TSTEMPLATE,
          .OBJECT_TSCONFIGURATION] →
        ProcessUtility env fuel (.DefineStmt s) (some queryString) params
            isTopLevel dest completionTag start =
          (.error (.elog "unrecognized define stmt type: %d"), h)) ∧
      (∀ s : RemoveFuncStmt,
        s.kind ∉ [ObjectType.OBJECT_FUNCTION, .OBJECT_AGGREGATE,
          .OBJECT_OPERATOR] →
        ProcessUtility env fuel (.RemoveFuncStmt s) (some queryString) params
            isTopLevel dest completionTag start =
          (.error (.elog "unrecognized object type: %d"), h)) ∧
      (∀ s : ReindexStmt,
        s.kind ∉ [ObjectType.OBJECT_INDEX, .OBJECT_TABLE,
          .OBJECT_DATABASE] →
        ProcessUtility env fuel (.ReindexStmt s) (some queryString) params
            isTopLevel dest completionTag start =
          (.error (.elog "unrecognized object type: %d"), h)) ∧
      (∀ s : AlterDomainStmt, s.subtype ∉ ['T', 'N', 'O', 'C', 'X'] →
        ProcessUtility env fuel (.AlterDomainStmt s) (some queryString) params
            isTopLevel dest completionTag start =
          (.error (.elog "unrecognized alter domain type: %d"), h)) ∧
      (∀ (s : DropStmt) names more, s.objects = names :: more →
        s.removeType ∉ [ObjectType.OBJECT_TABLE, .OBJECT_EXTTABLE,
          .OBJECT_SEQUENCE, .OBJECT_VIEW, .OBJECT_INDEX, .OBJECT_TYPE,
          .OBJECT_DOMAIN, .OBJECT_CONVERSION, .OBJECT_SCHEMA,
          .OBJECT_FILESPACE, .OBJECT_TABLESPACE, .OBJECT_EXTPROTOCOL,
          .OBJECT_TSPARSER, .OBJECT_TSDICTIONARY, .OBJECT_TSTEMPLATE,
          .OBJECT_TSCONFIGURATION, .OBJECT_EXTENSION] →
        ProcessUtility env fuel (.DropStmt s) (some queryString) params
            isTopLevel dest completionTag start =
          (.error (.elog "unrecognized drop object type: %d"), h)) ∧
      (∀ s : DropPropertyStmt,
        s.removeType ∉ [ObjectType.OBJECT_RULE, .OBJECT_TRIGGER] →
        ProcessUtility env fuel (.DropPropertyStmt s) (some queryString)
            params isTopLevel dest completionTag start =
          match env.RangeVarGetRelid h s.relation false with
          | .ok _ => (.error (.elog "unrecognized object type: %d"), h)
          | .error e => (.error e, h))) := by
  refine ⟨fun parsetree hm => ?_, fun hro => ⟨fun s hk => ?_, fun s hk => ?_,
    fun s hk => ?_, fun s hk => ?_, fun s names more hobj hk => ?_,
    fun s hk => ?_⟩⟩
  · rw [ProcessUtility_of_body env fuel parsetree queryString params
      isTopLevel dest completionTag start h _
      (fun recurse => ProcessUtility_body_unrecognized env recurse parsetree
        queryString params isTopLevel dest completionTag hm)
      (check_xact_readonly_unlisted env _ start (by
        simp only [List.mem_cons, List.mem_singleton, List.not_mem_nil,
          or_false] at hm
        rcases hm with hm | hm | hm | hm | hm | hm | hm <;> rw [hm] <;>
          decide)) hh]
    rfl
  · rw [ProcessUtility_of_body env fuel _ queryString params
      isTopLevel dest completionTag start h _
      (fun recurse => ProcessUtility_body_DefineStmt_unrecognized env recurse
        s queryString params isTopLevel dest completionTag hk)
      (check_xact_readonly_off env _ start hro) hh]
    rfl
  · rw [ProcessUtility_of_body env fuel _ queryString params
      isTopLevel dest completionTag start h _
      (fun recurse => ProcessUtility_body_RemoveFuncStmt_unrecognized env
        recurse s queryString params isTopLevel dest completionTag hk)
      (check_xact_readonly_off env _ start hro) hh]
    rfl
  · rw [ProcessUtility_of_body env fuel _ queryString params
      isTopLevel dest completionTag start h _
      (fun recurse => ProcessUtility_body_ReindexStmt_unrecognized env
        recurse s queryString params isTopLevel dest completionTag hk)
      (check_xact_readonly_off env _ start hro) hh]
    rfl
  · rw [ProcessUtility_of_body env fuel _ queryString params
      isTopLevel dest completionTag start h _
      (fun recurse => ProcessUtility_body_AlterDomainStmt_unrecognized env
        recurse s queryString params isTopLevel dest completionTag hk)
      (check_xact_readonly_off env _ start hro) hh]
    rfl
  · rw [ProcessUtility_DropStmt env fuel s queryString params isTopLevel dest
      completionTag start h (check_xact_readonly_off env _ start hro) hh,
      hobj]
    unfold dropOneAtATime
    exact M.bind_error _ _ h h _
      (M.bind_error _ _ h h _
        (ProcessDropStatement_unrecognized env _ names h rfl hk))
  · rw [ProcessUtility_of_body env fuel _ queryString params
      isTopLevel dest completionTag start h _
      (fun recurse => ProcessUtility_body_DropPropertyStmt_unrecognized env
        recurse s queryString params isTopLevel dest completionTag hk)
      (check_xact_readonly_off env _ start hro) hh]
    unfold M.bind askE
    dsimp only
    cases env.RangeVarGetRelid h s.relation false <;> rfl

/-- C28, run in the sample world: a node of a type unknown to the dispatcher
ends in the internal error, the reset of the completion tag being the only
event. -/
theorem C28_witness :
    ProcessUtility (sampleEnv .GP_ROLE_UTILITY false) 0 (.other 999 ⟨0⟩)
        (some "?") ⟨0⟩ true (.receiver 1) true [] =
      (.error (.elog "unrecognized node type: %d"), [.completionTag ""]) :=
  (C28_unrecognized_statement (sampleEnv .GP_ROLE_UTILITY false) 0 "?" ⟨0⟩
    true (.receiver 1) true [] [.completionTag ""] rfl).1 (.other 999 ⟨0⟩)
    (by simp [nodeTag])

/-! ## The classifier: tags and log levels -/

/-- A returned value ends the same way from every history. -/
theorem Constant_pure {α : Type} (P : α → Prop) (a : α) (hp : P a) :
    Constant P (M.pure a) := by
  unfold Constant
  exact ⟨.ok a, [], fun h => by rw [List.append_nil]; rfl,
    fun b hb => by cases hb; exact hp⟩

/-- An error ends the same way from every history. -/
theorem Constant_raise {α : Type} (P : α → Prop) (e : ErrorData) :
    Constant P (raise e : M α) := by
  unfold Constant
  exact ⟨.error e, [], fun h => by rw [List.append_nil]; rfl,
    fun b hb => by cases hb⟩

/-- A report ends the same way from every history. -/
theorem Constant_emit (ev : Event) : Constant (fun _ => True) (emit ev) := by
  unfold Constant
  exact ⟨.ok (), [ev], fun h => rfl, fun _ _ => trivial⟩

/-- An assertion ends the same way from every history. -/
theorem Constant_Assert (c : Bool) (condition : String) :
    Constant (fun _ => True) (Assert c condition) := by
  unfold Constant
  cases c
  · exact ⟨.error (.TRAP condition), [],
      fun h => by rw [List.append_nil]; rfl, fun _ _ => trivial⟩
  · exact ⟨.ok (), [], fun h => by rw [List.append_nil]; rfl,
      fun _ _ => trivial⟩

/-- Two steps that end the same way from every history do so in sequence. -/
theorem Constant_bind {α β : Type} (P : β → Prop) (Q : α → Prop) (m : M α)
    (f : α → M β) (hm : Constant Q m) (hf : ∀ a, Constant P (f a)) :
    Constant P (M.bind m f) := by
  unfold Constant at hm hf ⊢
  obtain ⟨r, evs, hr, _⟩ := hm
  cases r with
  | ok a =>
      obtain ⟨r2, evs2, hr2, hp2⟩ := hf a
      exact ⟨r2, evs ++ evs2, fun h => by
        rw [M.bind_ok m f h _ a (hr h), hr2, List.append_assoc], hp2⟩
  | error e =>
      exact ⟨.error e, evs, fun h => M.bind_error m f h _ e (hr h),
        fun b hb => by cases hb⟩
  | outOfFuel =>
      exact ⟨.outOfFuel, evs, fun h => by unfold M.bind; rw [hr h],
        fun b hb => by cases hb⟩

set_option maxHeartbeats 4000000 in
/-- The command tag of a node is the same from every history, the events of
the call as well, and a tag that is returned is shorter than a completion-tag
buffer. -/
theorem CreateCommandTag_constant (S : Node) :
    Constant (fun tag : String => tag.length < COMPLETION_TAG_BUFSIZE)
      (CreateCommandTag S) := by
  generalize hn : sizeOf S = n
  induction n using Nat.strong_induction_on generalizing S with
  | _ n ih =>
    subst hn
    cases S
    case PlannedStmt ct us ic rm p =>
      cases ct <;> cases us <;> cases ic <;> cases rm <;>
        simp only [CreateCommandTag] <;>
      repeat' first
        | with_reducible exact Constant_emit _
        | with_reducible exact Constant_Assert _ _
        | with_reducible apply Constant_pure
        | with_reducible apply Constant_bind _ (fun _ => True)
        | (beta_reduce; decide)
        | intro _
        | split
    case Query ct us ic rm p =>
      cases ct <;> cases us <;> cases ic <;> cases rm <;>
        simp only [CreateCommandTag] <;>
      repeat' first
        | with_reducible exact Constant_raise _ _
        | with_reducible exact Constant_emit _
        | exact ih _ (by simp; omega) _ rfl
        | with_reducible apply Constant_pure
        | with_reducible apply Constant_bind _ (fun _ => True)
        | (beta_reduce; decide)
        | intro _
        | split
    all_goals rw [CreateCommandTag]
    all_goals repeat' first
      | with_reducible exact Constant_raise _ _
      | with_reducible exact Constant_emit _
      | with_reducible exact Constant_Assert _ _
      | exact ih _ (by simp; omega) _ rfl
      | with_reducible apply Constant_pure
      | with_reducible apply Constant_bind _ (fun _ => True)
      | (beta_reduce; decide)
      | intro _
      | split

/-- The log level of a command reads, of the world, the prepared statements
alone. -/
theorem GetCommandLogLevel_congr (env1 env2 : Env)
    (hf : env1.FetchPreparedStatement = env2.FetchPreparedStatement)
    (fuel : Nat) :
    GetCommandLogLevel env1 fuel = GetCommandLogLevel env2 fuel := by
  induction fuel with
  | zero =>
      funext S
      rw [GetCommandLogLevel, GetCommandLogLevel, hf]
  | succ n ih =>
      funext S
      rw [GetCommandLogLevel, GetCommandLogLevel, hf, ih]

/-- C29, as the claim has it, fails: on a node of a type unknown to the file
`GetCommandLogLevel` reports a warning and returns the default level ALL, and
on a DROP of a kind it has no tag for `CreateCommandTag` returns the default
tag `???` with no report at all. -/
theorem C29_counterexample :
    GetCommandLogLevel (sampleEnv .GP_ROLE_DISPATCH false) 0 (.other 999 ⟨0⟩)
        [] =
      (.ok .LOGSTMT_ALL, [.WARNING "unrecognized node type: %d"]) ∧
    CreateCommandTag (.DropStmt ⟨[["f"]], .OBJECT_FUNCTION, .DROP_RESTRICT,
        false⟩) [] = (.ok "???", []) :=
  ⟨rfl, rfl⟩

/-- C29 (amended): on a node of a type unknown to the file `CreateCommandTag`
reports the warning `unrecognized node type` and then fails its assertion, so
an assert-enabled build stops there; `GetCommandLogLevel` reports the same
warning and returns the default level ALL.  On a DROP, RENAME, ALTER OWNER,
ALTER SCHEMA, CREATE (define) or DROP FUNCTION-like statement whose target
kind it has no tag for, `CreateCommandTag` returns the default tag `???` and
leaves no event. -/
theorem C29_unrecognized_in_classifier (h : History) :
    (∀ n p, CreateCommandTag (.other n p) h =
      (.error (.TRAP "false"), h ++ [.WARNING "unrecognized node type: %d"])) ∧
    (∀ env fuel n p, GetCommandLogLevel env fuel (.other n p) h =
      (.ok .LOGSTMT_ALL, h ++ [.WARNING "unrecognized node type: %d"])) ∧
    (∀ s : DropStmt,
      s.removeType ∉ [ObjectType.OBJECT_TABLE, .OBJECT_EXTTABLE,
        .OBJECT_SEQUENCE, .OBJECT_VIEW, .OBJECT_INDEX, .OBJECT_TYPE,
        .OBJECT_DOMAIN, .OBJECT_CONVERSION, .OBJECT_SCHEMA, .OBJECT_FILESPACE,
        .OBJECT_TABLESPACE, .OBJECT_EXTPROTOCOL, .OBJECT_TSPARSER,
        .OBJECT_TSDICTIONARY, .OBJECT_TSTEMPLATE, .OBJECT_TSCONFIGURATION,
        .OBJECT_EXTENSION] →
      CreateCommandTag (.DropStmt s) h = (.ok "???", h)) ∧
    (∀ s : RenameStmt,
      s.renameType ∉ [ObjectType.OBJECT_AGGREGATE, .OBJECT_CONVERSION,
        .OBJECT_DATABASE, .OBJECT_EXTPROTOCOL, .OBJECT_FUNCTION,
        .OBJECT_INDEX, .OBJECT_LANGUAGE, .OBJECT_OPCLASS, .OBJECT_OPFAMILY,
        .OBJECT_ROLE, .OBJECT_SCHEMA, .OBJECT_SEQUENCE, .OBJECT_COLUMN,
        .OBJECT_TABLE, .OBJECT_FILESPACE, .OBJECT_TABLESPACE, .OBJECT_TRIGGER,
        .OBJECT_VIEW, .OBJECT_TSPARSER, .OBJECT_TSDICTIONARY,
        .OBJECT_TSTEMPLATE, .OBJECT_TSCONFIGURATION] →
      CreateCommandTag (.RenameStmt s) h = (.ok "???", h)) ∧
    (∀ s : AlterOwnerStmt,
      s.objectType ∉ [ObjectType.OBJECT_AGGREGATE, .OBJECT_CONVERSION,
        .OBJECT_DATABASE, .OBJECT_DOMAIN, .OBJECT_EXTENSION, .OBJECT_FUNCTION,
        .OBJECT_LANGUAGE, .OBJECT_OPERATOR, .OBJECT_OPCLASS, .OBJECT_OPFAMILY,
        .OBJECT_SCHEMA, .OBJECT_FILESPACE, .OBJECT_TABLESPACE, .OBJECT_TYPE,
        .OBJECT_EXTPROTOCOL, .OBJECT_TSCONFIGURATION,
        .OBJECT_TSDICTIONARY] →
      CreateCommandTag (.AlterOwnerStmt s) h = (.ok "???", h)) ∧
    (∀ s : AlterObjectSchemaStmt,
      s.objectType ∉ [ObjectType.OBJECT_AGGREGATE, .OBJECT_DOMAIN,
        .OBJECT_EXTENSION, .OBJECT_FUNCTION, .OBJECT_SEQUENCE, .OBJECT_TABLE,
        .OBJECT_TYPE, .OBJECT_TSPARSER, .OBJECT_TSDICTIONARY,
        .OBJECT_TSTEMPLATE, .OBJECT_TSCONFIGURATION] →
      CreateCommandTag (.AlterObjectSchemaStmt s) h = (.ok "???", h)) ∧
    (∀ s : DefineStmt,
      s.kind ∉ [ObjectType.OBJECT_AGGREGATE, .OBJECT_OPERATOR, .OBJECT_TYPE,
        .OBJECT_EXTPROTOCOL, .OBJECT_TSPARSER, .OBJECT_TSDICTIONARY,
        .OBJECT_TSTEMPLATE, .OBJECT_TSCONFIGURATION] →
      CreateCommandTag (.DefineStmt s) h = (.ok "???", h)) ∧
    (∀ s : RemoveFuncStmt,
      s.kind ∉ [ObjectType.OBJECT_FUNCTION, .OBJECT_AGGREGATE,
        .OBJECT_OPERATOR] →
      CreateCommandTag (.RemoveFuncStmt s) h = (.ok "???", h)) := by
  refine ⟨fun n p => rfl, fun env fuel n p => by cases fuel <;> rfl,
    fun s hk => ?_, fun s hk => ?_, fun s hk => ?_, fun s hk => ?_,
    fun s hk => ?_, fun s hk => ?_⟩
  · obtain ⟨objects, removeType, behavior, missing_ok⟩ := s
    cases removeType <;> simp at hk <;> rfl
  · obtain ⟨renameType, rest⟩ := s
    cases renameType <;> simp at hk <;> rfl
  · obtain ⟨objectType, rest⟩ := s
    cases objectType <;> simp at hk <;> rfl
  · obtain ⟨objectType, rest⟩ := s
    cases objectType <;> simp at hk <;> rfl
  · obtain ⟨kind, oldstyle, defnames, args, definition, ordered, trusted⟩ := s
    cases kind <;> simp at hk <;> rfl
  · obtain ⟨kind, rest⟩ := s
    cases kind <;> simp at hk <;> rfl

/-- C29 (amended), on a DROP FUNCTION-like statement that names a table: the
tag is the default one. -/
theorem C29_witness :
    CreateCommandTag (.RemoveFuncStmt ⟨.OBJECT_TABLE, ⟨0⟩⟩) [] =
      (.ok "???", []) :=
  (C29_unrecognized_in_classifier []).2.2.2.2.2.2.2 ⟨.OBJECT_TABLE, ⟨0⟩⟩
    (by decide)

/-- C30, as the claim has it, fails: the log level of the same EXECUTE is MOD
in a session that has prepared `ins` as an INSERT and ALL in a session that
has prepared nothing. -/
theorem C30_counterexample :
    GetCommandLogLevel (sampleEnv .GP_ROLE_DISPATCH false) 1
        (.ExecuteStmt ⟨"ins", none, ⟨0⟩⟩) [] = (.ok .LOGSTMT_MOD, []) ∧
    GetCommandLogLevel (sampleEnvNothingPrepared .GP_ROLE_DISPATCH) 1
        (.ExecuteStmt ⟨"ins", none, ⟨0⟩⟩) [] = (.ok .LOGSTMT_ALL, []) :=
  ⟨rfl, rfl⟩

/-- C30 (amended): `CreateCommandTag` reads nothing but its statement: the
result and the events it adds are the same from every history, and the
function takes no world.  `GetCommandLogLevel` reads, besides its statement,
the prepared statements alone: in two worlds with the same prepared statements
it gives the same result at the same history, whatever the role, the
read-only flag and the rest of the two worlds. -/
theorem C30_classifier_reads (S : Node) :
    (∃ r evs, ∀ h, CreateCommandTag S h = (r, h ++ evs)) ∧
    ∀ env1 env2 : Env,
      env1.FetchPreparedStatement = env2.FetchPreparedStatement →
      ∀ fuel h, GetCommandLogLevel env1 fuel S h =
        GetCommandLogLevel env2 fuel S h := by
  refine ⟨?_, fun env1 env2 hf fuel h => by
    rw [GetCommandLogLevel_congr env1 env2 hf fuel]⟩
  have key := CreateCommandTag_constant S
  unfold Constant at key
  obtain ⟨r, evs, hr, _⟩ := key
  exact ⟨r, evs, hr⟩

/-- C30 (amended), on the coordinator in read-write mode and on a worker in
read-only mode of the sample world, which have the same prepared statements:
EXECUTE of `sel` has the same level in both. -/
theorem C30_witness :
    GetCommandLogLevel (sampleEnv .GP_ROLE_DISPATCH false) 1
        (.ExecuteStmt ⟨"sel", none, ⟨0⟩⟩) [] =
      GetCommandLogLevel (sampleEnv .GP_ROLE_EXECUTE true) 1
        (.ExecuteStmt ⟨"sel", none, ⟨0⟩⟩) [] :=
  (C30_classifier_reads (.ExecuteStmt ⟨"sel", none, ⟨0⟩⟩)).2
    (sampleEnv .GP_ROLE_DISPATCH false) (sampleEnv .GP_ROLE_EXECUTE true) rfl
    1 []

/-- C31: the tag of a DROP is chosen by the target kind, as the table below
has it, and leaves no event; statements of two different kinds of the
seventeen never get the same tag. -/
theorem C31_drop_tag :
    (∀ kind tag, (kind, tag) ∈
        [(ObjectType.OBJECT_TABLE, "DROP TABLE"),
          (.OBJECT_EXTTABLE, "DROP EXTERNAL TABLE"),
          (.OBJECT_SEQUENCE, "DROP SEQUENCE"),
          (.OBJECT_VIEW, "DROP VIEW"),
          (.OBJECT_INDEX, "DROP INDEX"),
          (.OBJECT_TYPE, "DROP TYPE"),
          (.OBJECT_DOMAIN, "DROP DOMAIN"),
          (.OBJECT_CONVERSION, "DROP CONVERSION"),
          (.OBJECT_SCHEMA, "DROP SCHEMA"),
          (.OBJECT_FILESPACE, "DROP FILESPACE"),
          (.OBJECT_TABLESPACE, "DROP TABLESPACE"),
          (.OBJECT_EXTPROTOCOL, "DROP PROTOCOL"),
          (.OBJECT_EXTENSION, "DROP EXTENSION"),
          (.OBJECT_TSPARSER, "DROP TEXT SEARCH PARSER"),
          (.OBJECT_TSDICTIONARY, "DROP TEXT SEARCH DICTIONARY"),
          (.OBJECT_TSTEMPLATE, "DROP TEXT SEARCH TEMPLATE"),
          (.OBJECT_TSCONFIGURATION, "DROP TEXT SEARCH CONFIGURATION")] →
      ∀ (s : DropStmt) h, s.removeType = kind →
        CreateCommandTag (.DropStmt s) h = (.ok tag, h)) ∧
    (∀ (s1 s2 : DropStmt) h1 h2,
      s1.removeType ∈ [ObjectType.OBJECT_TABLE, .OBJECT_EXTTABLE,
        .OBJECT_SEQUENCE, .OBJECT_VIEW, .OBJECT_INDEX, .OBJECT_TYPE,
        .OBJECT_DOMAIN, .OBJECT_CONVERSION, .OBJECT_SCHEMA, .OBJECT_FILESPACE,
        .OBJECT_TABLESPACE, .OBJECT_EXTPROTOCOL, .OBJECT_EXTENSION,
        .OBJECT_TSPARSER, .OBJECT_TSDICTIONARY, .OBJECT_TSTEMPLATE,
        .OBJECT_TSCONFIGURATION] →
      s2.removeType ∈ [ObjectType.OBJECT_TABLE, .OBJECT_EXTTABLE,
        .OBJECT_SEQUENCE, .OBJECT_VIEW, .OBJECT_INDEX, .OBJECT_TYPE,
        .OBJECT_DOMAIN, .OBJECT_CONVERSION, .OBJECT_SCHEMA, .OBJECT_FILESPACE,
        .OBJECT_TABLESPACE, .OBJECT_EXTPROTOCOL, .OBJECT_EXTENSION,
        .OBJECT_TSPARSER, .OBJECT_TSDICTIONARY, .OBJECT_TSTEMPLATE,
        .OBJECT_TSCONFIGURATION] →
      (CreateCommandTag (.DropStmt s1) h1).1 =
        (CreateCommandTag (.DropStmt s2) h2).1 →
      s1.removeType = s2.removeType) := by
  constructor
  · intro kind tag hm s h hk
    obtain ⟨objects, removeType, behavior, missing_ok⟩ := s
    simp only at hk
    subst hk
    cases removeType <;> simp at hm <;> subst hm <;> rfl
  · intro s1 s2 h1 h2 hm1 hm2 heq
    obtain ⟨objects1, removeType1, behavior1, missing_ok1⟩ := s1
    obtain ⟨objects2, removeType2, behavior2, missing_ok2⟩ := s2
    simp only [List.mem_cons, List.mem_singleton, List.not_mem_nil,
      or_false] at hm1 hm2
    rcases hm1 with rfl | rfl | rfl | rfl | rfl | rfl | rfl | rfl | rfl |
      rfl | rfl | rfl | rfl | rfl | rfl | rfl | rfl <;>
    rcases hm2 with rfl | rfl | rfl | rfl | rfl | rfl | rfl | rfl | rfl |
      rfl | rfl | rfl | rfl | rfl | rfl | rfl | rfl <;>
    first
      | rfl
      | (exfalso
         change Result.ok _ = Result.ok _ at heq
         injection heq with heq
         exact absurd heq (by decide))

/-- C31, on a DROP SEQUENCE: its tag is `DROP SEQUENCE`. -/
theorem C31_witness :
    CreateCommandTag (.DropStmt ⟨[["s"]], .OBJECT_SEQUENCE, .DROP_RESTRICT,
        false⟩) [] = (.ok "DROP SEQUENCE", []) :=
  C31_drop_tag.1 .OBJECT_SEQUENCE "DROP SEQUENCE" (by decide)
    ⟨[["s"]], .OBJECT_SEQUENCE, .DROP_RESTRICT, false⟩ [] rfl

/-- C32: the log level of a PREPARE is the log level of the statement it
contains.  The log level of an EXECUTE is the log level of the raw statement
of the prepared statement it names, so that of an EXECUTE of a prepared INSERT
is MOD; when no prepared statement of that name is found the level is ALL, the
call returns and leaves no event. -/
theorem C32_log_level_looks_through (env : Env) (fuel : Nat) :
    (∀ query rest, GetCommandLogLevel env fuel (.PrepareStmt query rest) =
      GetCommandLogLevel env fuel query) ∧
    (∀ (s : ExecuteStmt) h ps,
      env.FetchPreparedStatement h s.name = some ps →
      GetCommandLogLevel env (fuel + 1) (.ExecuteStmt s) h =
        GetCommandLogLevel env fuel ps.raw_parse_tree h) ∧
    (∀ (s : ExecuteStmt) h ps ins,
      env.FetchPreparedStatement h s.name = some ps →
      ps.raw_parse_tree = .InsertStmt ins →
      GetCommandLogLevel env (fuel + 1) (.ExecuteStmt s) h =
        (.ok .LOGSTMT_MOD, h)) ∧
    (∀ (s : ExecuteStmt) h, env.FetchPreparedStatement h s.name = none →
      GetCommandLogLevel env fuel (.ExecuteStmt s) h =
        (.ok .LOGSTMT_ALL, h)) := by
  have hbody : ∀ (lookThrough : Node → M LogStmtLevel) (s : ExecuteStmt),
      GetCommandLogLevel.body env.FetchPreparedStatement lookThrough
          (.ExecuteStmt s) =
        M.bind (ask (fun h => env.FetchPreparedStatement h s.name))
          (fun ps =>
            match ps with
            | some ps => lookThrough ps.raw_parse_tree
            | none => M.pure .LOGSTMT_ALL) := fun _ _ => rfl
  have hex : ∀ (s : ExecuteStmt) h ps,
      env.FetchPreparedStatement h s.name = some ps →
      GetCommandLogLevel env (fuel + 1) (.ExecuteStmt s) h =
        GetCommandLogLevel env fuel ps.raw_parse_tree h := by
    intro s h ps hps
    rw [GetCommandLogLevel, hbody,
      M.bind_ok _ _ h h (some ps) (by unfold ask; dsimp only; rw [hps])]
  refine ⟨fun query rest => by cases fuel <;> rfl, hex,
    fun s h ps ins hps hraw => ?_, fun s h hps => ?_⟩
  · rw [hex s h ps hps, hraw]
    cases fuel <;> rfl
  · cases fuel <;>
      (rw [GetCommandLogLevel, hbody,
        M.bind_ok _ _ h h none (by unfold ask; dsimp only; rw [hps])]
       rfl)

/-- C32, in the sample world, where `ins` is a prepared INSERT: EXECUTE of
`ins` has level MOD. -/
theorem C32_witness :
    GetCommandLogLevel (sampleEnv .GP_ROLE_DISPATCH false) 1
        (.ExecuteStmt ⟨"ins", none, ⟨0⟩⟩) [] = (.ok .LOGSTMT_MOD, []) :=
  (C32_log_level_looks_through (sampleEnv .GP_ROLE_DISPATCH false) 0).2.2.1
    ⟨"ins", none, ⟨0⟩⟩ [] ⟨.InsertStmt ⟨0⟩, none⟩ ⟨0⟩ rfl rfl

/-- C34: every tag that `CreateCommandTag` returns, the default `???`
included, is shorter than a completion-tag buffer of COMPLETION_TAG_BUFSIZE
= 64 bytes, so it fits there with its terminator. -/
theorem C34_tag_fits_buffer (S : Node) (h : History) (tag : String)
    (hr : (CreateCommandTag S h).1 = .ok tag) :
    tag.length < COMPLETION_TAG_BUFSIZE ∧ COMPLETION_TAG_BUFSIZE = 64 := by
  have key := CreateCommandTag_constant S
  unfold Constant at key
  obtain ⟨r, evs, hev, hp⟩ := key
  rw [hev h] at hr
  exact ⟨hp tag hr, rfl⟩

/-- C34, on the longest tag, that of CREATE TEXT SEARCH CONFIGURATION. -/
theorem C34_witness :
    "CREATE TEXT SEARCH CONFIGURATION".length < COMPLETION_TAG_BUFSIZE ∧
      COMPLETION_TAG_BUFSIZE = 64 :=
  C34_tag_fits_buffer
    (.DefineStmt ⟨.OBJECT_TSCONFIGURATION, false, [], [], ⟨0⟩, false, false⟩)
    [] "CREATE TEXT SEARCH CONFIGURATION" rfl

/-- C33: `UtilityReturnsTuples` always returns and leaves no event, a missing
portal or prepared statement included.  Its answer is true exactly for an
EXPLAIN, a SHOW, a FETCH that is not a MOVE and whose portal exists and has a
tuple descriptor, and an EXECUTE without INTO whose prepared statement exists
and has a result descriptor. -/
theorem C33_returns_tuples (env : Env) (S : Node) (h : History) :
    ∃ b, UtilityReturnsTuples env S h = (.ok b, h) ∧
      (b = true ↔
        nodeTag S = .T_ExplainStmt ∨ nodeTag S = .T_VariableShowStmt ∨
        (∃ stmt portal, S = .FetchStmt stmt ∧ stmt.ismove = false ∧
          env.GetPortalByName h stmt.portalname = some portal ∧
          portal.tupDesc.isSome = true) ∨
        (∃ stmt entry, S = .ExecuteStmt stmt ∧ stmt.into = none ∧
          env.FetchPreparedStatement h stmt.name = some entry ∧
          entry.resultDesc.isSome = true)) := by
  cases S
  case ExplainStmt query analyze rest =>
    exact ⟨true, rfl, by simp [nodeTag]⟩
  case VariableShowStmt stmt =>
    exact ⟨true, rfl, by simp [nodeTag]⟩
  case FetchStmt stmt =>
    obtain ⟨ismove, portalname, rest⟩ := stmt
    cases ismove
    · cases hp : env.GetPortalByName h portalname with
      | none =>
          refine ⟨false, ?_, by simp [nodeTag, hp]⟩
          simp [UtilityReturnsTuples, M.bind, ask, M.pure, hp]
      | some portal =>
          cases ht : portal.tupDesc.isSome
          · refine ⟨false, ?_, by simp [nodeTag, hp, ht]⟩
            simp [UtilityReturnsTuples, M.bind, ask, M.pure, hp, ht]
          · refine ⟨true, ?_, by simp [nodeTag, hp, ht]⟩
            simp [UtilityReturnsTuples, M.bind, ask, M.pure, hp, ht]
    · exact ⟨false, rfl, by simp [nodeTag]⟩
  case ExecuteStmt stmt =>
    obtain ⟨name, into, rest⟩ := stmt
    cases into
    · cases hp : env.FetchPreparedStatement h name with
      | none =>
          refine ⟨false, ?_, by simp [nodeTag, hp]⟩
          simp [UtilityReturnsTuples, M.bind, ask, M.pure, hp]
      | some entry =>
          cases ht : entry.resultDesc.isSome
          · refine ⟨false, ?_, by simp [nodeTag, hp, ht]⟩
            simp [UtilityReturnsTuples, M.bind, ask, M.pure, hp, ht]
          · refine ⟨true, ?_, by simp [nodeTag, hp, ht]⟩
            simp [UtilityReturnsTuples, M.bind, ask, M.pure, hp, ht]
    · exact ⟨false, rfl, by simp [nodeTag]⟩
  all_goals exact ⟨false, rfl, by simp [nodeTag]⟩

/-- C38 fails on the code: the resource-queue statements (CREATE, ALTER and
DROP QUEUE) and ALTER TYPE, which the dispatcher executes, have no case in
`GetCommandLogLevel` and reach its default branch: the warning `unrecognized
node type`, then the level ALL. -/
theorem C38_unclassified_statements (env : Env) (fuel : Nat) (S : Node)
    (h : History)
    (hm : nodeTag S ∈ [NodeTag.T_CreateQueueStmt, .T_AlterQueueStmt,
      .T_DropQueueStmt, .T_AlterTypeStmt]) :
    GetCommandLogLevel env fuel S h =
      (.ok .LOGSTMT_ALL, h ++ [.WARNING "unrecognized node type: %d"]) := by
  cases S <;> simp [nodeTag] at hm <;> cases fuel <;> rfl

/-- C38, in the sample world: the dispatcher executes CREATE QUEUE and returns,
and `GetCommandLogLevel` classifies the same statement through its fallback,
with the warning `unrecognized node type` and the level ALL. -/
theorem C38_witness :
    (ProcessUtility (sampleEnv .GP_ROLE_UTILITY false) 0 (.CreateQueueStmt ⟨0⟩)
        (some "CREATE RESOURCE QUEUE q") ⟨0⟩ true (.receiver 1) false []).1 =
      .ok () ∧
    GetCommandLogLevel (sampleEnv .GP_ROLE_UTILITY false) 0
        (.CreateQueueStmt ⟨0⟩) [] =
      (.ok .LOGSTMT_ALL, [.WARNING "unrecognized node type: %d"]) :=
  ⟨rfl, C38_unclassified_statements (sampleEnv .GP_ROLE_UTILITY false) 0
    (.CreateQueueStmt ⟨0⟩) [] (by simp [nodeTag])⟩

/-- C40: when `CommandIsReadOnly` answers true for a node, a planned query as
the planner builds it (one whose utility statement, when there is one, is a
DECLARE CURSOR: the condition that `CreateCommandTag` asserts), then its log
level is ALL and its tag is `SELECT` or `DECLARE CURSOR`; neither call leaves
an event. -/
theorem C40_read_only_is_plain_read (env : Env) (fuel : Nat) (S : Node)
    (h h2 : History) (hro : (CommandIsReadOnly S h).1 = .ok true)
    (hplan : ∀ ct u ic rm rest, S = .PlannedStmt ct (some u) ic rm rest →
      nodeTag u = .T_DeclareCursorStmt) :
    GetCommandLogLevel env fuel S h2 = (.ok .LOGSTMT_ALL, h2) ∧
    (CreateCommandTag S h2 = (.ok "SELECT", h2) ∨
      CreateCommandTag S h2 = (.ok "DECLARE CURSOR", h2)) := by
  cases S
  case PlannedStmt ct us ic rm rest =>
    cases ct <;> cases ic <;> cases rm <;>
      simp [CommandIsReadOnly, M.pure, bind, pure, M.bind, emit] at hro
    refine ⟨by cases fuel <;> rfl, ?_⟩
    cases us with
    | none => exact Or.inl rfl
    | some u =>
        have hu := hplan _ u _ _ _ rfl
        refine Or.inr ?_
        cases u <;> simp [nodeTag] at hu
        rfl
  all_goals simp [CommandIsReadOnly, M.pure] at hro

/-- C40, on a planned plain SELECT. -/
theorem C40_witness :
    GetCommandLogLevel (sampleEnv .GP_ROLE_DISPATCH false) 0
        (.PlannedStmt .CMD_SELECT none none [] ⟨0⟩) [] =
      (.ok .LOGSTMT_ALL, []) ∧
    (CreateCommandTag (.PlannedStmt .CMD_SELECT none none [] ⟨0⟩) [] =
        (.ok "SELECT", []) ∨
      CreateCommandTag (.PlannedStmt .CMD_SELECT none none [] ⟨0⟩) [] =
        (.ok "DECLARE CURSOR", [])) :=
  C40_read_only_is_plain_read (sampleEnv .GP_ROLE_DISPATCH false) 0
    (.PlannedStmt .CMD_SELECT none none [] ⟨0⟩) [] [] rfl
    (fun ct u ic rm rest hS => by cases hS)

/-! ## Agreement of the classifier and the dispatcher on target kinds -/

/-- C39: the classifier and the dispatcher agree on the target kinds they
support.  For a DROP, `CreateCommandTag` gives the default tag `???` for a
kind exactly when `ProcessDropStatement` raises its internal error
`unrecognized drop object type` for that kind in every world, and both hold
exactly outside the seventeen kinds of the list; the same for CREATE (define),
for DROP FUNCTION-like and for DROP RULE / DROP TRIGGER statements with the
internal error of the dispatcher for them (read-write transaction, and for
DROP RULE / TRIGGER a relation that is found). -/
theorem C39_classifier_and_dispatcher_agree (kind : ObjectType) :
    (((∀ (s : DropStmt) h, s.removeType = kind →
          CreateCommandTag (.DropStmt s) h = (.ok "???", h)) ↔
        (∀ env (s : DropStmt) names h, s.removeType = kind →
          s.objects = [names] →
          ProcessDropStatement env s h =
            (.error (.elog "unrecognized drop object type: %d"), h))) ∧
      ((∀ (s : DropStmt) h, s.removeType = kind →
          CreateCommandTag (.DropStmt s) h = (.ok "???", h)) ↔
        kind ∉ [ObjectType.OBJECT_TABLE, .OBJECT_EXTTABLE, .OBJECT_SEQUENCE,
          .OBJECT_VIEW, .OBJECT_INDEX, .OBJECT_TYPE, .OBJECT_DOMAIN,
          .OBJECT_CONVERSION, .OBJECT_SCHEMA, .OBJECT_FILESPACE,
          .OBJECT_TABLESPACE, .OBJECT_EXTPROTOCOL, .OBJECT_TSPARSER,
          .OBJECT_TSDICTIONARY, .OBJECT_TSTEMPLATE, .OBJECT_TSCONFIGURATION,
          .OBJECT_EXTENSION])) ∧
    (((∀ (s : DefineStmt) h, s.kind = kind →
          CreateCommandTag (.DefineStmt s) h = (.ok "???", h)) ↔
        (∀ env fuel (s : DefineStmt) queryString params isTopLevel dest start,
          s.kind = kind → env.XactReadOnly start = false →
          ProcessUtility env fuel (.DefineStmt s) (some queryString) params
              isTopLevel dest false start =
            (.error (.elog "unrecognized define stmt type: %d"), start))) ∧
      ((∀ (s : DefineStmt) h, s.kind = kind →
          CreateCommandTag (.DefineStmt s) h = (.ok "???", h)) ↔
        kind ∉ [ObjectType.OBJECT_AGGREGATE, .OBJECT_OPERATOR, .OBJECT_TYPE,
          .OBJECT_EXTPROTOCOL, .OBJECT_TSPARSER, .OBJECT_TSDICTIONARY,
          .OBJECT_TSTEMPLATE, .OBJECT_TSCONFIGURATION])) ∧
    (((∀ (s : RemoveFuncStmt) h, s.kind = kind →
          CreateCommandTag (.RemoveFuncStmt s) h = (.ok "???", h)) ↔
        (∀ env fuel (s : RemoveFuncStmt) queryString params isTopLevel dest
            start,
          s.kind = kind → env.XactReadOnly start = false →
          ProcessUtility env fuel (.RemoveFuncStmt s) (some queryString)
              params isTopLevel dest false start =
            (.error (.elog "unrecognized object type: %d"), start))) ∧
      ((∀ (s : RemoveFuncStmt) h, s.kind = kind →
          CreateCommandTag (.RemoveFuncStmt s) h = (.ok "???", h)) ↔
        kind ∉ [ObjectType.OBJECT_FUNCTION, .OBJECT_AGGREGATE,
          .OBJECT_OPERATOR])) ∧
    (((∀ (s : DropPropertyStmt) h, s.removeType = kind →
          CreateCommandTag (.DropPropertyStmt s) h = (.ok "???", h)) ↔
        (∀ env fuel (s : DropPropertyStmt) queryString params isTopLevel dest
            start relid,
          s.removeType = kind → env.XactReadOnly start = false →
          env.RangeVarGetRelid start s.relation false = .ok relid →
          ProcessUtility env fuel (.DropPropertyStmt s) (some queryString)
              params isTopLevel dest false start =
            (.error (.elog "unrecognized object type: %d"), start))) ∧
      ((∀ (s : DropPropertyStmt) h, s.removeType = kind →
          CreateCommandTag (.DropPropertyStmt s) h = (.ok "???", h)) ↔
        kind ∉ [ObjectType.OBJECT_RULE, .OBJECT_TRIGGER])) := by
  refine ⟨?drop, ?define, ?removeFunc, ?dropProperty⟩
  case drop =>
    have hT : (∀ (s : DropStmt) h, s.removeType = kind →
          CreateCommandTag (.DropStmt s) h = (.ok "???", h)) ↔
        kind ∉ [ObjectType.OBJECT_TABLE, .OBJECT_EXTTABLE, .OBJECT_SEQUENCE,
          .OBJECT_VIEW, .OBJECT_INDEX, .OBJECT_TYPE, .OBJECT_DOMAIN,
          .OBJECT_CONVERSION, .OBJECT_SCHEMA, .OBJECT_FILESPACE,
          .OBJECT_TABLESPACE, .OBJECT_EXTPROTOCOL, .OBJECT_TSPARSER,
          .OBJECT_TSDICTIONARY, .OBJECT_TSTEMPLATE, .OBJECT_TSCONFIGURATION,
          .OBJECT_EXTENSION] := by
      constructor
      · intro hU hm
        simp only [List.mem_cons, List.mem_singleton, List.not_mem_nil,
          or_false] at hm
        rcases hm with rfl | rfl | rfl | rfl | rfl | rfl | rfl | rfl | rfl |
          rfl | rfl | rfl | rfl | rfl | rfl | rfl | rfl <;>
        exact absurd
          (congrArg
            (fun r : Result String × History =>
              match r.1 with
              | .ok t => t == "???"
              | _ => false)
            (hU ⟨[], _, .DROP_RESTRICT, false⟩ [] rfl))
          (by decide)
      · intro hk s h heq
        obtain ⟨objects, removeType, behavior, missing_ok⟩ := s
        simp only at heq
        subst heq
        cases removeType <;> simp at hk <;> rfl
    have hE : (∀ env (s : DropStmt) names h, s.removeType = kind →
          s.objects = [names] →
          ProcessDropStatement env s h =
            (.error (.elog "unrecognized drop object type: %d"), h)) ↔
        kind ∉ [ObjectType.OBJECT_TABLE, .OBJECT_EXTTABLE, .OBJECT_SEQUENCE,
          .OBJECT_VIEW, .OBJECT_INDEX, .OBJECT_TYPE, .OBJECT_DOMAIN,
          .OBJECT_CONVERSION, .OBJECT_SCHEMA, .OBJECT_FILESPACE,
          .OBJECT_TABLESPACE, .OBJECT_EXTPROTOCOL, .OBJECT_TSPARSER,
          .OBJECT_TSDICTIONARY, .OBJECT_TSTEMPLATE, .OBJECT_TSCONFIGURATION,
          .OBJECT_EXTENSION] := by
      constructor
      · intro hU hm
        simp only [List.mem_cons, List.mem_singleton, List.not_mem_nil,
          or_false] at hm
        rcases hm with rfl | rfl | rfl | rfl | rfl | rfl | rfl | rfl | rfl |
          rfl | rfl | rfl | rfl | rfl | rfl | rfl | rfl <;>
        exact absurd
          (congrArg
            (fun r : Result Bool × History =>
              match r.1 with
              | .error (.elog _) => true
              | _ => false)
            (hU (sampleEnv .GP_ROLE_UTILITY false)
              ⟨[["t"]], _, .DROP_RESTRICT, false⟩ ["t"] [] rfl rfl))
          (by decide)
      · intro hk env s names h heq hobj
        exact ProcessDropStatement_unrecognized env s names h hobj
          (heq ▸ hk)
    exact ⟨hT.trans hE.symm, hT⟩
  case define =>
    have hT : (∀ (s : DefineStmt) h, s.kind = kind →
          CreateCommandTag (.DefineStmt s) h = (.ok "???", h)) ↔
        kind ∉ [ObjectType.OBJECT_AGGREGATE, .OBJECT_OPERATOR, .OBJECT_TYPE,
          .OBJECT_EXTPROTOCOL, .OBJECT_TSPARSER, .OBJECT_TSDICTIONARY,
          .OBJECT_TSTEMPLATE, .OBJECT_TSCONFIGURATION] := by
      constructor
      · intro hU hm
        simp only [List.mem_cons, List.mem_singleton, List.not_mem_nil,
          or_false] at hm
        rcases hm with rfl | rfl | rfl | rfl | rfl | rfl | rfl | rfl <;>
        exact absurd
          (congrArg
            (fun r : Result String × History =>
              match r.1 with
              | .ok t => t == "???"
              | _ => false)
            (hU ⟨_, false, [], [], ⟨0⟩, false, false⟩ [] rfl))
          (by decide)
      · intro hk s h heq
        obtain ⟨k, oldstyle, defnames, args, definition, ordered, trusted⟩ :=
          s
        simp only at heq
        subst heq
        cases k <;> simp at hk <;> rfl
    have hE : (∀ env fuel (s : DefineStmt) queryString params isTopLevel dest
            start,
          s.kind = kind → env.XactReadOnly start = false →
          ProcessUtility env fuel (.DefineStmt s) (some queryString) params
              isTopLevel dest false start =
            (.error (.elog "unrecognized define stmt type: %d"), start)) ↔
        kind ∉ [ObjectType.OBJECT_AGGREGATE, .OBJECT_OPERATOR, .OBJECT_TYPE,
          .OBJECT_EXTPROTOCOL, .OBJECT_TSPARSER, .OBJECT_TSDICTIONARY,
          .OBJECT_TSTEMPLATE, .OBJECT_TSCONFIGURATION] := by
      constructor
      · intro hU hm
        simp only [List.mem_cons, List.mem_singleton, List.not_mem_nil,
          or_false] at hm
        rcases hm with rfl | rfl | rfl | rfl | rfl | rfl | rfl | rfl <;>
        exact absurd
          (congrArg
            (fun r : Result Unit × History =>
              match r.1 with
              | .error (.elog _) => true
              | _ => false)
            (hU (sampleEnv .GP_ROLE_UTILITY false) 0
              ⟨_, false, [], [], ⟨0⟩, false, false⟩ "CREATE" ⟨0⟩ true
              (.receiver 1) [] rfl rfl))
          (by decide)
      · intro hk env fuel s queryString params isTopLevel dest start heq hro
        rw [ProcessUtility_of_body env fuel _ queryString params
          isTopLevel dest false start start _
          (fun recurse => ProcessUtility_body_DefineStmt_unrecognized env
            recurse s queryString params isTopLevel dest false (heq ▸ hk))
          (check_xact_readonly_off env _ start hro) rfl]
        rfl
    exact ⟨hT.trans hE.symm, hT⟩
  case removeFunc =>
    have hT : (∀ (s : RemoveFuncStmt) h, s.kind = kind →
          CreateCommandTag (.RemoveFuncStmt s) h = (.ok "???", h)) ↔
        kind ∉ [ObjectType.OBJECT_FUNCTION, .OBJECT_AGGREGATE,
          .OBJECT_OPERATOR] := by
      constructor
      · intro hU hm
        simp only [List.mem_cons, List.mem_singleton, List.not_mem_nil,
          or_false] at hm
        rcases hm with rfl | rfl | rfl <;>
        exact absurd
          (congrArg
            (fun r : Result String × History =>
              match r.1 with
              | .ok t => t == "???"
              | _ => false)
            (hU ⟨_, ⟨0⟩⟩ [] rfl))
          (by decide)
      · intro hk s h heq
        obtain ⟨k, rest⟩ := s
        simp only at heq
        subst heq
        cases k <;> simp at hk <;> rfl
    have hE : (∀ env fuel (s : RemoveFuncStmt) queryString params isTopLevel
            dest start,
          s.kind = kind → env.XactReadOnly start = false →
          ProcessUtility env fuel (.RemoveFuncStmt s) (some queryString)
              params isTopLevel dest false start =
            (.error (.elog "unrecognized object type: %d"), start)) ↔
        kind ∉ [ObjectType.OBJECT_FUNCTION, .OBJECT_AGGREGATE,
          .OBJECT_OPERATOR] := by
      constructor
      · intro hU hm
        simp only [List.mem_cons, List.mem_singleton, List.not_mem_nil,
          or_false] at hm
        rcases hm with rfl | rfl | rfl <;>
        exact absurd
          (congrArg
            (fun r : Result Unit × History =>
              match r.1 with
              | .error (.elog _) => true
              | _ => false)
            (hU (sampleEnv .GP_ROLE_UTILITY false) 0 ⟨_, ⟨0⟩⟩ "DROP" ⟨0⟩
              true (.receiver 1) [] rfl rfl))
          (by decide)
      · intro hk env fuel s queryString params isTopLevel dest start heq hro
        rw [ProcessUtility_of_body env fuel _ queryString params
          isTopLevel dest false start start _
          (fun recurse => ProcessUtility_body_RemoveFuncStmt_unrecognized env
            recurse s queryString params isTopLevel dest false (heq ▸ hk))
          (check_xact_readonly_off env _ start hro) rfl]
        rfl
    exact ⟨hT.trans hE.symm, hT⟩
  case dropProperty =>
    have hT : (∀ (s : DropPropertyStmt) h, s.removeType = kind →
          CreateCommandTag (.DropPropertyStmt s) h = (.ok "???", h)) ↔
        kind ∉ [ObjectType.OBJECT_RULE, .OBJECT_TRIGGER] := by
      constructor
      · intro hU hm
        simp only [List.mem_cons, List.mem_singleton, List.not_mem_nil,
          or_false] at hm
        rcases hm with rfl | rfl <;>
        exact absurd
          (congrArg
            (fun r : Result String × History =>
              match r.1 with
              | .ok t => t == "???"
              | _ => false)
            (hU ⟨⟨none, none, "t", false⟩, "p", _, .DROP_RESTRICT, false⟩ []
              rfl))
          (by decide)
      · intro hk s h heq
        obtain ⟨relation, property, removeType, behavior, missing_ok⟩ := s
        simp only at heq
        subst heq
        cases removeType <;> simp at hk <;> rfl
    have hE : (∀ env fuel (s : DropPropertyStmt) queryString params
            isTopLevel dest start relid,
          s.removeType = kind → env.XactReadOnly start = false →
          env.RangeVarGetRelid start s.relation false = .ok relid →
          ProcessUtility env fuel (.DropPropertyStmt s) (some queryString)
              params isTopLevel dest false start =
            (.error (.elog "unrecognized object type: %d"), start)) ↔
        kind ∉ [ObjectType.OBJECT_RULE, .OBJECT_TRIGGER] := by
      constructor
      · intro hU hm
        simp only [List.mem_cons, List.mem_singleton, List.not_mem_nil,
          or_false] at hm
        rcases hm with rfl | rfl <;>
        exact absurd
          (congrArg
            (fun r : Result Unit × History =>
              match r.1 with
              | .error (.elog _) => true
              | _ => false)
            (hU (sampleEnv .GP_ROLE_UTILITY false) 0
              ⟨⟨none, none, "t", false⟩, "p", _, .DROP_RESTRICT, false⟩
              "DROP" ⟨0⟩ true (.receiver 1) [] 1 rfl rfl rfl))
          (by decide)
      · intro hk env fuel s queryString params isTopLevel dest start relid
          heq hro hrel
        rw [ProcessUtility_of_body env fuel _ queryString params
          isTopLevel dest false start start _
          (fun recurse => ProcessUtility_body_DropPropertyStmt_unrecognized
            env recurse s queryString params isTopLevel dest false
            (heq ▸ hk))
          (check_xact_readonly_off env _ start hro) rfl]
        exact M.bind_ok _ _ start start relid (by
          unfold askE
          dsimp only
          rw [hrel])
    exact ⟨hT.trans hE.symm, hT⟩

/-! ## Completion tag of COMMIT, and SET / RESET -/

/-- The body of the dispatcher on COMMIT. -/
theorem ProcessUtility_body_COMMIT (env : Env) (recurse : Node → M Unit)
    (options : List DefElem) (gid : String) (queryString : String)
    (params : Payload) (isTopLevel : Bool) (dest : DestReceiver)
    (completionTag : Bool) :
    ProcessUtility.body env recurse
        (.TransactionStmt ⟨.TRANS_STMT_COMMIT, options, gid⟩)
        (some queryString) params isTopLevel dest completionTag =
      M.bind (check_xact_readonly env
          (.TransactionStmt ⟨.TRANS_STMT_COMMIT, options, gid⟩))
        (fun _ =>
          M.bind (if completionTag = true then emit (.completionTag "")
            else M.pure ())
            (fun _ =>
              M.bind (env.callRet env.retBool .EndTransactionBlock [])
                (fun committed =>
                  if (!committed) = true then
                    if completionTag = true then
                      emit (.completionTag "ROLLBACK")
                    else M.pure ()
                  else M.pure ()))) := by
  cases completionTag <;> (unfold ProcessUtility.body; rfl)

/-- A call that returns a value and does not raise, followed by more code. -/
theorem Env.callRet_bind_returns {α β : Type} (env : Env)
    (ret : History → ExtProc → List Arg → β) (proc : ExtProc)
    (args : List Arg) (f : β → M α) (h : History)
    (hn : env.raises h proc args = none) :
    M.bind (env.callRet ret proc args) f h =
      f (ret h proc args) (h ++ [.call proc args]) :=
  M.bind_ok _ _ h _ _ (by simp only [Env.callRet, hn])

/-- C35: with a completion-tag buffer supplied, COMMIT (in every role) and
PREPARE TRANSACTION (off the coordinator) first empty the buffer, then call
the transaction manager; when that call returns, the dispatcher returns, and
it has written `ROLLBACK` to the buffer exactly when the transaction manager
reported failure: otherwise the buffer is left empty. -/
theorem C35_rollback_tag (env : Env) (fuel : Nat) (options : List DefElem)
    (gid : String) (queryString : String) (params : Payload)
    (isTopLevel : Bool) (dest : DestReceiver) (start : History) :
    (env.raises (start ++ [.completionTag ""]) .EndTransactionBlock [] =
        none →
      ProcessUtility env fuel
          (.TransactionStmt ⟨.TRANS_STMT_COMMIT, options, gid⟩)
          (some queryString) params isTopLevel dest true start =
        (.ok (), start ++ [.completionTag "", .call .EndTransactionBlock []] ++
          if env.retBool (start ++ [.completionTag ""])
              .EndTransactionBlock [] = true then []
          else [.completionTag "ROLLBACK"])) ∧
    (env.Gp_role ≠ .GP_ROLE_DISPATCH →
      env.raises (start ++ [.completionTag ""]) .PrepareTransactionBlock
        [.str gid] = none →
      ProcessUtility env fuel
          (.TransactionStmt ⟨.TRANS_STMT_PREPARE, options, gid⟩)
          (some queryString) params isTopLevel dest true start =
        (.ok (), start ++
          [.completionTag "", .call .PrepareTransactionBlock [.str gid]] ++
          if env.retBool (start ++ [.completionTag ""])
              .PrepareTransactionBlock [.str gid] = true then []
          else [.completionTag "ROLLBACK"])) := by
  constructor
  · intro hq
    rw [ProcessUtility_of_body env fuel _ queryString params isTopLevel dest
      true start (start ++ [.completionTag ""]) _
      (fun recurse => ProcessUtility_body_COMMIT env recurse options gid
        queryString params isTopLevel dest true)
      (check_xact_readonly_TransactionStmt env _ start) rfl,
      Env.callRet_bind_returns env env.retBool _ _ _ _ hq]
    cases env.retBool (start ++ [.completionTag ""]) .EndTransactionBlock []
    · simp [emit]
    · simp [M.pure]
  · intro hrole hq
    have hd : (env.Gp_role == GpRoleValue.GP_ROLE_DISPATCH) = false := by
      cases hr : env.Gp_role <;> simp_all
    rw [ProcessUtility_of_body env fuel _ queryString params isTopLevel dest
      true start (start ++ [.completionTag ""]) _
      (fun recurse => ProcessUtility_body_PREPARE env recurse options gid
        queryString params isTopLevel dest true)
      (check_xact_readonly_TransactionStmt env _ start) rfl]
    simp only [hd]
    rw [show (if false = true then
          (raise (.ereport .ERRCODE_GP_COMMAND_ERROR
            "PREPARE TRANSACTION is not yet supported in Greenplum Database."
            none) : M Unit)
        else M.pure ()) = M.pure () from rfl, M.pure_bind,
      Env.callRet_bind_returns env env.retBool _ _ _ _ hq]
    cases env.retBool (start ++ [.completionTag ""]) .PrepareTransactionBlock
      [.str gid]
    · simp [emit]
    · simp [M.pure]

/-- C35, in the sample world whose transaction manager reports failure:
COMMIT leaves `ROLLBACK` in the buffer. -/
theorem C35_witness :
    ProcessUtility (sampleEnvCommitFails .GP_ROLE_DISPATCH) 0
        (.TransactionStmt ⟨.TRANS_STMT_COMMIT, [], ""⟩) (some "COMMIT") ⟨0⟩
        true (.receiver 1) true [] =
      (.ok (), [.completionTag "", .call .EndTransactionBlock [],
        .completionTag "ROLLBACK"]) :=
  (C35_rollback_tag (sampleEnvCommitFails .GP_ROLE_DISPATCH) 0 [] ""
    "COMMIT" ⟨0⟩ true (.receiver 1) []).1 rfl

/-- The body of the dispatcher on SET and RESET. -/
theorem ProcessUtility_body_VariableSetStmt (env : Env)
    (recurse : Node → M Unit) (n : VariableSetStmt) (queryString : String)
    (params : Payload) (isTopLevel : Bool) (dest : DestReceiver)
    (completionTag : Bool) :
    ProcessUtility.body env recurse (.VariableSetStmt n) (some queryString)
        params isTopLevel dest completionTag =
      M.bind (check_xact_readonly env (.VariableSetStmt n))
        (fun _ =>
          M.bind (if completionTag = true then emit (.completionTag "")
            else M.pure ())
            (fun _ =>
              M.bind (env.call .ExecSetVariableStmt [.node (.VariableSetStmt n)])
                (fun _ =>
                  if (n.kind == .VAR_RESET || n.kind == .VAR_RESET_ALL) = true
                  then
                    if (env.Gp_role == .GP_ROLE_DISPATCH) = true then
                      env.call .CdbDispatchCommand
                        [.str (if (n.kind == .VAR_RESET_ALL) = true then
                            "RESET ALL"
                          else errmsg "RESET %s" n.name),
                          .flags DF_WITH_SNAPSHOT]
                    else M.pure ()
                  else if (n.name == "TRANSACTION") = true then
                    foreach n.args (fun item =>
                      if (item.defname == "transaction_isolation") = true then
                        env.call .SetPGVariableOptDispatch
                          [.str "transaction_isolation", .payloads [item.arg],
                            .bool n.is_local, .bool true]
                      else if (item.defname == "transaction_read_only") = true
                      then
                        env.call .SetPGVariableOptDispatch
                          [.str "transaction_read_only", .payloads [item.arg],
                            .bool n.is_local, .bool true]
                      else M.pure ())
                  else if (n.name == "SESSION CHARACTERISTICS") = true then
                    foreach n.args (fun item =>
                      if (item.defname == "transaction_isolation") = true then
                        env.call .SetPGVariableOptDispatch
                          [.str "default_transaction_isolation",
                            .payloads [item.arg], .bool n.is_local,
                            .bool true]
                      else if (item.defname == "transaction_read_only") = true
                      then
                        env.call .SetPGVariableOptDispatch
                          [.str "default_transaction_read_only",
                            .payloads [item.arg], .bool n.is_local,
                            .bool true]
                      else M.pure ())
                  else
                    env.call .SetPGVariableOptDispatch
                      [.str n.name, .defElems n.args, .bool n.is_local,
                        .bool true]))) := by
  cases completionTag <;> (unfold ProcessUtility.body; rfl)

/-- Nothing is done after a step by returning. -/
theorem M.bind_pure_unit (m : M Unit) : M.bind m (fun _ => M.pure ()) = m := by
  funext h
  unfold M.bind
  rcases m h with ⟨r, h1⟩
  cases r <;> rfl

/-- A loop that calls one routine for the items a test selects, and nothing
for the others, is the loop of the calls over the selected items. -/
theorem foreach_select_calls {α : Type} (env : Env) (proc : ExtProc)
    (l : List α) (c1 c2 : α → Bool) (a1 a2 : α → List Arg) :
    foreach l (fun item =>
        if c1 item = true then env.call proc (a1 item)
        else if c2 item = true then env.call proc (a2 item)
        else M.pure ()) =
      foreach
        (l.filterMap (fun item =>
          if c1 item = true then some (a1 item)
          else if c2 item = true then some (a2 item)
          else none))
        (fun args => env.call proc args) := by
  induction l with
  | nil => rfl
  | cons x rest ih =>
    rw [foreach_cons, ih]
    cases h1 : c1 x <;> cases h2 : c2 x <;>
      simp [List.filterMap_cons, h1, h2, foreach_cons, M.pure_bind]

/-- A loop of calls of one routine, when nothing raises, returns and logs the
calls in order. -/
theorem foreach_calls_return (env : Env) (proc : ExtProc)
    (hq : ∀ h args, env.raises h proc args = none) (l : List (List Arg))
    (h : History) :
    foreach l (fun args => env.call proc args) h =
      (.ok (), h ++ l.map (fun args => .call proc args)) := by
  induction l generalizing h with
  | nil => simp [foreach, M.pure]
  | cons x rest ih =>
    rw [foreach_cons,
      M.bind_ok _ _ h _ () (Env.call_returns env proc x h (hq h x)), ih]
    simp

/-- C36: a SET (a statement of a kind other than RESET and RESET ALL) that the
guard accepts first hands the statement to ExecSetVariableStmt.  Then, for the
name `TRANSACTION`, each item of the arguments named transaction_isolation or
transaction_read_only is assigned, in list order, to the variable of that
name, and for the name `SESSION CHARACTERISTICS` to
default_transaction_isolation or default_transaction_read_only; the other
items are passed over; for any other name there is exactly one assignment, of
the given name and arguments.  `assignments` is that list of assignments; when
no external routine raises the dispatcher returns with exactly these calls
logged, and in every case it runs them in this order up to the first that
raises. -/
theorem C36_set_assignments (env : Env) (fuel : Nat) (n : VariableSetStmt)
    (queryString : String) (params : Payload) (isTopLevel : Bool)
    (dest : DestReceiver) (completionTag : Bool) (start h : History)
    (assignments : List (List Arg))
    (hkind : n.kind ≠ .VAR_RESET ∧ n.kind ≠ .VAR_RESET_ALL)
    (hh : h = if completionTag then start ++ [.completionTag ""] else start)
    (ha : assignments =
      if n.name = "TRANSACTION" then
        n.args.filterMap (fun item =>
          if item.defname = "transaction_isolation" then
            some [.str "transaction_isolation", .payloads [item.arg],
              .bool n.is_local, .bool true]
          else if item.defname = "transaction_read_only" then
            some [.str "transaction_read_only", .payloads [item.arg],
              .bool n.is_local, .bool true]
          else none)
      else if n.name = "SESSION CHARACTERISTICS" then
        n.args.filterMap (fun item =>
          if item.defname = "transaction_isolation" then
            some [.str "default_transaction_isolation", .payloads [item.arg],
              .bool n.is_local, .bool true]
          else if item.defname = "transaction_read_only" then
            some [.str "default_transaction_read_only", .payloads [item.arg],
              .bool n.is_local, .bool true]
          else none)
      else [[.str n.name, .defElems n.args, .bool n.is_local, .bool true]]) :
    ProcessUtility env fuel (.VariableSetStmt n) (some queryString) params
        isTopLevel dest completionTag start =
      M.bind (env.call .ExecSetVariableStmt [.node (.VariableSetStmt n)])
        (fun _ =>
          foreach assignments
            (fun args => env.call .SetPGVariableOptDispatch args)) h ∧
    ((∀ h2 proc args, env.raises h2 proc args = none) →
      ProcessUtility env fuel (.VariableSetStmt n) (some queryString) params
          isTopLevel dest completionTag start =
        (.ok (), h ++ .call .ExecSetVariableStmt [.node (.VariableSetStmt n)] ::
          assignments.map (fun args =>
            .call .SetPGVariableOptDispatch args))) := by
  have hreset : (n.kind == .VAR_RESET || n.kind == .VAR_RESET_ALL) = false := by
    obtain ⟨h1, h2⟩ := hkind
    cases hk : n.kind <;> simp_all
  have hform : ProcessUtility env fuel (.VariableSetStmt n) (some queryString)
      params isTopLevel dest completionTag start =
      M.bind (env.call .ExecSetVariableStmt [.node (.VariableSetStmt n)])
        (fun _ =>
          foreach assignments
            (fun args => env.call .SetPGVariableOptDispatch args)) h := by
    rw [ProcessUtility_of_body env fuel _ queryString params isTopLevel dest
      completionTag start h _
      (fun recurse => ProcessUtility_body_VariableSetStmt env recurse n
        queryString params isTopLevel dest completionTag)
      (check_xact_readonly_unlisted env _ start (by
        simp only [nodeTag]; decide)) hh]
    congr 1
    funext _
    simp only [hreset]
    rw [foreach_select_calls, foreach_select_calls, ha]
    by_cases h1 : n.name = "TRANSACTION"
    · simp [h1]
    · by_cases h2 : n.name = "SESSION CHARACTERISTICS"
      · simp [h1, h2]
      · simp [h1, h2]
        exact (M.bind_pure_unit _).symm
  refine ⟨hform, fun hq => ?_⟩
  rw [hform, M.bind_ok _ _ h _ ()
    (Env.call_returns env _ _ h (hq h _ _)),
    foreach_calls_return env _ (fun h2 args => hq h2 _ args)]
  simp

/-- C36, in the sample world: SET TRANSACTION with an isolation level, an item
of another name and a read-only mode makes the two assignments, in this
order. -/
theorem C36_witness :
    ProcessUtility (sampleEnv .GP_ROLE_DISPATCH false) 0
        (.VariableSetStmt ⟨.VAR_SET_MULTI, "TRANSACTION",
          [⟨"transaction_isolation", ⟨1⟩⟩, ⟨"deferrable", ⟨2⟩⟩,
            ⟨"transaction_read_only", ⟨3⟩⟩], false⟩)
        (some "SET TRANSACTION") ⟨0⟩ true (.receiver 1) false [] =
      (.ok (),
        [.call .ExecSetVariableStmt
            [.node (.VariableSetStmt ⟨.VAR_SET_MULTI, "TRANSACTION",
              [⟨"transaction_isolation", ⟨1⟩⟩, ⟨"deferrable", ⟨2⟩⟩,
                ⟨"transaction_read_only", ⟨3⟩⟩], false⟩)],
          .call .SetPGVariableOptDispatch
            [.str "transaction_isolation", .payloads [⟨1⟩], .bool false,
              .bool true],
          .call .SetPGVariableOptDispatch
            [.str "transaction_read_only", .payloads [⟨3⟩], .bool false,
              .bool true]]) :=
  (C36_set_assignments (sampleEnv .GP_ROLE_DISPATCH false) 0
    ⟨.VAR_SET_MULTI, "TRANSACTION",
      [⟨"transaction_isolation", ⟨1⟩⟩, ⟨"deferrable", ⟨2⟩⟩,
        ⟨"transaction_read_only", ⟨3⟩⟩], false⟩
    "SET TRANSACTION" ⟨0⟩ true (.receiver 1) false [] []
    [[Arg.str "transaction_isolation", .payloads [⟨1⟩], .bool false,
        .bool true],
      [Arg.str "transaction_read_only", .payloads [⟨3⟩], .bool false,
        .bool true]]
    (by decide) rfl rfl).2 (fun _ _ _ => rfl)

/-- C37: RESET and RESET ALL first hand the statement to ExecSetVariableStmt.
On the coordinator the statement is then broadcast by CdbDispatchCommand as
command text, `RESET ALL` for RESET ALL and `RESET` followed by the name for
RESET, with the snapshot flag alone, and the result is that of the broadcast;
on every other role nothing follows.  In no role is there a call of
SetPGVariableOptDispatch, the assignment of a SET. -/
theorem C37_reset_broadcast_as_text (env : Env) (fuel : Nat)
    (n : VariableSetStmt) (queryString : String) (params : Payload)
    (isTopLevel : Bool) (dest : DestReceiver) (completionTag : Bool)
    (start h : History) (text : String)
    (hkind : n.kind = .VAR_RESET ∨ n.kind = .VAR_RESET_ALL)
    (hh : h = if completionTag then start ++ [.completionTag ""] else start)
    (ht : text =
      if n.kind = .VAR_RESET_ALL then "RESET ALL" else "RESET " ++ n.name) :
    (env.Gp_role = .GP_ROLE_DISPATCH →
      ProcessUtility env fuel (.VariableSetStmt n) (some queryString) params
          isTopLevel dest completionTag start =
        M.bind (env.call .ExecSetVariableStmt [.node (.VariableSetStmt n)])
          (fun _ =>
            env.call .CdbDispatchCommand
              [.str text, .flags ⟨false, false, true⟩]) h) ∧
    (env.Gp_role ≠ .GP_ROLE_DISPATCH →
      ProcessUtility env fuel (.VariableSetStmt n) (some queryString) params
          isTopLevel dest completionTag start =
        env.call .ExecSetVariableStmt [.node (.VariableSetStmt n)] h) ∧
    ∃ evs, (ProcessUtility env fuel (.VariableSetStmt n) (some queryString)
        params isTopLevel dest completionTag start).2 = h ++ evs ∧
      (∀ args, Event.call .SetPGVariableOptDispatch args ∉ evs) ∧
      (env.Gp_role ≠ .GP_ROLE_DISPATCH →
        ∀ proc args, Event.call proc args ∈ evs →
          proc = .ExecSetVariableStmt) := by
  have hreset : (n.kind == .VAR_RESET || n.kind == .VAR_RESET_ALL) = true := by
    rcases hkind with hk | hk <;> rw [hk] <;> rfl
  have htext : (if (n.kind == .VAR_RESET_ALL) = true then "RESET ALL"
      else errmsg "RESET %s" n.name) = text := by
    rw [ht]
    by_cases hk : n.kind = .VAR_RESET_ALL
    · simp [hk]
    · have hb : (n.kind == VariableSetKind.VAR_RESET_ALL) = false := by
        simpa using hk
      rw [hb, if_neg Bool.false_ne_true, if_neg hk]
      refine String.ext ?_
      show 'R' :: 'E' :: 'S' :: 'E' :: 'T' :: ' ' :: (n.name.data ++ []) = _
      rw [List.append_nil]
      rfl
  have hform : ProcessUtility env fuel (.VariableSetStmt n) (some queryString)
      params isTopLevel dest completionTag start =
      M.bind (env.call .ExecSetVariableStmt [.node (.VariableSetStmt n)])
        (fun _ =>
          if (env.Gp_role == .GP_ROLE_DISPATCH) = true then
            env.call .CdbDispatchCommand
              [.str text, .flags ⟨false, false, true⟩]
          else M.pure ()) h := by
    rw [ProcessUtility_of_body env fuel _ queryString params isTopLevel dest
      completionTag start h _
      (fun recurse => ProcessUtility_body_VariableSetStmt env recurse n
        queryString params isTopLevel dest completionTag)
      (check_xact_readonly_unlisted env _ start (by
        simp only [nodeTag]; decide)) hh]
    simp only [hreset, htext, if_true]
    rfl
  have hcoord : env.Gp_role = .GP_ROLE_DISPATCH →
      ProcessUtility env fuel (.VariableSetStmt n) (some queryString) params
          isTopLevel dest completionTag start =
        M.bind (env.call .ExecSetVariableStmt [.node (.VariableSetStmt n)])
          (fun _ =>
            env.call .CdbDispatchCommand
              [.str text, .flags ⟨false, false, true⟩]) h := by
    intro hrole
    rw [hform, hrole]
    rfl
  have hother : env.Gp_role ≠ .GP_ROLE_DISPATCH →
      ProcessUtility env fuel (.VariableSetStmt n) (some queryString) params
          isTopLevel dest completionTag start =
        env.call .ExecSetVariableStmt [.node (.VariableSetStmt n)] h := by
    intro hrole
    have hd : (env.Gp_role == GpRoleValue.GP_ROLE_DISPATCH) = false := by
      cases hr : env.Gp_role <;> simp_all
    rw [hform]
    simp only [hd]
    unfold M.bind
    rcases env.call .ExecSetVariableStmt [.node (.VariableSetStmt n)] h with
      ⟨r, h1⟩
    cases r <;> rfl
  refine ⟨hcoord, hother, ?_⟩
  by_cases hrole : env.Gp_role = .GP_ROLE_DISPATCH
  · rw [hcoord hrole]
    unfold M.bind Env.call
    cases env.raises h .ExecSetVariableStmt [.node (.VariableSetStmt n)] with
    | some e =>
        exact ⟨[_], rfl, fun args => by simp, fun hne => absurd hrole hne⟩
    | none =>
        dsimp only
        cases env.raises (h ++ [.call .ExecSetVariableStmt
            [.node (.VariableSetStmt n)]]) .CdbDispatchCommand
            [.str text, .flags ⟨false, false, true⟩] <;>
          exact ⟨[.call .ExecSetVariableStmt [.node (.VariableSetStmt n)],
              .call .CdbDispatchCommand
                [.str text, .flags ⟨false, false, true⟩]],
            by simp, fun args => by simp, fun hne => absurd hrole hne⟩
  · rw [hother hrole]
    unfold Env.call
    cases env.raises h .ExecSetVariableStmt [.node (.VariableSetStmt n)] <;>
      exact ⟨[_], rfl, fun args => by simp, fun _ proc args hm => by
        simp at hm
        exact hm.1⟩

/-- C37, on the coordinator of the sample world: RESET of a variable is
broadcast as the text `RESET` followed by the name. -/
theorem C37_witness :
    ProcessUtility (sampleEnv .GP_ROLE_DISPATCH false) 0
        (.VariableSetStmt ⟨.VAR_RESET, "work_mem", [], false⟩)
        (some "RESET work_mem") ⟨0⟩ true (.receiver 1) false [] =
      (.ok (),
        [.call .ExecSetVariableStmt
            [.node (.VariableSetStmt ⟨.VAR_RESET, "work_mem", [], false⟩)],
          .call .CdbDispatchCommand
            [.str "RESET work_mem", .flags ⟨false, false, true⟩]]) :=
  (C37_reset_broadcast_as_text (sampleEnv .GP_ROLE_DISPATCH false) 0
    ⟨.VAR_RESET, "work_mem", [], false⟩ "RESET work_mem" ⟨0⟩ true
    (.receiver 1) false [] [] "RESET work_mem" (Or.inl rfl) rfl
    (by decide)).1 rfl

/-! ## CREATE TABLE, CREATE EXTERNAL TABLE and ALTER TABLE -/

/-- The step of CREATE TABLE on a CREATE TABLE sub-statement, when no external
routine raises and the sanity check of the worker holds: the calls it makes,
in order.  `relKind` and `relStorage` are the kind and the storage it passes
on, `relOid` the identifier that DefineRelation returns, `aux` the calls up to
the last auxiliary object. -/
theorem createStmtStep_trace (env : Env) (recurse : Node → M Unit)
    (parsetree : Node) (cstmt : CreateStmt) (hasNext : Bool) (h : History)
    (relKind relStorage : Char) (relOid : Oid) (aux : List Event)
    (hq : ∀ h2 proc args, env.raises h2 proc args = none)
    (hkind : relKind =
      if (env.Gp_role == .GP_ROLE_EXECUTE && cstmt.relKind != NUL) = true then
        cstmt.relKind
      else RELKIND_RELATION)
    (hstorage : relStorage =
      if (env.Gp_role == .GP_ROLE_EXECUTE && cstmt.relStorage != NUL) = true
      then cstmt.relStorage
      else RELSTORAGE_HEAP)
    (hsane : env.Gp_role = .GP_ROLE_EXECUTE →
      (if (relKind == RELKIND_VIEW || relKind == RELKIND_COMPOSITE_TYPE) = true
        then relStorage == RELSTORAGE_VIRTUAL
        else (relStorage == RELSTORAGE_HEAP ||
          relStorage == RELSTORAGE_AOROWS ||
          relStorage == RELSTORAGE_AOCOLS ||
          relStorage == RELSTORAGE_EXTERNAL ||
          relStorage == RELSTORAGE_FOREIGN)) = true)
    (hoid : relOid = env.retOid h .DefineRelation
      [.node (.CreateStmt cstmt), .char relKind, .char relStorage,
        .bool false])
    (haux : aux =
      [.call .DefineRelation
          [.node (.CreateStmt cstmt), .char relKind, .char relStorage,
            .bool false],
        .call .CommandCounterIncrement [],
        .call .DefinePartitionedRelation [.node parsetree, .oid relOid]] ++
      if relKind = RELKIND_COMPOSITE_TYPE then []
      else
        [.call .AlterTableCreateToastTable
            [.oid relOid, .bool cstmt.is_part_child],
          .call .AlterTableCreateAoSegTable
            [.oid relOid, .bool cstmt.is_part_child]] ++
        (if cstmt.buildAoBlkdir = true then
          [.call .AlterTableCreateAoBlkdirTable
            [.oid relOid, .bool cstmt.is_part_child]]
        else []) ++
        [.call .AlterTableCreateAoVisimapTable
          [.oid relOid, .bool cstmt.is_part_child]]) :
    ProcessUtility.createStmtStep env recurse parsetree (.CreateStmt cstmt)
        hasNext h =
      (.ok (), h ++ aux ++
        (if env.Gp_role = .GP_ROLE_DISPATCH then
          [.call .CdbDispatchUtilityStatement
            [.node (.CreateStmt cstmt), .flags ⟨true, true, true⟩,
              .oids (env.GetAssignedOidsForDispatch (h ++ aux))]]
        else []) ++
        [.call .CommandCounterIncrement [],
          .call .EvaluateDeferredStatements [.payload cstmt.deferredStmts]] ++
        if hasNext = true then [.call .CommandCounterIncrement []] else []) := by
  subst hoid
  unfold ProcessUtility.createStmtStep
  dsimp only
  rw [← hkind, ← hstorage]
  subst haux
  cases hx : (env.Gp_role == GpRoleValue.GP_ROLE_EXECUTE)
  · have hne : env.Gp_role ≠ .GP_ROLE_EXECUTE := by
      intro hc; rw [hc] at hx; exact absurd hx (by decide)
    by_cases hd : env.Gp_role = .GP_ROLE_DISPATCH <;>
    by_cases hc : relKind = RELKIND_COMPOSITE_TYPE <;>
    cases hb : cstmt.buildAoBlkdir <;> cases hasNext <;>
      simp [bind, pure, M.bind, M.pure, Assert, Env.call, Env.callRet, hq, ask,
        hd, hc, hb, hne, DF_CANCEL_ON_ERROR, DF_NEED_TWO_PHASE,
        DF_WITH_SNAPSHOT, HOr.hOr, OrOp.or]
  · have he : env.Gp_role = .GP_ROLE_EXECUTE := by simpa using hx
    have hs := hsane he
    have hd : env.Gp_role ≠ .GP_ROLE_DISPATCH := by rw [he]; decide
    by_cases hv : (relKind == RELKIND_VIEW ||
        relKind == RELKIND_COMPOSITE_TYPE) = true <;>
    by_cases hc : relKind = RELKIND_COMPOSITE_TYPE <;>
    cases hb : cstmt.buildAoBlkdir <;> cases hasNext <;>
    first
      | (exfalso
         rw [hc] at hv
         exact hv (by decide))
      | (simp [hv] at hs
         simp [bind, pure, M.bind, M.pure, Assert, Env.call, Env.callRet, hq,
           ask, hd, hc, hb, he, hv, hs, raise])

/-- The body of the dispatcher on CREATE TABLE: the statements to process,
then the loop over them. -/
theorem ProcessUtility_body_CreateStmt (env : Env) (recurse : Node → M Unit)
    (cs : CreateStmt) (queryString : String) (params : Payload)
    (isTopLevel : Bool) (dest : DestReceiver) (completionTag : Bool) :
    ProcessUtility.body env recurse (.CreateStmt cs) (some queryString) params
        isTopLevel dest completionTag =
      M.bind (check_xact_readonly env (.CreateStmt cs))
        (fun _ =>
          M.bind (if completionTag = true then emit (.completionTag "")
            else M.pure ())
            (fun _ =>
              M.bind
                (if (env.Gp_role == .GP_ROLE_EXECUTE || cs.is_add_part) = true
                  then M.pure [Node.CreateStmt cs]
                  else
                    env.callRet env.retNodes .transformCreateStmt
                      [.node (.CreateStmt cs), .optStr (some queryString),
                        .bool false])
                (fun stmts =>
                  foreachNext stmts
                    (ProcessUtility.createStmtStep env recurse
                      (.CreateStmt cs))))) := by
  cases completionTag <;>
    cases hr : (env.Gp_role == .GP_ROLE_EXECUTE || cs.is_add_part) <;>
    (unfold ProcessUtility.body; simp only [hr]; rfl)

/-- The body of the dispatcher on CREATE EXTERNAL TABLE. -/
theorem ProcessUtility_body_CreateExternalStmt (env : Env)
    (recurse : Node → M Unit) (p : Payload) (queryString : String)
    (params : Payload) (isTopLevel : Bool) (dest : DestReceiver)
    (completionTag : Bool) :
    ProcessUtility.body env recurse (.CreateExternalStmt p) (some queryString)
        params isTopLevel dest completionTag =
      M.bind (check_xact_readonly env (.CreateExternalStmt p))
        (fun _ =>
          M.bind (if completionTag = true then emit (.completionTag "")
            else M.pure ())
            (fun _ =>
              M.bind
                (if (env.Gp_role == .GP_ROLE_EXECUTE) = true then
                  M.pure [Node.CreateExternalStmt p]
                else
                  env.callRet env.retNodes .transformCreateExternalStmt
                    [.node (.CreateExternalStmt p),
                      .optStr (some queryString)])
                (fun stmts =>
                  foreach stmts
                    (ProcessUtility.createExternalStmtStep env recurse)))) := by
  cases completionTag <;> cases hr : (env.Gp_role == .GP_ROLE_EXECUTE) <;>
    (unfold ProcessUtility.body; simp only [hr]; rfl)

/-- The body of the dispatcher on ALTER TABLE. -/
theorem ProcessUtility_body_AlterTableStmt (env : Env)
    (recurse : Node → M Unit) (s : AlterTableStmt) (queryString : String)
    (params : Payload) (isTopLevel : Bool) (dest : DestReceiver)
    (completionTag : Bool) :
    ProcessUtility.body env recurse (.AlterTableStmt s) (some queryString)
        params isTopLevel dest completionTag =
      M.bind (check_xact_readonly env (.AlterTableStmt s))
        (fun _ =>
          M.bind (if completionTag = true then emit (.completionTag "")
            else M.pure ())
            (fun _ =>
              M.bind
                (if (env.Gp_role == .GP_ROLE_EXECUTE) = true then
                  M.pure [Node.AlterTableStmt s]
                else
                  env.callRet env.retNodes .transformAlterTableStmt
                    [.node (.AlterTableStmt s), .optStr (some queryString)])
                (fun stmts =>
                  foreachNext stmts
                    (ProcessUtility.alterTableStmtStep env recurse)))) := by
  cases completionTag <;> cases hr : (env.Gp_role == .GP_ROLE_EXECUTE) <;>
    (unfold ProcessUtility.body; simp only [hr]; rfl)

/-- From the body of the dispatcher on a node to the dispatcher itself with
fuel for the nested calls, when the guard accepts the node; `rest` is what
follows the guard, given the recursive call. -/
theorem ProcessUtility_succ_of_body (env : Env) (fuel : Nat)
    (parsetree : Node) (queryString : String) (params : Payload)
    (isTopLevel : Bool) (dest : DestReceiver) (completionTag : Bool)
    (start h : History) (rest : (Node → M Unit) → M Unit)
    (hbody : ∀ recurse, ProcessUtility.body env recurse parsetree
        (some queryString) params isTopLevel dest completionTag =
      M.bind (check_xact_readonly env parsetree)
        (fun _ =>
          M.bind (if completionTag = true then emit (.completionTag "")
            else M.pure ())
            (fun _ => rest recurse)))
    (hg : check_xact_readonly env parsetree start = (.ok (), start))
    (hh : h = if completionTag then start ++ [.completionTag ""] else start) :
    ProcessUtility env (fuel + 1) parsetree (some queryString) params
        isTopLevel dest completionTag start =
      rest (fun stmt =>
        ProcessUtility env fuel stmt (some queryString) params false
          .None_Receiver false) h := by
  rw [ProcessUtility, hbody,
    guard_and_tag_ok env _ completionTag start h _ hg hh]

/-- C25: CREATE TABLE, CREATE EXTERNAL TABLE and ALTER TABLE that the guard
accepts (here: outside read-only mode).  On the worker the statements
processed are the singleton of the input statement, and the dispatcher calls
none of the parse analyses transformCreateStmt, transformCreateExternalStmt
and transformAlterTableStmt, whatever the statement.  On every other role the
parse analysis of the statement is called first and the statements processed
are those it returns; a CREATE TABLE flagged `is_add_part` is taken as a
singleton in every role.  `recurse` is the nested call of the dispatcher. -/
theorem C25_parse_analysis_by_role (env : Env) (fuel : Nat)
    (queryString : String) (params : Payload) (isTopLevel : Bool)
    (dest : DestReceiver) (completionTag : Bool) (start h : History)
    (recurse : Node → M Unit)
    (hro : env.XactReadOnly start = false)
    (hh : h = if completionTag then start ++ [.completionTag ""] else start)
    (hrec : recurse = fun stmt =>
      ProcessUtility env fuel stmt (some queryString) params false
        .None_Receiver false) :
    (∀ cs : CreateStmt,
      (env.Gp_role = .GP_ROLE_EXECUTE ∨ cs.is_add_part = true →
        ProcessUtility env (fuel + 1) (.CreateStmt cs) (some queryString)
            params isTopLevel dest completionTag start =
          foreachNext [Node.CreateStmt cs]
            (ProcessUtility.createStmtStep env recurse (.CreateStmt cs)) h) ∧
      (env.Gp_role ≠ .GP_ROLE_EXECUTE → cs.is_add_part = false →
        ProcessUtility env (fuel + 1) (.CreateStmt cs) (some queryString)
            params isTopLevel dest completionTag start =
          M.bind
            (env.callRet env.retNodes .transformCreateStmt
              [.node (.CreateStmt cs), .optStr (some queryString),
                .bool false])
            (fun stmts =>
              foreachNext stmts
                (ProcessUtility.createStmtStep env recurse (.CreateStmt cs)))
            h)) ∧
    (∀ p : Payload,
      (env.Gp_role = .GP_ROLE_EXECUTE →
        ProcessUtility env (fuel + 1) (.CreateExternalStmt p)
            (some queryString) params isTopLevel dest completionTag start =
          foreach [Node.CreateExternalStmt p]
            (ProcessUtility.createExternalStmtStep env recurse) h) ∧
      (env.Gp_role ≠ .GP_ROLE_EXECUTE →
        ProcessUtility env (fuel + 1) (.CreateExternalStmt p)
            (some queryString) params isTopLevel dest completionTag start =
          M.bind
            (env.callRet env.retNodes .transformCreateExternalStmt
              [.node (.CreateExternalStmt p), .optStr (some queryString)])
            (fun stmts =>
              foreach stmts
                (ProcessUtility.createExternalStmtStep env recurse)) h)) ∧
    (∀ s : AlterTableStmt,
      (env.Gp_role = .GP_ROLE_EXECUTE →
        ProcessUtility env (fuel + 1) (.AlterTableStmt s) (some queryString)
            params isTopLevel dest completionTag start =
          foreachNext [Node.AlterTableStmt s]
            (ProcessUtility.alterTableStmtStep env recurse) h) ∧
      (env.Gp_role ≠ .GP_ROLE_EXECUTE →
        ProcessUtility env (fuel + 1) (.AlterTableStmt s) (some queryString)
            params isTopLevel dest completionTag start =
          M.bind
            (env.callRet env.retNodes .transformAlterTableStmt
              [.node (.AlterTableStmt s), .optStr (some queryString)])
            (fun stmts =>
              foreachNext stmts
                (ProcessUtility.alterTableStmtStep env recurse)) h)) ∧
    (env.Gp_role = .GP_ROLE_EXECUTE →
      ∀ parsetree, ∃ evs,
        (ProcessUtility env (fuel + 1) parsetree (some queryString) params
          isTopLevel dest completionTag start).2 = start ++ evs ∧
        ∀ args, Event.call .transformCreateStmt args ∉ evs ∧
          Event.call .transformCreateExternalStmt args ∉ evs ∧
          Event.call .transformAlterTableStmt args ∉ evs) := by
  subst hrec
  have hx : env.Gp_role ≠ .GP_ROLE_EXECUTE →
      (env.Gp_role == GpRoleValue.GP_ROLE_EXECUTE) = false := by
    intro hne
    cases hr : env.Gp_role <;> simp_all
  refine ⟨fun cs => ⟨fun hc => ?_, fun hne hpart => ?_⟩,
    fun p => ⟨fun he => ?_, fun hne => ?_⟩,
    fun s => ⟨fun he => ?_, fun hne => ?_⟩,
    fun he parsetree => ProcessUtility_no_parse_analysis_on_worker env _
      parsetree _ params isTopLevel dest completionTag start he⟩
  · rw [ProcessUtility_succ_of_body env fuel _ queryString params isTopLevel
      dest completionTag start h _
      (fun recurse => ProcessUtility_body_CreateStmt env recurse cs
        queryString params isTopLevel dest completionTag)
      (check_xact_readonly_off env _ start hro) hh]
    have hb : (env.Gp_role == .GP_ROLE_EXECUTE || cs.is_add_part) = true := by
      rcases hc with hc | hc <;> simp [hc]
    simp only [hb, if_true]
    rfl
  · rw [ProcessUtility_succ_of_body env fuel _ queryString params isTopLevel
      dest completionTag start h _
      (fun recurse => ProcessUtility_body_CreateStmt env recurse cs
        queryString params isTopLevel dest completionTag)
      (check_xact_readonly_off env _ start hro) hh]
    have hb : (env.Gp_role == .GP_ROLE_EXECUTE || cs.is_add_part) = false := by
      simp [hx hne, hpart]
    simp only [hb]
    rfl
  · rw [ProcessUtility_succ_of_body env fuel _ queryString params isTopLevel
      dest completionTag start h _
      (fun recurse => ProcessUtility_body_CreateExternalStmt env recurse p
        queryString params isTopLevel dest completionTag)
      (check_xact_readonly_off env _ start hro) hh]
    have hb : (env.Gp_role == GpRoleValue.GP_ROLE_EXECUTE) = true := by
      simp [he]
    simp only [hb, if_true]
    rfl
  · rw [ProcessUtility_succ_of_body env fuel _ queryString params isTopLevel
      dest completionTag start h _
      (fun recurse => ProcessUtility_body_CreateExternalStmt env recurse p
        queryString params isTopLevel dest completionTag)
      (check_xact_readonly_off env _ start hro) hh]
    simp only [hx hne]
    rfl
  · rw [ProcessUtility_succ_of_body env fuel _ queryString params isTopLevel
      dest completionTag start h _
      (fun recurse => ProcessUtility_body_AlterTableStmt env recurse s
        queryString params isTopLevel dest completionTag)
      (check_xact_readonly_off env _ start hro) hh]
    have hb : (env.Gp_role == GpRoleValue.GP_ROLE_EXECUTE) = true := by
      simp [he]
    simp only [hb, if_true]
    rfl
  · rw [ProcessUtility_succ_of_body env fuel _ queryString params isTopLevel
      dest completionTag start h _
      (fun recurse => ProcessUtility_body_AlterTableStmt env recurse s
        queryString params isTopLevel dest completionTag)
      (check_xact_readonly_off env _ start hro) hh]
    simp only [hx hne]
    rfl

/-- C25, on a worker of the sample world: ALTER TABLE is processed as the
singleton of the input statement. -/
theorem C25_witness :
    ProcessUtility (sampleEnv .GP_ROLE_EXECUTE false) 1
        (.AlterTableStmt ⟨.OBJECT_TABLE, ⟨0⟩⟩) (some "ALTER TABLE t") ⟨0⟩ true
        (.receiver 1) false [] =
      foreachNext [Node.AlterTableStmt ⟨.OBJECT_TABLE, ⟨0⟩⟩]
        (ProcessUtility.alterTableStmtStep (sampleEnv .GP_ROLE_EXECUTE false)
          (fun stmt =>
            ProcessUtility (sampleEnv .GP_ROLE_EXECUTE false) 0 stmt
              (some "ALTER TABLE t") ⟨0⟩ false .None_Receiver false)) [] :=
  ((C25_parse_analysis_by_role (sampleEnv .GP_ROLE_EXECUTE false) 0
    "ALTER TABLE t" ⟨0⟩ true (.receiver 1) false [] [] _ rfl rfl rfl).2.2.1
    ⟨.OBJECT_TABLE, ⟨0⟩⟩).1 rfl

/-- C27: CREATE TABLE that the guard accepts (here: outside read-only mode)
runs the loop `createStmtStep` over the statements of parse analysis, and for
each CREATE TABLE sub-statement, when no external routine raises and the
sanity check of the worker holds, the step returns after these calls, in this
order: DefineRelation; CommandCounterIncrement; DefinePartitionedRelation;
unless the kind is composite type, the toast table, the append-only segment
table, the block directory if `buildAoBlkdir`, the visibility map; on the
coordinator alone, one broadcast of that statement, with the three flags and
the identifiers assigned so far; CommandCounterIncrement;
EvaluateDeferredStatements; and CommandCounterIncrement again when another
statement follows.  So the statement is broadcast once, after its auxiliary
objects, and no auxiliary object is broadcast. -/
theorem C27_create_table_order (env : Env) (fuel : Nat) (cs : CreateStmt)
    (queryString : String) (params : Payload) (isTopLevel : Bool)
    (dest : DestReceiver) (completionTag : Bool) (start h : History)
    (recurse : Node → M Unit)
    (hro : env.XactReadOnly start = false)
    (hh : h = if completionTag then start ++ [.completionTag ""] else start)
    (hrec : recurse = fun stmt =>
      ProcessUtility env fuel stmt (some queryString) params false
        .None_Receiver false)
    (hq : ∀ h2 proc args, env.raises h2 proc args = none) :
    ProcessUtility env (fuel + 1) (.CreateStmt cs) (some queryString) params
        isTopLevel dest completionTag start =
      M.bind
        (if (env.Gp_role == .GP_ROLE_EXECUTE || cs.is_add_part) = true then
          M.pure [Node.CreateStmt cs]
        else
          env.callRet env.retNodes .transformCreateStmt
            [.node (.CreateStmt cs), .optStr (some queryString), .bool false])
        (fun stmts =>
          foreachNext stmts
            (ProcessUtility.createStmtStep env recurse (.CreateStmt cs))) h ∧
    ∀ (cstmt : CreateStmt) (hasNext : Bool) (h2 : History)
      (relKind relStorage : Char) (relOid : Oid) (aux : List Event),
      relKind =
        (if (env.Gp_role == .GP_ROLE_EXECUTE && cstmt.relKind != NUL) = true
          then cstmt.relKind
          else RELKIND_RELATION) →
      relStorage =
        (if (env.Gp_role == .GP_ROLE_EXECUTE && cstmt.relStorage != NUL) = true
          then cstmt.relStorage
          else RELSTORAGE_HEAP) →
      (env.Gp_role = .GP_ROLE_EXECUTE →
        (if (relKind == RELKIND_VIEW || relKind == RELKIND_COMPOSITE_TYPE) =
            true
          then relStorage == RELSTORAGE_VIRTUAL
          else (relStorage == RELSTORAGE_HEAP ||
            relStorage == RELSTORAGE_AOROWS ||
            relStorage == RELSTORAGE_AOCOLS ||
            relStorage == RELSTORAGE_EXTERNAL ||
            relStorage == RELSTORAGE_FOREIGN)) = true) →
      relOid = env.retOid h2 .DefineRelation
        [.node (.CreateStmt cstmt), .char relKind, .char relStorage,
          .bool false] →
      aux =
        [.call .DefineRelation
            [.node (.CreateStmt cstmt), .char relKind, .char relStorage,
              .bool false],
          .call .CommandCounterIncrement [],
          .call .DefinePartitionedRelation
            [.node (.CreateStmt cs), .oid relOid]] ++
        (if relKind = RELKIND_COMPOSITE_TYPE then []
        else
          [.call .AlterTableCreateToastTable
              [.oid relOid, .bool cstmt.is_part_child],
            .call .AlterTableCreateAoSegTable
              [.oid relOid, .bool cstmt.is_part_child]] ++
          (if cstmt.buildAoBlkdir = true then
            [.call .AlterTableCreateAoBlkdirTable
              [.oid relOid, .bool cstmt.is_part_child]]
          else []) ++
          [.call .AlterTableCreateAoVisimapTable
            [.oid relOid, .bool cstmt.is_part_child]]) →
      ProcessUtility.createStmtStep env recurse (.CreateStmt cs)
          (.CreateStmt cstmt) hasNext h2 =
        (.ok (), h2 ++ aux ++
          (if env.Gp_role = .GP_ROLE_DISPATCH then
            [.call .CdbDispatchUtilityStatement
              [.node (.CreateStmt cstmt), .flags ⟨true, true, true⟩,
                .oids (env.GetAssignedOidsForDispatch (h2 ++ aux))]]
          else []) ++
          [.call .CommandCounterIncrement [],
            .call .EvaluateDeferredStatements
              [.payload cstmt.deferredStmts]] ++
          if hasNext = true then [.call .CommandCounterIncrement []]
          else []) := by
  subst hrec
  refine ⟨?_, fun cstmt hasNext h2 relKind relStorage relOid aux hkind
    hstorage hsane hoid haux =>
    createStmtStep_trace env _ _ cstmt hasNext h2 relKind relStorage relOid
      aux hq hkind hstorage hsane hoid haux⟩
  rw [ProcessUtility_succ_of_body env fuel _ queryString params isTopLevel
    dest completionTag start h _
    (fun recurse => ProcessUtility_body_CreateStmt env recurse cs
      queryString params isTopLevel dest completionTag)
    (check_xact_readonly_off env _ start hro) hh]

/-- C27, on the coordinator of the sample world, where parse analysis returns
the statement alone and DefineRelation returns the identifier 100: the calls
of the step on CREATE TABLE of a table with a block directory, and the whole
run of the dispatcher on it. -/
theorem C27_witness :
    ProcessUtility.createStmtStep (sampleEnv .GP_ROLE_DISPATCH false)
        (fun stmt =>
          ProcessUtility (sampleEnv .GP_ROLE_DISPATCH false) 0 stmt
            (some "CREATE TABLE t") ⟨0⟩ false .None_Receiver false)
        (.CreateStmt ⟨⟨none, none, "t", false⟩, false, NUL, NUL, false, true,
          ⟨7⟩, ⟨0⟩⟩)
        (.CreateStmt ⟨⟨none, none, "t", false⟩, false, NUL, NUL, false, true,
          ⟨7⟩, ⟨0⟩⟩) false [] =
      (.ok (),
        [.call .DefineRelation
            [.node (.CreateStmt ⟨⟨none, none, "t", false⟩, false, NUL, NUL,
              false, true, ⟨7⟩, ⟨0⟩⟩), .char 'r', .char 'h', .bool false],
          .call .CommandCounterIncrement [],
          .call .DefinePartitionedRelation
            [.node (.CreateStmt ⟨⟨none, none, "t", false⟩, false, NUL, NUL,
              false, true, ⟨7⟩, ⟨0⟩⟩), .oid 100],
          .call .AlterTableCreateToastTable [.oid 100, .bool false],
          .call .AlterTableCreateAoSegTable [.oid 100, .bool false],
          .call .AlterTableCreateAoBlkdirTable [.oid 100, .bool false],
          .call .AlterTableCreateAoVisimapTable [.oid 100, .bool false],
          .call .CdbDispatchUtilityStatement
            [.node (.CreateStmt ⟨⟨none, none, "t", false⟩, false, NUL, NUL,
              false, true, ⟨7⟩, ⟨0⟩⟩), .flags ⟨true, true, true⟩, .oids []],
          .call .CommandCounterIncrement [],
          .call .EvaluateDeferredStatements [.payload ⟨7⟩]]) ∧
    ProcessUtility (sampleEnv .GP_ROLE_DISPATCH false) 1
        (.CreateStmt ⟨⟨none, none, "t", false⟩, false, NUL, NUL, false, true,
          ⟨7⟩, ⟨0⟩⟩)
        (some "CREATE TABLE t") ⟨0⟩ true (.receiver 1) false [] =
      (.ok (),
        [.call .transformCreateStmt
            [.node (.CreateStmt ⟨⟨none, none, "t", false⟩, false, NUL, NUL,
              false, true, ⟨7⟩, ⟨0⟩⟩), .optStr (some "CREATE TABLE t"),
              .bool false],
          .call .DefineRelation
            [.node (.CreateStmt ⟨⟨none, none, "t", false⟩, false, NUL, NUL,
              false, true, ⟨7⟩, ⟨0⟩⟩), .char 'r', .char 'h', .bool false],
          .call .CommandCounterIncrement [],
          .call .DefinePartitionedRelation
            [.node (.CreateStmt ⟨⟨none, none, "t", false⟩, false, NUL, NUL,
              false, true, ⟨7⟩, ⟨0⟩⟩), .oid 100],
          .call .AlterTableCreateToastTable [.oid 100, .bool false],
          .call .AlterTableCreateAoSegTable [.oid 100, .bool false],
          .call .AlterTableCreateAoBlkdirTable [.oid 100, .bool false],
          .call .AlterTableCreateAoVisimapTable [.oid 100, .bool false],
          .call .CdbDispatchUtilityStatement
            [.node (.CreateStmt ⟨⟨none, none, "t", false⟩, false, NUL, NUL,
              false, true, ⟨7⟩, ⟨0⟩⟩), .flags ⟨true, true, true⟩, .oids []],
          .call .CommandCounterIncrement [],
          .call .EvaluateDeferredStatements [.payload ⟨7⟩]]) :=
  ⟨(C27_create_table_order (sampleEnv .GP_ROLE_DISPATCH false) 0
    ⟨⟨none, none, "t", false⟩, false, NUL, NUL, false, true, ⟨7⟩, ⟨0⟩⟩
    "CREATE TABLE t" ⟨0⟩ true (.receiver 1) false [] [] _ rfl rfl rfl
    (fun _ _ _ => rfl)).2
    ⟨⟨none, none, "t", false⟩, false, NUL, NUL, false, true, ⟨7⟩, ⟨0⟩⟩ false
    [] 'r' 'h' 100 _ rfl rfl (fun he => absurd he (by decide)) rfl rfl, rfl⟩

/-! ## The broadcast policy on the coordinator -/

/-- The one-at-a-time processing of a DROP only adds events, and each of them
satisfies `P`, when the reports, the calls other than broadcasts and parse
analyses, and the broadcast of a copy of the statement with the three flags
and no identifier satisfy `P`. -/
theorem OnlyAdds_dropOneAtATime (P : Event → Prop)
    (hN : ∀ s, P (.NOTICE s))
    (hcall : ∀ proc args, proc ∉ [ExtProc.CdbDispatchUtilityStatement,
      .CdbDispatchCommand, .transformCreateStmt, .transformCreateExternalStmt,
      .transformAlterTableStmt] → P (.call proc args))
    (hD : ∀ copy : DropStmt, P (.call .CdbDispatchUtilityStatement
      [.node (.DropStmt copy), .flags ⟨true, true, true⟩, .oids []]))
    (env : Env) (stmt : DropStmt) (l : List (List String)) :
    OnlyAdds P (dropOneAtATime env stmt l) := by
  induction l with
  | nil => exact OnlyAdds_pure P _
  | cons names rest ih =>
    unfold dropOneAtATime
    refine OnlyAdds_bind P _ _
      (OnlyAdds_ProcessDropStatement P hN hcall env _) (fun found => ?_)
    refine OnlyAdds_bind P _ _ ?_ (fun _ => ?_)
    · exact OnlyAdds_ite P _ _ _ (fun _ => OnlyAdds_call P env _ _ (hD _))
        (fun _ => OnlyAdds_pure P _)
    · exact OnlyAdds_bind P _ _ ih (fun _ => OnlyAdds_pure P _)

/-- C24: the broadcasts of the coordinator, for statements that the guard
accepts (here: outside read-only mode) and when no external routine raises;
`h` is the history after the guard and the reset of the completion tag.
CREATE RULE, CREATE TRIGGER, ALTER DOMAIN and each CREATE TABLE sub-statement
are broadcast by CdbDispatchUtilityStatement with the flags cancel-on-error,
two-phase and snapshot all set and the identifiers assigned so far; DROP RULE,
DROP TRIGGER and each object of a DROP with the same three flags and the
empty list of identifiers; LOAD, RESET, RESET ALL and CHECKPOINT by
CdbDispatchCommand as command text with the snapshot flag alone. -/
theorem C24_broadcast_policy (env : Env) (fuel : Nat) (queryString : String)
    (params : Payload) (isTopLevel : Bool) (dest : DestReceiver)
    (completionTag : Bool) (start h : History)
    (hrole : env.Gp_role = .GP_ROLE_DISPATCH)
    (hq : ∀ h2 proc args, env.raises h2 proc args = none)
    (hro : env.XactReadOnly start = false)
    (hh : h = if completionTag then start ++ [.completionTag ""] else start) :
    (∀ p : Payload,
      ProcessUtility env fuel (.RuleStmt p) (some queryString) params
          isTopLevel dest completionTag start =
        (.ok (), h ++
          [.call .DefineRule [.node (.RuleStmt p), .optStr (some queryString)],
            .call .CdbDispatchUtilityStatement
              [.node (.RuleStmt p), .flags ⟨true, true, true⟩,
                .oids (env.GetAssignedOidsForDispatch (h ++
                  [.call .DefineRule
                    [.node (.RuleStmt p), .optStr (some queryString)]]))]])) ∧
    (∀ s : CreateTrigStmt,
      ProcessUtility env fuel (.CreateTrigStmt s) (some queryString) params
          isTopLevel dest completionTag start =
        (.ok (), h ++
          [.call .CreateTrigger [.node (.CreateTrigStmt s), .oid InvalidOid],
            .call .CdbDispatchUtilityStatement
              [.node (.CreateTrigStmt
                  { s with trigOid := (env.retOid h .CreateTrigger
                    [.node (.CreateTrigStmt s), .oid InvalidOid]) }),
                .flags ⟨true, true, true⟩,
                .oids (env.GetAssignedOidsForDispatch (h ++
                  [.call .CreateTrigger
                    [.node (.CreateTrigStmt s), .oid InvalidOid]]))]])) ∧
    (∀ s : AlterDomainStmt, s.subtype ∈ ['T', 'N', 'O', 'C', 'X'] →
      ∃ proc args,
        proc ∈ [ExtProc.AlterDomainDefault, .AlterDomainNotNull,
          .AlterDomainAddConstraint, .AlterDomainDropConstraint] ∧
        ProcessUtility env fuel (.AlterDomainStmt s) (some queryString) params
            isTopLevel dest completionTag start =
          (.ok (), h ++
            [.call proc args,
              .call .CdbDispatchUtilityStatement
                [.node (.AlterDomainStmt s), .flags ⟨true, true, true⟩,
                  .oids (env.GetAssignedOidsForDispatch
                    (h ++ [.call proc args]))]])) ∧
    (∀ (recurse : Node → M Unit) (parsetree : Node) (cstmt : CreateStmt)
        (hasNext : Bool) (h2 : History),
      ∃ aux rest,
        (∀ args, Event.call .CdbDispatchUtilityStatement args ∉ aux ∧
          Event.call .CdbDispatchUtilityStatement args ∉ rest) ∧
        ProcessUtility.createStmtStep env recurse parsetree
            (.CreateStmt cstmt) hasNext h2 =
          (.ok (), h2 ++ aux ++
            .call .CdbDispatchUtilityStatement
              [.node (.CreateStmt cstmt), .flags ⟨true, true, true⟩,
                .oids (env.GetAssignedOidsForDispatch (h2 ++ aux))] ::
            rest)) ∧
    (∀ (s : DropPropertyStmt) relid,
      s.removeType ∈ [ObjectType.OBJECT_RULE, .OBJECT_TRIGGER] →
      env.RangeVarGetRelid h s.relation false = .ok relid →
      ∃ proc, proc ∈ [ExtProc.RemoveRewriteRule, .DropTrigger] ∧
        ProcessUtility env fuel (.DropPropertyStmt s) (some queryString)
            params isTopLevel dest completionTag start =
          (.ok (), h ++
            [.call proc
                [.oid relid, .str s.property, .behavior s.behavior,
                  .bool s.missing_ok],
              .call .CdbDispatchUtilityStatement
                [.node (.DropPropertyStmt s), .flags ⟨true, true, true⟩,
                  .oids []]])) ∧
    (∀ s : DropStmt,
      (∃ evs,
        (ProcessUtility env fuel (.DropStmt s) (some queryString) params
          isTopLevel dest completionTag start).2 = h ++ evs ∧
        ∀ args,
          (Event.call .CdbDispatchUtilityStatement args ∈ evs →
            ∃ copy : DropStmt,
              args = [.node (.DropStmt copy), .flags ⟨true, true, true⟩,
                .oids []]) ∧
          Event.call .CdbDispatchCommand args ∉ evs) ∧
      ∀ names proc, s.objects = [names] →
        dropExecutor s.removeType = some proc →
        ProcessUtility env fuel (.DropStmt s) (some queryString) params
            isTopLevel dest completionTag start =
          (.ok (), h ++
            [.call proc
                [.names names, .behavior s.behavior, .bool s.missing_ok],
              .call .CdbDispatchUtilityStatement
                [.node (.DropStmt s), .flags ⟨true, true, true⟩,
                  .oids []]])) ∧
    (∀ s : LoadStmt,
      ProcessUtility env fuel (.LoadStmt s) (some queryString) params
          isTopLevel dest completionTag start =
        (.ok (), h ++
          [.call .closeAllVfds [],
            .call .load_file
              [.str s.filename,
                .bool (!env.superuser (h ++ [.call .closeAllVfds []]))],
            .call .CdbDispatchCommand
              [.str ("LOAD '" ++ s.filename ++ "'"),
                .flags ⟨false, false, true⟩]])) ∧
    (∀ n : VariableSetStmt, n.kind = .VAR_RESET ∨ n.kind = .VAR_RESET_ALL →
      ProcessUtility env fuel (.VariableSetStmt n) (some queryString) params
          isTopLevel dest completionTag start =
        (.ok (), h ++
          [.call .ExecSetVariableStmt [.node (.VariableSetStmt n)],
            .call .CdbDispatchCommand
              [.str (if n.kind = .VAR_RESET_ALL then "RESET ALL"
                  else "RESET " ++ n.name),
                .flags ⟨false, false, true⟩]])) ∧
    (∀ p : Payload, env.superuser h = true →
      ProcessUtility env fuel (.CheckPointStmt p) (some queryString) params
          isTopLevel dest completionTag start =
        (.ok (), h ++
          [.call .CdbDispatchCommand
              [.str "CHECKPOINT", .flags ⟨false, false, true⟩],
            .call .RequestCheckpoint
              [.str "CHECKPOINT_IMMEDIATE | CHECKPOINT_FORCE | CHECKPOINT_WAIT"]])) := by
  have hd : (env.Gp_role == GpRoleValue.GP_ROLE_DISPATCH) = true := by
    simp [hrole]
  have hoff : ∀ S, check_xact_readonly env S start = (.ok (), start) :=
    fun S => check_xact_readonly_off env S start hro
  refine ⟨fun p => ?rule, fun s => ?trig, fun s hs => ?domain,
    fun recurse parsetree cstmt hasNext h2 => ?table,
    fun s relid hs hrel => ?prop, fun s => ⟨?dropAll, fun names proc hobj hx => ?dropOne⟩,
    fun s => ?load, fun n hk => ?reset, fun p hsuper => ?checkpoint⟩
  case rule =>
    obtain ⟨recurse, hb⟩ := ProcessUtility_eq_body env fuel (.RuleStmt p)
      (some queryString) params isTopLevel dest completionTag
    rw [hb]
    unfold ProcessUtility.body
    dsimp only
    cases completionTag <;> subst hh <;>
      simp [bind, pure, M.bind, M.pure, Assert, emit,
        hoff, Env.call, hq, ask, hrole] <;>
      rfl
  case trig =>
    obtain ⟨recurse, hb⟩ := ProcessUtility_eq_body env fuel (.CreateTrigStmt s)
      (some queryString) params isTopLevel dest completionTag
    rw [hb]
    unfold ProcessUtility.body
    dsimp only
    cases completionTag <;> subst hh <;>
      simp [bind, pure, M.bind, M.pure, Assert, emit,
        hoff, Env.call, Env.callRet, hq,
        ask, hrole] <;>
      rfl
  case domain =>
    obtain ⟨recurse, hb⟩ := ProcessUtility_eq_body env fuel
      (.AlterDomainStmt s) (some queryString) params isTopLevel dest
      completionTag
    rw [hb]
    simp only [List.mem_cons, List.mem_singleton, List.not_mem_nil,
      or_false] at hs
    rcases hs with hs | hs | hs | hs | hs
    · refine ⟨.AlterDomainDefault, [.names s.typname, .payload s.def],
        by decide, ?_⟩
      unfold ProcessUtility.body
      dsimp only
      cases completionTag <;> subst hh <;>
        simp [bind, pure, M.bind, M.pure, Assert, emit,
          hoff, Env.call, hq, ask, hrole,
          hs] <;>
        rfl
    · refine ⟨.AlterDomainNotNull, [.names s.typname, .bool false],
        by decide, ?_⟩
      unfold ProcessUtility.body
      dsimp only
      cases completionTag <;> subst hh <;>
        simp [bind, pure, M.bind, M.pure, Assert, emit,
          hoff, Env.call, hq, ask, hrole,
          hs] <;>
        rfl
    · refine ⟨.AlterDomainNotNull, [.names s.typname, .bool true],
        by decide, ?_⟩
      unfold ProcessUtility.body
      dsimp only
      cases completionTag <;> subst hh <;>
        simp [bind, pure, M.bind, M.pure, Assert, emit,
          hoff, Env.call, hq, ask, hrole,
          hs] <;>
        rfl
    · refine ⟨.AlterDomainAddConstraint,
        [.names s.typname, .payload s.def], by decide, ?_⟩
      unfold ProcessUtility.body
      dsimp only
      cases completionTag <;> subst hh <;>
        simp [bind, pure, M.bind, M.pure, Assert, emit,
          hoff, Env.call, hq, ask, hrole,
          hs] <;>
        rfl
    · refine ⟨.AlterDomainDropConstraint,
        [.names s.typname, .optStr s.name, .behavior s.behavior],
        by decide, ?_⟩
      unfold ProcessUtility.body
      dsimp only
      cases completionTag <;> subst hh <;>
        simp [bind, pure, M.bind, M.pure, Assert, emit,
          hoff, Env.call, hq, ask, hrole,
          hs] <;>
        rfl
  case table =>
    have hne : env.Gp_role ≠ .GP_ROLE_EXECUTE := by rw [hrole]; decide
    have hx : (env.Gp_role == GpRoleValue.GP_ROLE_EXECUTE) = false := by
      rw [hrole]; rfl
    obtain ⟨relOid, hoid⟩ : ∃ o, o = env.retOid h2 .DefineRelation
        [.node (.CreateStmt cstmt), .char RELKIND_RELATION,
          .char RELSTORAGE_HEAP, .bool false] := ⟨_, rfl⟩
    obtain ⟨aux, haux⟩ : ∃ a : List Event, a =
        [.call .DefineRelation
            [.node (.CreateStmt cstmt), .char RELKIND_RELATION,
              .char RELSTORAGE_HEAP, .bool false],
          .call .CommandCounterIncrement [],
          .call .DefinePartitionedRelation [.node parsetree, .oid relOid]] ++
        if RELKIND_RELATION = RELKIND_COMPOSITE_TYPE then []
        else
          [.call .AlterTableCreateToastTable
              [.oid relOid, .bool cstmt.is_part_child],
            .call .AlterTableCreateAoSegTable
              [.oid relOid, .bool cstmt.is_part_child]] ++
          (if cstmt.buildAoBlkdir = true then
            [.call .AlterTableCreateAoBlkdirTable
              [.oid relOid, .bool cstmt.is_part_child]]
          else []) ++
          [.call .AlterTableCreateAoVisimapTable
            [.oid relOid, .bool cstmt.is_part_child]] := ⟨_, rfl⟩
    have key := createStmtStep_trace env recurse parsetree cstmt hasNext h2
      RELKIND_RELATION RELSTORAGE_HEAP relOid aux hq (by simp [hx])
      (by simp [hx]) (fun he => absurd he hne) hoid haux
    refine ⟨aux,
      [.call .CommandCounterIncrement [],
        .call .EvaluateDeferredStatements [.payload cstmt.deferredStmts]] ++
        (if hasNext = true then [.call .CommandCounterIncrement []] else []),
      fun args => ⟨?_, ?_⟩, ?_⟩
    · rw [haux]
      cases cstmt.buildAoBlkdir <;>
        simp [RELKIND_RELATION, RELKIND_COMPOSITE_TYPE]
    · cases hasNext <;> simp
    · rw [key, if_pos hrole]
      simp
  case prop =>
    obtain ⟨recurse, hb⟩ := ProcessUtility_eq_body env fuel
      (.DropPropertyStmt s) (some queryString) params isTopLevel dest
      completionTag
    rw [hb]
    simp only [List.mem_cons, List.mem_singleton, List.not_mem_nil,
      or_false] at hs
    obtain ⟨relation, property, removeType, behavior, missing_ok⟩ := s
    simp only at hs hrel
    rcases hs with hs | hs
    · refine ⟨.RemoveRewriteRule, by decide, ?_⟩
      subst hs
      unfold ProcessUtility.body
      dsimp only
      cases completionTag <;> simp at hh <;> subst hh <;>
        simp [bind, pure, M.bind, M.pure, Assert, emit, askE,
          hoff, Env.call, hq, ask, hrole,
          hrel] <;>
        rfl
    · refine ⟨.DropTrigger, by decide, ?_⟩
      subst hs
      unfold ProcessUtility.body
      dsimp only
      cases completionTag <;> simp at hh <;> subst hh <;>
        simp [bind, pure, M.bind, M.pure, Assert, emit, askE,
          hoff, Env.call, hq, ask, hrole,
          hrel] <;>
        rfl
  case dropAll =>
    rw [ProcessUtility_DropStmt env fuel s queryString params isTopLevel dest
      completionTag start h (check_xact_readonly_off env _ start hro) hh]
    have key := OnlyAdds_bind
      (fun ev => ∀ args,
        (ev = .call .CdbDispatchUtilityStatement args →
          ∃ copy : DropStmt,
            args = [.node (.DropStmt copy), .flags ⟨true, true, true⟩,
              .oids []]) ∧
        ev ≠ .call .CdbDispatchCommand args)
      _ (fun _ => (M.pure () : M Unit))
      (OnlyAdds_dropOneAtATime _ (fun m args => ⟨by simp, by simp⟩)
        (fun proc args hm args2 =>
          ⟨fun heq => by cases heq; simp at hm,
            fun heq => by cases heq; simp at hm⟩)
        (fun copy args =>
          ⟨fun heq => by cases heq; exact ⟨copy, rfl⟩, fun heq => (nomatch heq)⟩)
        env s s.objects)
      (fun _ => OnlyAdds_pure _ _)
    unfold OnlyAdds at key
    obtain ⟨r, hr, hp⟩ := key h
    exact ⟨r, hr, fun args =>
      ⟨fun hm => (hp _ hm args).1 rfl, fun hm => (hp _ hm args).2 rfl⟩⟩
  case dropOne =>
    rw [ProcessUtility_DropStmt env fuel s queryString params isTopLevel dest
      completionTag start h (check_xact_readonly_off env _ start hro) hh,
      hobj]
    have hcopy : ({ s with objects := [names] } : DropStmt) = s := by
      obtain ⟨objects, removeType, behavior, missing_ok⟩ := s
      simp only at hobj
      subst hobj
      rfl
    unfold dropOneAtATime
    rw [hcopy, ProcessDropStatement_executor env s names proc hobj hx]
    simp [dropOneAtATime, M.bind, M.pure, Env.call, hq, hrole]
  case load =>
    obtain ⟨recurse, hb⟩ := ProcessUtility_eq_body env fuel (.LoadStmt s)
      (some queryString) params isTopLevel dest completionTag
    rw [hb]
    have htext : errmsg "LOAD '%s'" s.filename =
        "LOAD '" ++ s.filename ++ "'" := String.ext rfl
    unfold ProcessUtility.body
    dsimp only
    rw [htext]
    cases completionTag <;> subst hh <;>
      simp [bind, pure, M.bind, M.pure, Assert, emit,
        hoff, Env.call, hq, ask, hrole] <;>
      rfl
  case reset =>
    obtain ⟨recurse, hb⟩ := ProcessUtility_eq_body env fuel
      (.VariableSetStmt n) (some queryString) params isTopLevel dest
      completionTag
    rw [hb]
    have htext : errmsg "RESET %s" n.name = "RESET " ++ n.name := by
      refine String.ext ?_
      show 'R' :: 'E' :: 'S' :: 'E' :: 'T' :: ' ' :: (n.name.data ++ []) = _
      rw [List.append_nil]
      rfl
    unfold ProcessUtility.body
    dsimp only
    rw [htext]
    rcases hk with hk | hk <;> cases completionTag <;> subst hh <;>
      simp [bind, pure, M.bind, M.pure, Assert, emit,
        hoff, Env.call, hq, ask, hrole, hk] <;>
      rfl
  case checkpoint =>
    rw [ProcessUtility_CheckPointStmt env fuel p queryString params isTopLevel
      dest completionTag start h hh, if_pos hsuper]
    simp [M.bind, M.pure, Env.call, hq, hd]
    rfl

/-- C24, on the coordinator of the sample world in which the identifiers 501
and 502 were assigned: CREATE RULE is broadcast with the three flags and these
identifiers. -/
theorem C24_witness :
    ProcessUtility (sampleEnvAssigned .GP_ROLE_DISPATCH) 0 (.RuleStmt ⟨0⟩)
        (some "CREATE RULE r AS ON INSERT TO t DO NOTHING") ⟨0⟩ true
        (.receiver 1) false [] =
      (.ok (),
        [.call .DefineRule
            [.node (.RuleStmt ⟨0⟩),
              .optStr (some "CREATE RULE r AS ON INSERT TO t DO NOTHING")],
          .call .CdbDispatchUtilityStatement
            [.node (.RuleStmt ⟨0⟩), .flags ⟨true, true, true⟩,
              .oids [501, 502]]]) :=
  (C24_broadcast_policy (sampleEnvAssigned .GP_ROLE_DISPATCH) 0
    "CREATE RULE r AS ON INSERT TO t DO NOTHING" ⟨0⟩ true (.receiver 1)
    false [] [] rfl (fun _ _ _ => rfl) rfl rfl).1 ⟨0⟩

end Utility
